import Mathlib

/-!
A shallow embedding of the `sim65` 6502 simulator core (`sim65.c`)

Conventions of the embedding.

* Machine integers are natural numbers.  A conversion that the C program performs
  (assignment to a `uint8_t` / `uint16_t` lvalue, passing a `uint8_t` / `uint16_t`
  parameter, returning a `uint8_t`) is written as an explicit `% 256` / `% 65536`.
  The 64-bit cycle counter is reduced `% 2^64`, the `unsigned` profile counters `% 2^32`.
* `~m`, applied to an operand that is combined with a `uint8_t`, is `0xFF ^^^ m`.
* A sum with a large constant is written with the constant first (`0x100 + a` for
  `a + 0x100`), which keeps the terms cheap to normalise.
* The two byte arrays `mem` and `mems` and the three callback tables are functions of the
  address.
* A callback is host code.  It receives the simulator handle, so it is a state
  transformer returning the `int` result; the tables store callback identifiers and an
  environment `CbEnv` gives the code of each identifier.  The field `host` stands for the
  private state of the host devices.
* Text written to the trace or to `stderr` is not part of the state.
-/

namespace Sim65

/-! ## Constants -/

def MAXRAM : Nat := 0x10000

def ms_undef : Nat := 1
def ms_rom : Nat := 2
def ms_invalid : Nat := 4
def ms_callback : Nat := 8

def sim65_debug_none : Nat := 0
def sim65_debug_messages : Nat := 1
def sim65_debug_trace : Nat := 2

def sim65_err_none : Int := 0
def sim65_err_exec_undef : Int := -1
def sim65_err_exec_uninit : Int := -2
def sim65_err_read_undef : Int := -3
def sim65_err_read_uninit : Int := -4
def sim65_err_write_undef : Int := -5
def sim65_err_write_rom : Int := -6
def sim65_err_break : Int := -7
def sim65_err_invalid_ins : Int := -8
def sim65_err_call_ret : Int := -9
def sim65_err_cycle_limit : Int := -10
def sim65_err_user : Int := -11

def sim65_errlvl_none : Nat := 0
def sim65_errlvl_memory : Nat := 1
def sim65_errlvl_full : Nat := 2

def sim65_cb_write : Int := 0
def sim65_cb_read : Int := -1
def sim65_cb_exec : Int := -2

def FLAG_C : Nat := 0x01
def FLAG_Z : Nat := 0x02
def FLAG_I : Nat := 0x04
def FLAG_D : Nat := 0x08
def FLAG_B : Nat := 0x10
def FLAG_V : Nat := 0x40
def FLAG_N : Nat := 0x80

/-- Instruction lengths, the table `ilen` of the source. -/
def ilen_table : List Nat := [
    1,2,1,1,1,2,2,1,1,2,1,1,1,3,3,1, 2,2,1,1,1,2,2,1,1,3,1,1,1,3,3,1,
    3,2,1,1,2,2,2,1,1,2,1,1,3,3,3,1, 2,2,1,1,1,2,2,1,1,3,1,1,1,3,3,1,
    1,2,1,1,1,2,2,1,1,2,1,1,3,3,3,1, 2,2,1,1,1,2,2,1,1,3,1,1,1,3,3,1,
    1,2,1,1,1,2,2,1,1,2,1,1,3,3,3,1, 2,2,1,1,1,2,2,1,1,3,1,1,1,3,3,1,
    1,2,1,1,2,2,2,1,1,1,1,1,3,3,3,1, 2,2,1,1,2,2,2,1,1,3,1,1,1,3,1,1,
    2,2,2,1,2,2,2,1,1,2,1,1,3,3,3,1, 2,2,1,1,2,2,2,1,1,3,1,1,3,3,3,1,
    2,2,1,1,2,2,2,1,1,2,1,1,3,3,3,1, 2,2,1,1,1,2,2,1,1,3,1,1,1,3,3,1,
    2,2,1,1,2,2,2,1,1,2,1,1,3,3,3,1, 2,2,1,1,1,2,2,1,1,3,1,1,1,3,3,1]

/-- The entry `ilen[ins]`; `ins` is a byte in every use. -/
def ilen (ins : Nat) : Nat := ilen_table.getD ins 1

/-! ## Data model -/

/-- The register file, `struct sim65_reg`. -/
structure sim65_reg where
  pc : Nat
  a : Nat
  x : Nat
  y : Nat
  p : Nat
  s : Nat

/-- The profile counters, the member `prof` of `struct sim65s`. -/
structure sim65_prof where
  exe : Nat → Nat
  branch : Nat → Nat
  branch_skip : Nat
  branch_taken : Nat
  branch_extra : Nat
  abs_x_extra : Nat
  abs_y_extra : Nat
  ind_y_extra : Nat
  instructions : Nat

/-- The simulator state, `struct sim65s` (the trace sink is not modelled). -/
structure sim65s where
  debug : Nat
  error : Int
  errlvl : Nat
  err_addr : Nat
  cycles : Nat
  cycle_limit : Nat
  do_prof : Nat
  r : sim65_reg
  p_valid : Nat
  mem : Nat → Nat
  mems : Nat → Nat
  cb_read : Nat → Option Nat
  cb_write : Nat → Option Nat
  cb_exec : Nat → Option Nat
  prof : sim65_prof
  labels : Option (Nat → String)
  host : Nat

/-- The code of a callback: `cb(s, &s->r, addr, data)` returns an `int` and may change the
state it is handed. -/
abbrev sim65_callback := sim65s → Nat → Int → Int × sim65s

/-- The code of every callback identifier. -/
abbrev CbEnv := Nat → sim65_callback

/-- The complement `~m` as seen by a `uint8_t` operand. -/
def not8 (m : Nat) : Nat := 0xFF ^^^ m

/-- Conversion of a byte to `int8_t`. -/
def int8_t (x : Nat) : Int := if x % 256 < 128 then ((x % 256 : Nat) : Int) else ((x % 256 : Nat) : Int) - 256

/-- The loop `for (; addr < end; addr++) body`. -/
def for_range {α : Type} (addr end_ : Nat) (body : Nat → α → α) (s : α) : α :=
  (List.range' addr (end_ - addr)).foldl (fun acc a => body a acc) s

/-! ## Flags, error slot, construction -/

def set_flags (s : sim65s) (mask val : Nat) : sim65s :=
  { s with
    r := { s.r with p := ((s.r.p &&& not8 (mask % 256)) ||| (val % 256)) % 256 }
    p_valid := (s.p_valid &&& not8 (mask % 256)) % 256 }

/-- The value returned by `get_flags`; the diagnostic it may print is `get_flags_warns`. -/
def get_flags (s : sim65s) (mask : Nat) : Nat := (s.r.p &&& (mask % 256)) % 256

/-- Whether `get_flags` prints the "using uninitialized flags" diagnostic. -/
def get_flags_warns (s : sim65s) (mask : Nat) : Bool := decide (s.p_valid &&& (mask % 256) ≠ 0)

def sim65_set_flags (s : sim65s) (flag val : Nat) : sim65s := set_flags s flag val

def sim65_set_cycle_limit (s : sim65s) (limit : Nat) : sim65s :=
  if limit % 2^64 ≠ 0 then { s with cycle_limit := (s.cycles + limit % 2^64) % 2^64 }
  else { s with cycle_limit := 0 }

/-- The state right after `calloc`: every member is zero. -/
def sim65_zero : sim65s :=
  { debug := 0, error := 0, errlvl := 0, err_addr := 0, cycles := 0, cycle_limit := 0,
    do_prof := 0, r := { pc := 0, a := 0, x := 0, y := 0, p := 0, s := 0 }, p_valid := 0,
    mem := fun _ => 0, mems := fun _ => 0,
    cb_read := fun _ => none, cb_write := fun _ => none, cb_exec := fun _ => none,
    prof := { exe := fun _ => 0, branch := fun _ => 0, branch_skip := 0, branch_taken := 0,
              branch_extra := 0, abs_x_extra := 0, abs_y_extra := 0, ind_y_extra := 0,
              instructions := 0 },
    labels := none, host := 0 }

def sim65_new : sim65s :=
  let s := sim65_zero
  let s := { s with r := { s.r with s := 0xFF } }
  let s := { s with p_valid := 0xFF }
  let s := set_flags s 0xFF 0x34
  { s with mems := fun a => if a < MAXRAM then ms_undef ||| ms_invalid else s.mems a }

def sim65_add_ram (s : sim65s) (addr len : Nat) : sim65s :=
  let end_ := (addr + len) % 2^32
  if addr ≥ MAXRAM then s
  else
    let end_ := if end_ ≥ MAXRAM then MAXRAM else end_
    for_range addr end_
      (fun a s => { s with mems := Function.update s.mems a (s.mems a &&& not8 ms_undef) }) s

def sim65_add_zeroed_ram (s : sim65s) (addr len : Nat) : sim65s :=
  let end_ := (addr + len) % 2^32
  if addr ≥ MAXRAM then s
  else
    let end_ := if end_ ≥ MAXRAM then MAXRAM else end_
    for_range addr end_
      (fun a s =>
        { s with
          mems := Function.update s.mems a (s.mems a &&& not8 (ms_undef ||| ms_rom ||| ms_invalid))
          mem := Function.update s.mem a 0 }) s

/-- The buffer `data` is given by the byte at each offset from its start. -/
def sim65_add_data_ram (s : sim65s) (addr : Nat) (data : Nat → Nat) (len : Nat) : sim65s :=
  let end_ := (addr + len) % 2^32
  if addr ≥ MAXRAM then s
  else
    let end_ := if end_ ≥ MAXRAM then MAXRAM else end_
    for_range addr end_
      (fun a s =>
        { s with
          mems := Function.update s.mems a (s.mems a &&& not8 (ms_undef ||| ms_rom ||| ms_invalid))
          mem := Function.update s.mem a (data (a - addr) % 256) }) s

def sim65_add_data_rom (s : sim65s) (addr : Nat) (data : Nat → Nat) (len : Nat) : sim65s :=
  let end_ := (addr + len) % 2^32
  if addr ≥ MAXRAM then s
  else
    let end_ := if end_ ≥ MAXRAM then MAXRAM else end_
    for_range addr end_
      (fun a s =>
        { s with
          mems := Function.update s.mems a
            (((s.mems a &&& not8 (ms_undef ||| ms_invalid)) ||| ms_rom) % 256)
          mem := Function.update s.mem a (data (a - addr) % 256) }) s

/-- The callback `cb` is a callback identifier (`none` is the null pointer); `type` is one
of `sim65_cb_read`, `sim65_cb_write`, `sim65_cb_exec`. -/
def sim65_add_callback (s : sim65s) (addr : Nat) (cb : Option Nat) (type : Int) : sim65s :=
  if addr ≥ MAXRAM then s
  else
    let s := { s with mems := Function.update s.mems addr ((s.mems addr ||| ms_callback) % 256) }
    if type = sim65_cb_read then { s with cb_read := Function.update s.cb_read addr cb }
    else if type = sim65_cb_write then { s with cb_write := Function.update s.cb_write addr cb }
    else if type = sim65_cb_exec then { s with cb_exec := Function.update s.cb_exec addr cb }
    else s

def sim65_add_callback_range (s : sim65s) (addr len : Nat) (cb : Option Nat) (type : Int) :
    sim65s :=
  for_range addr (min ((addr + len) % 2^32) MAXRAM)
    (fun i s => sim65_add_callback s i cb type) s

def sim65_get_byte (s : sim65s) (addr : Nat) : Nat :=
  if addr ≥ MAXRAM then 0x100
  else if s.mems addr &&& ms_invalid ≠ 0 then 0x100
  else s.mem addr

def set_error (s : sim65s) (e : Int) (addr : Nat) : sim65s :=
  if e < 0 ∧ s.error = 0 then { s with error := e, err_addr := addr % 65536 } else s

/-- The result of `get_error_exit` (an `int` used as a truth value) and the state it
leaves; the diagnostic it prints is not modelled. -/
def get_error_exit (s : sim65s) : Int × sim65s :=
  if s.error = sim65_err_none then (0, s)
  else if s.error = sim65_err_exec_undef ∨ s.error = sim65_err_break ∨
      s.error = sim65_err_invalid_ins ∨ s.error = sim65_err_call_ret ∨
      s.error = sim65_err_cycle_limit ∨ s.error = sim65_err_user then (1, s)
  else
    let e : Bool :=
      if s.error = sim65_err_read_uninit ∨ s.error = sim65_err_write_rom then
        decide (s.errlvl ≥ sim65_errlvl_full)
      else if s.error = sim65_err_exec_uninit ∨ s.error = sim65_err_read_undef ∨
          s.error = sim65_err_write_undef then
        decide (s.errlvl ≥ sim65_errlvl_memory)
      else false
    if !e then (0, { s with error := sim65_err_none })
    else (s.error, s)

/-! ## Memory access -/

def readPc_slow (s : sim65s) (addr : Nat) : Nat × sim65s :=
  let s :=
    if s.mems addr &&& ms_undef ≠ 0 then set_error s sim65_err_exec_undef addr
    else set_error s sim65_err_exec_uninit addr
  (s.mem addr, s)

/-- The result is converted to the return type `uint8_t`. -/
def readPc (s : sim65s) (offset : Nat) : Nat × sim65s :=
  let addr := (s.r.pc + offset) % 65536
  let (v, s) :=
    if s.mems addr &&& not8 (ms_rom ||| ms_callback) = 0 then (s.mem addr, s)
    else readPc_slow s addr
  (v % 256, s)

def readByte_slow (env : CbEnv) (s : sim65s) (addr : Nat) : Nat × sim65s :=
  match (if s.mems addr &&& ms_callback ≠ 0 then s.cb_read addr else none) with
  | some cb =>
    let (e, s) := env cb s addr sim65_cb_read
    let s := set_error s e addr
    ((e % 256).toNat, s)
  | none =>
    let s :=
      if s.mems addr &&& ms_undef ≠ 0 then set_error s sim65_err_read_undef addr
      else
        let s := set_error s sim65_err_read_uninit addr
        { s with mems := Function.update s.mems addr (s.mems addr &&& not8 ms_invalid) }
    (s.mem addr, s)

/-- The parameter `addr` is a `uint16_t`; the result is converted to the return type
`uint8_t`. -/
def readByte (env : CbEnv) (s : sim65s) (addr : Nat) : Nat × sim65s :=
  let addr := addr % 65536
  let (v, s) :=
    if s.mems addr &&& not8 ms_rom = 0 then (s.mem addr, s) else readByte_slow env s addr
  (v % 256, s)

def writeByte_slow (env : CbEnv) (s : sim65s) (addr val : Nat) : sim65s :=
  if s.mems addr &&& not8 ms_invalid = 0 then
    { s with mem := Function.update s.mem addr val, mems := Function.update s.mems addr 0 }
  else
    match (if s.mems addr &&& ms_callback ≠ 0 then s.cb_write addr else none) with
    | some cb =>
      let (e, s) := env cb s addr (val : Int)
      set_error s e addr
    | none =>
      if s.mems addr &&& ms_undef ≠ 0 then set_error s sim65_err_write_undef addr
      else if s.mems addr &&& ms_rom ≠ 0 then set_error s sim65_err_write_rom addr
      else s

/-- The parameters are a `uint16_t` address and a `uint8_t` value. -/
def writeByte (env : CbEnv) (s : sim65s) (addr val : Nat) : sim65s :=
  let addr := addr % 65536
  let val := val % 256
  if s.mems addr = 0 then { s with mem := Function.update s.mem addr val }
  else writeByte_slow env s addr val

def readWord (env : CbEnv) (s : sim65s) (addr : Nat) : Nat × sim65s :=
  let addr := addr % 65536
  let (d1, s) := readByte env s addr
  let (d2, s) := readByte env s (addr + 1)
  ((d1 ||| (d2 <<< 8)) % 65536, s)

def add_cycles (s : sim65s) (n : Nat) : sim65s := { s with cycles := (s.cycles + n) % 2^64 }

def readIndX (env : CbEnv) (s : sim65s) (addr : Nat) : Nat × sim65s :=
  let s := add_cycles s 6
  let (addr, s) := readWord env s ((addr + s.r.x) &&& 0xFF)
  readByte env s addr

def readIndY (env : CbEnv) (s : sim65s) (addr : Nat) : Nat × sim65s :=
  let s := add_cycles s 5
  let (addr, s) := readWord env s (addr &&& 0xFF)
  let s :=
    if (addr &&& 0xFF) + s.r.y > 0xFF then
      let s := add_cycles s 1
      if s.do_prof ≠ 0 then
        { s with prof := { s.prof with ind_y_extra := (s.prof.ind_y_extra + 1) % 2^32 } }
      else s
    else s
  readByte env s (0xFFFF &&& (addr + s.r.y))

def writeIndX (env : CbEnv) (s : sim65s) (addr val : Nat) : sim65s :=
  let s := add_cycles s 6
  let (addr, s) := readWord env s ((addr + s.r.x) &&& 0xFF)
  writeByte env s addr val

def writeIndY (env : CbEnv) (s : sim65s) (addr val : Nat) : sim65s :=
  let s := add_cycles s 6
  let (addr, s) := readWord env s (addr &&& 0xFF)
  writeByte env s (0xFFFF &&& (addr + s.r.y)) val

/-! ## Flag macros -/

def SETZ (s : sim65s) (a : Nat) : sim65s := set_flags s FLAG_Z (if a &&& 0xFF ≠ 0 then 0 else FLAG_Z)
def SETC (s : sim65s) (a : Bool) : sim65s := set_flags s FLAG_C (if a then FLAG_C else 0)
def SETV (s : sim65s) (a : Bool) : sim65s := set_flags s FLAG_V (if a then FLAG_V else 0)
def SETD (s : sim65s) (a : Bool) : sim65s := set_flags s FLAG_D (if a then FLAG_D else 0)
def SETN (s : sim65s) (a : Nat) : sim65s := set_flags s FLAG_N (if a &&& 0x80 ≠ 0 then FLAG_N else 0)
def SETI (s : sim65s) (a : Bool) : sim65s := set_flags s FLAG_I (if a then FLAG_I else 0)
def GETC (s : sim65s) : Nat := get_flags s FLAG_C
def GETD (s : sim65s) : Nat := get_flags s FLAG_D

/-- The complement `~x` of an `unsigned` (32-bit) value. -/
def not32 (x : Nat) : Nat := 0xFFFFFFFF ^^^ (x % 2^32)

/-- Implements the ADC instruction; `val` is an `unsigned`. -/
def do_adc (s : sim65s) (val : Nat) : sim65s :=
  if GETD s ≠ 0 then
    let tmp := (s.r.a + val + (if GETC s ≠ 0 then 1 else 0)) % 2^32
    let s := SETZ s tmp
    let tmp := (s.r.a &&& 0xF) + (val &&& 0xF) + (if GETC s ≠ 0 then 1 else 0)
    let tmp := if tmp ≥ 10 then (tmp - 10) ||| 16 else tmp
    let tmp := (tmp + ((s.r.a &&& 0xF0) + (val &&& 0xF0))) % 2^32
    let s := SETN s tmp
    let s := SETV s (decide ((s.r.a ^^^ val) &&& 0x80 = 0) && decide ((val ^^^ tmp) &&& 0x80 ≠ 0))
    let tmp := if tmp > 0x9F then (0x60 + tmp) % 2^32 else tmp
    let s := SETC s (decide (tmp > 0xFF))
    { s with r := { s.r with a := (tmp &&& 0xFF) % 256 } }
  else
    let tmp := (s.r.a + val + (if GETC s ≠ 0 then 1 else 0)) % 2^32
    let s := SETV s (decide ((not32 (s.r.a ^^^ val) &&& (s.r.a ^^^ tmp)) &&& 0x80 ≠ 0))
    let s := SETC s (decide (tmp > 0xFF))
    let s := SETN s tmp
    let s := SETZ s tmp
    { s with r := { s.r with a := (tmp &&& 0xFF) % 256 } }

/-- The difference `x - y` of two `unsigned` values. -/
def sub32 (x y : Nat) : Nat := (2^32 + x % 2^32 - y % 2^32) % 2^32

/-- Implements the SBC instruction; `val` is an `unsigned`. -/
def do_sbc (s : sim65s) (val : Nat) : sim65s :=
  if GETD s ≠ 0 then
    let val := val ^^^ 0xFF
    let tmp := (s.r.a + val + (if GETC s ≠ 0 then 1 else 0)) % 2^32
    let s := SETV s (decide (((s.r.a ^^^ val) &&& (s.r.a ^^^ tmp)) &&& 0x80 ≠ 0))
    let s := SETZ s tmp
    let tmp := (s.r.a &&& 0xF) + (val &&& 0xF) + (if GETC s ≠ 0 then 1 else 0)
    let tmp := if tmp < 0x10 then sub32 tmp 6 &&& 0x0F else tmp
    let tmp := (tmp + ((s.r.a &&& 0xF0) + (val &&& 0xF0))) % 2^32
    let tmp := if tmp < 0x100 then sub32 tmp 0x60 &&& 0xFF else tmp
    let s := SETN s tmp
    let s := SETC s (decide (tmp > 0xFF))
    { s with r := { s.r with a := (tmp &&& 0xFF) % 256 } }
  else
    let tmp := (sub32 (0xFF + s.r.a) val + (if GETC s ≠ 0 then 1 else 0)) % 2^32
    let s := SETV s (decide (((s.r.a ^^^ val) &&& (s.r.a ^^^ tmp)) &&& 0x80 ≠ 0))
    let s := SETC s (decide (tmp > 0xFF))
    let s := SETN s tmp
    let s := SETZ s tmp
    { s with r := { s.r with a := (tmp &&& 0xFF) % 256 } }

/-- Implements the branch instructions: `off` is converted to `int8_t`, `mask` is a
`uint8_t` and `cond` an `int` truth value. -/
def do_branch (s : sim65s) (off : Nat) (mask : Nat) (cond : Nat) : sim65s :=
  let s := add_cycles s 2
  if decide (get_flags s mask = 0) = decide (cond = 0) then
    let s := add_cycles s 1
    let s :=
      if s.do_prof ≠ 0 then
        { s with prof := { s.prof with
            branch := Function.update s.prof.branch ((65536 + s.r.pc - 2) % 65536)
              ((s.prof.branch ((65536 + s.r.pc - 2) % 65536) + 1) % 2^32)
            branch_taken := (s.prof.branch_taken + 1) % 2^32 } }
      else s
    let val := (((s.r.pc : Int) + int8_t off) % 65536).toNat
    let s :=
      if val &&& 0xFF00 ≠ s.r.pc &&& 0xFF00 then
        let s := add_cycles s 1
        if s.do_prof ≠ 0 then
          { s with prof := { s.prof with branch_extra := (s.prof.branch_extra + 1) % 2^32 } }
        else s
      else s
    { s with r := { s.r with pc := val } }
  else if s.do_prof ≠ 0 then
    { s with prof := { s.prof with branch_skip := (s.prof.branch_skip + 1) % 2^32 } }
  else s

def do_extra_absx (s : sim65s) (addr : Nat) : sim65s :=
  if (addr &&& 0xFF) + s.r.x > 0xFF then
    let s := add_cycles s 1
    if s.do_prof ≠ 0 then
      { s with prof := { s.prof with abs_x_extra := (s.prof.abs_x_extra + 1) % 2^32 } }
    else s
  else s

def do_extra_absy (s : sim65s) (addr : Nat) : sim65s :=
  if (addr &&& 0xFF) + s.r.y > 0xFF then
    let s := add_cycles s 1
    if s.do_prof ≠ 0 then
      { s with prof := { s.prof with abs_y_extra := (s.prof.abs_y_extra + 1) % 2^32 } }
    else s
  else s

/-! ## Instruction bodies

An operation `op` of the source is a statement over the state and the local `val`. -/

abbrev Op := sim65s → Nat → sim65s × Nat

def set_a (s : sim65s) (v : Nat) : sim65s := { s with r := { s.r with a := v % 256 } }
def set_x (s : sim65s) (v : Nat) : sim65s := { s with r := { s.r with x := v % 256 } }
def set_y (s : sim65s) (v : Nat) : sim65s := { s with r := { s.r with y := v % 256 } }
def set_s (s : sim65s) (v : Nat) : sim65s := { s with r := { s.r with s := v % 256 } }
def set_pc (s : sim65s) (v : Nat) : sim65s := { s with r := { s.r with pc := v % 65536 } }

def ORA : Op := fun s val =>
  let s := set_a s (s.r.a ||| val)
  let s := SETZ s s.r.a
  let s := SETN s s.r.a
  (s, val)

def AND : Op := fun s val =>
  let s := set_a s (s.r.a &&& val)
  let s := SETZ s s.r.a
  let s := SETN s s.r.a
  (s, val)

def EOR : Op := fun s val =>
  let s := set_a s (s.r.a ^^^ val)
  let s := SETZ s s.r.a
  let s := SETN s s.r.a
  (s, val)

def ADC : Op := fun s val => (do_adc s val, val)
def SBC : Op := fun s val => (do_sbc s val, val)

def ASL : Op := fun s val =>
  let s := SETC s (decide (val &&& 0x80 ≠ 0))
  let val := ((val <<< 1) % 2^32) &&& 0xFF
  let s := SETZ s val
  let s := SETN s val
  (s, val)

def ROL : Op := fun s val =>
  let val := ((val <<< 1) % 2^32) ||| (if GETC s ≠ 0 then 1 else 0)
  let s := SETC s (decide (val &&& 256 ≠ 0))
  let val := val &&& 0xFF
  let s := SETZ s val
  let s := SETN s val
  (s, val)

def LSR : Op := fun s val =>
  let s := SETC s (decide (val &&& 1 ≠ 0))
  let val := (val >>> 1) &&& 0xFF
  let s := SETZ s val
  let s := SETN s val
  (s, val)

def ROR : Op := fun s val =>
  let val := val ||| (if GETC s ≠ 0 then 256 else 0)
  let s := SETC s (decide (val &&& 1 ≠ 0))
  let val := (val >>> 1) &&& 0xFF
  let s := SETZ s val
  let s := SETN s val
  (s, val)

def SET_ZN (s : sim65s) (val : Nat) : sim65s :=
  let s := SETN s val
  SETZ s val

def DEC : Op := fun s val =>
  let val := sub32 val 1 &&& 0xFF
  (SET_ZN s val, val)

def INC : Op := fun s val =>
  let val := ((val + 1) % 2^32) &&& 0xFF
  (SET_ZN s val, val)

def CMP : Op := fun s val =>
  let val := sub32 (0x100 + s.r.a) val
  let s := SET_ZN s val
  (SETC s (decide (val > 0xFF)), val)

def CPX : Op := fun s val =>
  let val := sub32 (0x100 + s.r.x) val
  let s := SET_ZN s val
  (SETC s (decide (val > 0xFF)), val)

def CPY : Op := fun s val =>
  let val := sub32 (0x100 + s.r.y) val
  let s := SET_ZN s val
  (SETC s (decide (val > 0xFF)), val)

def LDA : Op := fun s val => (set_a (SET_ZN s val) val, val)
def LDX : Op := fun s val => (set_x (SET_ZN s val) val, val)
def LDY : Op := fun s val => (set_y (SET_ZN s val) val, val)
def STA : Op := fun s _ => (s, s.r.a)
def STX : Op := fun s _ => (s, s.r.x)
def STY : Op := fun s _ => (s, s.r.y)

/-- The operation `val = s->r.s` of TSX. -/
def TSX_op : Op := fun s _ => (s, s.r.s)

/-- The macro `PUSH(val)`; its argument is an expression over the state, evaluated when
`writeByte` is called. -/
def PUSH (env : CbEnv) (val : sim65s → Nat) (s : sim65s) : sim65s :=
  let s := add_cycles s 3
  let s := writeByte env s (0x100 + s.r.s) (val s)
  set_s s (sub32 s.r.s 1 &&& 0xFF)

/-- The macro `POP`, giving the new `val`. -/
def POP (env : CbEnv) (s : sim65s) : Nat × sim65s :=
  let s := set_s s ((s.r.s + 1) &&& 0xFF)
  readByte env s (0x100 + s.r.s)

/-! The complete addressing-mode macros.  In the write macros the local `val` is not
initialised before `op`; every `op` used with them assigns it. -/

def ZP_R (env : CbEnv) (op : Op) (data : Nat) (s : sim65s) : sim65s :=
  let s := add_cycles s 3
  let (val, s) := readByte env s (data &&& 0xFF)
  (op s val).1

def ZP_W (env : CbEnv) (op : Op) (data : Nat) (s : sim65s) : sim65s :=
  let s := add_cycles s 3
  let (s, val) := op s 0
  writeByte env s (data &&& 0xFF) val

def ZP_RW (env : CbEnv) (op : Op) (data : Nat) (s : sim65s) : sim65s :=
  let s := add_cycles s 5
  let (val, s) := readByte env s (data &&& 0xFF)
  let (s, val) := op s val
  writeByte env s (data &&& 0xFF) val

def ABS_R (env : CbEnv) (op : Op) (data : Nat) (s : sim65s) : sim65s :=
  let s := add_cycles s 4
  let (val, s) := readByte env s data
  (op s val).1

def ABS_W (env : CbEnv) (op : Op) (data : Nat) (s : sim65s) : sim65s :=
  let s := add_cycles s 4
  let (s, val) := op s 0
  writeByte env s data val

def ABS_RW (env : CbEnv) (op : Op) (data : Nat) (s : sim65s) : sim65s :=
  let s := add_cycles s 6
  let (val, s) := readByte env s data
  let (s, val) := op s val
  writeByte env s data val

def ZPX_R (env : CbEnv) (op : Op) (data : Nat) (s : sim65s) : sim65s :=
  let s := add_cycles s 4
  let (val, s) := readByte env s ((data + s.r.x) &&& 0xFF)
  (op s val).1

def ZPX_W (env : CbEnv) (op : Op) (data : Nat) (s : sim65s) : sim65s :=
  let s := add_cycles s 4
  let (s, val) := op s 0
  writeByte env s ((data + s.r.x) &&& 0xFF) val

def ZPX_RW (env : CbEnv) (op : Op) (data : Nat) (s : sim65s) : sim65s :=
  let s := add_cycles s 6
  let (val, s) := readByte env s ((data + s.r.x) &&& 0xFF)
  let (s, val) := op s val
  writeByte env s ((data + s.r.x) &&& 0xFF) val

def ZPY_R (env : CbEnv) (op : Op) (data : Nat) (s : sim65s) : sim65s :=
  let s := add_cycles s 4
  let (val, s) := readByte env s ((data + s.r.y) &&& 0xFF)
  (op s val).1

def ZPY_W (env : CbEnv) (op : Op) (data : Nat) (s : sim65s) : sim65s :=
  let s := add_cycles s 4
  let (s, val) := op s 0
  writeByte env s ((data + s.r.y) &&& 0xFF) val

def ABX_R (env : CbEnv) (op : Op) (data : Nat) (s : sim65s) : sim65s :=
  let s := add_cycles s 4
  let s := do_extra_absx s data
  let (val, s) := readByte env s (data + s.r.x)
  (op s val).1

def ABX_W (env : CbEnv) (op : Op) (data : Nat) (s : sim65s) : sim65s :=
  let s := add_cycles s 5
  let (s, val) := op s 0
  writeByte env s (data + s.r.x) val

def ABX_RW (env : CbEnv) (op : Op) (data : Nat) (s : sim65s) : sim65s :=
  let s := add_cycles s 7
  let (val, s) := readByte env s (data + s.r.x)
  let (s, val) := op s val
  writeByte env s (data + s.r.x) val

def ABY_R (env : CbEnv) (op : Op) (data : Nat) (s : sim65s) : sim65s :=
  let s := add_cycles s 4
  let s := do_extra_absy s data
  let (val, s) := readByte env s (data + s.r.y)
  (op s val).1

def ABY_W (env : CbEnv) (op : Op) (data : Nat) (s : sim65s) : sim65s :=
  let s := add_cycles s 5
  let (s, val) := op s 0
  writeByte env s (data + s.r.y) val

def IND_X (env : CbEnv) (op : Op) (data : Nat) (s : sim65s) : sim65s :=
  let (val, s) := readIndX env s data
  (op s val).1

def IND_Y (env : CbEnv) (op : Op) (data : Nat) (s : sim65s) : sim65s :=
  let (val, s) := readIndY env s data
  (op s val).1

def INDW_X (env : CbEnv) (op : Op) (data : Nat) (s : sim65s) : sim65s :=
  let (s, val) := op s 0
  writeIndX env s data val

def INDW_Y (env : CbEnv) (op : Op) (data : Nat) (s : sim65s) : sim65s :=
  let (s, val) := op s 0
  writeIndY env s data val

def IMM (op : Op) (data : Nat) (s : sim65s) : sim65s :=
  let s := add_cycles s 2
  (op s data).1

def IMP_A (op : Op) (s : sim65s) : sim65s :=
  let s := add_cycles s 2
  let (s, val) := op s s.r.a
  SET_ZN (set_a s val) val

def IMP_Y (op : Op) (s : sim65s) : sim65s :=
  let s := add_cycles s 2
  let (s, val) := op s s.r.y
  SET_ZN (set_y s val) val

def IMP_X (op : Op) (s : sim65s) : sim65s :=
  let s := add_cycles s 2
  let (s, val) := op s s.r.x
  SET_ZN (set_x s val) val

def TXS (s : sim65s) : sim65s :=
  let s := add_cycles s 2
  set_s s s.r.x

def BRA_0 (a : Nat) (data : Nat) (s : sim65s) : sim65s := do_branch s data a 0
def BRA_1 (a : Nat) (data : Nat) (s : sim65s) : sim65s := do_branch s data a 1

def JMP (data : Nat) (s : sim65s) : sim65s :=
  let s := add_cycles s 3
  set_pc s data

def JMP16 (env : CbEnv) (data : Nat) (s : sim65s) : sim65s :=
  let s := add_cycles s 5
  let (w, s) := readWord env s data
  set_pc s w

def CL_F (f : Nat) (s : sim65s) : sim65s := set_flags (add_cycles s 2) f 0
def SE_F (f : Nat) (s : sim65s) : sim65s := set_flags (add_cycles s 2) f f

def POP_P (env : CbEnv) (s : sim65s) : sim65s :=
  let s := add_cycles s 4
  let (val, s) := POP env s
  set_flags s 0xFF (val ||| 0x30)

def POP_A (env : CbEnv) (s : sim65s) : sim65s :=
  let s := add_cycles s 4
  let (val, s) := POP env s
  (LDA s val).1

/-- Special case of the BIT instructions; `addr` is a `uint16_t`. -/
def do_bit (env : CbEnv) (s : sim65s) (addr : Nat) : sim65s :=
  let addr := addr % 65536
  if s.mems addr &&& ms_invalid ≠ 0 ∧ ¬ (s.mems addr &&& ms_callback ≠ 0) then
    { s with p_valid := (s.p_valid ||| (FLAG_N ||| FLAG_V ||| FLAG_Z)) % 256 }
  else
    let (val, s) := readByte env s addr
    let s := SETN s val
    let s := SETV s (decide (val &&& 0x40 ≠ 0))
    SETZ s (s.r.a &&& val)

def BIT_ZP (env : CbEnv) (data : Nat) (s : sim65s) : sim65s :=
  do_bit env (add_cycles s 3) (data &&& 0xFF)

def BIT_ABS (env : CbEnv) (data : Nat) (s : sim65s) : sim65s :=
  do_bit env (add_cycles s 4) data

def do_jsr (env : CbEnv) (s : sim65s) (data : Nat) : sim65s :=
  let s := set_pc s (sub32 s.r.pc 1 &&& 0xFFFF)
  let s := PUSH env (fun s => s.r.pc >>> 8) s
  let s := PUSH env (fun s => s.r.pc) s
  set_pc s data

def do_rts (env : CbEnv) (s : sim65s) : sim65s :=
  let (val, s) := POP env s
  let s := set_pc s val
  let (val, s) := POP env s
  let s := set_pc s (s.r.pc ||| (val <<< 8))
  let s := set_pc s ((s.r.pc + 1) &&& 0xFFFF)
  add_cycles s 6

def do_rti (env : CbEnv) (s : sim65s) : sim65s :=
  let s := POP_P env s
  let (val, s) := POP env s
  let s := set_pc s val
  let (val, s) := POP env s
  let s := set_pc s (s.r.pc ||| (val <<< 8))
  let s := set_pc s (s.r.pc &&& 0xFFFF)
  add_cycles s 2

def JSR (env : CbEnv) (data : Nat) (s : sim65s) : sim65s := do_jsr env s data
def RTS (env : CbEnv) (s : sim65s) : sim65s := do_rts env s
def RTI (env : CbEnv) (s : sim65s) : sim65s := do_rti env s

set_option maxRecDepth 8000 in
/-- The opcode `switch` of `next`: the cases in the order of the source, the last line is
the `default` case. -/
def dispatch (env : CbEnv) (ins data : Nat) (s : sim65s) : sim65s :=
  if ins = 0x00 then set_error s sim65_err_break (sub32 s.r.pc 1)
  else if ins = 0x01 then IND_X env ORA data s
  else if ins = 0x05 then ZP_R env ORA data s
  else if ins = 0x06 then ZP_RW env ASL data s
  else if ins = 0x08 then PUSH env (fun s => get_flags s 0xFF) s
  else if ins = 0x09 then IMM ORA data s
  else if ins = 0x0A then IMP_A ASL s
  else if ins = 0x0D then ABS_R env ORA data s
  else if ins = 0x0E then ABS_RW env ASL data s
  else if ins = 0x10 then BRA_0 FLAG_N data s
  else if ins = 0x11 then IND_Y env ORA data s
  else if ins = 0x15 then ZPX_R env ORA data s
  else if ins = 0x16 then ZPX_RW env ASL data s
  else if ins = 0x18 then CL_F FLAG_C s
  else if ins = 0x19 then ABY_R env ORA data s
  else if ins = 0x1d then ABX_R env ORA data s
  else if ins = 0x1e then ABX_RW env ASL data s
  else if ins = 0x20 then JSR env data s
  else if ins = 0x21 then IND_X env AND data s
  else if ins = 0x24 then BIT_ZP env data s
  else if ins = 0x25 then ZP_R env AND data s
  else if ins = 0x26 then ZP_RW env ROL data s
  else if ins = 0x28 then POP_P env s
  else if ins = 0x29 then IMM AND data s
  else if ins = 0x2a then IMP_A ROL s
  else if ins = 0x2c then BIT_ABS env data s
  else if ins = 0x2d then ABS_R env AND data s
  else if ins = 0x2e then ABS_RW env ROL data s
  else if ins = 0x30 then BRA_1 FLAG_N data s
  else if ins = 0x31 then IND_Y env AND data s
  else if ins = 0x35 then ZPX_R env AND data s
  else if ins = 0x36 then ZPX_RW env ROL data s
  else if ins = 0x38 then SE_F FLAG_C s
  else if ins = 0x39 then ABY_R env AND data s
  else if ins = 0x3d then ABX_R env AND data s
  else if ins = 0x3e then ABX_RW env ROL data s
  else if ins = 0x40 then RTI env s
  else if ins = 0x41 then IND_X env EOR data s
  else if ins = 0x45 then ZP_R env EOR data s
  else if ins = 0x46 then ZP_RW env LSR data s
  else if ins = 0x48 then PUSH env (fun s => s.r.a) s
  else if ins = 0x49 then IMM EOR data s
  else if ins = 0x4a then IMP_A LSR s
  else if ins = 0x4c then JMP data s
  else if ins = 0x4d then ABS_R env EOR data s
  else if ins = 0x4e then ABS_RW env LSR data s
  else if ins = 0x50 then BRA_0 FLAG_V data s
  else if ins = 0x51 then IND_Y env EOR data s
  else if ins = 0x55 then ZPX_R env EOR data s
  else if ins = 0x56 then ZPX_RW env LSR data s
  else if ins = 0x58 then CL_F FLAG_I s
  else if ins = 0x59 then ABY_R env EOR data s
  else if ins = 0x5d then ABX_R env EOR data s
  else if ins = 0x5e then ABX_RW env LSR data s
  else if ins = 0x60 then RTS env s
  else if ins = 0x61 then IND_X env ADC data s
  else if ins = 0x65 then ZP_R env ADC data s
  else if ins = 0x66 then ZP_RW env ROR data s
  else if ins = 0x68 then POP_A env s
  else if ins = 0x69 then IMM ADC data s
  else if ins = 0x6a then IMP_A ROR s
  else if ins = 0x6c then JMP16 env data s
  else if ins = 0x6d then ABS_R env ADC data s
  else if ins = 0x6e then ABS_RW env ROR data s
  else if ins = 0x70 then BRA_1 FLAG_V data s
  else if ins = 0x71 then IND_Y env ADC data s
  else if ins = 0x75 then ZPX_R env ADC data s
  else if ins = 0x76 then ZPX_RW env ROR data s
  else if ins = 0x78 then SE_F FLAG_I s
  else if ins = 0x79 then ABY_R env ADC data s
  else if ins = 0x7d then ABX_R env ADC data s
  else if ins = 0x7e then ABX_RW env ROR data s
  else if ins = 0x81 then INDW_X env STA data s
  else if ins = 0x84 then ZP_W env STY data s
  else if ins = 0x85 then ZP_W env STA data s
  else if ins = 0x86 then ZP_W env STX data s
  else if ins = 0x88 then IMP_Y DEC s
  else if ins = 0x8a then IMP_X LDA s
  else if ins = 0x8c then ABS_W env STY data s
  else if ins = 0x8d then ABS_W env STA data s
  else if ins = 0x8e then ABS_W env STX data s
  else if ins = 0x90 then BRA_0 FLAG_C data s
  else if ins = 0x91 then INDW_Y env STA data s
  else if ins = 0x94 then ZPX_W env STY data s
  else if ins = 0x95 then ZPX_W env STA data s
  else if ins = 0x96 then ZPY_W env STX data s
  else if ins = 0x98 then IMP_Y LDA s
  else if ins = 0x99 then ABY_W env STA data s
  else if ins = 0x9a then TXS s
  else if ins = 0x9d then ABX_W env STA data s
  else if ins = 0xa0 then IMM LDY data s
  else if ins = 0xa1 then IND_X env LDA data s
  else if ins = 0xa2 then IMM LDX data s
  else if ins = 0xa4 then ZP_R env LDY data s
  else if ins = 0xa5 then ZP_R env LDA data s
  else if ins = 0xa6 then ZP_R env LDX data s
  else if ins = 0xa8 then IMP_A LDY s
  else if ins = 0xa9 then IMM LDA data s
  else if ins = 0xaa then IMP_A LDX s
  else if ins = 0xac then ABS_R env LDY data s
  else if ins = 0xad then ABS_R env LDA data s
  else if ins = 0xae then ABS_R env LDX data s
  else if ins = 0xb0 then BRA_1 FLAG_C data s
  else if ins = 0xb1 then IND_Y env LDA data s
  else if ins = 0xb4 then ZPX_R env LDY data s
  else if ins = 0xb5 then ZPX_R env LDA data s
  else if ins = 0xb6 then ZPY_R env LDX data s
  else if ins = 0xb8 then CL_F FLAG_V s
  else if ins = 0xb9 then ABY_R env LDA data s
  else if ins = 0xba then IMP_X TSX_op s
  else if ins = 0xbc then ABX_R env LDY data s
  else if ins = 0xbd then ABX_R env LDA data s
  else if ins = 0xbe then ABY_R env LDX data s
  else if ins = 0xc0 then IMM CPY data s
  else if ins = 0xc1 then IND_X env CMP data s
  else if ins = 0xc4 then ZP_R env CPY data s
  else if ins = 0xc5 then ZP_R env CMP data s
  else if ins = 0xc6 then ZP_RW env DEC data s
  else if ins = 0xc8 then IMP_Y INC s
  else if ins = 0xc9 then IMM CMP data s
  else if ins = 0xca then IMP_X DEC s
  else if ins = 0xcc then ABS_R env CPY data s
  else if ins = 0xcd then ABS_R env CMP data s
  else if ins = 0xce then ABS_RW env DEC data s
  else if ins = 0xd0 then BRA_0 FLAG_Z data s
  else if ins = 0xd1 then IND_Y env CMP data s
  else if ins = 0xd5 then ZPX_R env CMP data s
  else if ins = 0xd6 then ZPX_RW env DEC data s
  else if ins = 0xd8 then CL_F FLAG_D s
  else if ins = 0xd9 then ABY_R env CMP data s
  else if ins = 0xdd then ABX_R env CMP data s
  else if ins = 0xde then ABX_RW env DEC data s
  else if ins = 0xe0 then IMM CPX data s
  else if ins = 0xe1 then IND_X env SBC data s
  else if ins = 0xe4 then ZP_R env CPX data s
  else if ins = 0xe5 then ZP_R env SBC data s
  else if ins = 0xe6 then ZP_RW env INC data s
  else if ins = 0xe8 then IMP_X INC s
  else if ins = 0xe9 then IMM SBC data s
  else if ins = 0xea then add_cycles s 2
  else if ins = 0xec then ABS_R env CPX data s
  else if ins = 0xed then ABS_R env SBC data s
  else if ins = 0xee then ABS_RW env INC data s
  else if ins = 0xf0 then BRA_1 FLAG_Z data s
  else if ins = 0xf1 then IND_Y env SBC data s
  else if ins = 0xf5 then ZPX_R env SBC data s
  else if ins = 0xf6 then ZPX_RW env INC data s
  else if ins = 0xf8 then SE_F FLAG_D s
  else if ins = 0xf9 then ABY_R env SBC data s
  else if ins = 0xfd then ABX_R env SBC data s
  else if ins = 0xfe then ABX_RW env INC data s
  else set_error s sim65_err_invalid_ins (sub32 s.r.pc 1)

/-! ## The trace printer

`sim65_print_reg` formats the trace line; the text is not part of the state.  With `hint`
set, the indirect addressing modes compute their effective address through `readWord`,
which is the CPU read and acts on the state. -/

/-- The reads of `print_ind_label`: `idx` is `'X'`, `'Y'` or `none` for the null character;
`addr` is a `uint16_t`. -/
def print_ind_label (env : CbEnv) (s : sim65s) (addr : Nat) (idx : Option Char) (hint : Bool) :
    sim65s :=
  let addr := addr % 65536
  if hint then
    if idx = some 'X' then (readWord env s (0xFF &&& (addr + s.r.x))).2
    else if idx = some 'Y' then (readWord env s addr).2
    else (readWord env s addr).2
  else s

def INSPRT_IDX (env : CbEnv) (s : sim65s) (data : Nat) (hint : Bool) : sim65s :=
  print_ind_label env s data (some 'X') hint

/-- The macro `PXTRA(readWord(s, data), s->r.y, hint)` evaluates its first argument twice
when `hint` is set. -/
def INSPRT_IDY (env : CbEnv) (s : sim65s) (data : Nat) (hint : Bool) : sim65s :=
  let s := if hint then (readWord env (readWord env s data).2 data).2 else s
  print_ind_label env s data (some 'Y') hint

def INSPRT_IDYW (env : CbEnv) (s : sim65s) (data : Nat) (hint : Bool) : sim65s :=
  print_ind_label env s data (some 'Y') hint

def INSPRT_IND (env : CbEnv) (s : sim65s) (data : Nat) (hint : Bool) : sim65s :=
  print_ind_label env s data none hint

/-- The state after `print_curr_ins`; `pc` is a `uint16_t`.  Only the instruction classes
that read through `readWord` are listed, every other opcode leaves the state as it is. -/
def print_curr_ins (env : CbEnv) (s : sim65s) (pc : Nat) (hint : Bool) : sim65s :=
  let pc := pc % 65536
  let ins := s.mem (pc &&& 0xFFFF)
  let data :=
    if ilen ins = 2 then s.mem ((1 + pc) &&& 0xFFFF)
    else if ilen ins = 3 then
      (s.mem ((1 + pc) &&& 0xFFFF) + (s.mem ((2 + pc) &&& 0xFFFF) <<< 8)) % 2^32
    else 0
  if ins = 0x01 then INSPRT_IDX env s data hint
  else if ins = 0x03 then INSPRT_IDYW env s data hint
  else if ins = 0x11 then INSPRT_IDY env s data hint
  else if ins = 0x13 then INSPRT_IDX env s data hint
  else if ins = 0x21 then INSPRT_IDX env s data hint
  else if ins = 0x23 then INSPRT_IDX env s data hint
  else if ins = 0x31 then INSPRT_IDY env s data hint
  else if ins = 0x33 then INSPRT_IDYW env s data hint
  else if ins = 0x41 then INSPRT_IDX env s data hint
  else if ins = 0x43 then INSPRT_IDX env s data hint
  else if ins = 0x51 then INSPRT_IDY env s data hint
  else if ins = 0x53 then INSPRT_IDYW env s data hint
  else if ins = 0x61 then INSPRT_IDX env s data hint
  else if ins = 0x63 then INSPRT_IDX env s data hint
  else if ins = 0x6C then INSPRT_IND env s data hint
  else if ins = 0x71 then INSPRT_IDY env s data hint
  else if ins = 0x73 then INSPRT_IDYW env s data hint
  else if ins = 0x81 then INSPRT_IDX env s data hint
  else if ins = 0x83 then INSPRT_IDX env s data hint
  else if ins = 0x91 then INSPRT_IDYW env s data hint
  else if ins = 0x93 then INSPRT_IDYW env s data hint
  else if ins = 0xA1 then INSPRT_IDX env s data hint
  else if ins = 0xA3 then INSPRT_IDX env s data hint
  else if ins = 0xB1 then INSPRT_IDY env s data hint
  else if ins = 0xB3 then INSPRT_IDY env s data hint
  else if ins = 0xC1 then INSPRT_IDX env s data hint
  else if ins = 0xC3 then INSPRT_IDX env s data hint
  else if ins = 0xD1 then INSPRT_IDY env s data hint
  else if ins = 0xD3 then INSPRT_IDYW env s data hint
  else if ins = 0xE1 then INSPRT_IDX env s data hint
  else if ins = 0xE3 then INSPRT_IDX env s data hint
  else if ins = 0xF1 then INSPRT_IDY env s data hint
  else if ins = 0xF3 then INSPRT_IDYW env s data hint
  else s

def sim65_print_reg (env : CbEnv) (s : sim65s) : sim65s := print_curr_ins env s s.r.pc true

/-! ## One instruction step -/

/-- The block "Read instruction and data" of `next`: the opcode, the operand and the state
after the fetches.  The local `data` is not initialised when the instruction has no
operand; its value is then never used, and is 0 here. -/
def next_fetch (s : sim65s) : Nat × Nat × sim65s :=
  let (ins, s) := readPc s 0
  let (data, s) := if ilen ins > 1 then readPc s 1 else (0, s)
  let (data, s) :=
    if ilen ins > 2 then
      let (d, s) := readPc s 2
      (data ||| (d <<< 8), s)
    else (data, s)
  (ins, data, s)

/-- The part of `next` from the profile snapshot to the profile update. -/
def next_exec (env : CbEnv) (ins data : Nat) (s : sim65s) : sim65s :=
  let old_pc := if s.do_prof ≠ 0 then s.r.pc else 0
  let old_cycles := if s.do_prof ≠ 0 then s.cycles % 2^32 else 0
  let s := set_pc s (s.r.pc + ilen ins)
  let s := dispatch env ins data s
  if s.do_prof ≠ 0 then
    { s with prof := { s.prof with
        instructions := (s.prof.instructions + 1) % 2^32
        exe := Function.update s.prof.exe (old_pc &&& 0xFFFF)
          ((s.prof.exe (old_pc &&& 0xFFFF) + (2^64 + s.cycles - old_cycles) % 2^64) % 2^32) } }
  else s

/-- The part of `next` after the execute callback. -/
def next_body (env : CbEnv) (s : sim65s) : sim65s :=
  let s := if s.debug ≥ sim65_debug_trace then sim65_print_reg env s else s
  if s.cycle_limit ≠ 0 ∧ s.cycles ≥ s.cycle_limit then
    set_error s sim65_err_cycle_limit s.r.pc
  else
    let (ins, data, s) := next_fetch s
    next_exec env ins data s

/-- One instruction step.  In `set_error(s, cb(...), s->r.pc)` the address argument is
taken before the callback runs. -/
def next (env : CbEnv) (s : sim65s) : sim65s :=
  match s.cb_exec s.r.pc with
  | some cb =>
    let pc := s.r.pc
    let (e, s) := env cb s pc sim65_cb_exec
    let s := set_error s e pc
    let (x, s) := get_error_exit s
    if x ≠ 0 then s else next_body env s
  | none => next_body env s

/-! ## The run loop -/

def sim65_set_debug (s : sim65s) (level : Nat) : sim65s := { s with debug := level }

def sim65_set_error_level (s : sim65s) (level : Nat) : sim65s := { s with errlvl := level }

/-- The loop `while (!get_error_exit(s)) next(s);` of `sim65_run`.  The bound `fuel` limits
the number of evaluations of the loop condition; the result is `none` when it is reached
before the loop ends. -/
def run_loop (env : CbEnv) : Nat → sim65s → Option sim65s
  | 0, _ => none
  | fuel + 1, s =>
    if (get_error_exit s).1 ≠ 0 then some (get_error_exit s).2
    else run_loop env fuel (next env (get_error_exit s).2)

/-- The function `sim65_run`: `regs` is the register block copied in when the pointer is not
null, `addr` an `unsigned` stored in the 16-bit PC.  The result is the returned error and
the final state, whose registers are the block copied out. -/
def sim65_run (env : CbEnv) (fuel : Nat) (s : sim65s) (regs : Option sim65_reg) (addr : Nat) :
    Option (Int × sim65s) :=
  let s := match regs with
    | some r => { s with r := r }
    | none => s
  let s := { s with error := sim65_err_none }
  let s := set_pc s addr
  (run_loop env fuel s).map (fun t => (t.error, t))

/-! ## The callback of `sim65_call` -/

/-- The static function `sim65_rts_callback`: it returns `sim65_err_call_ret` and touches
nothing. -/
def sim65_rts_callback : sim65_callback := fun s _ _ => (sim65_err_call_ret, s)

/-- The identifier that stands for the address of `sim65_rts_callback` in the callback
tables. -/
def sim65_rts_callback_id : Nat := 0

/-- The function `sim65_call`: `regs` is the register block copied in when the pointer is not
null, `addr` an `unsigned`.  The result is the returned error and the final state; `fuel`
bounds the run loop as in `sim65_run`. -/
def sim65_call (env : CbEnv) (fuel : Nat) (s : sim65s) (regs : Option sim65_reg) (addr : Nat) :
    Option (Int × sim65s) :=
  let s := match regs with
    | some r => { s with r := r }
    | none => s
  let old_pc := s.r.pc
  let s := set_pc s 0
  let s := sim65_add_callback s 0 (some sim65_rts_callback_id) sim65_cb_exec
  let s := do_jsr env s addr
  match sim65_run env fuel s none addr with
  | none => none
  | some (err, s) =>
    if err = sim65_err_call_ret then
      some (sim65_err_none, { set_pc s old_pc with error := sim65_err_none })
    else some (err, s)

/-! ## The instruction names of the disassembler -/

/-- The name given to the `INSPRT` macro in each `case` of the `switch` of `print_curr_ins`:
the cases are `0x00` to `0xFF` in increasing order, eight to a line here. -/
def mnemonic_table : List String := [
  "BRK", "ORA", "kil", "slo", "dop", "ORA", "ASL", "slo",
  "PHP", "ORA", "ASL", "aac", "top", "ORA", "ASL", "slo",
  "BPL", "ORA", "kil", "slo", "dop", "ORA", "ASL", "slo",
  "CLC", "ORA", "nop", "slo", "top", "ORA", "ASL", "slo",
  "JSR", "AND", "kil", "rla", "BIT", "AND", "ROL", "rla",
  "PLP", "AND", "ROL", "aac", "BIT", "AND", "ROL", "rla",
  "BMI", "AND", "kil", "rla", "dop", "AND", "ROL", "rla",
  "SEC", "AND", "nop", "rla", "top", "AND", "ROL", "rla",
  "RTI", "EOR", "kil", "sre", "dop", "EOR", "LSR", "sre",
  "PHA", "EOR", "LSR", "asr", "JMP", "EOR", "LSR", "sre",
  "BVC", "EOR", "kil", "sre", "dop", "EOR", "LSR", "sre",
  "CLI", "EOR", "nop", "sre", "top", "EOR", "LSR", "sre",
  "RTS", "ADC", "kil", "rra", "dop", "ADC", "ROR", "rra",
  "PLA", "ADC", "ROR", "arr", "JMP", "ADC", "ROR", "rra",
  "BVS", "ADC", "kil", "rra", "dop", "ADC", "ROR", "rra",
  "SEI", "ADC", "nop", "rra", "top", "ADC", "ROR", "rra",
  "dop", "STA", "dop", "aax", "STY", "STA", "STX", "aax",
  "DEY", "dop", "TXA", "xaa", "STY", "STA", "STX", "aax",
  "BCC", "STA", "kil", "axa", "STY", "STA", "STX", "aax",
  "TYA", "STA", "TXS", "xas", "sya", "STA", "sxa", "axa",
  "LDY", "LDA", "LDX", "lax", "LDY", "LDA", "LDX", "lax",
  "TAY", "LDA", "TAX", "atx", "LDY", "LDA", "LDX", "lax",
  "BCS", "LDA", "kil", "lax", "LDY", "LDA", "LDX", "lax",
  "CLV", "LDA", "TSX", "lar", "LDY", "LDA", "LDX", "lax",
  "CPY", "CMP", "dop", "dcp", "CPY", "CMP", "DEC", "dcp",
  "INY", "CMP", "DEX", "axs", "CPY", "CMP", "DEC", "dcp",
  "BNE", "CMP", "kil", "dcp", "dop", "CMP", "DEC", "dcp",
  "CLD", "CMP", "nop", "dcp", "top", "CMP", "DEC", "dcp",
  "CPX", "SBC", "dop", "isc", "CPX", "SBC", "INC", "isc",
  "INX", "SBC", "NOP", "sbc", "CPX", "SBC", "INC", "isc",
  "BEQ", "SBC", "kil", "isc", "dop", "SBC", "INC", "isc",
  "SED", "SBC", "nop", "isc", "top", "SBC", "INC", "isc"]

/-- The name that `print_curr_ins` prints for the opcode `ins`. -/
def mnemonic (ins : Nat) : String := mnemonic_table.getD ins ""

/-! ## The text of the disassembler

`print_curr_ins` writes the line into a character buffer; the functions below give the
characters written.  The text is that of the call with `hint = 0`, the one made by
`sim65_disassemble`: with `hint = 0` no `readWord` is made and the page-crossing mark of
the indexed modes is skipped. -/

/-- Whether a flag (or any flag of a mask) is set in `P`. -/
def flag (s : sim65s) (f : Nat) : Bool := decide (s.r.p &&& f ≠ 0)

/-- The carry flag as a number. -/
def carry_in (s : sim65s) : Nat := if flag s FLAG_C then 1 else 0

/-- The two's-complement value of a byte. -/
def signed8 (x : Nat) : Int := if x < 128 then (x : Int) else (x : Int) - 256

/-- The masks of the seven processor flags. -/
def flag_list : List Nat := [FLAG_C, FLAG_Z, FLAG_I, FLAG_D, FLAG_B, FLAG_V, FLAG_N]

/-- Value of two packed BCD digits. -/
def bcd_dec (x : Nat) : Nat := x / 16 * 10 + x % 16

/-- Packed BCD encoding of a number below 100. -/
def bcd_enc (n : Nat) : Nat := n / 10 * 16 + n % 10

/-- Both nibbles are decimal digits. -/
def bcd_valid (x : Nat) : Prop := x / 16 ≤ 9 ∧ x % 16 ≤ 9

instance (x : Nat) : Decidable (bcd_valid x) := by unfold bcd_valid; infer_instance

/-- The low-nibble sum of decimal ADC after its decimal correction. -/
def adc_dec_lo (a v c : Nat) : Nat :=
  if (a &&& 0xF) + (v &&& 0xF) + c ≥ 10 then ((a &&& 0xF) + (v &&& 0xF) + c - 10) ||| 16
  else (a &&& 0xF) + (v &&& 0xF) + c

/-- The sum of decimal ADC before the high-nibble correction. -/
def adc_dec_mid (a v c : Nat) : Nat := (adc_dec_lo a v c + ((a &&& 0xF0) + (v &&& 0xF0))) % 2^32

/-- The sum of decimal ADC after the high-nibble correction. -/
def adc_dec_fin (a v c : Nat) : Nat :=
  if adc_dec_mid a v c > 0x9F then (0x60 + adc_dec_mid a v c) % 2^32 else adc_dec_mid a v c

/-- The cell at `a` is fetched by `readPc` on its fast path: no status bit other than ROM
and CALLBACK is set. -/
def exec_clean (s : sim65s) (a : Nat) : Prop := s.mems a &&& not8 (ms_rom ||| ms_callback) = 0
/-- Only the latched error differs between `s` and `t`. -/
def err_only (s t : sim65s) : Prop := t = { s with error := t.error, err_addr := t.err_addr }

/-- The opcodes whose trace line reads memory through `readWord`. -/
def trace_read_ops : List Nat :=
  [0x01, 0x03, 0x11, 0x13, 0x21, 0x23, 0x31, 0x33, 0x41, 0x43, 0x51, 0x53, 0x61, 0x63, 0x6C,
   0x71, 0x73, 0x81, 0x83, 0x91, 0x93, 0xA1, 0xA3, 0xB1, 0xB3, 0xC1, 0xC3, 0xD1, 0xD3, 0xE1,
   0xE3, 0xF1, 0xF3]

/-- The opcode byte at the program counter. -/
def opcode_at (s : sim65s) : Nat := s.mem (s.r.pc % 65536) % 256
/-- The first operand byte. -/
def operand1 (s : sim65s) : Nat := s.mem ((s.r.pc + 1) % 65536) % 256
/-- The second operand byte. -/
def operand2 (s : sim65s) : Nat := s.mem ((s.r.pc + 2) % 65536) % 256
/-- The operand as `next` assembles it in the local `data`. -/
def operand (s : sim65s) : Nat :=
  if ilen (opcode_at s) > 2 then operand1 s ||| (operand2 s <<< 8)
  else if ilen (opcode_at s) > 1 then operand1 s else 0
/-- The cycle limit does not stop the step. -/
def limit_ok (s : sim65s) : Prop := ¬ (s.cycle_limit ≠ 0 ∧ s.cycles ≥ s.cycle_limit)

/-- Only the profile differs between `s` and `t`. -/
def prof_only (s t : sim65s) : Prop := t = { s with prof := t.prof }
/-- A buffer holding the bytes of a list. -/
def bytes (l : List Nat) : Nat → Nat := fun i => l.getD i 0

instance (s : sim65s) (a : Nat) : Decidable (exec_clean s a) := by unfold exec_clean; infer_instance
instance (s : sim65s) : Decidable (limit_ok s) := by unfold limit_ok; infer_instance

/-- The state of the LDA scenario: `A9 42` installed as RAM at `$0200`, PC there. -/
def lda_state : sim65s := set_pc (sim65_add_data_ram sim65_new 0x200 (bytes [0xA9, 0x42]) 2) 0x200

/-- An environment whose callbacks return 0 and leave the state alone. -/
def env_none : CbEnv := fun _ s _ _ => (0, s)

/-- The destination of a branch at `pc` (the address after the branch instruction) with
offset byte `off`. -/
def branch_dest (pc off : Nat) : Nat := (((pc : Int) + int8_t off) % 65536).toNat

/-- The eight branch opcodes with the flag each tests and the flag value that takes the
branch: BPL N=0, BMI N=1, BVC V=0, BVS V=1, BCC C=0, BCS C=1, BNE Z=0, BEQ Z=1. -/
def branch_ops : List (Nat × Nat × Nat) :=
  [(0x10, FLAG_N, 0), (0x30, FLAG_N, 1), (0x50, FLAG_V, 0), (0x70, FLAG_V, 1),
   (0x90, FLAG_C, 0), (0xB0, FLAG_C, 1), (0xD0, FLAG_Z, 0), (0xF0, FLAG_Z, 1)]

/-- The branch condition holds: flag `f` has the value `want`. -/
def branch_taken (s : sim65s) (f want : Nat) : Bool := flag s f == decide (want = 1)

/-- The state of the branch scenarios: `D0 04` (BNE +4) installed as RAM at `pc`, PC there,
and `P = p`. -/
def branch_state (pc p : Nat) : sim65s :=
  set_flags (set_pc (sim65_add_data_ram sim65_new pc (bytes [0xD0, 0x04]) 2) pc) 0xFF p

/-- The cell at `a` is plain writable RAM: its status is 0 or exactly INVALID. -/
def plain_ram (s : sim65s) (a : Nat) : Prop := s.mems a &&& not8 ms_invalid = 0

instance (s : sim65s) (a : Nat) : Decidable (plain_ram s a) := by unfold plain_ram; infer_instance

/-- The state after `PUSH` of the byte `v` when the stack cell is plain RAM. -/
def push_result (s : sim65s) (v : Nat) : sim65s :=
  { s with
    cycles := (s.cycles + 3) % 2 ^ 64
    mem := Function.update s.mem (0x100 + s.r.s) (v % 256)
    mems := Function.update s.mems (0x100 + s.r.s) 0
    r := { s.r with s := (255 + s.r.s) % 256 } }

/-- The state of the JSR scenario: the top of the stack page installed as RAM, `20 34 12` (JSR $1234) at
`$0200`, `60` (RTS) at `$1234`, PC at `$0200`, S = 0xFF. -/
def jsr_state : sim65s :=
  set_pc (sim65_add_data_ram (sim65_add_data_ram (sim65_add_ram sim65_new 0x1F0 0x10)
    0x200 (bytes [0x20, 0x34, 0x12]) 3) 0x1234 (bytes [0x60]) 1) 0x200

/-- A relation between states that every elementary change made by the simulator respects:
changes that leave both memory arrays alone, the "mark as initialised" of a CPU read (only
on a cell whose UNDEF bit is clear), the store of a CPU write (only on a cell whose status
is 0 or INVALID), and whatever the callbacks of `env` do. -/
structure StepClosed (env : CbEnv) (R : sim65s → sim65s → Prop) : Prop where
  trans : ∀ {s t u : sim65s}, R s t → R t u → R s u
  cpu : ∀ s t : sim65s, t.mem = s.mem → t.mems = s.mems → R s t
  clear_invalid : ∀ (s : sim65s) (a : Nat), s.mems a &&& ms_undef = 0 →
    R s { s with mems := Function.update s.mems a (s.mems a &&& not8 ms_invalid) }
  store : ∀ (s : sim65s) (a v : Nat), s.mems a &&& not8 ms_invalid = 0 →
    R s { s with mem := Function.update s.mem a v, mems := Function.update s.mems a 0 }
  callback : ∀ (cb : Nat) (s : sim65s) (a : Nat) (d : Int), R s (env cb s a d).2

/-- The operation changes neither memory array. -/
def OpCpu (op : Op) : Prop := ∀ s v, (op s v).1.mem = s.mem ∧ (op s v).1.mems = s.mems

/-- The three typing bits of a status byte. -/
def status_mask : Nat := ms_undef ||| ms_rom ||| ms_invalid

/-- The status byte `m`, restricted to UNDEF, ROM and INVALID, is one of `UNDEF|INVALID`,
`INVALID` alone, none of them, or `ROM` alone. -/
def status_class (m : Nat) : Prop :=
  m &&& status_mask = ms_undef ||| ms_invalid ∨ m &&& status_mask = ms_invalid ∨
  m &&& status_mask = 0 ∨ m &&& status_mask = ms_rom

instance (m : Nat) : Decidable (status_class m) := by
  unfold status_class; infer_instance

/-- Every address has a status of one of the four classes. -/
def mem_inv (s : sim65s) : Prop := ∀ a, status_class (s.mems a)

/-- The states reachable from `sim65_new` by region installation, callback installation, CPU
reads and writes, BIT, instruction steps, and changes of anything but the two memory arrays
(registers, flags, settings). -/
inductive Reachable (env : CbEnv) : sim65s → Prop
  | new : Reachable env sim65_new
  | add_ram (s : sim65s) (addr len : Nat) :
      Reachable env s → Reachable env (sim65_add_ram s addr len)
  | add_zeroed_ram (s : sim65s) (addr len : Nat) :
      Reachable env s → Reachable env (sim65_add_zeroed_ram s addr len)
  | add_data_ram (s : sim65s) (addr : Nat) (data : Nat → Nat) (len : Nat) :
      Reachable env s → Reachable env (sim65_add_data_ram s addr data len)
  | add_data_rom (s : sim65s) (addr : Nat) (data : Nat → Nat) (len : Nat) :
      Reachable env s → Reachable env (sim65_add_data_rom s addr data len)
  | add_callback (s : sim65s) (addr : Nat) (cb : Option Nat) (type : Int) :
      Reachable env s → Reachable env (sim65_add_callback s addr cb type)
  | add_callback_range (s : sim65s) (addr len : Nat) (cb : Option Nat) (type : Int) :
      Reachable env s → Reachable env (sim65_add_callback_range s addr len cb type)
  | read (s : sim65s) (addr : Nat) : Reachable env s → Reachable env (readByte env s addr).2
  | write (s : sim65s) (addr val : Nat) :
      Reachable env s → Reachable env (writeByte env s addr val)
  | bit (s : sim65s) (addr : Nat) : Reachable env s → Reachable env (do_bit env s addr)
  | step (s : sim65s) : Reachable env s → Reachable env (next env s)
  | setup (s t : sim65s) : Reachable env s → t.mem = s.mem → t.mems = s.mems → Reachable env t

/-- The ROM cells of `s` keep their value byte and their ROM bit in `t`. -/
def rom_kept (s t : sim65s) : Prop :=
  ∀ a, s.mems a &&& ms_rom ≠ 0 → t.mem a = s.mem a ∧ t.mems a &&& ms_rom ≠ 0

/-- A machine with 16 bytes of RAM at `$0000` and one byte of ROM, holding `$EA`, at `$F000`. -/
def rom_state : sim65s :=
  sim65_add_data_rom (sim65_add_ram sim65_new 0 0x10) 0xF000 (bytes [0xEA]) 1

/-! ## The published cycle table

The opcodes of the standard 6502 table by addressing class, and the cost the table gives
each class. -/

/-- Immediate instructions. -/
def ops_imm : List Nat :=
  [0x09, 0x29, 0x49, 0x69, 0xA0, 0xA2, 0xA9, 0xC0, 0xC9, 0xE0, 0xE9]

/-- Implied instructions other than BRK, the stack instructions and the returns. -/
def ops_implied : List Nat :=
  [0x18, 0x38, 0x58, 0x78, 0x88, 0x8A, 0x98, 0x9A, 0xA8, 0xAA, 0xB8, 0xBA, 0xC8, 0xCA, 0xD8,
   0xE8, 0xEA, 0xF8]

/-- Accumulator instructions. -/
def ops_acc : List Nat :=
  [0x0A, 0x2A, 0x4A, 0x6A]

/-- Zero-page reads and writes. -/
def ops_zp : List Nat :=
  [0x05, 0x24, 0x25, 0x45, 0x65, 0x84, 0x85, 0x86, 0xA4, 0xA5, 0xA6, 0xC4, 0xC5, 0xE4, 0xE5]

/-- Zero-page read-modify-write instructions. -/
def ops_zp_rmw : List Nat :=
  [0x06, 0x26, 0x46, 0x66, 0xC6, 0xE6]

/-- Zero-page,X and zero-page,Y reads and writes. -/
def ops_zp_idx : List Nat :=
  [0x15, 0x35, 0x55, 0x75, 0x94, 0x95, 0x96, 0xB4, 0xB5, 0xB6, 0xD5, 0xF5]

/-- Zero-page,X read-modify-write instructions. -/
def ops_zpx_rmw : List Nat :=
  [0x16, 0x36, 0x56, 0x76, 0xD6, 0xF6]

/-- Absolute reads and writes. -/
def ops_abs : List Nat :=
  [0x0D, 0x2C, 0x2D, 0x4D, 0x6D, 0x8C, 0x8D, 0x8E, 0xAC, 0xAD, 0xAE, 0xCC, 0xCD, 0xEC, 0xED]

/-- Absolute read-modify-write instructions. -/
def ops_abs_rmw : List Nat :=
  [0x0E, 0x2E, 0x4E, 0x6E, 0xCE, 0xEE]

/-- Reads with ABS,X addressing. -/
def ops_abx_read : List Nat :=
  [0x1D, 0x3D, 0x5D, 0x7D, 0xBC, 0xBD, 0xDD, 0xFD]

/-- Reads with ABS,Y addressing. -/
def ops_aby_read : List Nat :=
  [0x19, 0x39, 0x59, 0x79, 0xB9, 0xBE, 0xD9, 0xF9]

/-- Writes with ABS,X or ABS,Y addressing. -/
def ops_abxy_write : List Nat :=
  [0x99, 0x9D]

/-- Read-modify-write instructions with ABS,X addressing. -/
def ops_abx_rmw : List Nat :=
  [0x1E, 0x3E, 0x5E, 0x7E, 0xDE, 0xFE]

/-- Reads and writes with (zp,X) addressing. -/
def ops_indx : List Nat :=
  [0x01, 0x21, 0x41, 0x61, 0x81, 0xA1, 0xC1, 0xE1]

/-- Reads with (zp),Y addressing. -/
def ops_indy_read : List Nat :=
  [0x11, 0x31, 0x51, 0x71, 0xB1, 0xD1, 0xF1]

/-- Writes with (zp),Y addressing. -/
def ops_indy_write : List Nat :=
  [0x91]

/-- PHP and PHA. -/
def ops_push : List Nat :=
  [0x08, 0x48]

/-- PLP and PLA. -/
def ops_pull : List Nat :=
  [0x28, 0x68]

/-- JMP absolute. -/
def ops_jmp : List Nat :=
  [0x4C]

/-- JMP indirect. -/
def ops_jmp_ind : List Nat :=
  [0x6C]

/-- JSR, RTI and RTS. -/
def ops_sub : List Nat :=
  [0x20, 0x40, 0x60]

/-- Every documented opcode but BRK and the eight branches. -/
def costed_ops : List Nat :=
  ops_imm ++ ops_implied ++ ops_acc ++ ops_zp ++ ops_zp_rmw ++
  ops_zp_idx ++ ops_zpx_rmw ++ ops_abs ++ ops_abs_rmw ++ ops_abx_read ++
  ops_aby_read ++ ops_abxy_write ++ ops_abx_rmw ++ ops_indx ++ ops_indy_read ++
  ops_indy_write ++ ops_push ++ ops_pull ++ ops_jmp ++ ops_jmp_ind ++
  ops_sub

/-- The opcodes of `costed_ops` in increasing order. -/
def costed_sorted : List Nat :=
  [0x01, 0x05, 0x06, 0x08, 0x09, 0x0A, 0x0D, 0x0E, 0x11, 0x15, 0x16, 0x18, 0x19, 0x1D, 0x1E,
   0x20, 0x21, 0x24, 0x25, 0x26, 0x28, 0x29, 0x2A, 0x2C, 0x2D, 0x2E, 0x31, 0x35, 0x36, 0x38,
   0x39, 0x3D, 0x3E, 0x40, 0x41, 0x45, 0x46, 0x48, 0x49, 0x4A, 0x4C, 0x4D, 0x4E, 0x51, 0x55,
   0x56, 0x58, 0x59, 0x5D, 0x5E, 0x60, 0x61, 0x65, 0x66, 0x68, 0x69, 0x6A, 0x6C, 0x6D, 0x6E,
   0x71, 0x75, 0x76, 0x78, 0x79, 0x7D, 0x7E, 0x81, 0x84, 0x85, 0x86, 0x88, 0x8A, 0x8C, 0x8D,
   0x8E, 0x91, 0x94, 0x95, 0x96, 0x98, 0x99, 0x9A, 0x9D, 0xA0, 0xA1, 0xA2, 0xA4, 0xA5, 0xA6,
   0xA8, 0xA9, 0xAA, 0xAC, 0xAD, 0xAE, 0xB1, 0xB4, 0xB5, 0xB6, 0xB8, 0xB9, 0xBA, 0xBC, 0xBD,
   0xBE, 0xC0, 0xC1, 0xC4, 0xC5, 0xC6, 0xC8, 0xC9, 0xCA, 0xCC, 0xCD, 0xCE, 0xD1, 0xD5, 0xD6,
   0xD8, 0xD9, 0xDD, 0xDE, 0xE0, 0xE1, 0xE4, 0xE5, 0xE6, 0xE8, 0xE9, 0xEA, 0xEC, 0xED, 0xEE,
   0xF1, 0xF5, 0xF6, 0xF8, 0xF9, 0xFD, 0xFE]

/-- The published cost of opcode `ins`: `lo` is the low byte of the base address, `x` and `y`
the index registers, `ptr_lo` the low byte of the pointer fetched from the zero page. -/
def published_cost (ins lo x y ptr_lo : Nat) : Nat :=
  if ins ∈ ops_imm ∨ ins ∈ ops_implied ∨ ins ∈ ops_acc then 2
  else if ins ∈ ops_zp then 3
  else if ins ∈ ops_zp_rmw then 5
  else if ins ∈ ops_zp_idx then 4
  else if ins ∈ ops_zpx_rmw then 6
  else if ins ∈ ops_abs then 4
  else if ins ∈ ops_abs_rmw then 6
  else if ins ∈ ops_abx_read then 4 + (if lo + x > 0xFF then 1 else 0)
  else if ins ∈ ops_aby_read then 4 + (if lo + y > 0xFF then 1 else 0)
  else if ins ∈ ops_abxy_write then 5
  else if ins ∈ ops_abx_rmw then 7
  else if ins ∈ ops_indx then 6
  else if ins ∈ ops_indy_read then 5 + (if ptr_lo + y > 0xFF then 1 else 0)
  else if ins ∈ ops_indy_write then 6
  else if ins ∈ ops_push then 3
  else if ins ∈ ops_pull then 4
  else if ins ∈ ops_jmp then 3
  else if ins ∈ ops_jmp_ind then 5
  else if ins ∈ ops_sub then 6
  else 0

/-- No callback of any kind is installed. -/
def no_callbacks (s : sim65s) : Prop :=
  ∀ a, s.cb_read a = none ∧ s.cb_write a = none ∧ s.cb_exec a = none

/-- Only the latched error and the status array differ between `s` and `t`. -/
def reads_only (s t : sim65s) : Prop :=
  t = { s with error := t.error, err_addr := t.err_addr, mems := t.mems }

/-- When `s` has no callbacks, `t` has none either and its cycle counter is `f` of that of
`s`. -/
def Cyc (f : Nat → Nat) (s t : sim65s) : Prop :=
  no_callbacks s → t.cycles = f s.cycles ∧ no_callbacks t

/-- The operation leaves the cycle counter and the callback tables alone. -/
def OpKeep (op : Op) : Prop :=
  ∀ s v, (op s v).1.cycles = s.cycles ∧ (op s v).1.cb_read = s.cb_read ∧
    (op s v).1.cb_write = s.cb_write ∧ (op s v).1.cb_exec = s.cb_exec

/-- The cost property of the arms of the dispatch for the opcodes of the list `l`. -/
def DispatchCost (u : sim65s) (data : Nat) (l : List Nat) (ins : Nat) (t : sim65s) : Prop :=
  ins ∈ l → no_callbacks u →
    t.cycles = (u.cycles +
      published_cost ins (data &&& 0xFF) u.r.x u.r.y (u.mem (data &&& 0xFF) % 256)) % 2 ^ 64

/-- The state of the BRK scenario: `00` installed as RAM at `$0200`, PC there. -/
def brk_state : sim65s := set_pc (sim65_add_data_ram sim65_new 0x200 (bytes [0x00]) 1) 0x200

/-- The state of the indexed-read scenario: `BD F0 12` (LDA $12F0,X) installed as RAM at
`$0200`, PC there, X = `$20`. -/
def abx_state : sim65s :=
  set_x (set_pc (sim65_add_data_ram sim65_new 0x200 (bytes [0xBD, 0xF0, 0x12]) 3) 0x200) 0x20

/-! ## Notions for the memory and error properties -/

/-- A machine with one byte of initialised RAM, holding `$11`, at `$0080`, and one byte of
uninitialised RAM at `$0081`, each with a read callback installed and no write callback. -/
def cb_ram_state : sim65s :=
  sim65_add_callback_range
    (sim65_add_ram (sim65_add_data_ram sim65_new 0x80 (bytes [0x11]) 1) 0x81 1)
    0x80 2 (some 0) sim65_cb_read

/-- A machine with 16 bytes of uninitialised RAM at `$0200`. -/
def ram_state : sim65s := sim65_add_ram sim65_new 0x200 0x10

/-- The exit policy in the words of the specification: the errors that make the run loop
exit at error level `lvl`. -/
def exits_at (lvl : Nat) (e : Int) : Prop :=
  (e = sim65_err_break ∨ e = sim65_err_invalid_ins ∨ e = sim65_err_exec_undef ∨
    e = sim65_err_call_ret ∨ e = sim65_err_cycle_limit ∨ e = sim65_err_user) ∨
  ((e = sim65_err_exec_uninit ∨ e = sim65_err_read_undef ∨ e = sim65_err_write_undef) ∧
    (lvl = sim65_errlvl_memory ∨ lvl = sim65_errlvl_full)) ∨
  ((e = sim65_err_read_uninit ∨ e = sim65_err_write_rom) ∧ lvl = sim65_errlvl_full)

instance (lvl : Nat) (e : Int) : Decidable (exits_at lvl e) := by
  unfold exits_at; infer_instance

/-- The value is one of the three error levels. -/
def is_errlvl (lvl : Nat) : Prop :=
  lvl = sim65_errlvl_none ∨ lvl = sim65_errlvl_memory ∨ lvl = sim65_errlvl_full

instance (lvl : Nat) : Decidable (is_errlvl lvl) := by unfold is_errlvl; infer_instance

/-- A fresh machine with the error `e` latched and the error level `lvl`. -/
def latched_state (e : Int) (lvl : Nat) : sim65s := { sim65_new with error := e, errlvl := lvl }

/-- One call among `sim65_add_data_ram` and `sim65_add_data_rom`. -/
def install_data (rom : Bool) (s : sim65s) (addr : Nat) (data : Nat → Nat) (len : Nat) :
    sim65s :=
  if rom then sim65_add_data_rom s addr data len else sim65_add_data_ram s addr data len

/-- The address `a` lies in the range of `len` bytes at `addr`, inside the address space. -/
def in_range (addr len a : Nat) : Prop := addr ≤ a ∧ a < addr + len ∧ a < MAXRAM

instance (addr len a : Nat) : Decidable (in_range addr len a) := by
  unfold in_range; infer_instance

/-! ## The elementary changes of an instruction step -/

/-- The changes of state that the code of `next`, after its execute-callback prologue, is
composed of: writes of flags, of the other registers, of the cycle counter and of the
profile; the latching of an error; the "mark as initialised" of a CPU read; the store of a
CPU write; a call of an installed callback; and the "mark N, V, Z unknown" of BIT on an
INVALID cell without CALLBACK, which is allowed only when `bit` is set. -/
inductive Steps (env : CbEnv) (bit : Bool) : sim65s → sim65s → Prop
  | refl (s : sim65s) : Steps env bit s s
  | trans {s t u : sim65s} : Steps env bit s t → Steps env bit t u → Steps env bit s u
  | flags (s : sim65s) (mask val : Nat) : Steps env bit s (set_flags s mask val)
  | regs (s : sim65s) (r : sim65_reg) : r.p = s.r.p → Steps env bit s { s with r := r }
  | cycles (s : sim65s) (n : Nat) : Steps env bit s (add_cycles s n)
  | prof (s : sim65s) (p : sim65_prof) : Steps env bit s { s with prof := p }
  | error (s : sim65s) (e : Int) (a : Nat) : Steps env bit s (set_error s e a)
  | clear_invalid (s : sim65s) (a : Nat) : s.mems a &&& ms_undef = 0 →
      Steps env bit s
        { s with mems := Function.update s.mems a (s.mems a &&& not8 ms_invalid) }
  | store (s : sim65s) (a v : Nat) : s.mems a &&& not8 ms_invalid = 0 →
      Steps env bit s
        { s with mem := Function.update s.mem a (v % 256), mems := Function.update s.mems a 0 }
  | callback (cb : Nat) (s : sim65s) (a : Nat) (d : Int) :
      (s.cb_read a = some cb ∨ s.cb_write a = some cb) → Steps env bit s (env cb s a d).2
  | bit_unknown (s : sim65s) (a : Nat) : bit = true → s.mems a &&& ms_invalid ≠ 0 →
      s.mems a &&& ms_callback = 0 →
      Steps env bit s { s with p_valid := (s.p_valid ||| (FLAG_N ||| FLAG_V ||| FLAG_Z)) % 256 }

/-- Every execution of the operation is composed of elementary changes. -/
def OpSteps (op : Op) : Prop := ∀ (env : CbEnv) (s : sim65s) (v : Nat), Steps env false s (op s v).1

/-- Every bit of `a` is a bit of `b`. -/
def mask_subset (a b : Nat) : Prop := a &&& b = a

instance (a b : Nat) : Decidable (mask_subset a b) := by unfold mask_subset; infer_instance

/-- Every value byte is below 256. -/
def mem_bytes (s : sim65s) : Prop := ∀ a, s.mem a < 256

/-- The target cell of BIT has INVALID set and CALLBACK clear. -/
def bit_skips (s : sim65s) (addr : Nat) : Prop :=
  s.mems (addr % 65536) &&& ms_invalid ≠ 0 ∧ ¬ (s.mems (addr % 65536) &&& ms_callback ≠ 0)

instance (s : sim65s) (addr : Nat) : Decidable (bit_skips s addr) := by
  unfold bit_skips; infer_instance

/-- The state after the execute-callback block of `next`. -/
def next_prologue (env : CbEnv) (s : sim65s) : sim65s :=
  match s.cb_exec s.r.pc with
  | some cb =>
    (get_error_exit (set_error (env cb s s.r.pc sim65_cb_exec).2
      (env cb s s.r.pc sim65_cb_exec).1 s.r.pc)).2
  | none => s

/-- Whether `next` returns right after its execute-callback block. -/
def next_returns_early (env : CbEnv) (s : sim65s) : Prop :=
  match s.cb_exec s.r.pc with
  | some cb =>
    (get_error_exit (set_error (env cb s s.r.pc sim65_cb_exec).2
      (env cb s s.r.pc sim65_cb_exec).1 s.r.pc)).1 ≠ 0
  | none => False

instance (env : CbEnv) (s : sim65s) : Decidable (next_returns_early env s) := by
  unfold next_returns_early
  cases s.cb_exec s.r.pc <;> infer_instance

/-- The state after the trace block of `next`. -/
def next_traced (env : CbEnv) (s : sim65s) : sim65s :=
  if s.debug ≥ sim65_debug_trace then sim65_print_reg env s else s

/-- The instruction that the step fetches (after the execute-callback block and the trace
block) is BIT zp or BIT abs and its target cell has INVALID set and CALLBACK clear. -/
def bit_unknown_step (env : CbEnv) (s : sim65s) : Prop :=
  (opcode_at (next_traced env (next_prologue env s)) = 0x24 ∧
    bit_skips (next_traced env (next_prologue env s))
      (operand (next_traced env (next_prologue env s)) &&& 0xFF)) ∨
  (opcode_at (next_traced env (next_prologue env s)) = 0x2C ∧
    bit_skips (next_traced env (next_prologue env s))
      (operand (next_traced env (next_prologue env s))))

instance (env : CbEnv) (s : sim65s) : Decidable (bit_unknown_step env s) := by
  unfold bit_unknown_step; infer_instance

/-- The state of the BIT scenario: `24 80` (BIT $80) installed as RAM at `$0200`, one byte
of uninitialised RAM at `$0080`, PC at `$0200`. -/
def bit_state : sim65s :=
  set_pc (sim65_add_ram (sim65_add_data_ram sim65_new 0x200 (bytes [0x24, 0x80]) 2) 0x80 1) 0x200

/-! ## Notions for the read faults -/

/-- The state of the scenario LDA ($10),Y: `B1 10` installed as RAM at `$0200`, two bytes of
uninitialised RAM at `$0010`, nothing installed at `$0000`, PC at `$0200`, Y = 0, error
level MEMORY. -/
def indy_state : sim65s :=
  sim65_set_error_level
    (set_pc (sim65_add_ram (sim65_add_data_ram sim65_new 0x200 (bytes [0xB1, 0x10]) 2) 0x10 2)
      0x200)
    sim65_errlvl_memory

/-- The state of the scenario LDA $00: `A5 00` installed as RAM at `$0200`, nothing installed
at `$0000`, PC at `$0200`, error level MEMORY. -/
def lda_zp_state : sim65s :=
  sim65_set_error_level
    (set_pc (sim65_add_data_ram sim65_new 0x200 (bytes [0xA5, 0x00]) 2) 0x200)
    sim65_errlvl_memory

/-- Instructions that read their zero-page operand. -/
def reads_zp : List Nat :=
  [0x05, 0x06, 0x25, 0x26, 0x45, 0x46, 0x65, 0x66, 0xA4, 0xA5, 0xA6, 0xC4, 0xC5, 0xC6, 0xE4,
   0xE5, 0xE6]

/-- Instructions that read their zero-page,X operand. -/
def reads_zpx : List Nat :=
  [0x15, 0x16, 0x35, 0x36, 0x55, 0x56, 0x75, 0x76, 0xB4, 0xB5, 0xD5, 0xD6, 0xF5, 0xF6]

/-- Instructions that read their zero-page,Y operand. -/
def reads_zpy : List Nat :=
  [0xB6]

/-- Instructions that read their absolute operand. -/
def reads_abs : List Nat :=
  [0x0D, 0x0E, 0x2D, 0x2E, 0x4D, 0x4E, 0x6D, 0x6E, 0xAC, 0xAD, 0xAE, 0xCC, 0xCD, 0xCE, 0xEC,
   0xED, 0xEE]

/-- Instructions that read their ABS,X operand. -/
def reads_abx : List Nat :=
  [0x1D, 0x1E, 0x3D, 0x3E, 0x5D, 0x5E, 0x7D, 0x7E, 0xBC, 0xBD, 0xDD, 0xDE, 0xFD, 0xFE]

/-- Instructions that read their ABS,Y operand. -/
def reads_aby : List Nat :=
  [0x19, 0x39, 0x59, 0x79, 0xB9, 0xBE, 0xD9, 0xF9]

/-- Instructions that read through a (zp,X) pointer. -/
def reads_indx : List Nat :=
  [0x01, 0x21, 0x41, 0x61, 0xA1, 0xC1, 0xE1]

/-- Instructions that read through a (zp),Y pointer. -/
def reads_indy : List Nat :=
  [0x11, 0x31, 0x51, 0x71, 0xB1, 0xD1, 0xF1]

/-- The store through a (zp,X) pointer, which reads the pointer. -/
def reads_ptr_x : List Nat :=
  [0x81]

/-- The store through a (zp),Y pointer, which reads the pointer. -/
def reads_ptr_y : List Nat :=
  [0x91]

/-- JMP indirect. -/
def reads_jmp_ind : List Nat :=
  [0x6C]

/-- PLP and PLA. -/
def reads_pull : List Nat :=
  [0x28, 0x68]

/-- RTS. -/
def reads_rts : List Nat :=
  [0x60]

/-- RTI. -/
def reads_rti : List Nat :=
  [0x40]

/-- The 16-bit word stored at `a` and `a + 1`, low byte first. -/
def word_at (s : sim65s) (a : Nat) : Nat := s.mem a % 256 + 256 * (s.mem (a + 1) % 256)

/-- The cell at `a` is read on the fast path of `readByte`: no status bit other than ROM is
set. -/
def read_clean (s : sim65s) (a : Nat) : Prop := s.mems a &&& not8 ms_rom = 0

instance (s : sim65s) (a : Nat) : Decidable (read_clean s a) := by
  unfold read_clean; infer_instance

/-- The addresses that the instruction with opcode `ins` and operand `data` reads with CPU
reads, in order, when its reads return the stored bytes: the operand cell of the reading
addressing modes, the pointer cells and then the target of the indirect modes, the stack
cells of the pulls and returns; BIT reads its operand cell unless the cell has INVALID set
and CALLBACK clear. -/
def read_addrs (ins data : Nat) (s : sim65s) : List Nat :=
  if ins ∈ reads_zp then [data % 256]
  else if ins ∈ reads_zpx then [(data + s.r.x) % 256]
  else if ins ∈ reads_zpy then [(data + s.r.y) % 256]
  else if ins ∈ reads_abs then [data % 65536]
  else if ins ∈ reads_abx then [(data + s.r.x) % 65536]
  else if ins ∈ reads_aby then [(data + s.r.y) % 65536]
  else if ins ∈ reads_indx then
    [(data + s.r.x) % 256, (data + s.r.x) % 256 + 1, word_at s ((data + s.r.x) % 256)]
  else if ins ∈ reads_indy then
    [data % 256, data % 256 + 1, (word_at s (data % 256) + s.r.y) % 65536]
  else if ins ∈ reads_ptr_x then [(data + s.r.x) % 256, (data + s.r.x) % 256 + 1]
  else if ins ∈ reads_ptr_y then [data % 256, data % 256 + 1]
  else if ins ∈ reads_jmp_ind then [data % 65536, (data % 65536 + 1) % 65536]
  else if ins ∈ reads_pull then [0x100 + (s.r.s + 1) % 256]
  else if ins ∈ reads_rts then [0x100 + (s.r.s + 1) % 256, 0x100 + (s.r.s + 2) % 256]
  else if ins ∈ reads_rti then
    [0x100 + (s.r.s + 1) % 256, 0x100 + (s.r.s + 2) % 256, 0x100 + (s.r.s + 3) % 256]
  else if ins = 0x24 then (if bit_skips s (data % 256) then [] else [data % 256])
  else if ins = 0x2C then (if bit_skips s data then [] else [data % 65536])
  else []

/-- The states `u` and `w` agree on both memory arrays, the read callbacks and the error
slot. -/
def SameView (u w : sim65s) : Prop :=
  w.mems = u.mems ∧ w.mem = u.mem ∧ w.cb_read = u.cb_read ∧ w.error = u.error

/-- When the first cell of the list `l` that is not read on the fast path in `u` is an UNDEF
cell without read callback, `t` has READ_UNDEF latched at that cell. -/
def ReadFault (u : sim65s) (l : List Nat) (t : sim65s) : Prop :=
  ∀ k a, l.get? k = some a → (∀ j a', j < k → l.get? j = some a' → read_clean u a') →
    u.mems a &&& ms_undef ≠ 0 → u.cb_read a = none →
    t.error = sim65_err_read_undef ∧ t.err_addr = a

/-- The callbacks leave the error level alone, and a latched error as it is. -/
def keeps_errors (env : CbEnv) : Prop :=
  ∀ (cb : Nat) (s : sim65s) (a : Nat) (d : Int),
    (env cb s a d).2.errlvl = s.errlvl ∧
    (s.error ≠ 0 → (env cb s a d).2.error = s.error ∧ (env cb s a d).2.err_addr = s.err_addr)

/-- The opcodes for which `read_addrs` can be nonempty, in increasing order. -/
def reading_sorted : List Nat :=
  [0x01, 0x05, 0x06, 0x0D, 0x0E, 0x11, 0x15, 0x16, 0x19, 0x1D, 0x1E, 0x21, 0x24, 0x25, 0x26,
   0x28, 0x2C, 0x2D, 0x2E, 0x31, 0x35, 0x36, 0x39, 0x3D, 0x3E, 0x40, 0x41, 0x45, 0x46, 0x4D,
   0x4E, 0x51, 0x55, 0x56, 0x59, 0x5D, 0x5E, 0x60, 0x61, 0x65, 0x66, 0x68, 0x6C, 0x6D, 0x6E,
   0x71, 0x75, 0x76, 0x79, 0x7D, 0x7E, 0x81, 0x91, 0xA1, 0xA4, 0xA5, 0xA6, 0xAC, 0xAD, 0xAE,
   0xB1, 0xB4, 0xB5, 0xB6, 0xB9, 0xBC, 0xBD, 0xBE, 0xC1, 0xC4, 0xC5, 0xC6, 0xCC, 0xCD, 0xCE,
   0xD1, 0xD5, 0xD6, 0xD9, 0xDD, 0xDE, 0xE1, 0xE4, 0xE5, 0xE6, 0xEC, 0xED, 0xEE, 0xF1, 0xF5,
   0xF6, 0xF9, 0xFD, 0xFE]

/-- The read-fault property of the arms of the dispatch for the opcodes of the list `l`. -/
def DispatchReads (u : sim65s) (data : Nat) (l : List Nat) (ins : Nat) (t : sim65s) : Prop :=
  ins ∈ l → ReadFault u (read_addrs ins data u) t


/-! ## Notions for the initial state, the stops and the calls -/

/-- The opcodes that have a `case` in the `switch` of `next`, in the order of the source. -/
def implemented_ops : List Nat :=
  [0x00, 0x01, 0x05, 0x06, 0x08, 0x09, 0x0A, 0x0D, 0x0E, 0x10, 0x11, 0x15, 0x16, 0x18, 0x19,
   0x1D, 0x1E, 0x20, 0x21, 0x24, 0x25, 0x26, 0x28, 0x29, 0x2A, 0x2C, 0x2D, 0x2E, 0x30, 0x31,
   0x35, 0x36, 0x38, 0x39, 0x3D, 0x3E, 0x40, 0x41, 0x45, 0x46, 0x48, 0x49, 0x4A, 0x4C, 0x4D,
   0x4E, 0x50, 0x51, 0x55, 0x56, 0x58, 0x59, 0x5D, 0x5E, 0x60, 0x61, 0x65, 0x66, 0x68, 0x69,
   0x6A, 0x6C, 0x6D, 0x6E, 0x70, 0x71, 0x75, 0x76, 0x78, 0x79, 0x7D, 0x7E, 0x81, 0x84, 0x85,
   0x86, 0x88, 0x8A, 0x8C, 0x8D, 0x8E, 0x90, 0x91, 0x94, 0x95, 0x96, 0x98, 0x99, 0x9A, 0x9D,
   0xA0, 0xA1, 0xA2, 0xA4, 0xA5, 0xA6, 0xA8, 0xA9, 0xAA, 0xAC, 0xAD, 0xAE, 0xB0, 0xB1, 0xB4,
   0xB5, 0xB6, 0xB8, 0xB9, 0xBA, 0xBC, 0xBD, 0xBE, 0xC0, 0xC1, 0xC4, 0xC5, 0xC6, 0xC8, 0xC9,
   0xCA, 0xCC, 0xCD, 0xCE, 0xD0, 0xD1, 0xD5, 0xD6, 0xD8, 0xD9, 0xDD, 0xDE, 0xE0, 0xE1, 0xE4,
   0xE5, 0xE6, 0xE8, 0xE9, 0xEA, 0xEC, 0xED, 0xEE, 0xF0, 0xF1, 0xF5, 0xF6, 0xF8, 0xF9, 0xFD,
   0xFE]

/-- The state of the NOP scenario: `EA EA` installed as RAM at `$0200`, PC there. -/
def nop_state : sim65s := set_pc (sim65_add_data_ram sim65_new 0x200 (bytes [0xEA, 0xEA]) 2) 0x200

/-- The NOP scenario after one step (the counter is 2) and then
`sim65_set_cycle_limit(s, 0xFFFFFFFFFFFFFFFF)`. -/
def wrapped_limit_state : sim65s :=
  sim65_set_cycle_limit (next env_none nop_state) 0xFFFFFFFFFFFFFFFF

/-- The state of the scenario with the undocumented opcode `02` installed as RAM at `$0200`,
PC there. -/
def kil_state : sim65s := set_pc (sim65_add_data_ram sim65_new 0x200 (bytes [0x02]) 1) 0x200

/-- The state of the RTI scenario: `40` installed as RAM at `$0200`, the bytes `C1 FF 12` at
`$01FD`, PC at `$0200`, S = 0xFC. -/
def rti_state : sim65s :=
  set_s (set_pc (sim65_add_data_ram (sim65_add_data_ram sim65_new 0x1FD
    (bytes [0xC1, 0xFF, 0x12]) 3) 0x200 (bytes [0x40]) 1) 0x200) 0xFC

/-- The state of the JMP indirect scenario: `6C FF 12` installed as RAM at `$0200`, the byte
`78` at `$1200`, the bytes `34 56` at `$12FF`, PC at `$0200`. -/
def jmp_ind_state : sim65s :=
  set_pc (sim65_add_data_ram (sim65_add_data_ram (sim65_add_data_ram sim65_new 0x200
    (bytes [0x6C, 0xFF, 0x12]) 3) 0x1200 (bytes [0x78]) 1) 0x12FF (bytes [0x34, 0x56]) 2) 0x200

/-- The state in which `sim65_run` enters its loop. -/
def run_entry (s : sim65s) (regs : Option sim65_reg) (addr : Nat) : sim65s :=
  set_pc { (match regs with | some r => { s with r := r } | none => s) with
    error := sim65_err_none } addr

/-- The state of `sim65_call` after the optional copy of the register block. -/
def call_entry (s : sim65s) (regs : Option sim65_reg) : sim65s :=
  match regs with
  | some r => { s with r := r }
  | none => s

/-- An environment in which every identifier stands for `sim65_rts_callback`. -/
def env_rts : CbEnv := fun _ => sim65_rts_callback

/-- The state of the call scenario: 16 bytes of zeroed RAM at `$0000`, the top 16 bytes of
the stack page as RAM, `60` (RTS) as RAM at `$0300`, PC at `$0200`. -/
def call_state : sim65s :=
  set_pc (sim65_add_data_ram (sim65_add_ram (sim65_add_zeroed_ram sim65_new 0 0x10) 0x1F0 0x10)
    0x300 (bytes [0x60]) 1) 0x200

/-- The state of the scenario of a call to address 0: `60` (RTS) installed as RAM at `$0000`,
the top 16 bytes of the stack page as RAM, PC at `$0200`. -/
def call_zero_state : sim65s :=
  set_pc (sim65_add_data_ram (sim65_add_ram sim65_new 0x1F0 0x10) 0 (bytes [0x60]) 1) 0x200

/-- The execute slot of address 0 holds the return callback of `sim65_call` and the status
byte of address 0 has CALLBACK set. -/
def rts_installed (s : sim65s) : Prop :=
  s.cb_exec 0 = some sim65_rts_callback_id ∧ s.mems 0 &&& ms_callback ≠ 0

instance (s : sim65s) : Decidable (rts_installed s) := by unfold rts_installed; infer_instance

/-- An environment whose callbacks return `e` and leave the state alone. -/
def env_ret (e : Int) : CbEnv := fun _ s _ _ => (e, s)

/-- The state of the scenario LDA $80 with a read callback: `A5 80` installed as RAM at
`$0200`, the cell `$0080` installed as RAM with the read callback 1, PC at `$0200`, error
level NONE. -/
def lda_cb_state : sim65s :=
  set_pc (sim65_add_callback (sim65_add_ram (sim65_add_data_ram sim65_new 0x200
    (bytes [0xA5, 0x80]) 2) 0x80 1) 0x80 (some 1) sim65_cb_read) 0x200

/-- The state of the scenario of BRK in uninitialised RAM: two bytes of RAM at `$0200` that
were never written (their value bytes are 0, the opcode of BRK), PC at `$0200`, error level
NONE. -/
def brk_uninit_state : sim65s := set_pc (sim65_add_ram sim65_new 0x200 2) 0x200

/-- The state of the scenario LDA $00 with an execute callback: `A5 00` installed as RAM at
`$0200`, the execute callback 1 installed at `$0200`, nothing installed at `$0000`, PC at
`$0200`, error level NONE. -/
def lda_exec_cb_state : sim65s :=
  set_pc (sim65_add_callback (sim65_add_data_ram sim65_new 0x200 (bytes [0xA5, 0x00]) 2)
    0x200 (some 1) sim65_cb_exec) 0x200

/-- The callbacks leave the return callback of `sim65_call` installed. -/
def keeps_rts (env : CbEnv) : Prop :=
  ∀ (cb : Nat) (s : sim65s) (a : Nat) (d : Int),
    rts_installed s → rts_installed (env cb s a d).2

/-- Every character of the name is an uppercase letter. -/
def all_upper (n : String) : Bool := n.toList.all Char.isUpper

/-- Every character of the name is a lowercase letter. -/
def all_lower (n : String) : Bool := n.toList.all Char.isLower

/-! ## Notions for decimal subtraction -/

/-- The low-nibble sum of decimal SBC after its decimal correction; `v` is the operand as
given to `do_sbc`. -/
def sbc_dec_lo (a v c : Nat) : Nat :=
  if (a &&& 0xF) + ((v ^^^ 0xFF) &&& 0xF) + c < 0x10 then
    sub32 ((a &&& 0xF) + ((v ^^^ 0xFF) &&& 0xF) + c) 6 &&& 0x0F
  else (a &&& 0xF) + ((v ^^^ 0xFF) &&& 0xF) + c

/-- The sum of decimal SBC before the high-nibble correction. -/
def sbc_dec_mid (a v c : Nat) : Nat :=
  (sbc_dec_lo a v c + ((a &&& 0xF0) + ((v ^^^ 0xFF) &&& 0xF0))) % 2^32

/-- The sum of decimal SBC after the high-nibble correction. -/
def sbc_dec_fin (a v c : Nat) : Nat :=
  if sbc_dec_mid a v c < 0x100 then sub32 (sbc_dec_mid a v c) 0x60 &&& 0xFF
  else sbc_dec_mid a v c

/-- The state `s` with the decimal flag put to `d` and nothing else changed. -/
def with_decimal (s : sim65s) (d : Bool) : sim65s :=
  { s with r := { s.r with p := if d then s.r.p ||| FLAG_D else s.r.p &&& not8 FLAG_D } }

/-- A machine with accumulator `a`, carry `c` and the decimal flag `d`. -/
def alu_state (a : Nat) (c d : Bool) : sim65s :=
  set_a (set_flags sim65_new 0xFF ((if c then FLAG_C else 0) ||| (if d then FLAG_D else 0))) a

/-! ## Notions for the classification of reads -/

/-- The state of the scenario LDA $80 on a write-only port: `A5 80` installed as RAM at
`$0200`, 16 bytes of zeroed RAM at `$0080`, the write callback 1 installed at `$0080` and no
read callback anywhere, PC at `$0200`, error level FULL. -/
def lda_wcb_state : sim65s :=
  sim65_set_error_level
    (set_pc (sim65_add_callback (sim65_add_zeroed_ram (sim65_add_data_ram sim65_new 0x200
      (bytes [0xA5, 0x80]) 2) 0x80 16) 0x80 (some 1) sim65_cb_write) 0x200)
    sim65_errlvl_full

/-! ## Notions for the disassembler -/

/-- The addressing modes of the 6502. -/
inductive AddrMode where
  | imp | acc | imm | zp | zpx | zpy | abs | abx | aby | indx | indy | ind | rel
  deriving DecidableEq

/-- The documented instruction set of the 6502, as in the data sheet of the processor: the
opcode, the mnemonic of the assembler and the addressing mode, by mnemonic. -/
def standard_ops : List (Nat × String × AddrMode) := [
  (0x69, "ADC", AddrMode.imm), (0x65, "ADC", AddrMode.zp), (0x75, "ADC", AddrMode.zpx),
  (0x6D, "ADC", AddrMode.abs), (0x7D, "ADC", AddrMode.abx), (0x79, "ADC", AddrMode.aby),
  (0x61, "ADC", AddrMode.indx), (0x71, "ADC", AddrMode.indy), (0x29, "AND", AddrMode.imm),
  (0x25, "AND", AddrMode.zp), (0x35, "AND", AddrMode.zpx), (0x2D, "AND", AddrMode.abs),
  (0x3D, "AND", AddrMode.abx), (0x39, "AND", AddrMode.aby), (0x21, "AND", AddrMode.indx),
  (0x31, "AND", AddrMode.indy), (0x0A, "ASL", AddrMode.acc), (0x06, "ASL", AddrMode.zp),
  (0x16, "ASL", AddrMode.zpx), (0x0E, "ASL", AddrMode.abs), (0x1E, "ASL", AddrMode.abx),
  (0x90, "BCC", AddrMode.rel), (0xB0, "BCS", AddrMode.rel), (0xF0, "BEQ", AddrMode.rel),
  (0x24, "BIT", AddrMode.zp), (0x2C, "BIT", AddrMode.abs), (0x30, "BMI", AddrMode.rel),
  (0xD0, "BNE", AddrMode.rel), (0x10, "BPL", AddrMode.rel), (0x00, "BRK", AddrMode.imp),
  (0x50, "BVC", AddrMode.rel), (0x70, "BVS", AddrMode.rel), (0x18, "CLC", AddrMode.imp),
  (0xD8, "CLD", AddrMode.imp), (0x58, "CLI", AddrMode.imp), (0xB8, "CLV", AddrMode.imp),
  (0xC9, "CMP", AddrMode.imm), (0xC5, "CMP", AddrMode.zp), (0xD5, "CMP", AddrMode.zpx),
  (0xCD, "CMP", AddrMode.abs), (0xDD, "CMP", AddrMode.abx), (0xD9, "CMP", AddrMode.aby),
  (0xC1, "CMP", AddrMode.indx), (0xD1, "CMP", AddrMode.indy), (0xE0, "CPX", AddrMode.imm),
  (0xE4, "CPX", AddrMode.zp), (0xEC, "CPX", AddrMode.abs), (0xC0, "CPY", AddrMode.imm),
  (0xC4, "CPY", AddrMode.zp), (0xCC, "CPY", AddrMode.abs), (0xC6, "DEC", AddrMode.zp),
  (0xD6, "DEC", AddrMode.zpx), (0xCE, "DEC", AddrMode.abs), (0xDE, "DEC", AddrMode.abx),
  (0xCA, "DEX", AddrMode.imp), (0x88, "DEY", AddrMode.imp), (0x49, "EOR", AddrMode.imm),
  (0x45, "EOR", AddrMode.zp), (0x55, "EOR", AddrMode.zpx), (0x4D, "EOR", AddrMode.abs),
  (0x5D, "EOR", AddrMode.abx), (0x59, "EOR", AddrMode.aby), (0x41, "EOR", AddrMode.indx),
  (0x51, "EOR", AddrMode.indy), (0xE6, "INC", AddrMode.zp), (0xF6, "INC", AddrMode.zpx),
  (0xEE, "INC", AddrMode.abs), (0xFE, "INC", AddrMode.abx), (0xE8, "INX", AddrMode.imp),
  (0xC8, "INY", AddrMode.imp), (0x4C, "JMP", AddrMode.abs), (0x6C, "JMP", AddrMode.ind),
  (0x20, "JSR", AddrMode.abs), (0xA9, "LDA", AddrMode.imm), (0xA5, "LDA", AddrMode.zp),
  (0xB5, "LDA", AddrMode.zpx), (0xAD, "LDA", AddrMode.abs), (0xBD, "LDA", AddrMode.abx),
  (0xB9, "LDA", AddrMode.aby), (0xA1, "LDA", AddrMode.indx), (0xB1, "LDA", AddrMode.indy),
  (0xA2, "LDX", AddrMode.imm), (0xA6, "LDX", AddrMode.zp), (0xB6, "LDX", AddrMode.zpy),
  (0xAE, "LDX", AddrMode.abs), (0xBE, "LDX", AddrMode.aby), (0xA0, "LDY", AddrMode.imm),
  (0xA4, "LDY", AddrMode.zp), (0xB4, "LDY", AddrMode.zpx), (0xAC, "LDY", AddrMode.abs),
  (0xBC, "LDY", AddrMode.abx), (0x4A, "LSR", AddrMode.acc), (0x46, "LSR", AddrMode.zp),
  (0x56, "LSR", AddrMode.zpx), (0x4E, "LSR", AddrMode.abs), (0x5E, "LSR", AddrMode.abx),
  (0xEA, "NOP", AddrMode.imp), (0x09, "ORA", AddrMode.imm), (0x05, "ORA", AddrMode.zp),
  (0x15, "ORA", AddrMode.zpx), (0x0D, "ORA", AddrMode.abs), (0x1D, "ORA", AddrMode.abx),
  (0x19, "ORA", AddrMode.aby), (0x01, "ORA", AddrMode.indx), (0x11, "ORA", AddrMode.indy),
  (0x48, "PHA", AddrMode.imp), (0x08, "PHP", AddrMode.imp), (0x68, "PLA", AddrMode.imp),
  (0x28, "PLP", AddrMode.imp), (0x2A, "ROL", AddrMode.acc), (0x26, "ROL", AddrMode.zp),
  (0x36, "ROL", AddrMode.zpx), (0x2E, "ROL", AddrMode.abs), (0x3E, "ROL", AddrMode.abx),
  (0x6A, "ROR", AddrMode.acc), (0x66, "ROR", AddrMode.zp), (0x76, "ROR", AddrMode.zpx),
  (0x6E, "ROR", AddrMode.abs), (0x7E, "ROR", AddrMode.abx), (0x40, "RTI", AddrMode.imp),
  (0x60, "RTS", AddrMode.imp), (0xE9, "SBC", AddrMode.imm), (0xE5, "SBC", AddrMode.zp),
  (0xF5, "SBC", AddrMode.zpx), (0xED, "SBC", AddrMode.abs), (0xFD, "SBC", AddrMode.abx),
  (0xF9, "SBC", AddrMode.aby), (0xE1, "SBC", AddrMode.indx), (0xF1, "SBC", AddrMode.indy),
  (0x38, "SEC", AddrMode.imp), (0xF8, "SED", AddrMode.imp), (0x78, "SEI", AddrMode.imp),
  (0x85, "STA", AddrMode.zp), (0x95, "STA", AddrMode.zpx), (0x8D, "STA", AddrMode.abs),
  (0x9D, "STA", AddrMode.abx), (0x99, "STA", AddrMode.aby), (0x81, "STA", AddrMode.indx),
  (0x91, "STA", AddrMode.indy), (0x86, "STX", AddrMode.zp), (0x96, "STX", AddrMode.zpy),
  (0x8E, "STX", AddrMode.abs), (0x84, "STY", AddrMode.zp), (0x94, "STY", AddrMode.zpx),
  (0x8C, "STY", AddrMode.abs), (0xAA, "TAX", AddrMode.imp), (0xA8, "TAY", AddrMode.imp),
  (0xBA, "TSX", AddrMode.imp), (0x8A, "TXA", AddrMode.imp), (0x9A, "TXS", AddrMode.imp),
  (0x98, "TYA", AddrMode.imp)]

/-- The mnemonic and addressing mode that the data sheet gives for an opcode. -/
def standard (ins : Nat) : Option (String × AddrMode) := standard_ops.lookup ins

/-- The state `s` with the profiling switch and the profile counters replaced. -/
def with_prof (s : sim65s) (d : Nat) (p : sim65_prof) : sim65s :=
  { s with do_prof := d, prof := p }

/-- The two states agree on everything but the profiling switch and the profile
counters. -/
def same_but_prof (s t : sim65s) : Prop := t = with_prof s t.do_prof t.prof

/-- The callbacks neither consult nor change the profiling switch and the profile
counters. -/
def prof_blind (env : CbEnv) : Prop :=
  ∀ (cb : Nat) (s : sim65s) (a : Nat) (v : Int) (d : Nat) (p : sim65_prof),
    env cb (with_prof s d p) a v = ((env cb s a v).1, with_prof (env cb s a v).2 d p)

/-- The state `t'` reached with the profile `p` and the switch `d` is the state `t` reached
from the original state, up to a profile that has the per-address cycle buckets and the
instruction count of `p`. -/
def ProfFree (d : Nat) (p : sim65_prof) (t' t : sim65s) : Prop :=
  ∃ p', t' = with_prof t d p' ∧ p'.exe = p.exe ∧ p'.instructions = p.instructions

/-- The operation acts in the same way whatever the profile, and leaves it alone. -/
def ProfFreeOp (op : Op) : Prop :=
  ∀ s v d p, op (with_prof s d p) v = (with_prof (op s v).1 d p, (op s v).2)

/-- The sum of the per-address cycle buckets of a profile. -/
def exe_total (p : sim65_prof) : Nat := (Finset.range 65536).sum p.exe

/-- The state of the scenario BNE across a page: `D0 10` installed as RAM at `$02F0`
(target `$0302`), PC at `$02F0`, Z clear, profiling as given. -/
def bne_state (d : Nat) : sim65s :=
  { set_pc (sim65_add_data_ram sim65_new 0x2F0 (bytes [0xD0, 0x10]) 2) 0x2F0 with do_prof := d }

/-! ## Fields of the elementary state updates -/

@[simp]
theorem set_a_debug (s : sim65s) (v : Nat) : (set_a s v).debug = s.debug := rfl

@[simp]
theorem set_a_error (s : sim65s) (v : Nat) : (set_a s v).error = s.error := rfl

@[simp]
theorem set_a_errlvl (s : sim65s) (v : Nat) : (set_a s v).errlvl = s.errlvl := rfl

@[simp]
theorem set_a_err_addr (s : sim65s) (v : Nat) : (set_a s v).err_addr = s.err_addr := rfl

@[simp]
theorem set_a_cycles (s : sim65s) (v : Nat) : (set_a s v).cycles = s.cycles := rfl

@[simp]
theorem set_a_cycle_limit (s : sim65s) (v : Nat) : (set_a s v).cycle_limit = s.cycle_limit := rfl

@[simp]
theorem set_a_do_prof (s : sim65s) (v : Nat) : (set_a s v).do_prof = s.do_prof := rfl

@[simp]
theorem set_a_r (s : sim65s) (v : Nat) : (set_a s v).r = { s.r with a := v % 256 } := rfl

@[simp]
theorem set_a_p_valid (s : sim65s) (v : Nat) : (set_a s v).p_valid = s.p_valid := rfl

@[simp]
theorem set_a_mem (s : sim65s) (v : Nat) : (set_a s v).mem = s.mem := rfl

@[simp]
theorem set_a_mems (s : sim65s) (v : Nat) : (set_a s v).mems = s.mems := rfl

@[simp]
theorem set_a_cb_read (s : sim65s) (v : Nat) : (set_a s v).cb_read = s.cb_read := rfl

@[simp]
theorem set_a_cb_write (s : sim65s) (v : Nat) : (set_a s v).cb_write = s.cb_write := rfl

@[simp]
theorem set_a_cb_exec (s : sim65s) (v : Nat) : (set_a s v).cb_exec = s.cb_exec := rfl

@[simp]
theorem set_a_prof (s : sim65s) (v : Nat) : (set_a s v).prof = s.prof := rfl

@[simp]
theorem set_a_labels (s : sim65s) (v : Nat) : (set_a s v).labels = s.labels := rfl

@[simp]
theorem set_a_host (s : sim65s) (v : Nat) : (set_a s v).host = s.host := rfl

@[simp]
theorem set_x_debug (s : sim65s) (v : Nat) : (set_x s v).debug = s.debug := rfl

@[simp]
theorem set_x_error (s : sim65s) (v : Nat) : (set_x s v).error = s.error := rfl

@[simp]
theorem set_x_errlvl (s : sim65s) (v : Nat) : (set_x s v).errlvl = s.errlvl := rfl

@[simp]
theorem set_x_err_addr (s : sim65s) (v : Nat) : (set_x s v).err_addr = s.err_addr := rfl

@[simp]
theorem set_x_cycles (s : sim65s) (v : Nat) : (set_x s v).cycles = s.cycles := rfl

@[simp]
theorem set_x_cycle_limit (s : sim65s) (v : Nat) : (set_x s v).cycle_limit = s.cycle_limit := rfl

@[simp]
theorem set_x_do_prof (s : sim65s) (v : Nat) : (set_x s v).do_prof = s.do_prof := rfl

@[simp]
theorem set_x_r (s : sim65s) (v : Nat) : (set_x s v).r = { s.r with x := v % 256 } := rfl

@[simp]
theorem set_x_p_valid (s : sim65s) (v : Nat) : (set_x s v).p_valid = s.p_valid := rfl

@[simp]
theorem set_x_mem (s : sim65s) (v : Nat) : (set_x s v).mem = s.mem := rfl

@[simp]
theorem set_x_mems (s : sim65s) (v : Nat) : (set_x s v).mems = s.mems := rfl

@[simp]
theorem set_x_cb_read (s : sim65s) (v : Nat) : (set_x s v).cb_read = s.cb_read := rfl

@[simp]
theorem set_x_cb_write (s : sim65s) (v : Nat) : (set_x s v).cb_write = s.cb_write := rfl

@[simp]
theorem set_x_cb_exec (s : sim65s) (v : Nat) : (set_x s v).cb_exec = s.cb_exec := rfl

@[simp]
theorem set_x_prof (s : sim65s) (v : Nat) : (set_x s v).prof = s.prof := rfl

@[simp]
theorem set_x_labels (s : sim65s) (v : Nat) : (set_x s v).labels = s.labels := rfl

@[simp]
theorem set_x_host (s : sim65s) (v : Nat) : (set_x s v).host = s.host := rfl

@[simp]
theorem set_y_debug (s : sim65s) (v : Nat) : (set_y s v).debug = s.debug := rfl

@[simp]
theorem set_y_error (s : sim65s) (v : Nat) : (set_y s v).error = s.error := rfl

@[simp]
theorem set_y_errlvl (s : sim65s) (v : Nat) : (set_y s v).errlvl = s.errlvl := rfl

@[simp]
theorem set_y_err_addr (s : sim65s) (v : Nat) : (set_y s v).err_addr = s.err_addr := rfl

@[simp]
theorem set_y_cycles (s : sim65s) (v : Nat) : (set_y s v).cycles = s.cycles := rfl

@[simp]
theorem set_y_cycle_limit (s : sim65s) (v : Nat) : (set_y s v).cycle_limit = s.cycle_limit := rfl

@[simp]
theorem set_y_do_prof (s : sim65s) (v : Nat) : (set_y s v).do_prof = s.do_prof := rfl

@[simp]
theorem set_y_r (s : sim65s) (v : Nat) : (set_y s v).r = { s.r with y := v % 256 } := rfl

@[simp]
theorem set_y_p_valid (s : sim65s) (v : Nat) : (set_y s v).p_valid = s.p_valid := rfl

@[simp]
theorem set_y_mem (s : sim65s) (v : Nat) : (set_y s v).mem = s.mem := rfl

@[simp]
theorem set_y_mems (s : sim65s) (v : Nat) : (set_y s v).mems = s.mems := rfl

@[simp]
theorem set_y_cb_read (s : sim65s) (v : Nat) : (set_y s v).cb_read = s.cb_read := rfl

@[simp]
theorem set_y_cb_write (s : sim65s) (v : Nat) : (set_y s v).cb_write = s.cb_write := rfl

@[simp]
theorem set_y_cb_exec (s : sim65s) (v : Nat) : (set_y s v).cb_exec = s.cb_exec := rfl

@[simp]
theorem set_y_prof (s : sim65s) (v : Nat) : (set_y s v).prof = s.prof := rfl

@[simp]
theorem set_y_labels (s : sim65s) (v : Nat) : (set_y s v).labels = s.labels := rfl

@[simp]
theorem set_y_host (s : sim65s) (v : Nat) : (set_y s v).host = s.host := rfl

@[simp]
theorem set_s_debug (s : sim65s) (v : Nat) : (set_s s v).debug = s.debug := rfl

@[simp]
theorem set_s_error (s : sim65s) (v : Nat) : (set_s s v).error = s.error := rfl

@[simp]
theorem set_s_errlvl (s : sim65s) (v : Nat) : (set_s s v).errlvl = s.errlvl := rfl

@[simp]
theorem set_s_err_addr (s : sim65s) (v : Nat) : (set_s s v).err_addr = s.err_addr := rfl

@[simp]
theorem set_s_cycles (s : sim65s) (v : Nat) : (set_s s v).cycles = s.cycles := rfl

@[simp]
theorem set_s_cycle_limit (s : sim65s) (v : Nat) : (set_s s v).cycle_limit = s.cycle_limit := rfl

@[simp]
theorem set_s_do_prof (s : sim65s) (v : Nat) : (set_s s v).do_prof = s.do_prof := rfl

@[simp]
theorem set_s_r (s : sim65s) (v : Nat) : (set_s s v).r = { s.r with s := v % 256 } := rfl

@[simp]
theorem set_s_p_valid (s : sim65s) (v : Nat) : (set_s s v).p_valid = s.p_valid := rfl

@[simp]
theorem set_s_mem (s : sim65s) (v : Nat) : (set_s s v).mem = s.mem := rfl

@[simp]
theorem set_s_mems (s : sim65s) (v : Nat) : (set_s s v).mems = s.mems := rfl

@[simp]
theorem set_s_cb_read (s : sim65s) (v : Nat) : (set_s s v).cb_read = s.cb_read := rfl

@[simp]
theorem set_s_cb_write (s : sim65s) (v : Nat) : (set_s s v).cb_write = s.cb_write := rfl

@[simp]
theorem set_s_cb_exec (s : sim65s) (v : Nat) : (set_s s v).cb_exec = s.cb_exec := rfl

@[simp]
theorem set_s_prof (s : sim65s) (v : Nat) : (set_s s v).prof = s.prof := rfl

@[simp]
theorem set_s_labels (s : sim65s) (v : Nat) : (set_s s v).labels = s.labels := rfl

@[simp]
theorem set_s_host (s : sim65s) (v : Nat) : (set_s s v).host = s.host := rfl

@[simp]
theorem set_pc_debug (s : sim65s) (v : Nat) : (set_pc s v).debug = s.debug := rfl

@[simp]
theorem set_pc_error (s : sim65s) (v : Nat) : (set_pc s v).error = s.error := rfl

@[simp]
theorem set_pc_errlvl (s : sim65s) (v : Nat) : (set_pc s v).errlvl = s.errlvl := rfl

@[simp]
theorem set_pc_err_addr (s : sim65s) (v : Nat) : (set_pc s v).err_addr = s.err_addr := rfl

@[simp]
theorem set_pc_cycles (s : sim65s) (v : Nat) : (set_pc s v).cycles = s.cycles := rfl

@[simp]
theorem set_pc_cycle_limit (s : sim65s) (v : Nat) : (set_pc s v).cycle_limit = s.cycle_limit := rfl

@[simp]
theorem set_pc_do_prof (s : sim65s) (v : Nat) : (set_pc s v).do_prof = s.do_prof := rfl

@[simp]
theorem set_pc_r (s : sim65s) (v : Nat) : (set_pc s v).r = { s.r with pc := v % 65536 } := rfl

@[simp]
theorem set_pc_p_valid (s : sim65s) (v : Nat) : (set_pc s v).p_valid = s.p_valid := rfl

@[simp]
theorem set_pc_mem (s : sim65s) (v : Nat) : (set_pc s v).mem = s.mem := rfl

@[simp]
theorem set_pc_mems (s : sim65s) (v : Nat) : (set_pc s v).mems = s.mems := rfl

@[simp]
theorem set_pc_cb_read (s : sim65s) (v : Nat) : (set_pc s v).cb_read = s.cb_read := rfl

@[simp]
theorem set_pc_cb_write (s : sim65s) (v : Nat) : (set_pc s v).cb_write = s.cb_write := rfl

@[simp]
theorem set_pc_cb_exec (s : sim65s) (v : Nat) : (set_pc s v).cb_exec = s.cb_exec := rfl

@[simp]
theorem set_pc_prof (s : sim65s) (v : Nat) : (set_pc s v).prof = s.prof := rfl

@[simp]
theorem set_pc_labels (s : sim65s) (v : Nat) : (set_pc s v).labels = s.labels := rfl

@[simp]
theorem set_pc_host (s : sim65s) (v : Nat) : (set_pc s v).host = s.host := rfl

@[simp]
theorem add_cycles_debug (s : sim65s) (n : Nat) : (add_cycles s n).debug = s.debug := rfl

@[simp]
theorem add_cycles_error (s : sim65s) (n : Nat) : (add_cycles s n).error = s.error := rfl

@[simp]
theorem add_cycles_errlvl (s : sim65s) (n : Nat) : (add_cycles s n).errlvl = s.errlvl := rfl

@[simp]
theorem add_cycles_err_addr (s : sim65s) (n : Nat) : (add_cycles s n).err_addr = s.err_addr := rfl

@[simp]
theorem add_cycles_cycles (s : sim65s) (n : Nat) : (add_cycles s n).cycles = (s.cycles + n) % 2 ^ 64 := rfl

@[simp]
theorem add_cycles_cycle_limit (s : sim65s) (n : Nat) : (add_cycles s n).cycle_limit = s.cycle_limit := rfl

@[simp]
theorem add_cycles_do_prof (s : sim65s) (n : Nat) : (add_cycles s n).do_prof = s.do_prof := rfl

@[simp]
theorem add_cycles_r (s : sim65s) (n : Nat) : (add_cycles s n).r = s.r := rfl

@[simp]
theorem add_cycles_p_valid (s : sim65s) (n : Nat) : (add_cycles s n).p_valid = s.p_valid := rfl

@[simp]
theorem add_cycles_mem (s : sim65s) (n : Nat) : (add_cycles s n).mem = s.mem := rfl

@[simp]
theorem add_cycles_mems (s : sim65s) (n : Nat) : (add_cycles s n).mems = s.mems := rfl

@[simp]
theorem add_cycles_cb_read (s : sim65s) (n : Nat) : (add_cycles s n).cb_read = s.cb_read := rfl

@[simp]
theorem add_cycles_cb_write (s : sim65s) (n : Nat) : (add_cycles s n).cb_write = s.cb_write := rfl

@[simp]
theorem add_cycles_cb_exec (s : sim65s) (n : Nat) : (add_cycles s n).cb_exec = s.cb_exec := rfl

@[simp]
theorem add_cycles_prof (s : sim65s) (n : Nat) : (add_cycles s n).prof = s.prof := rfl

@[simp]
theorem add_cycles_labels (s : sim65s) (n : Nat) : (add_cycles s n).labels = s.labels := rfl

@[simp]
theorem add_cycles_host (s : sim65s) (n : Nat) : (add_cycles s n).host = s.host := rfl

@[simp]
theorem set_flags_debug (s : sim65s) (m v : Nat) : (set_flags s m v).debug = s.debug := rfl

@[simp]
theorem set_flags_error (s : sim65s) (m v : Nat) : (set_flags s m v).error = s.error := rfl

@[simp]
theorem set_flags_errlvl (s : sim65s) (m v : Nat) : (set_flags s m v).errlvl = s.errlvl := rfl

@[simp]
theorem set_flags_err_addr (s : sim65s) (m v : Nat) : (set_flags s m v).err_addr = s.err_addr := rfl

@[simp]
theorem set_flags_cycles (s : sim65s) (m v : Nat) : (set_flags s m v).cycles = s.cycles := rfl

@[simp]
theorem set_flags_cycle_limit (s : sim65s) (m v : Nat) : (set_flags s m v).cycle_limit = s.cycle_limit := rfl

@[simp]
theorem set_flags_do_prof (s : sim65s) (m v : Nat) : (set_flags s m v).do_prof = s.do_prof := rfl

@[simp]
theorem set_flags_r (s : sim65s) (m v : Nat) : (set_flags s m v).r = { s.r with p := ((s.r.p &&& not8 (m % 256)) ||| (v % 256)) % 256 } := rfl

@[simp]
theorem set_flags_p_valid (s : sim65s) (m v : Nat) : (set_flags s m v).p_valid = (s.p_valid &&& not8 (m % 256)) % 256 := rfl

@[simp]
theorem set_flags_mem (s : sim65s) (m v : Nat) : (set_flags s m v).mem = s.mem := rfl

@[simp]
theorem set_flags_mems (s : sim65s) (m v : Nat) : (set_flags s m v).mems = s.mems := rfl

@[simp]
theorem set_flags_cb_read (s : sim65s) (m v : Nat) : (set_flags s m v).cb_read = s.cb_read := rfl

@[simp]
theorem set_flags_cb_write (s : sim65s) (m v : Nat) : (set_flags s m v).cb_write = s.cb_write := rfl

@[simp]
theorem set_flags_cb_exec (s : sim65s) (m v : Nat) : (set_flags s m v).cb_exec = s.cb_exec := rfl

@[simp]
theorem set_flags_prof (s : sim65s) (m v : Nat) : (set_flags s m v).prof = s.prof := rfl

@[simp]
theorem set_flags_labels (s : sim65s) (m v : Nat) : (set_flags s m v).labels = s.labels := rfl

@[simp]
theorem set_flags_host (s : sim65s) (m v : Nat) : (set_flags s m v).host = s.host := rfl

/-! ## Bits and flags -/

theorem and_two_pow_ne_zero (x i : Nat) : (x &&& 2 ^ i ≠ 0) ↔ x.testBit i = true := by
  rw [Nat.and_two_pow]
  cases h : x.testBit i <;> simp [Nat.pos_pow_of_pos]

theorem testBit_not8 (m j : Nat) : (not8 m).testBit j = xor (decide (j < 8)) (m.testBit j) := by
  unfold not8
  rw [Nat.testBit_xor]
  congr 1
  exact Nat.testBit_two_pow_sub_one 8 j

theorem testBit_set_flags (s : sim65s) (m v j : Nat) :
    (set_flags s m v).r.p.testBit j =
      (decide (j < 8) && ((s.r.p.testBit j && !(m % 256).testBit j) || (v % 256).testBit j)) := by
  simp only [set_flags]
  rw [show (256:Nat) = 2^8 from rfl, Nat.testBit_mod_two_pow, Nat.testBit_or, Nat.testBit_and, testBit_not8]
  by_cases h : j < 8 <;> simp [h]

theorem flag_two_pow (s : sim65s) (i : Nat) : flag s (2 ^ i) = s.r.p.testBit i := by
  unfold flag
  rw [Bool.eq_iff_iff]
  simp only [decide_eq_true_eq]
  exact and_two_pow_ne_zero _ _

theorem flag_set_flags_pow (s : sim65s) (i j : Nat) (hi : i < 8) (hj : j < 8) (b : Bool) :
    flag (set_flags s (2 ^ j) (if b then 2 ^ j else 0)) (2 ^ i) = if i = j then b else flag s (2 ^ i) := by
  rw [flag_two_pow, flag_two_pow, testBit_set_flags]
  have h1 : (2 ^ j % 256 : Nat) = 2 ^ j := Nat.mod_eq_of_lt (by
    have : (2:Nat) ^ j < 2 ^ 8 := Nat.pow_lt_pow_right (by norm_num) hj
    simpa using this)
  rw [h1, Nat.testBit_two_pow]
  cases b
  · by_cases h : i = j
    · subst h; simp [hi]
    · have h' : ¬ j = i := fun e => h e.symm
      simp [hi, h, h']
  · simp only [if_true, h1, Nat.testBit_two_pow]
    by_cases h : i = j
    · subst h; simp [hi]
    · have h' : ¬ j = i := fun e => h e.symm
      simp [hi, h, h']

theorem flag_list_pow (f : Nat) (hf : f ∈ flag_list) : ∃ i, i < 8 ∧ f = 2 ^ i := by
  simp only [flag_list, List.mem_cons, List.mem_singleton, List.not_mem_nil, or_false] at hf
  rcases hf with h | h | h | h | h | h | h
  · exact ⟨0, by norm_num, h⟩
  · exact ⟨1, by norm_num, h⟩
  · exact ⟨2, by norm_num, h⟩
  · exact ⟨3, by norm_num, h⟩
  · exact ⟨4, by norm_num, h⟩
  · exact ⟨6, by norm_num, h⟩
  · exact ⟨7, by norm_num, h⟩

theorem flag_set_flags (s : sim65s) (f g : Nat) (hf : f ∈ flag_list) (hg : g ∈ flag_list) (b : Bool) :
    flag (set_flags s g (if b then g else 0)) f = if f = g then b else flag s f := by
  obtain ⟨i, hi, rfl⟩ := flag_list_pow f hf
  obtain ⟨j, hj, rfl⟩ := flag_list_pow g hg
  rw [flag_set_flags_pow s i j hi hj b]
  by_cases h : i = j
  · subst h; simp
  · have : ¬ (2:Nat) ^ i = 2 ^ j := fun e => h (Nat.pow_right_injective (le_refl 2) e)
    simp [h, this]

theorem get_flags_ne_zero (s : sim65s) (f : Nat) (hf : f < 256) :
    get_flags s f ≠ 0 ↔ flag s f = true := by
  unfold get_flags flag
  rw [Nat.mod_eq_of_lt hf]
  have : s.r.p &&& f < 256 := lt_of_le_of_lt Nat.and_le_right hf
  rw [Nat.mod_eq_of_lt this]
  simp

theorem GETC_ne_zero (s : sim65s) : GETC s ≠ 0 ↔ flag s FLAG_C = true :=
  get_flags_ne_zero s FLAG_C (by decide)

theorem GETD_ne_zero (s : sim65s) : GETD s ≠ 0 ↔ flag s FLAG_D = true :=
  get_flags_ne_zero s FLAG_D (by decide)

theorem GETC_ite (s : sim65s) (x y : Nat) :
    (if GETC s ≠ 0 then x else y) = if flag s FLAG_C then x else y := by
  by_cases h : flag s FLAG_C = true
  · rw [if_pos ((GETC_ne_zero s).2 h), if_pos h]
  · rw [if_neg (fun e => h ((GETC_ne_zero s).1 e)), if_neg h]

theorem flag_SETC (s : sim65s) (b : Bool) (f : Nat) (hf : f ∈ flag_list) :
    flag (SETC s b) f = if f = FLAG_C then b else flag s f :=
  flag_set_flags s f FLAG_C hf (by decide) b

theorem flag_SETV (s : sim65s) (b : Bool) (f : Nat) (hf : f ∈ flag_list) :
    flag (SETV s b) f = if f = FLAG_V then b else flag s f :=
  flag_set_flags s f FLAG_V hf (by decide) b

theorem SETZ_eq (s : sim65s) (a : Nat) :
    SETZ s a = set_flags s FLAG_Z (if decide (a % 256 = 0) then FLAG_Z else 0) := by
  unfold SETZ
  rw [show (0xFF : Nat) = 2 ^ 8 - 1 from rfl, Nat.and_pow_two_sub_one_eq_mod]
  by_cases h : a % 2 ^ 8 = 0 <;> simp [h]

theorem SETN_eq (s : sim65s) (a : Nat) :
    SETN s a = set_flags s FLAG_N (if a.testBit 7 then FLAG_N else 0) := by
  unfold SETN
  have : a &&& 0x80 ≠ 0 ↔ a.testBit 7 = true := and_two_pow_ne_zero a 7
  by_cases h : a.testBit 7 = true
  · rw [if_pos (this.2 h), if_pos h]
  · rw [if_neg (fun e => h (this.1 e)), if_neg h]

theorem flag_SETZ (s : sim65s) (a : Nat) (f : Nat) (hf : f ∈ flag_list) :
    flag (SETZ s a) f = if f = FLAG_Z then decide (a % 256 = 0) else flag s f := by
  rw [SETZ_eq]; exact flag_set_flags s f FLAG_Z hf (by decide) _

theorem flag_SETN (s : sim65s) (a : Nat) (f : Nat) (hf : f ∈ flag_list) :
    flag (SETN s a) f = if f = FLAG_N then a.testBit 7 else flag s f := by
  rw [SETN_eq]; exact flag_set_flags s f FLAG_N hf (by decide) _

theorem testBit7 (x : Nat) : x.testBit 7 = decide (x / 128 % 2 = 1) := by
  rw [Nat.testBit_to_div_mod]

theorem and_0x80_ne_zero (x : Nat) : (x &&& 0x80 ≠ 0) ↔ x / 128 % 2 = 1 := by
  have := and_two_pow_ne_zero x 7
  rw [testBit7] at this
  simpa using this

theorem not32_testBit (x i : Nat) (hi : i < 32) : (not32 x).testBit i = !x.testBit i := by
  unfold not32
  rw [Nat.testBit_xor, show (0xFFFFFFFF : Nat) = 2 ^ 32 - 1 from rfl, Nat.testBit_two_pow_sub_one,
    Nat.testBit_mod_two_pow]
  simp [hi]

theorem adc_overflow (a v c : Nat) (ha : a < 256) (hv : v < 256) (hc : c ≤ 1) :
    ((not32 (a ^^^ v) &&& (a ^^^ (a + v + c))) &&& 0x80 ≠ 0) ↔
      (signed8 a + signed8 v + (c : Int) < -128 ∨ 127 < signed8 a + signed8 v + (c : Int)) := by
  have h := and_two_pow_ne_zero (not32 (a ^^^ v) &&& (a ^^^ (a + v + c))) 7
  rw [show (0x80 : Nat) = 2 ^ 7 from rfl, h, Nat.testBit_and, not32_testBit _ _ (by norm_num),
    Nat.testBit_xor, Nat.testBit_xor, testBit7, testBit7, testBit7]
  unfold signed8
  by_cases h1 : a / 128 % 2 = 1 <;> by_cases h2 : v / 128 % 2 = 1 <;>
    by_cases h3 : (a + v + c) / 128 % 2 = 1 <;> simp [h1, h2, h3] <;> split_ifs <;> omega

@[simp]
theorem set_flags_a (s : sim65s) (m v : Nat) : (set_flags s m v).r.a = s.r.a := rfl
@[simp]
theorem SETC_a (s : sim65s) (b : Bool) : (SETC s b).r.a = s.r.a := rfl
@[simp]
theorem SETV_a (s : sim65s) (b : Bool) : (SETV s b).r.a = s.r.a := rfl
@[simp]
theorem SETZ_a (s : sim65s) (x : Nat) : (SETZ s x).r.a = s.r.a := rfl
@[simp]
theorem SETN_a (s : sim65s) (x : Nat) : (SETN s x).r.a = s.r.a := rfl

theorem flag_congr_p (s t : sim65s) (f : Nat) (h : t.r.p = s.r.p) : flag t f = flag s f := by
  unfold flag; rw [h]

theorem do_adc_binary_eq (s : sim65s) (v : Nat) (hD : flag s FLAG_D = false) :
    do_adc s v =
      set_a (SETZ (SETN (SETC (SETV s
        (decide ((not32 (s.r.a ^^^ v) &&& (s.r.a ^^^ ((s.r.a + v + carry_in s) % 2^32))) &&& 0x80 ≠ 0)))
        (decide ((s.r.a + v + carry_in s) % 2^32 > 0xFF))) ((s.r.a + v + carry_in s) % 2^32))
        ((s.r.a + v + carry_in s) % 2^32)) (((s.r.a + v + carry_in s) % 2^32) &&& 0xFF) := by
  have hd : ¬ GETD s ≠ 0 := fun e => by
    rw [GETD_ne_zero, hD] at e; exact Bool.noConfusion e
  unfold do_adc
  rw [if_neg hd]
  simp only [GETC_ite, carry_in, set_a, SETC_a, SETV_a, SETZ_a, SETN_a]

theorem flag_SETZ_C (s : sim65s) (x : Nat) : flag (SETZ s x) FLAG_C = flag s FLAG_C := by
  rw [flag_SETZ _ _ _ (by decide)]; simp [FLAG_C, FLAG_Z]

theorem do_adc_decimal_eq (s : sim65s) (v : Nat) (hD : flag s FLAG_D = true) :
    do_adc s v =
      set_a (SETC (SETV (SETN (SETZ s ((s.r.a + v + carry_in s) % 2^32))
          (adc_dec_mid s.r.a v (carry_in s)))
          (decide ((s.r.a ^^^ v) &&& 0x80 = 0) &&
            decide ((v ^^^ adc_dec_mid s.r.a v (carry_in s)) &&& 0x80 ≠ 0)))
          (decide (adc_dec_fin s.r.a v (carry_in s) > 0xFF)))
        (adc_dec_fin s.r.a v (carry_in s) &&& 0xFF) := by
  have hd : GETD s ≠ 0 := (GETD_ne_zero s).2 hD
  unfold do_adc
  rw [if_pos hd]
  simp only [GETC_ite, carry_in, set_a, SETC_a, SETV_a, SETZ_a, SETN_a, flag_SETZ_C,
    adc_dec_fin, adc_dec_mid, adc_dec_lo]

theorem and_0xF (x : Nat) : x &&& 0xF = x % 16 := Nat.and_pow_two_sub_one_eq_mod x 4
theorem and_0xFF (x : Nat) : x &&& 0xFF = x % 256 := Nat.and_pow_two_sub_one_eq_mod x 8
theorem and_0xFFFF (x : Nat) : x &&& 0xFFFF = x % 65536 := Nat.and_pow_two_sub_one_eq_mod x 16

theorem and_0xF0 (x : Nat) (hx : x < 256) : x &&& 0xF0 = x / 16 * 16 := by
  interval_cases x <;> rfl

theorem or_16 (x : Nat) (hx : x < 16) : x ||| 16 = x + 16 := by
  revert x; decide

theorem adc_bcd_core (ah al vh vl c : Nat) (ha1 : ah ≤ 9) (ha2 : al ≤ 9) (hv1 : vh ≤ 9)
    (hv2 : vl ≤ 9) (hc : c ≤ 1) :
    ∃ fin : Nat,
      fin = (if (if al + vl + c ≥ 10 then al + vl + c - 10 + 16 else al + vl + c) +
                  (ah * 16 + vh * 16) > 0x9F
             then (if al + vl + c ≥ 10 then al + vl + c - 10 + 16 else al + vl + c) +
                  (ah * 16 + vh * 16) + 0x60
             else (if al + vl + c ≥ 10 then al + vl + c - 10 + 16 else al + vl + c) +
                  (ah * 16 + vh * 16)) ∧
      fin < 2 ^ 32 - 0x60 ∧
      fin % 256 = (ah * 10 + al + (vh * 10 + vl) + c) % 100 / 10 * 16 +
                  (ah * 10 + al + (vh * 10 + vl) + c) % 100 % 10 ∧
      (fin > 0xFF ↔ ah * 10 + al + (vh * 10 + vl) + c ≥ 100) := by
  refine ⟨_, rfl, ?_, ?_, ?_⟩
  · split_ifs <;> omega
  · by_cases h10 : al + vl + c ≥ 10
    · by_cases hh : ah + vh + 1 ≥ 10
      · have hd : (ah * 10 + al + (vh * 10 + vl) + c) % 100 =
            10 * (ah + vh + 1 - 10) + (al + vl + c - 10) := by omega
        rw [hd, if_pos h10, if_pos (by omega)]
        omega
      · have hd : (ah * 10 + al + (vh * 10 + vl) + c) % 100 =
            10 * (ah + vh + 1) + (al + vl + c - 10) := by omega
        rw [hd, if_pos h10, if_neg (by omega)]
        omega
    · by_cases hh : ah + vh ≥ 10
      · have hd : (ah * 10 + al + (vh * 10 + vl) + c) % 100 =
            10 * (ah + vh - 10) + (al + vl + c) := by omega
        rw [hd, if_neg h10, if_pos (by omega)]
        omega
      · have hd : (ah * 10 + al + (vh * 10 + vl) + c) % 100 =
            10 * (ah + vh) + (al + vl + c) := by omega
        rw [hd, if_neg h10, if_neg (by omega)]
        omega
  · split_ifs <;> omega

theorem adc_dec_fin_bcd (a v c : Nat) (ha : bcd_valid a) (hv : bcd_valid v) (hc : c ≤ 1) :
    adc_dec_fin a v c % 256 = bcd_enc ((bcd_dec a + bcd_dec v + c) % 100) ∧
    (adc_dec_fin a v c > 0xFF ↔ bcd_dec a + bcd_dec v + c ≥ 100) := by
  obtain ⟨ha1, ha2⟩ := ha
  obtain ⟨hv1, hv2⟩ := hv
  have ha' : a < 256 := by omega
  have hv' : v < 256 := by omega
  unfold adc_dec_fin adc_dec_mid adc_dec_lo bcd_enc bcd_dec
  rw [and_0xF, and_0xF, and_0xF0 a ha', and_0xF0 v hv']
  clear ha' hv'
  generalize a % 16 = al at *
  generalize a / 16 = ah at *
  generalize v % 16 = vl at *
  generalize v / 16 = vh at *
  have hor : (al + vl + c - 10) ||| 16 = al + vl + c - 10 + 16 := or_16 _ (by omega)
  rw [hor]
  obtain ⟨fin, hfin, hlt, h1, h2⟩ := adc_bcd_core ah al vh vl c ha1 ha2 hv1 hv2 hc
  have hmid : ((if al + vl + c ≥ 10 then al + vl + c - 10 + 16 else al + vl + c) +
      (ah * 16 + vh * 16)) % 2 ^ 32 =
      (if al + vl + c ≥ 10 then al + vl + c - 10 + 16 else al + vl + c) + (ah * 16 + vh * 16) :=
    Nat.mod_eq_of_lt (by split_ifs <;> omega)
  rw [hmid]
  have hfin2 : (0x60 + ((if al + vl + c ≥ 10 then al + vl + c - 10 + 16 else al + vl + c) +
      (ah * 16 + vh * 16))) % 2 ^ 32 =
      (if al + vl + c ≥ 10 then al + vl + c - 10 + 16 else al + vl + c) + (ah * 16 + vh * 16) + 0x60 :=
    (Nat.mod_eq_of_lt (by split_ifs <;> omega)).trans (Nat.add_comm _ _)
  rw [hfin2, ← hfin]
  exact ⟨h1, h2⟩

theorem flag_set_a (s : sim65s) (x f : Nat) : flag (set_a s x) f = flag s f := rfl

theorem set_a_a (s : sim65s) (x : Nat) : (set_a s x).r.a = x % 256 := rfl

/-! ## ADC -/

/-- C2. Binary-mode ADC (D clear): for every accumulator `A` and operand `v` in 0..255 and
either carry-in `c`, `do_adc` leaves `A' = (A + v + c) mod 256`, `C' = 1` iff
`A + v + c > 255`, `Z' = 1` iff `A' = 0`, `N'` equal to bit 7 of `A'`, and `V' = 1` iff the
signed sum `signed(A) + signed(v) + c` lies outside `[-128, 127]`. -/
theorem adc_binary_correct (s : sim65s) (v : Nat) (ha : s.r.a < 256) (hv : v < 256)
    (hD : flag s FLAG_D = false) :
    (do_adc s v).r.a = (s.r.a + v + carry_in s) % 256 ∧
    flag (do_adc s v) FLAG_C = decide (s.r.a + v + carry_in s > 255) ∧
    flag (do_adc s v) FLAG_Z = decide ((do_adc s v).r.a = 0) ∧
    flag (do_adc s v) FLAG_N = (do_adc s v).r.a.testBit 7 ∧
    flag (do_adc s v) FLAG_V =
      decide (signed8 s.r.a + signed8 v + (carry_in s : Int) < -128 ∨
              127 < signed8 s.r.a + signed8 v + (carry_in s : Int)) := by
  have hc : carry_in s ≤ 1 := by unfold carry_in; split <;> omega
  have ht : (s.r.a + v + carry_in s) % 2^32 = s.r.a + v + carry_in s :=
    Nat.mod_eq_of_lt (by omega)
  rw [do_adc_binary_eq s v hD, ht]
  generalize carry_in s = c at *
  have hA : ∀ t : sim65s, ∀ x, (set_a t x).r.a = x % 256 := fun _ _ => rfl
  have hF : ∀ (t : sim65s) x f, flag (set_a t x) f = flag t f := fun _ _ _ => rfl
  have h255 : (s.r.a + v + c) &&& 0xFF = (s.r.a + v + c) % 256 :=
    Nat.and_pow_two_sub_one_eq_mod _ 8
  simp only [hA, hF, h255, Nat.mod_mod]
  refine ⟨trivial, ?_, ?_, ?_, ?_⟩
  · rw [flag_SETZ _ _ _ (by decide), flag_SETN _ _ _ (by decide), flag_SETC _ _ _ (by decide)]
    simp [FLAG_C, FLAG_Z, FLAG_N]
  · rw [flag_SETZ _ _ _ (by decide)]
    simp [FLAG_Z]
  · rw [flag_SETZ _ _ _ (by decide), flag_SETN _ _ _ (by decide)]
    simp only [FLAG_Z, FLAG_N]
    simp [testBit7]
    omega
  · rw [flag_SETZ _ _ _ (by decide), flag_SETN _ _ _ (by decide), flag_SETC _ _ _ (by decide),
      flag_SETV _ _ _ (by decide)]
    simp only [FLAG_Z, FLAG_N, FLAG_C, FLAG_V]
    simp only [if_true, Nat.reduceEqDiff, if_false]
    rw [Bool.eq_iff_iff]
    simp only [decide_eq_true_eq]
    exact adc_overflow _ _ _ ha hv hc

/-- The instance `A = 0x50`, `v = 0xD0`, `C = 0` of `adc_binary_correct`. -/
theorem adc_binary_correct_witness :
    (set_a sim65_new 0x50).r.a < 256 ∧ 0xD0 < 256 ∧
    flag (set_a sim65_new 0x50) FLAG_D = false ∧
    ((do_adc (set_a sim65_new 0x50) 0xD0).r.a =
        ((set_a sim65_new 0x50).r.a + 0xD0 + carry_in (set_a sim65_new 0x50)) % 256 ∧
      flag (do_adc (set_a sim65_new 0x50) 0xD0) FLAG_C =
        decide ((set_a sim65_new 0x50).r.a + 0xD0 + carry_in (set_a sim65_new 0x50) > 255) ∧
      flag (do_adc (set_a sim65_new 0x50) 0xD0) FLAG_Z =
        decide ((do_adc (set_a sim65_new 0x50) 0xD0).r.a = 0) ∧
      flag (do_adc (set_a sim65_new 0x50) 0xD0) FLAG_N =
        (do_adc (set_a sim65_new 0x50) 0xD0).r.a.testBit 7 ∧
      flag (do_adc (set_a sim65_new 0x50) 0xD0) FLAG_V =
        decide (signed8 (set_a sim65_new 0x50).r.a + signed8 0xD0 +
                  (carry_in (set_a sim65_new 0x50) : Int) < -128 ∨
                127 < signed8 (set_a sim65_new 0x50).r.a + signed8 0xD0 +
                  (carry_in (set_a sim65_new 0x50) : Int))) :=
  ⟨by decide, by decide, by decide,
    adc_binary_correct (set_a sim65_new 0x50) 0xD0 (by decide) (by decide) (by decide)⟩


/-- C3. Decimal-mode ADC (D set) on valid packed BCD: for every `A` and operand `v` whose
two nibbles are each at most 9 and either carry-in `c`, `do_adc` leaves `A'` equal to the
packed-BCD encoding of `(dec(A) + dec(v) + c) mod 100` and `C' = 1` iff
`dec(A) + dec(v) + c >= 100`. -/
theorem adc_decimal_bcd (s : sim65s) (v : Nat) (hD : flag s FLAG_D = true)
    (ha : bcd_valid s.r.a) (hv : bcd_valid v) :
    (do_adc s v).r.a = bcd_enc ((bcd_dec s.r.a + bcd_dec v + carry_in s) % 100) ∧
    flag (do_adc s v) FLAG_C = decide (bcd_dec s.r.a + bcd_dec v + carry_in s ≥ 100) := by
  have hc : carry_in s ≤ 1 := by unfold carry_in; split <;> omega
  obtain ⟨h1, h2⟩ := adc_dec_fin_bcd s.r.a v (carry_in s) ha hv hc
  rw [do_adc_decimal_eq s v hD]
  refine ⟨?_, ?_⟩
  · rw [set_a_a, and_0xFF, Nat.mod_mod, h1]
  · rw [flag_set_a, flag_SETC _ _ _ (by decide), if_pos rfl]
    rw [Bool.eq_iff_iff]
    simp only [decide_eq_true_eq]
    exact h2

/-- The instance `A = 0x25`, `v = 0x37`, `C = 0` of `adc_decimal_bcd`: `A' = 0x62`,
`C' = 0`. -/
theorem adc_decimal_bcd_witness :
    flag (set_a (set_flags sim65_new 0xFF 0x08) 0x25) FLAG_D = true ∧
    bcd_valid (set_a (set_flags sim65_new 0xFF 0x08) 0x25).r.a ∧ bcd_valid 0x37 ∧
    ((do_adc (set_a (set_flags sim65_new 0xFF 0x08) 0x25) 0x37).r.a = 0x62 ∧
      flag (do_adc (set_a (set_flags sim65_new 0xFF 0x08) 0x25) 0x37) FLAG_C = false) :=
  ⟨by decide, by decide, by decide,
    adc_decimal_bcd (set_a (set_flags sim65_new 0xFF 0x08) 0x25) 0x37 (by decide) (by decide)
      (by decide)⟩

/-- C4, as stated, fails: with D=1, C=0, A=0x75 and operand 0x75 the N flag is set. -/
theorem adc_decimal_75_claim_fails :
    ¬ ((do_adc (set_a (set_flags sim65_new 0xFF 0x08) 0x75) 0x75).r.a = 0x50 ∧
       flag (do_adc (set_a (set_flags sim65_new 0xFF 0x08) 0x75) 0x75) FLAG_C = true ∧
       flag (do_adc (set_a (set_flags sim65_new 0xFF 0x08) 0x75) 0x75) FLAG_N = false ∧
       flag (do_adc (set_a (set_flags sim65_new 0xFF 0x08) 0x75) 0x75) FLAG_V = true) := by
  decide

/-- C4, amended. Decimal-mode ADC with D=1, C=0, A=0x75 and operand 0x75 yields A=0x50,
C=1, N=1 and V=1: N is taken from the sum before the high-nibble correction (0xF0). -/
theorem adc_decimal_75 (s : sim65s) (hD : flag s FLAG_D = true) (hC : flag s FLAG_C = false)
    (hA : s.r.a = 0x75) :
    (do_adc s 0x75).r.a = 0x50 ∧ flag (do_adc s 0x75) FLAG_C = true ∧
    flag (do_adc s 0x75) FLAG_N = true ∧ flag (do_adc s 0x75) FLAG_V = true := by
  have hc : carry_in s = 0 := by unfold carry_in; rw [hC]; rfl
  rw [do_adc_decimal_eq s 0x75 hD, hA, hc]
  have hmid : adc_dec_mid 0x75 0x75 0 = 0xF0 := by decide
  have hfin : adc_dec_fin 0x75 0x75 0 = 0x150 := by decide
  rw [hmid, hfin]
  refine ⟨?_, ?_, ?_, ?_⟩
  · rw [set_a_a]; decide
  · rw [flag_set_a, flag_SETC _ _ _ (by decide), if_pos rfl]; decide
  · rw [flag_set_a, flag_SETC _ _ _ (by decide), flag_SETV _ _ _ (by decide),
      flag_SETN _ _ _ (by decide), if_neg (by decide), if_neg (by decide), if_pos rfl]
    decide
  · rw [flag_set_a, flag_SETC _ _ _ (by decide), flag_SETV _ _ _ (by decide),
      if_neg (by decide), if_pos rfl]
    decide

/-- The instance of `adc_decimal_75` at the state made by `sim65_new`, D set, A=0x75. -/
theorem adc_decimal_75_witness :
    flag (set_a (set_flags sim65_new 0xFF 0x08) 0x75) FLAG_D = true ∧
    flag (set_a (set_flags sim65_new 0xFF 0x08) 0x75) FLAG_C = false ∧
    (set_a (set_flags sim65_new 0xFF 0x08) 0x75).r.a = 0x75 ∧
    ((do_adc (set_a (set_flags sim65_new 0xFF 0x08) 0x75) 0x75).r.a = 0x50 ∧
      flag (do_adc (set_a (set_flags sim65_new 0xFF 0x08) 0x75) 0x75) FLAG_C = true ∧
      flag (do_adc (set_a (set_flags sim65_new 0xFF 0x08) 0x75) 0x75) FLAG_N = true ∧
      flag (do_adc (set_a (set_flags sim65_new 0xFF 0x08) 0x75) 0x75) FLAG_V = true) :=
  ⟨by decide, by decide, by decide,
    adc_decimal_75 (set_a (set_flags sim65_new 0xFF 0x08) 0x75) (by decide) (by decide)
      (by decide)⟩

/-! ## Instruction fetch -/

theorem err_only_refl (s : sim65s) : err_only s s := rfl

theorem err_only_trans {s t u : sim65s} (h1 : err_only s t) (h2 : err_only t u) : err_only s u := by
  unfold err_only at *
  rw [h2, h1]

theorem err_only_set_error (s : sim65s) (e : Int) (a : Nat) : err_only s (set_error s e a) := by
  unfold set_error err_only
  split <;> rfl

theorem readPc_fst (s : sim65s) (off : Nat) :
    (readPc s off).1 = s.mem ((s.r.pc + off) % 65536) % 256 := by
  unfold readPc readPc_slow
  simp only
  split
  · rfl
  · split
    · simp only [set_error]; split <;> rfl
    · simp only [set_error]; split <;> rfl

theorem readPc_err_only (s : sim65s) (off : Nat) : err_only s (readPc s off).2 := by
  unfold readPc readPc_slow
  simp only
  split
  · exact err_only_refl s
  · split
    · exact err_only_set_error _ _ _
    · exact err_only_set_error _ _ _

theorem readPc_clean (s : sim65s) (off : Nat) (h : exec_clean s ((s.r.pc + off) % 65536)) :
    (readPc s off).2 = s := by
  unfold readPc
  unfold exec_clean at h
  simp only [h, if_true]

theorem err_only_r {s t : sim65s} (h : err_only s t) : t.r = s.r := by rw [h]
theorem err_only_mem {s t : sim65s} (h : err_only s t) : t.mem = s.mem := by rw [h]
theorem err_only_mems {s t : sim65s} (h : err_only s t) : t.mems = s.mems := by rw [h]
theorem err_only_cycles {s t : sim65s} (h : err_only s t) : t.cycles = s.cycles := by rw [h]

theorem next_fetch_eq (s : sim65s) :
    next_fetch s =
      ((readPc s 0).1,
       (if ilen (readPc s 0).1 > 2 then
          (readPc (readPc s 0).2 1).1 ||| ((readPc (readPc (readPc s 0).2 1).2 2).1 <<< 8)
        else if ilen (readPc s 0).1 > 1 then (readPc (readPc s 0).2 1).1 else 0),
       (if ilen (readPc s 0).1 > 2 then (readPc (readPc (readPc s 0).2 1).2 2).2
        else if ilen (readPc s 0).1 > 1 then (readPc (readPc s 0).2 1).2 else (readPc s 0).2)) := by
  unfold next_fetch
  simp only
  by_cases h2 : ilen (readPc s 0).1 > 2
  · have h1 : ilen (readPc s 0).1 > 1 := by omega
    simp only [h1, h2, if_true]
  · by_cases h1 : ilen (readPc s 0).1 > 1
    · simp only [h1, h2, if_true, if_false]
    · simp only [h1, h2, if_false]

theorem next_fetch_ins (s : sim65s) : (next_fetch s).1 = opcode_at s := by
  rw [next_fetch_eq]
  simp only [readPc_fst, opcode_at, Nat.add_zero]

theorem next_fetch_err_only (s : sim65s) : err_only s (next_fetch s).2.2 := by
  rw [next_fetch_eq]
  simp only
  have h0 := readPc_err_only s 0
  have h1 := readPc_err_only (readPc s 0).2 1
  have h2 := readPc_err_only (readPc (readPc s 0).2 1).2 2
  split
  · exact err_only_trans h0 (err_only_trans h1 h2)
  · split
    · exact err_only_trans h0 h1
    · exact h0

theorem next_fetch_data (s : sim65s) : (next_fetch s).2.1 = operand s := by
  rw [next_fetch_eq]
  have h0 := readPc_err_only s 0
  have h1 := readPc_err_only (readPc s 0).2 1
  simp only [readPc_fst, operand, opcode_at, operand1, operand2, Nat.add_zero,
    err_only_r h0, err_only_mem h0, err_only_r h1, err_only_mem h1]

theorem next_fetch_clean (s : sim65s) (h0 : exec_clean s (s.r.pc % 65536))
    (h1 : ilen (opcode_at s) > 1 → exec_clean s ((s.r.pc + 1) % 65536))
    (h2 : ilen (opcode_at s) > 2 → exec_clean s ((s.r.pc + 2) % 65536)) :
    (next_fetch s).2.2 = s := by
  rw [next_fetch_eq]
  have e0 : (readPc s 0).2 = s := readPc_clean s 0 h0
  have i0 : (readPc s 0).1 = opcode_at s := by rw [readPc_fst]; rfl
  simp only [e0, i0]
  split
  · rename_i h
    have e1 : (readPc s 1).2 = s := readPc_clean s 1 (h1 (by omega))
    rw [e1]
    exact readPc_clean s 2 (h2 h)
  · split
    · rename_i h
      exact readPc_clean s 1 (h1 h)
    · rfl

theorem print_curr_ins_id (env : CbEnv) (s : sim65s) (pc : Nat) (hint : Bool)
    (h : s.mem (pc % 65536) ∉ trace_read_ops) : print_curr_ins env s pc hint = s := by
  unfold print_curr_ins
  have e : pc % 65536 &&& 0xFFFF = pc % 65536 := by
    rw [show (0xFFFF : Nat) = 2 ^ 16 - 1 from rfl, Nat.and_pow_two_sub_one_eq_mod]
    exact Nat.mod_mod _ _
  simp only [e]
  simp only [trace_read_ops, List.mem_cons, List.mem_singleton, List.not_mem_nil, or_false,
    not_or] at h
  simp only [h, if_false]

theorem next_no_cb (env : CbEnv) (s : sim65s) (h : s.cb_exec s.r.pc = none) :
    next env s = next_body env s := by
  unfold next
  rw [h]

theorem next_body_eq (env : CbEnv) (s : sim65s) (hlim : limit_ok s)
    (htr : s.debug ≥ sim65_debug_trace → s.mem (s.r.pc % 65536) ∉ trace_read_ops) :
    next_body env s = next_exec env (opcode_at s) (operand s) (next_fetch s).2.2 := by
  unfold next_body
  have e : (if s.debug ≥ sim65_debug_trace then sim65_print_reg env s else s) = s := by
    split
    · rename_i h
      exact print_curr_ins_id env s s.r.pc true (htr h)
    · rfl
  simp only [e]
  unfold limit_ok at hlim
  rw [if_neg hlim, ← next_fetch_ins, ← next_fetch_data]

/-! ## LDA immediate -/

theorem prof_only_r {s t : sim65s} (h : prof_only s t) : t.r = s.r := by rw [h]
theorem prof_only_mem {s t : sim65s} (h : prof_only s t) : t.mem = s.mem := by rw [h]
theorem prof_only_mems {s t : sim65s} (h : prof_only s t) : t.mems = s.mems := by rw [h]
theorem prof_only_cycles {s t : sim65s} (h : prof_only s t) : t.cycles = s.cycles := by rw [h]
theorem prof_only_error {s t : sim65s} (h : prof_only s t) : t.error = s.error := by rw [h]
theorem prof_only_err_addr {s t : sim65s} (h : prof_only s t) : t.err_addr = s.err_addr := by rw [h]
theorem prof_only_p_valid {s t : sim65s} (h : prof_only s t) : t.p_valid = s.p_valid := by rw [h]

theorem next_exec_prof_only (env : CbEnv) (ins data : Nat) (s : sim65s) :
    prof_only (dispatch env ins data (set_pc s (s.r.pc + ilen ins))) (next_exec env ins data s) := by
  unfold next_exec prof_only
  simp only
  split <;> rfl

theorem flag_congr {s t : sim65s} (h : t.r = s.r) (f : Nat) : flag t f = flag s f := by
  unfold flag; rw [h]

/-- One step from a state without execute callback at PC, within the cycle limit, whose
opcode is not one that the trace printer reads memory for. -/
theorem next_eq_exec (env : CbEnv) (s : sim65s) (hcb : s.cb_exec s.r.pc = none)
    (hlim : limit_ok s) (htr : s.mem (s.r.pc % 65536) ∉ trace_read_ops) :
    next env s = next_exec env (opcode_at s) (operand s) (next_fetch s).2.2 := by
  rw [next_no_cb env s hcb, next_body_eq env s hlim (fun _ => htr)]

/-- C8. LDA immediate: for every operand byte `v`, one step of `next` on the bytes `A9 v` at
the program counter, in initialised memory, leaves `A = v`, `Z = 1` iff `v = 0`, `N` = bit 7
of `v`, `PC = pc + 2` (in 16 bits), 2 more cycles (in 64 bits), and X, Y, S, the flags C, V,
D and I, both memory arrays and the error slot unchanged.  The step is one that reaches the
dispatch: no execute callback at the program counter, cycle limit not reached. -/
theorem lda_imm (env : CbEnv) (s : sim65s) (v : Nat) (hcb : s.cb_exec s.r.pc = none)
    (hlim : limit_ok s) (hop : s.mem (s.r.pc % 65536) = 0xA9)
    (hv : s.mem ((s.r.pc + 1) % 65536) = v) (hv256 : v < 256)
    (hc0 : exec_clean s (s.r.pc % 65536)) (hc1 : exec_clean s ((s.r.pc + 1) % 65536)) :
    (next env s).r.a = v ∧ flag (next env s) FLAG_Z = decide (v = 0) ∧
    flag (next env s) FLAG_N = v.testBit 7 ∧
    (next env s).r.pc = (s.r.pc + 2) % 65536 ∧
    (next env s).cycles = (s.cycles + 2) % 2 ^ 64 ∧
    (next env s).r.x = s.r.x ∧ (next env s).r.y = s.r.y ∧ (next env s).r.s = s.r.s ∧
    flag (next env s) FLAG_C = flag s FLAG_C ∧ flag (next env s) FLAG_V = flag s FLAG_V ∧
    flag (next env s) FLAG_D = flag s FLAG_D ∧ flag (next env s) FLAG_I = flag s FLAG_I ∧
    (next env s).mem = s.mem ∧ (next env s).mems = s.mems ∧
    (next env s).error = s.error ∧ (next env s).err_addr = s.err_addr := by
  have hins : opcode_at s = 0xA9 := by unfold opcode_at; rw [hop]
  have hil : ilen (opcode_at s) = 2 := by rw [hins]; rfl
  have hdat : operand s = v := by
    unfold operand
    rw [hil, if_neg (by decide), if_pos (by decide)]
    unfold operand1
    rw [hv]
    exact Nat.mod_eq_of_lt hv256
  have hfe : (next_fetch s).2.2 = s :=
    next_fetch_clean s hc0 (fun _ => hc1) (fun h => by rw [hil] at h; exact absurd h (by decide))
  have htr : s.mem (s.r.pc % 65536) ∉ trace_read_ops := by rw [hop]; decide
  rw [next_eq_exec env s hcb hlim htr, hins, hdat, hfe]
  have hp := next_exec_prof_only env 0xA9 v s
  have hd : dispatch env 0xA9 v (set_pc s (s.r.pc + ilen 0xA9)) =
      set_a (SETZ (SETN (add_cycles (set_pc s (s.r.pc + 2)) 2) v) v) v := rfl
  rw [hd] at hp
  have hr := prof_only_r hp
  refine ⟨?_, ?_, ?_, ?_, ?_, ?_, ?_, ?_, ?_, ?_, ?_, ?_, ?_, ?_, ?_, ?_⟩
  · rw [hr, set_a_a]; exact Nat.mod_eq_of_lt hv256
  · rw [flag_congr hr, flag_set_a, flag_SETZ _ _ _ (by decide), if_pos rfl, Nat.mod_eq_of_lt hv256]
  · rw [flag_congr hr, flag_set_a, flag_SETZ _ _ _ (by decide), if_neg (by decide),
      flag_SETN _ _ _ (by decide), if_pos rfl]
  · rw [hr]; rfl
  · rw [prof_only_cycles hp]; rfl
  · rw [hr]; rfl
  · rw [hr]; rfl
  · rw [hr]; rfl
  · rw [flag_congr hr, flag_set_a, flag_SETZ _ _ _ (by decide), if_neg (by decide),
      flag_SETN _ _ _ (by decide), if_neg (by decide)]; rfl
  · rw [flag_congr hr, flag_set_a, flag_SETZ _ _ _ (by decide), if_neg (by decide),
      flag_SETN _ _ _ (by decide), if_neg (by decide)]; rfl
  · rw [flag_congr hr, flag_set_a, flag_SETZ _ _ _ (by decide), if_neg (by decide),
      flag_SETN _ _ _ (by decide), if_neg (by decide)]; rfl
  · rw [flag_congr hr, flag_set_a, flag_SETZ _ _ _ (by decide), if_neg (by decide),
      flag_SETN _ _ _ (by decide), if_neg (by decide)]; rfl
  · rw [prof_only_mem hp]; rfl
  · rw [prof_only_mems hp]; rfl
  · rw [prof_only_error hp]; rfl
  · rw [prof_only_err_addr hp]; rfl

/-- The scenario of C8: `A9 42` at `$0200` gives `A = 0x42`, `Z = 0`, `N = 0`, `PC = $0202`
and 2 more cycles. -/
theorem lda_imm_witness :
    lda_state.cb_exec lda_state.r.pc = none ∧ limit_ok lda_state ∧
    lda_state.mem (lda_state.r.pc % 65536) = 0xA9 ∧
    lda_state.mem ((lda_state.r.pc + 1) % 65536) = 0x42 ∧ 0x42 < 256 ∧
    exec_clean lda_state (lda_state.r.pc % 65536) ∧
    exec_clean lda_state ((lda_state.r.pc + 1) % 65536) ∧
    ((next env_none lda_state).r.a = 0x42 ∧ flag (next env_none lda_state) FLAG_Z = false ∧
      flag (next env_none lda_state) FLAG_N = false ∧
      (next env_none lda_state).r.pc = 0x202 ∧
      (next env_none lda_state).cycles = lda_state.cycles + 2) := by
  have h := lda_imm env_none lda_state 0x42 (by decide) (by decide) (by decide) (by decide)
    (by decide) (by decide) (by decide)
  exact ⟨by decide, by decide, by decide, by decide, by decide, by decide, by decide,
    h.1, h.2.1, h.2.2.1, h.2.2.2.1, h.2.2.2.2.1⟩

/-! ## Branches -/

theorem testBit_0xFF00 (i : Nat) : (0xFF00 : Nat).testBit i = (decide (8 ≤ i) && decide (i < 16)) := by
  rw [show (0xFF00 : Nat) = (2 ^ 8 - 1) <<< 8 from rfl, Nat.testBit_shiftLeft,
    Nat.testBit_two_pow_sub_one]
  by_cases h : 8 ≤ i
  · simp [h]; omega
  · simp [h]

theorem and_0xFF00 (x : Nat) : x &&& 0xFF00 = x / 256 % 256 * 256 := by
  apply Nat.eq_of_testBit_eq
  intro i
  rw [Nat.testBit_and, testBit_0xFF00, show (256 : Nat) = 2 ^ 8 from rfl, Nat.mul_comm,
    Nat.testBit_mul_pow_two, Nat.testBit_mod_two_pow, ← Nat.shiftRight_eq_div_pow,
    Nat.testBit_shiftRight]
  by_cases h : 8 ≤ i
  · have e : 8 + (i - 8) = i := by omega
    by_cases h' : i < 16
    · have h'' : i - 8 < 8 := by omega
      simp [h, h', h'', e]
    · have h'' : ¬ i - 8 < 8 := by omega
      simp [h, h', h'']
  · simp [h]

theorem page_ne_iff (x y : Nat) (hx : x < 65536) (hy : y < 65536) :
    (x &&& 0xFF00 ≠ y &&& 0xFF00) ↔ x / 256 ≠ y / 256 := by
  rw [and_0xFF00, and_0xFF00]
  have h1 : x / 256 % 256 = x / 256 := Nat.mod_eq_of_lt (by omega)
  have h2 : y / 256 % 256 = y / 256 := Nat.mod_eq_of_lt (by omega)
  rw [h1, h2]
  omega

theorem branch_dest_lt (pc off : Nat) : branch_dest pc off < 65536 := by
  unfold branch_dest; omega

theorem do_branch_not_taken (s : sim65s) (off mask cond : Nat)
    (h : ¬ (decide (get_flags s mask = 0) = decide (cond = 0))) :
    (do_branch s off mask cond).r = s.r ∧
    (do_branch s off mask cond).cycles = (s.cycles + 2) % 2 ^ 64 ∧
    (do_branch s off mask cond).p_valid = s.p_valid := by
  unfold do_branch
  simp only
  have h' : ¬ (decide (get_flags (add_cycles s 2) mask = 0) = decide (cond = 0)) := h
  rw [if_neg h']
  split <;> exact ⟨rfl, rfl, rfl⟩

theorem do_branch_taken (s : sim65s) (off mask cond : Nat)
    (h : decide (get_flags s mask = 0) = decide (cond = 0)) :
    (do_branch s off mask cond).r = { s.r with pc := branch_dest s.r.pc off } ∧
    (do_branch s off mask cond).cycles =
      (s.cycles + 3 + (if branch_dest s.r.pc off &&& 0xFF00 ≠ s.r.pc &&& 0xFF00 then 1 else 0))
        % 2 ^ 64 ∧
    (do_branch s off mask cond).p_valid = s.p_valid := by
  unfold do_branch
  simp only
  have h' : decide (get_flags (add_cycles s 2) mask = 0) = decide (cond = 0) := h
  rw [if_pos h']
  have hc1 : ((s.cycles + 2) % 2 ^ 64 + 1) % 2 ^ 64 = (s.cycles + 3) % 2 ^ 64 := by omega
  have hc2 : (((s.cycles + 2) % 2 ^ 64 + 1) % 2 ^ 64 + 1) % 2 ^ 64 = (s.cycles + 3 + 1) % 2 ^ 64 := by
    omega
  simp only [add_cycles, branch_dest]
  split_ifs <;> (refine ⟨?_, ?_, ?_⟩ <;> first | rfl | (dsimp only; omega))

theorem get_flags_congr {s t : sim65s} (h : t.r = s.r) (m : Nat) : get_flags t m = get_flags s m := by
  unfold get_flags; rw [h]

theorem branch_cond_iff (s : sim65s) (f want : Nat) (hf : f < 256) (hw : want ≤ 1) :
    (decide (get_flags s f = 0) = decide (want = 0)) ↔ branch_taken s f want = true := by
  have h := get_flags_ne_zero s f hf
  unfold branch_taken
  by_cases h0 : get_flags s f = 0
  · have hfl : flag s f = false := by
      cases hb : flag s f
      · rfl
      · exact absurd h0 (h.2 hb)
    rw [hfl]
    have : want = 0 ∨ want = 1 := by omega
    rcases this with rfl | rfl <;> simp [h0]
  · have hfl : flag s f = true := h.1 h0
    rw [hfl]
    have : want = 0 ∨ want = 1 := by omega
    rcases this with rfl | rfl <;> simp [h0]

/-- The step of a branch instruction, in the form the branch theorems share. -/
theorem next_branch (env : CbEnv) (s : sim65s) (op f want : Nat) (hmem : (op, f, want) ∈ branch_ops)
    (hcb : s.cb_exec s.r.pc = none) (hlim : limit_ok s) (hop : s.mem (s.r.pc % 65536) = op) :
    (next env s).r.a = s.r.a ∧ (next env s).r.x = s.r.x ∧ (next env s).r.y = s.r.y ∧
    (next env s).r.s = s.r.s ∧ (next env s).r.p = s.r.p ∧
    (if branch_taken s f want then
      (next env s).r.pc = branch_dest ((s.r.pc + 2) % 65536) (operand1 s) ∧
      (next env s).cycles =
        (s.cycles + 3 +
          (if branch_dest ((s.r.pc + 2) % 65536) (operand1 s) / 256 ≠ (s.r.pc + 2) % 65536 / 256
           then 1 else 0)) % 2 ^ 64
     else
      (next env s).r.pc = (s.r.pc + 2) % 65536 ∧ (next env s).cycles = (s.cycles + 2) % 2 ^ 64) := by
  have hfw : f < 256 ∧ want ≤ 1 ∧ op < 256 ∧ ilen op = 2 ∧ op ∉ trace_read_ops ∧
      ∀ d t, dispatch env op d t = do_branch t d f want := by
    simp only [branch_ops, List.mem_cons, List.mem_singleton, List.not_mem_nil, or_false,
      Prod.mk.injEq] at hmem
    rcases hmem with h | h | h | h | h | h | h | h <;> obtain ⟨rfl, rfl, rfl⟩ := h <;>
    exact ⟨by decide, by decide, by decide, rfl, by decide, fun _ _ => rfl⟩
  obtain ⟨hf, hw, hop256, hil, hntr, hdis⟩ := hfw
  have hins : opcode_at s = op := by unfold opcode_at; rw [hop]; exact Nat.mod_eq_of_lt hop256
  have hdat : operand s = operand1 s := by
    unfold operand
    rw [hins, hil, if_neg (by decide), if_pos (by decide)]
  have htr : s.mem (s.r.pc % 65536) ∉ trace_read_ops := by rw [hop]; exact hntr
  have hfe := next_fetch_err_only s
  rw [next_eq_exec env s hcb hlim htr, hins, hdat]
  generalize (next_fetch s).2.2 = sf at hfe
  have hp := next_exec_prof_only env op (operand1 s) sf
  rw [hdis, hil] at hp
  rw [prof_only_r hp, prof_only_cycles hp]
  have hr3 : (set_pc sf (sf.r.pc + 2)).r = { s.r with pc := (s.r.pc + 2) % 65536 } := by
    show ({ sf.r with pc := (sf.r.pc + 2) % 65536 } : sim65_reg) = _
    rw [err_only_r hfe]
  have hc3 : (set_pc sf (sf.r.pc + 2)).cycles = s.cycles := by
    show sf.cycles = s.cycles
    exact err_only_cycles hfe
  have hg : get_flags (set_pc sf (sf.r.pc + 2)) f = get_flags s f := by
    unfold get_flags; rw [hr3]
  have hcond := branch_cond_iff s f want hf hw
  rw [← hg] at hcond
  by_cases ht : branch_taken s f want = true
  · obtain ⟨h1, h2, _⟩ := do_branch_taken (set_pc sf (sf.r.pc + 2)) (operand1 s) f want (hcond.2 ht)
    rw [h1, h2, hr3, hc3, if_pos ht]
    refine ⟨rfl, rfl, rfl, rfl, rfl, rfl, ?_⟩
    have hx := page_ne_iff (branch_dest ((s.r.pc + 2) % 65536) (operand1 s)) ((s.r.pc + 2) % 65536)
      (branch_dest_lt _ _) (Nat.mod_lt _ (by norm_num))
    by_cases hh : branch_dest ((s.r.pc + 2) % 65536) (operand1 s) / 256 ≠ (s.r.pc + 2) % 65536 / 256
    · rw [if_pos (hx.2 hh), if_pos hh]
    · rw [if_neg (fun e => hh (hx.1 e)), if_neg hh]
  · obtain ⟨h1, h2, _⟩ := do_branch_not_taken (set_pc sf (sf.r.pc + 2)) (operand1 s) f want
      (fun e => ht (hcond.1 e))
    rw [h1, h2, hr3, hc3, if_neg ht]
    exact ⟨rfl, rfl, rfl, rfl, rfl, rfl, rfl⟩

/-- C5. For each of the eight branch opcodes at address `pc` with offset byte `d`: when the
condition is false the step leaves `PC = pc + 2` and adds 2 cycles; when it is true the step
leaves `PC = (pc + 2 + d) mod 65536` (`d` signed) and, if the branch, the following
instruction and the destination lie in one 256-byte page, adds exactly 3 cycles; A, X, Y, S
and P are unchanged.  The step is one that reaches the dispatch: no execute callback at
`pc`, cycle limit not reached. -/
theorem branch_step (env : CbEnv) (s : sim65s) (op f want : Nat)
    (hmem : (op, f, want) ∈ branch_ops) (hcb : s.cb_exec s.r.pc = none) (hlim : limit_ok s)
    (hop : s.mem (s.r.pc % 65536) = op) :
    (branch_taken s f want = false →
      (next env s).r.pc = (s.r.pc + 2) % 65536 ∧ (next env s).cycles = (s.cycles + 2) % 2 ^ 64) ∧
    (branch_taken s f want = true →
      (next env s).r.pc = (((s.r.pc : Int) + 2 + int8_t (operand1 s)) % 65536).toNat ∧
      (s.r.pc % 65536 / 256 = (s.r.pc + 2) % 65536 / 256 ∧
        (s.r.pc + 2) % 65536 / 256 = (next env s).r.pc / 256 →
        (next env s).cycles = (s.cycles + 3) % 2 ^ 64)) ∧
    (next env s).r.a = s.r.a ∧ (next env s).r.x = s.r.x ∧ (next env s).r.y = s.r.y ∧
    (next env s).r.s = s.r.s ∧ (next env s).r.p = s.r.p := by
  obtain ⟨ha, hx, hy, hs, hp, h⟩ := next_branch env s op f want hmem hcb hlim hop
  refine ⟨?_, ?_, ha, hx, hy, hs, hp⟩
  · intro ht
    rw [ht] at h
    exact h
  · intro ht
    rw [ht, if_pos rfl] at h
    obtain ⟨h1, h2⟩ := h
    have hd : branch_dest ((s.r.pc + 2) % 65536) (operand1 s) =
        (((s.r.pc : Int) + 2 + int8_t (operand1 s)) % 65536).toNat := by
      unfold branch_dest; omega
    refine ⟨by rw [h1, hd], ?_⟩
    rintro ⟨_, hpage⟩
    rw [h1] at hpage
    rw [h2, if_neg (fun e => e hpage.symm)]

/-- The scenario of C5: BNE +4 at `$0300` with Z=0 gives `PC = $0306` and 3 more cycles. -/
theorem branch_step_witness :
    (0xD0, FLAG_Z, 0) ∈ branch_ops ∧
    (branch_state 0x300 0).cb_exec (branch_state 0x300 0).r.pc = none ∧
    limit_ok (branch_state 0x300 0) ∧
    (branch_state 0x300 0).mem ((branch_state 0x300 0).r.pc % 65536) = 0xD0 ∧
    branch_taken (branch_state 0x300 0) FLAG_Z 0 = true ∧
    (next env_none (branch_state 0x300 0)).r.pc = 0x306 ∧
    (next env_none (branch_state 0x300 0)).cycles = (branch_state 0x300 0).cycles + 3 ∧
    (next env_none (branch_state 0x300 0)).r.p = (branch_state 0x300 0).r.p := by
  have h := branch_step env_none (branch_state 0x300 0) 0xD0 FLAG_Z 0 (by decide) (by decide)
    (by decide) (by decide)
  obtain ⟨h1, h2⟩ := h.2.1 (by decide)
  refine ⟨by decide, by decide, by decide, by decide, by decide, ?_, ?_, h.2.2.2.2.2.2⟩
  · rw [h1]; decide
  · refine (h2 ⟨by decide, ?_⟩).trans (by decide)
    rw [h1]; decide

/-- C6, as stated, fails: the taken BNE +4 at `$03FE` does not add 4 cycles. -/
theorem branch_3FE_claim_fails :
    ¬ ((next env_none (branch_state 0x3FE 0)).cycles = (branch_state 0x3FE 0).cycles + 4) := by
  have h := next_branch env_none (branch_state 0x3FE 0) 0xD0 FLAG_Z 0 (by decide) (by decide)
    (by decide) (by decide)
  have ht : branch_taken (branch_state 0x3FE 0) FLAG_Z 0 = true := by decide
  rw [ht, if_pos rfl] at h
  rw [h.2.2.2.2.2.2]
  decide

/-- C6, amended. A taken BNE +4 whose opcode is at `$03FE` (destination `$0404`, Z=0) adds
3 cycles: no page-cross penalty applies, because the destination lies in the same 256-byte
page as the instruction that follows the branch (`$0400`). -/
theorem branch_3FE_cycles (env : CbEnv) (s : sim65s) (hpc : s.r.pc = 0x3FE)
    (hop : s.mem 0x3FE = 0xD0) (hoff : s.mem 0x3FF = 0x04) (hz : flag s FLAG_Z = false)
    (hcb : s.cb_exec 0x3FE = none) (hlim : limit_ok s) :
    (next env s).r.pc = 0x404 ∧ (next env s).cycles = (s.cycles + 3) % 2 ^ 64 := by
  have h := next_branch env s 0xD0 FLAG_Z 0 (by decide) (by rw [hpc]; exact hcb) hlim
    (by rw [hpc]; exact hop)
  have ht : branch_taken s FLAG_Z 0 = true := by unfold branch_taken; rw [hz]; rfl
  have ho : operand1 s = 4 := by unfold operand1; rw [hpc]; exact (congrArg (· % 256) hoff)
  rw [ht, if_pos rfl, ho, hpc] at h
  obtain ⟨h1, h2⟩ := h.2.2.2.2.2
  exact ⟨h1.trans (by decide), h2.trans (by rw [if_neg (by decide)])⟩

/-- The instance of `branch_3FE_cycles` at the state of the scenario. -/
theorem branch_3FE_cycles_witness :
    (branch_state 0x3FE 0).r.pc = 0x3FE ∧ (branch_state 0x3FE 0).mem 0x3FE = 0xD0 ∧
    (branch_state 0x3FE 0).mem 0x3FF = 0x04 ∧ flag (branch_state 0x3FE 0) FLAG_Z = false ∧
    (branch_state 0x3FE 0).cb_exec 0x3FE = none ∧ limit_ok (branch_state 0x3FE 0) ∧
    ((next env_none (branch_state 0x3FE 0)).r.pc = 0x404 ∧
      (next env_none (branch_state 0x3FE 0)).cycles =
        ((branch_state 0x3FE 0).cycles + 3) % 2 ^ 64) :=
  ⟨by decide, by decide, by decide, by decide, by decide, by decide,
    branch_3FE_cycles env_none (branch_state 0x3FE 0) (by decide) (by decide) (by decide)
      (by decide) (by decide) (by decide)⟩

/-! ## Stack, JSR and RTS -/

theorem writeByte_plain (env : CbEnv) (s : sim65s) (addr val : Nat)
    (h : plain_ram s (addr % 65536)) :
    writeByte env s addr val =
      { s with mem := Function.update s.mem (addr % 65536) (val % 256),
               mems := Function.update s.mems (addr % 65536) 0 } := by
  unfold writeByte
  simp only
  by_cases h0 : s.mems (addr % 65536) = 0
  · rw [if_pos h0]
    have : Function.update s.mems (addr % 65536) 0 = s.mems := by
      rw [← h0]; exact Function.update_eq_self _ _
    rw [this]
  · rw [if_neg h0]
    unfold writeByte_slow
    unfold plain_ram at h
    rw [if_pos h]

theorem readByte_zero (env : CbEnv) (s : sim65s) (addr : Nat) (h : s.mems (addr % 65536) = 0) :
    readByte env s addr = (s.mem (addr % 65536) % 256, s) := by
  unfold readByte
  simp only
  have : s.mems (addr % 65536) &&& not8 ms_rom = 0 := by rw [h]; exact Nat.zero_and _
  rw [if_pos this]

theorem sub32_one_and_0xFF (x : Nat) : sub32 x 1 &&& 0xFF = (255 + x) % 256 := by
  rw [and_0xFF]; unfold sub32; omega

theorem sub32_one_and_0xFFFF (x : Nat) : sub32 x 1 &&& 0xFFFF = (65535 + x) % 65536 := by
  rw [and_0xFFFF]; unfold sub32; omega

theorem or_shl8 (lo hi : Nat) (h : lo < 256) : lo ||| (hi <<< 8) = hi * 256 + lo := by
  have h' : lo < 2 ^ 8 := h
  rw [Nat.or_comm, Nat.shiftLeft_eq, Nat.mul_comm, ← Nat.mul_add_lt_is_or h' hi]

theorem PUSH_plain (env : CbEnv) (val : sim65s → Nat) (s : sim65s) (hs : s.r.s < 256)
    (h : plain_ram s (0x100 + s.r.s)) :
    PUSH env val s = push_result s (val (add_cycles s 3)) := by
  unfold PUSH
  simp only
  have e : (0x100 + (add_cycles s 3).r.s) % 65536 = 0x100 + s.r.s := by
    simp only [add_cycles_r]
    omega
  have hp : plain_ram (add_cycles s 3) ((0x100 + (add_cycles s 3).r.s) % 65536) := by
    rw [e]; exact h
  rw [writeByte_plain env (add_cycles s 3) _ _ hp, e]
  simp only [set_s, add_cycles, push_result]
  rw [sub32_one_and_0xFF, Nat.mod_mod]

theorem push_result_plain_next (sa : sim65s) (v : Nat) (_hs : sa.r.s < 256)
    (h2 : plain_ram sa (0x100 + (255 + sa.r.s) % 256)) :
    plain_ram (push_result sa v) (0x100 + (push_result sa v).r.s) := by
  have hbs : (push_result sa v).r.s = (255 + sa.r.s) % 256 := rfl
  have hbm : (push_result sa v).mems = Function.update sa.mems (0x100 + sa.r.s) 0 := rfl
  unfold plain_ram at h2 ⊢
  rw [hbs, hbm, Function.update_noteq (by omega)]
  exact h2

theorem do_jsr_plain (env : CbEnv) (s : sim65s) (data : Nat) (hs : s.r.s < 256)
    (h1 : plain_ram s (0x100 + s.r.s)) (h2 : plain_ram s (0x100 + (255 + s.r.s) % 256)) :
    do_jsr env s data =
      set_pc (push_result (push_result (set_pc s (sub32 s.r.pc 1 &&& 0xFFFF))
        ((set_pc s (sub32 s.r.pc 1 &&& 0xFFFF)).r.pc >>> 8))
        (set_pc s (sub32 s.r.pc 1 &&& 0xFFFF)).r.pc) data := by
  have e1 := PUSH_plain env (fun s => s.r.pc >>> 8) (set_pc s (sub32 s.r.pc 1 &&& 0xFFFF)) hs h1
  have e2 := PUSH_plain env (fun s => s.r.pc)
    (push_result (set_pc s (sub32 s.r.pc 1 &&& 0xFFFF))
      ((set_pc s (sub32 s.r.pc 1 &&& 0xFFFF)).r.pc >>> 8))
    (Nat.mod_lt _ (by norm_num))
    (push_result_plain_next (set_pc s (sub32 s.r.pc 1 &&& 0xFFFF)) _ hs h2)
  exact (congrArg (fun t => set_pc (PUSH env (fun s => s.r.pc) t) data) e1).trans
    (congrArg (fun t => set_pc t data) e2)

theorem POP_zero (env : CbEnv) (s : sim65s) (h : s.mems (0x100 + (s.r.s + 1) % 256) = 0) :
    POP env s = (s.mem (0x100 + (s.r.s + 1) % 256) % 256, set_s s ((s.r.s + 1) &&& 0xFF)) := by
  unfold POP
  simp only
  have e : (0x100 + (set_s s ((s.r.s + 1) &&& 0xFF)).r.s) % 65536 = 0x100 + (s.r.s + 1) % 256 := by
    rw [set_s_r, and_0xFF]
    simp only []
    omega
  have hz : (set_s s ((s.r.s + 1) &&& 0xFF)).mems
      ((0x100 + (set_s s ((s.r.s + 1) &&& 0xFF)).r.s) % 65536) = 0 := by
    rw [e, set_s_mems]; exact h
  have := readByte_zero env (set_s s ((s.r.s + 1) &&& 0xFF)) _ hz
  rw [e, set_s_mem] at this
  exact this

theorem do_rts_zero (env : CbEnv) (s : sim65s)
    (h1 : s.mems (0x100 + (s.r.s + 1) % 256) = 0) (h2 : s.mems (0x100 + (s.r.s + 2) % 256) = 0) :
    (do_rts env s).r.pc =
      (s.mem (0x100 + (s.r.s + 2) % 256) % 256 * 256 + s.mem (0x100 + (s.r.s + 1) % 256) % 256 + 1)
        % 65536 ∧
    (do_rts env s).r.s = (s.r.s + 2) % 256 ∧
    (do_rts env s).cycles = (s.cycles + 6) % 2 ^ 64 ∧
    (do_rts env s).r.a = s.r.a ∧ (do_rts env s).r.x = s.r.x ∧ (do_rts env s).r.y = s.r.y ∧
    (do_rts env s).r.p = s.r.p := by
  have e1 := POP_zero env s h1
  generalize hlo : s.mem (0x100 + (s.r.s + 1) % 256) % 256 = lo at *
  have hlo' : lo < 256 := by rw [← hlo]; exact Nat.mod_lt _ (by norm_num)
  generalize hs1 : set_pc (set_s s ((s.r.s + 1) &&& 0xFF)) lo = s1
  have hs1S : s1.r.s = (s.r.s + 1) % 256 := by
    rw [← hs1, set_pc_r, set_s_r, and_0xFF]; simp only []; exact Nat.mod_mod _ _
  have hs1m : s1.mems = s.mems := by rw [← hs1, set_pc_mems, set_s_mems]
  have hs1mem : s1.mem = s.mem := by rw [← hs1, set_pc_mem, set_s_mem]
  have hs1pc : s1.r.pc = lo := by
    rw [← hs1, set_pc_r]; simp only []; omega
  have hs1c : s1.cycles = s.cycles := by rw [← hs1, set_pc_cycles, set_s_cycles]
  have hs1r : s1.r.a = s.r.a ∧ s1.r.x = s.r.x ∧ s1.r.y = s.r.y ∧ s1.r.p = s.r.p := by
    rw [← hs1, set_pc_r, set_s_r]; exact ⟨rfl, rfl, rfl, rfl⟩
  have ea : 0x100 + (s1.r.s + 1) % 256 = 0x100 + (s.r.s + 2) % 256 := by rw [hs1S]; omega
  have e2 := POP_zero env s1 (by rw [ea, hs1m]; exact h2)
  rw [ea, hs1mem] at e2
  generalize hhi : s.mem (0x100 + (s.r.s + 2) % 256) % 256 = hi at *
  unfold do_rts
  simp only
  rw [e1]
  simp only
  rw [hs1, e2]
  refine ⟨?_, ?_, ?_, ?_, ?_, ?_, ?_⟩ <;>
    simp only [add_cycles_r, add_cycles_cycles, set_pc_r, set_pc_cycles, set_s_r, set_s_cycles,
      hs1pc, hs1S, hs1c, hs1r, and_0xFF, and_0xFFFF, or_shl8 lo hi hlo'] <;>
    omega

theorem push_result_fields (s : sim65s) (v : Nat) :
    (push_result s v).r = { s.r with s := (255 + s.r.s) % 256 } ∧
    (push_result s v).cycles = (s.cycles + 3) % 2 ^ 64 ∧
    (push_result s v).mem = Function.update s.mem (0x100 + s.r.s) (v % 256) ∧
    (push_result s v).mems = Function.update s.mems (0x100 + s.r.s) 0 ∧
    (push_result s v).cb_exec = s.cb_exec ∧ (push_result s v).cycle_limit = s.cycle_limit ∧
    (push_result s v).debug = s.debug :=
  ⟨rfl, rfl, rfl, rfl, rfl, rfl, rfl⟩

theorem do_jsr_fields (env : CbEnv) (s : sim65s) (data : Nat) (hs : s.r.s < 256)
    (h1 : plain_ram s (0x100 + s.r.s)) (h2 : plain_ram s (0x100 + (255 + s.r.s) % 256)) :
    (do_jsr env s data).mem (0x100 + s.r.s) = (65535 + s.r.pc) % 65536 / 256 ∧
    (do_jsr env s data).mem (0x100 + (255 + s.r.s) % 256) = (65535 + s.r.pc) % 65536 % 256 ∧
    (do_jsr env s data).mems (0x100 + s.r.s) = 0 ∧
    (do_jsr env s data).mems (0x100 + (255 + s.r.s) % 256) = 0 ∧
    (do_jsr env s data).r = { s.r with pc := data % 65536, s := (254 + s.r.s) % 256 } ∧
    (do_jsr env s data).cycles = (s.cycles + 6) % 2 ^ 64 ∧
    (do_jsr env s data).cb_exec = s.cb_exec ∧ (do_jsr env s data).cycle_limit = s.cycle_limit ∧
    (do_jsr env s data).debug = s.debug ∧
    (∀ a, a ≠ 0x100 + s.r.s → a ≠ 0x100 + (255 + s.r.s) % 256 →
      (do_jsr env s data).mem a = s.mem a) := by
  rw [do_jsr_plain env s data hs h1 h2]
  have hpc : (set_pc s (sub32 s.r.pc 1 &&& 0xFFFF)).r.pc = (65535 + s.r.pc) % 65536 := by
    rw [set_pc_r, sub32_one_and_0xFFFF]; exact Nat.mod_mod _ _
  have hS : (set_pc s (sub32 s.r.pc 1 &&& 0xFFFF)).r.s = s.r.s := by rw [set_pc_r]
  have hr : (set_pc s (sub32 s.r.pc 1 &&& 0xFFFF)).r.a = s.r.a ∧
      (set_pc s (sub32 s.r.pc 1 &&& 0xFFFF)).r.x = s.r.x ∧
      (set_pc s (sub32 s.r.pc 1 &&& 0xFFFF)).r.y = s.r.y ∧
      (set_pc s (sub32 s.r.pc 1 &&& 0xFFFF)).r.p = s.r.p := by
    rw [set_pc_r]; exact ⟨rfl, rfl, rfl, rfl⟩
  have hm := set_pc_mem s (sub32 s.r.pc 1 &&& 0xFFFF)
  have hms := set_pc_mems s (sub32 s.r.pc 1 &&& 0xFFFF)
  have hc := set_pc_cycles s (sub32 s.r.pc 1 &&& 0xFFFF)
  have hcb := set_pc_cb_exec s (sub32 s.r.pc 1 &&& 0xFFFF)
  have hl := set_pc_cycle_limit s (sub32 s.r.pc 1 &&& 0xFFFF)
  have hd := set_pc_debug s (sub32 s.r.pc 1 &&& 0xFFFF)
  generalize set_pc s (sub32 s.r.pc 1 &&& 0xFFFF) = sa at *
  have hne : 0x100 + s.r.s ≠ 0x100 + (255 + s.r.s) % 256 := by omega
  have hhi : sa.r.pc >>> 8 % 256 = (65535 + s.r.pc) % 65536 / 256 := by
    rw [hpc, Nat.shiftRight_eq_div_pow]; omega
  refine ⟨?_, ?_, ?_, ?_, ?_, ?_, ?_, ?_, ?_, ?_⟩
  · simp only [set_pc_mem, push_result, hS]
    rw [Function.update_noteq hne, Function.update_same, hhi]
  · simp only [set_pc_mem, push_result, hS]
    rw [Function.update_same, hpc]
  · simp only [set_pc_mems, push_result, hS]
    rw [Function.update_noteq hne, Function.update_same]
  · simp only [set_pc_mems, push_result, hS]
    rw [Function.update_same]
  · simp only [set_pc_r, push_result, hS]
    obtain ⟨ha, hx, hy, hp⟩ := hr
    have h254 : (255 + (255 + s.r.s) % 256) % 256 = (254 + s.r.s) % 256 := by omega
    rw [ha, hx, hy, hp, h254]
  · simp only [set_pc_cycles, push_result, hc]
    omega
  · simp only [set_pc_cb_exec, push_result, hcb]
  · simp only [set_pc_cycle_limit, push_result, hl]
  · simp only [set_pc_debug, push_result, hd]
  · intro a ha1 ha2
    simp only [set_pc_mem, push_result, hS]
    rw [Function.update_noteq ha2, Function.update_noteq ha1, hm]

/-- The step of JSR with both stack cells plain RAM. -/
theorem next_jsr (env : CbEnv) (s : sim65s) (hcb : s.cb_exec s.r.pc = none) (hlim : limit_ok s)
    (hop : s.mem (s.r.pc % 65536) = 0x20) (hS : s.r.s < 256)
    (h1 : plain_ram s (0x100 + s.r.s)) (h2 : plain_ram s (0x100 + (255 + s.r.s) % 256)) :
    (next env s).mem (0x100 + s.r.s) = (s.r.pc + 2) % 65536 / 256 ∧
    (next env s).mem (0x100 + (255 + s.r.s) % 256) = (s.r.pc + 2) % 65536 % 256 ∧
    (next env s).mems (0x100 + s.r.s) = 0 ∧
    (next env s).mems (0x100 + (255 + s.r.s) % 256) = 0 ∧
    (next env s).r = { s.r with pc := operand2 s * 256 + operand1 s, s := (254 + s.r.s) % 256 } ∧
    (next env s).cycles = (s.cycles + 6) % 2 ^ 64 ∧
    (next env s).cb_exec = s.cb_exec ∧ (next env s).cycle_limit = s.cycle_limit ∧
    (next env s).debug = s.debug ∧
    (∀ a, a ≠ 0x100 + s.r.s → a ≠ 0x100 + (255 + s.r.s) % 256 →
      (next env s).mem a = s.mem a) := by
  have hins : opcode_at s = 0x20 := by unfold opcode_at; rw [hop]
  have hil : ilen (opcode_at s) = 3 := by rw [hins]; rfl
  have hdat : operand s = operand2 s * 256 + operand1 s := by
    unfold operand
    rw [hil, if_pos (by decide)]
    exact or_shl8 _ _ (Nat.mod_lt _ (by norm_num))
  have hdlt : operand2 s * 256 + operand1 s < 65536 := by
    have a1 : operand1 s < 256 := Nat.mod_lt _ (by norm_num)
    have a2 : operand2 s < 256 := Nat.mod_lt _ (by norm_num)
    omega
  have htr : s.mem (s.r.pc % 65536) ∉ trace_read_ops := by rw [hop]; decide
  have hfe := next_fetch_err_only s
  rw [next_eq_exec env s hcb hlim htr, hins, hdat]
  generalize (next_fetch s).2.2 = sf at hfe
  generalize operand2 s * 256 + operand1 s = data at *
  have hp := next_exec_prof_only env 0x20 data sf
  have hd : dispatch env 0x20 data (set_pc sf (sf.r.pc + ilen 0x20)) =
      do_jsr env (set_pc sf (sf.r.pc + 3)) data := rfl
  rw [hd] at hp
  have hr3 : (set_pc sf (sf.r.pc + 3)).r = { s.r with pc := (s.r.pc + 3) % 65536 } := by
    rw [set_pc_r, err_only_r hfe]
  have hm3 : (set_pc sf (sf.r.pc + 3)).mems = s.mems := by rw [set_pc_mems, err_only_mems hfe]
  have hc3 : (set_pc sf (sf.r.pc + 3)).cycles = s.cycles := by
    rw [set_pc_cycles, err_only_cycles hfe]
  have hmem3 : (set_pc sf (sf.r.pc + 3)).mem = s.mem := by rw [set_pc_mem, err_only_mem hfe]
  have hcb3 : (set_pc sf (sf.r.pc + 3)).cb_exec = s.cb_exec := by rw [set_pc_cb_exec, hfe]
  have hl3 : (set_pc sf (sf.r.pc + 3)).cycle_limit = s.cycle_limit := by
    rw [set_pc_cycle_limit, hfe]
  have hd3 : (set_pc sf (sf.r.pc + 3)).debug = s.debug := by rw [set_pc_debug, hfe]
  generalize set_pc sf (sf.r.pc + 3) = s3 at *
  have hS3 : s3.r.s = s.r.s := by rw [hr3]
  have hpc3 : s3.r.pc = (s.r.pc + 3) % 65536 := by rw [hr3]
  have hf := do_jsr_fields env s3 data (by rw [hS3]; exact hS)
    (by unfold plain_ram at h1 ⊢; rw [hm3, hS3]; exact h1)
    (by unfold plain_ram at h2 ⊢; rw [hm3, hS3]; exact h2)
  rw [hS3, hpc3, hr3, hc3, hcb3, hl3, hd3, hmem3] at hf
  obtain ⟨f1, f2, f3, f4, f5, f6, f7, f8, f9, f10⟩ := hf
  have hP : (65535 + (s.r.pc + 3) % 65536) % 65536 = (s.r.pc + 2) % 65536 := by omega
  rw [hP] at f1 f2
  rw [prof_only_mem hp, prof_only_mems hp, prof_only_r hp, prof_only_cycles hp, hp]
  refine ⟨f1, f2, f3, f4, ?_, f6, f7, f8, f9, f10⟩
  rw [f5, Nat.mod_eq_of_lt hdlt]

/-- The step of RTS when the two stack cells it pulls have status 0. -/
theorem next_rts (env : CbEnv) (s : sim65s) (hcb : s.cb_exec s.r.pc = none) (hlim : limit_ok s)
    (hop : s.mem (s.r.pc % 65536) = 0x60)
    (h1 : s.mems (0x100 + (s.r.s + 1) % 256) = 0) (h2 : s.mems (0x100 + (s.r.s + 2) % 256) = 0) :
    (next env s).r.pc =
      (s.mem (0x100 + (s.r.s + 2) % 256) % 256 * 256 + s.mem (0x100 + (s.r.s + 1) % 256) % 256 + 1)
        % 65536 ∧
    (next env s).r.s = (s.r.s + 2) % 256 ∧
    (next env s).cycles = (s.cycles + 6) % 2 ^ 64 ∧
    (next env s).r.a = s.r.a ∧ (next env s).r.x = s.r.x ∧ (next env s).r.y = s.r.y ∧
    (next env s).r.p = s.r.p := by
  have hins : opcode_at s = 0x60 := by unfold opcode_at; rw [hop]
  have htr : s.mem (s.r.pc % 65536) ∉ trace_read_ops := by rw [hop]; decide
  have hfe := next_fetch_err_only s
  rw [next_eq_exec env s hcb hlim htr, hins]
  generalize (next_fetch s).2.2 = sf at hfe
  generalize operand s = data
  have hp := next_exec_prof_only env 0x60 data sf
  have hd : dispatch env 0x60 data (set_pc sf (sf.r.pc + ilen 0x60)) =
      do_rts env (set_pc sf (sf.r.pc + 1)) := rfl
  rw [hd] at hp
  have hr3 : (set_pc sf (sf.r.pc + 1)).r = { s.r with pc := (s.r.pc + 1) % 65536 } := by
    rw [set_pc_r, err_only_r hfe]
  have hm3 : (set_pc sf (sf.r.pc + 1)).mems = s.mems := by rw [set_pc_mems, err_only_mems hfe]
  have hmem3 : (set_pc sf (sf.r.pc + 1)).mem = s.mem := by rw [set_pc_mem, err_only_mem hfe]
  have hc3 : (set_pc sf (sf.r.pc + 1)).cycles = s.cycles := by
    rw [set_pc_cycles, err_only_cycles hfe]
  generalize set_pc sf (sf.r.pc + 1) = s3 at *
  have hS3 : s3.r.s = s.r.s := by rw [hr3]
  have hf := do_rts_zero env s3 (by rw [hm3, hS3]; exact h1) (by rw [hm3, hS3]; exact h2)
  rw [hS3, hmem3, hc3, hr3] at hf
  rw [prof_only_r hp, prof_only_cycles hp]
  exact hf

/-- C7. JSR and RTS are inverse, for every PC, stack pointer and target: executing JSR `t`
located at address `p` with stack pointer `S`, both stack cells plain writable RAM, stores
the high byte of `p+2` at `0x100+S` and its low byte at `0x100+((S-1) mod 256)`, sets S to
`(S-2) mod 256`, PC to `t` and adds 6 cycles; an RTS executed next sets PC to
`(p+3) mod 65536`, restores S and adds 6 cycles.  `p+2` is taken in 16 bits.  Each of the
two steps is one that reaches the dispatch: no execute callback at its PC, cycle limit not
reached. -/
theorem jsr_rts_inverse (env : CbEnv) (s : sim65s) (hcb : s.cb_exec s.r.pc = none)
    (hlim : limit_ok s) (hop : s.mem (s.r.pc % 65536) = 0x20) (hS : s.r.s < 256)
    (h1 : plain_ram s (0x100 + s.r.s)) (h2 : plain_ram s (0x100 + (255 + s.r.s) % 256)) :
    (next env s).mem (0x100 + s.r.s) = (s.r.pc + 2) % 65536 / 256 ∧
    (next env s).mem (0x100 + (255 + s.r.s) % 256) = (s.r.pc + 2) % 65536 % 256 ∧
    (next env s).r.s = (254 + s.r.s) % 256 ∧
    (next env s).r.pc = operand2 s * 256 + operand1 s ∧
    (next env s).cycles = (s.cycles + 6) % 2 ^ 64 ∧
    ((next env s).cb_exec (next env s).r.pc = none → limit_ok (next env s) →
      (next env s).mem ((next env s).r.pc % 65536) = 0x60 →
      (next env (next env s)).r.pc = (s.r.pc + 3) % 65536 ∧
      (next env (next env s)).r.s = s.r.s ∧
      (next env (next env s)).cycles = ((next env s).cycles + 6) % 2 ^ 64) := by
  obtain ⟨f1, f2, f3, f4, f5, f6, _, _, _, _⟩ := next_jsr env s hcb hlim hop hS h1 h2
  have hs1 : (next env s).r.s = (254 + s.r.s) % 256 := by rw [f5]
  refine ⟨f1, f2, hs1, by rw [f5], f6, ?_⟩
  intro hcb' hlim' hop'
  have ea1 : 0x100 + ((next env s).r.s + 1) % 256 = 0x100 + (255 + s.r.s) % 256 := by
    rw [hs1]; omega
  have ea2 : 0x100 + ((next env s).r.s + 2) % 256 = 0x100 + s.r.s := by
    rw [hs1]; omega
  obtain ⟨g1, g2, g3, _⟩ := next_rts env (next env s) hcb' hlim' hop'
    (by rw [ea1]; exact f4) (by rw [ea2]; exact f3)
  rw [ea1, ea2, f1, f2] at g1
  refine ⟨?_, ?_, g3⟩
  · rw [g1]; omega
  · rw [g2, hs1]; omega

/-- The scenario of C7: `20 34 12` at `$0200` with S=0xFF writes 0x02 to `$01FF` and 0x02 to
`$01FE`, leaves S=0xFD and PC=`$1234`; the RTS at `$1234` gives PC=`$0203`, S=0xFF. -/
theorem jsr_rts_inverse_witness :
    jsr_state.cb_exec jsr_state.r.pc = none ∧ limit_ok jsr_state ∧
    jsr_state.mem (jsr_state.r.pc % 65536) = 0x20 ∧ jsr_state.r.s < 256 ∧
    plain_ram jsr_state (0x100 + jsr_state.r.s) ∧
    plain_ram jsr_state (0x100 + (255 + jsr_state.r.s) % 256) ∧
    (next env_none jsr_state).mem 0x1FF = 0x02 ∧ (next env_none jsr_state).mem 0x1FE = 0x02 ∧
    (next env_none jsr_state).r.s = 0xFD ∧ (next env_none jsr_state).r.pc = 0x1234 ∧
    (next env_none jsr_state).cycles = 6 ∧
    (next env_none (next env_none jsr_state)).r.pc = 0x203 ∧
    (next env_none (next env_none jsr_state)).r.s = 0xFF ∧
    (next env_none (next env_none jsr_state)).cycles = 12 := by
  have h := jsr_rts_inverse env_none jsr_state (by decide) (by decide) (by decide) (by decide)
    (by decide) (by decide)
  obtain ⟨f1, f2, f3, f4, f5, f6⟩ := h
  have hx := next_jsr env_none jsr_state (by decide) (by decide) (by decide) (by decide)
    (by decide) (by decide)
  have hpc : (next env_none jsr_state).r.pc = 0x1234 := f4.trans (by decide)
  obtain ⟨g1, g2, g3⟩ := f6
    (by rw [hpc, hx.2.2.2.2.2.2.1]; decide)
    (by unfold limit_ok; rw [hx.2.2.2.2.2.2.2.1]; decide)
    (by rw [hpc]; exact (hx.2.2.2.2.2.2.2.2.2 0x1234 (by decide) (by decide)).trans (by decide))
  exact ⟨by decide, by decide, by decide, by decide, by decide, by decide,
    f1.trans (by decide), f2.trans (by decide), f3.trans (by decide), hpc, f5.trans (by decide),
    g1.trans (by decide), g2.trans (by decide), g3.trans (by rw [f5]; decide)⟩

/-! ## Relations respected by every elementary change of the state -/

section closed
variable {env : CbEnv} {R : sim65s → sim65s → Prop}

theorem closed_refl (h : StepClosed env R) (s : sim65s) : R s s := h.cpu s s rfl rfl

theorem closed_then_cpu (h : StepClosed env R) {s t u : sim65s} (h1 : R s t)
    (hm : u.mem = t.mem) (hms : u.mems = t.mems) : R s u :=
  h.trans h1 (h.cpu t u hm hms)

theorem closed_cpu_then (h : StepClosed env R) {s t u : sim65s}
    (hm : t.mem = s.mem) (hms : t.mems = s.mems) (h1 : R t u) : R s u :=
  h.trans (h.cpu s t hm hms) h1

theorem set_error_mem (s : sim65s) (e : Int) (a : Nat) :
    (set_error s e a).mem = s.mem ∧ (set_error s e a).mems = s.mems := by
  unfold set_error; split <;> exact ⟨rfl, rfl⟩

theorem closed_set_error (h : StepClosed env R) (s : sim65s) (e : Int) (a : Nat) :
    R s (set_error s e a) :=
  h.cpu _ _ (set_error_mem s e a).1 (set_error_mem s e a).2

theorem closed_readByte (h : StepClosed env R) (s : sim65s) (addr : Nat) :
    R s (readByte env s addr).2 := by
  unfold readByte
  simp only
  split
  · exact closed_refl h s
  · unfold readByte_slow
    split
    · rename_i cb _
      exact h.trans (h.callback cb s _ _) (closed_set_error h _ _ _)
    · simp only
      split
      · exact closed_set_error h _ _ _
      · rename_i hu
        have hu' : (set_error s sim65_err_read_uninit (addr % 65536)).mems (addr % 65536)
            &&& ms_undef = 0 := by
          rw [(set_error_mem _ _ _).2]
          exact not_not.mp hu
        exact h.trans (closed_set_error h _ _ _) (h.clear_invalid _ _ hu')

theorem closed_writeByte (h : StepClosed env R) (s : sim65s) (addr val : Nat) :
    R s (writeByte env s addr val) := by
  unfold writeByte
  simp only
  split
  · rename_i h0
    have hst := h.store s (addr % 65536) (val % 256) (by rw [h0]; exact Nat.zero_and _)
    have e : Function.update s.mems (addr % 65536) 0 = s.mems := by
      rw [← h0]; exact Function.update_eq_self _ _
    rw [e] at hst
    exact hst
  · unfold writeByte_slow
    split
    · rename_i hp
      exact h.store s _ _ hp
    · split
      · rename_i cb _
        exact h.trans (h.callback cb s _ _) (closed_set_error h _ _ _)
      · split
        · exact closed_set_error h _ _ _
        · split
          · exact closed_set_error h _ _ _
          · exact closed_refl h s

theorem closed_readWord (h : StepClosed env R) (s : sim65s) (addr : Nat) :
    R s (readWord env s addr).2 :=
  h.trans (closed_readByte h s _) (closed_readByte h _ _)

theorem closed_op (h : StepClosed env R) {op : Op} (hop : OpCpu op) {s t : sim65s} (v : Nat)
    (h1 : R s t) : R s (op t v).1 :=
  closed_then_cpu h h1 (hop t v).1 (hop t v).2

theorem closed_rd (h : StepClosed env R) {s t : sim65s} (a : Nat) (h1 : R s t) :
    R s (readByte env t a).2 :=
  h.trans h1 (closed_readByte h t a)

theorem closed_wr (h : StepClosed env R) {s t : sim65s} (a v : Nat) (h1 : R s t) :
    R s (writeByte env t a v) :=
  h.trans h1 (closed_writeByte h t a v)

theorem closed_rw (h : StepClosed env R) {s t : sim65s} (a : Nat) (h1 : R s t) :
    R s (readWord env t a).2 :=
  h.trans h1 (closed_readWord h t a)

theorem closed_cyc (h : StepClosed env R) {s t : sim65s} (n : Nat) (h1 : R s t) :
    R s (add_cycles t n) :=
  closed_then_cpu h h1 rfl rfl

theorem do_extra_absx_mem (s : sim65s) (a : Nat) :
    (do_extra_absx s a).mem = s.mem ∧ (do_extra_absx s a).mems = s.mems := by
  unfold do_extra_absx; simp only; split_ifs <;> exact ⟨rfl, rfl⟩

theorem do_extra_absy_mem (s : sim65s) (a : Nat) :
    (do_extra_absy s a).mem = s.mem ∧ (do_extra_absy s a).mems = s.mems := by
  unfold do_extra_absy; simp only; split_ifs <;> exact ⟨rfl, rfl⟩

theorem do_branch_mem (s : sim65s) (off mask cond : Nat) :
    (do_branch s off mask cond).mem = s.mem ∧ (do_branch s off mask cond).mems = s.mems := by
  unfold do_branch; simp only; split_ifs <;> exact ⟨rfl, rfl⟩

theorem do_adc_mem (s : sim65s) (v : Nat) : (do_adc s v).mem = s.mem ∧ (do_adc s v).mems = s.mems := by
  unfold do_adc; split <;> exact ⟨rfl, rfl⟩

theorem do_sbc_mem (s : sim65s) (v : Nat) : (do_sbc s v).mem = s.mem ∧ (do_sbc s v).mems = s.mems := by
  unfold do_sbc; split <;> exact ⟨rfl, rfl⟩

theorem opcpu_ORA : OpCpu ORA := fun _ _ => ⟨rfl, rfl⟩

theorem opcpu_AND : OpCpu AND := fun _ _ => ⟨rfl, rfl⟩

theorem opcpu_EOR : OpCpu EOR := fun _ _ => ⟨rfl, rfl⟩

theorem opcpu_ASL : OpCpu ASL := fun _ _ => ⟨rfl, rfl⟩

theorem opcpu_ROL : OpCpu ROL := fun _ _ => ⟨rfl, rfl⟩

theorem opcpu_LSR : OpCpu LSR := fun _ _ => ⟨rfl, rfl⟩

theorem opcpu_ROR : OpCpu ROR := fun _ _ => ⟨rfl, rfl⟩

theorem opcpu_DEC : OpCpu DEC := fun _ _ => ⟨rfl, rfl⟩

theorem opcpu_INC : OpCpu INC := fun _ _ => ⟨rfl, rfl⟩

theorem opcpu_CMP : OpCpu CMP := fun _ _ => ⟨rfl, rfl⟩

theorem opcpu_CPX : OpCpu CPX := fun _ _ => ⟨rfl, rfl⟩

theorem opcpu_CPY : OpCpu CPY := fun _ _ => ⟨rfl, rfl⟩

theorem opcpu_LDA : OpCpu LDA := fun _ _ => ⟨rfl, rfl⟩

theorem opcpu_LDX : OpCpu LDX := fun _ _ => ⟨rfl, rfl⟩

theorem opcpu_LDY : OpCpu LDY := fun _ _ => ⟨rfl, rfl⟩

theorem opcpu_STA : OpCpu STA := fun _ _ => ⟨rfl, rfl⟩

theorem opcpu_STX : OpCpu STX := fun _ _ => ⟨rfl, rfl⟩

theorem opcpu_STY : OpCpu STY := fun _ _ => ⟨rfl, rfl⟩

theorem opcpu_TSX_op : OpCpu TSX_op := fun _ _ => ⟨rfl, rfl⟩

theorem opcpu_ADC : OpCpu ADC := fun s v => do_adc_mem s v

theorem opcpu_SBC : OpCpu SBC := fun s v => do_sbc_mem s v

theorem closed_ZP_R (h : StepClosed env R) {op : Op} (hop : OpCpu op) (data : Nat) (s : sim65s) :
    R s (ZP_R env op data s) :=
  closed_op h hop _ (closed_rd h _ (closed_cyc h 3 (closed_refl h s)))

theorem closed_ZP_W (h : StepClosed env R) {op : Op} (hop : OpCpu op) (data : Nat) (s : sim65s) :
    R s (ZP_W env op data s) :=
  closed_wr h _ _ (closed_op h hop 0 (closed_cyc h 3 (closed_refl h s)))

theorem closed_ZP_RW (h : StepClosed env R) {op : Op} (hop : OpCpu op) (data : Nat) (s : sim65s) :
    R s (ZP_RW env op data s) :=
  closed_wr h _ _ (closed_op h hop _ (closed_rd h _ (closed_cyc h 5 (closed_refl h s))))

theorem closed_ABS_R (h : StepClosed env R) {op : Op} (hop : OpCpu op) (data : Nat) (s : sim65s) :
    R s (ABS_R env op data s) :=
  closed_op h hop _ (closed_rd h _ (closed_cyc h 4 (closed_refl h s)))

theorem closed_ABS_W (h : StepClosed env R) {op : Op} (hop : OpCpu op) (data : Nat) (s : sim65s) :
    R s (ABS_W env op data s) :=
  closed_wr h _ _ (closed_op h hop 0 (closed_cyc h 4 (closed_refl h s)))

theorem closed_ABS_RW (h : StepClosed env R) {op : Op} (hop : OpCpu op) (data : Nat) (s : sim65s) :
    R s (ABS_RW env op data s) :=
  closed_wr h _ _ (closed_op h hop _ (closed_rd h _ (closed_cyc h 6 (closed_refl h s))))

theorem closed_ZPX_R (h : StepClosed env R) {op : Op} (hop : OpCpu op) (data : Nat) (s : sim65s) :
    R s (ZPX_R env op data s) :=
  closed_op h hop _ (closed_rd h _ (closed_cyc h 4 (closed_refl h s)))

theorem closed_ZPX_W (h : StepClosed env R) {op : Op} (hop : OpCpu op) (data : Nat) (s : sim65s) :
    R s (ZPX_W env op data s) :=
  closed_wr h _ _ (closed_op h hop 0 (closed_cyc h 4 (closed_refl h s)))

theorem closed_ZPX_RW (h : StepClosed env R) {op : Op} (hop : OpCpu op) (data : Nat) (s : sim65s) :
    R s (ZPX_RW env op data s) :=
  closed_wr h _ _ (closed_op h hop _ (closed_rd h _ (closed_cyc h 6 (closed_refl h s))))

theorem closed_ZPY_R (h : StepClosed env R) {op : Op} (hop : OpCpu op) (data : Nat) (s : sim65s) :
    R s (ZPY_R env op data s) :=
  closed_op h hop _ (closed_rd h _ (closed_cyc h 4 (closed_refl h s)))

theorem closed_ZPY_W (h : StepClosed env R) {op : Op} (hop : OpCpu op) (data : Nat) (s : sim65s) :
    R s (ZPY_W env op data s) :=
  closed_wr h _ _ (closed_op h hop 0 (closed_cyc h 4 (closed_refl h s)))

theorem closed_ABX_R (h : StepClosed env R) {op : Op} (hop : OpCpu op) (data : Nat) (s : sim65s) :
    R s (ABX_R env op data s) :=
  closed_op h hop _ (closed_rd h _ (closed_then_cpu h (closed_cyc h 4 (closed_refl h s)) (do_extra_absx_mem _ _).1 (do_extra_absx_mem _ _).2))

theorem closed_ABX_W (h : StepClosed env R) {op : Op} (hop : OpCpu op) (data : Nat) (s : sim65s) :
    R s (ABX_W env op data s) :=
  closed_wr h _ _ (closed_op h hop 0 (closed_cyc h 5 (closed_refl h s)))

theorem closed_ABX_RW (h : StepClosed env R) {op : Op} (hop : OpCpu op) (data : Nat) (s : sim65s) :
    R s (ABX_RW env op data s) :=
  closed_wr h _ _ (closed_op h hop _ (closed_rd h _ (closed_cyc h 7 (closed_refl h s))))

theorem closed_ABY_R (h : StepClosed env R) {op : Op} (hop : OpCpu op) (data : Nat) (s : sim65s) :
    R s (ABY_R env op data s) :=
  closed_op h hop _ (closed_rd h _ (closed_then_cpu h (closed_cyc h 4 (closed_refl h s)) (do_extra_absy_mem _ _).1 (do_extra_absy_mem _ _).2))

theorem closed_ABY_W (h : StepClosed env R) {op : Op} (hop : OpCpu op) (data : Nat) (s : sim65s) :
    R s (ABY_W env op data s) :=
  closed_wr h _ _ (closed_op h hop 0 (closed_cyc h 5 (closed_refl h s)))

theorem closed_readIndX (h : StepClosed env R) (s : sim65s) (addr : Nat) :
    R s (readIndX env s addr).2 :=
  closed_rd h _ (closed_rw h _ (closed_cyc h 6 (closed_refl h s)))

theorem readIndY_mid_mem (s : sim65s) (addr : Nat) :
    (if (addr &&& 0xFF) + s.r.y > 0xFF then
      (if (add_cycles s 1).do_prof ≠ 0 then
        { add_cycles s 1 with prof := { (add_cycles s 1).prof with
            ind_y_extra := ((add_cycles s 1).prof.ind_y_extra + 1) % 2^32 } }
       else add_cycles s 1)
     else s).mem = s.mem ∧
    (if (addr &&& 0xFF) + s.r.y > 0xFF then
      (if (add_cycles s 1).do_prof ≠ 0 then
        { add_cycles s 1 with prof := { (add_cycles s 1).prof with
            ind_y_extra := ((add_cycles s 1).prof.ind_y_extra + 1) % 2^32 } }
       else add_cycles s 1)
     else s).mems = s.mems := by
  split_ifs <;> exact ⟨rfl, rfl⟩

theorem closed_readIndY (h : StepClosed env R) (s : sim65s) (addr : Nat) :
    R s (readIndY env s addr).2 :=
  closed_rd h _ (closed_then_cpu h (closed_rw h _ (closed_cyc h 5 (closed_refl h s)))
    (readIndY_mid_mem _ _).1 (readIndY_mid_mem _ _).2)

theorem closed_writeIndX (h : StepClosed env R) (s : sim65s) (addr val : Nat) :
    R s (writeIndX env s addr val) :=
  closed_wr h _ _ (closed_rw h _ (closed_cyc h 6 (closed_refl h s)))

theorem closed_writeIndY (h : StepClosed env R) (s : sim65s) (addr val : Nat) :
    R s (writeIndY env s addr val) :=
  closed_wr h _ _ (closed_rw h _ (closed_cyc h 6 (closed_refl h s)))

theorem closed_IND_X (h : StepClosed env R) {op : Op} (hop : OpCpu op) (data : Nat) (s : sim65s) :
    R s (IND_X env op data s) :=
  closed_op h hop _ (closed_readIndX h s data)

theorem closed_IND_Y (h : StepClosed env R) {op : Op} (hop : OpCpu op) (data : Nat) (s : sim65s) :
    R s (IND_Y env op data s) :=
  closed_op h hop _ (closed_readIndY h s data)

theorem closed_INDW_X (h : StepClosed env R) {op : Op} (hop : OpCpu op) (data : Nat) (s : sim65s) :
    R s (INDW_X env op data s) :=
  h.trans (closed_op h hop 0 (closed_refl h s)) (closed_writeIndX h _ _ _)

theorem closed_INDW_Y (h : StepClosed env R) {op : Op} (hop : OpCpu op) (data : Nat) (s : sim65s) :
    R s (INDW_Y env op data s) :=
  h.trans (closed_op h hop 0 (closed_refl h s)) (closed_writeIndY h _ _ _)

theorem closed_IMM (h : StepClosed env R) {op : Op} (hop : OpCpu op) (data : Nat) (s : sim65s) :
    R s (IMM op data s) :=
  closed_op h hop _ (closed_cyc h 2 (closed_refl h s))

theorem closed_IMP_A (h : StepClosed env R) {op : Op} (hop : OpCpu op) (s : sim65s) :
    R s (IMP_A op s) :=
  closed_then_cpu h (closed_op h hop _ (closed_cyc h 2 (closed_refl h s))) rfl rfl

theorem closed_IMP_X (h : StepClosed env R) {op : Op} (hop : OpCpu op) (s : sim65s) :
    R s (IMP_X op s) :=
  closed_then_cpu h (closed_op h hop _ (closed_cyc h 2 (closed_refl h s))) rfl rfl

theorem closed_IMP_Y (h : StepClosed env R) {op : Op} (hop : OpCpu op) (s : sim65s) :
    R s (IMP_Y op s) :=
  closed_then_cpu h (closed_op h hop _ (closed_cyc h 2 (closed_refl h s))) rfl rfl

theorem closed_TXS (h : StepClosed env R) (s : sim65s) : R s (TXS s) := h.cpu _ _ rfl rfl

theorem closed_NOP (h : StepClosed env R) (s : sim65s) : R s (add_cycles s 2) := h.cpu _ _ rfl rfl

theorem closed_BRA_0 (h : StepClosed env R) (a data : Nat) (s : sim65s) : R s (BRA_0 a data s) :=
  h.cpu _ _ (do_branch_mem _ _ _ _).1 (do_branch_mem _ _ _ _).2

theorem closed_BRA_1 (h : StepClosed env R) (a data : Nat) (s : sim65s) : R s (BRA_1 a data s) :=
  h.cpu _ _ (do_branch_mem _ _ _ _).1 (do_branch_mem _ _ _ _).2

theorem closed_JMP (h : StepClosed env R) (data : Nat) (s : sim65s) : R s (JMP data s) :=
  h.cpu _ _ rfl rfl

theorem closed_JMP16 (h : StepClosed env R) (data : Nat) (s : sim65s) : R s (JMP16 env data s) :=
  closed_then_cpu h (closed_rw h _ (closed_cyc h 5 (closed_refl h s))) rfl rfl

theorem closed_CL_F (h : StepClosed env R) (f : Nat) (s : sim65s) : R s (CL_F f s) :=
  h.cpu _ _ rfl rfl

theorem closed_SE_F (h : StepClosed env R) (f : Nat) (s : sim65s) : R s (SE_F f s) :=
  h.cpu _ _ rfl rfl

theorem closed_PUSH (h : StepClosed env R) (val : sim65s → Nat) (s : sim65s) :
    R s (PUSH env val s) :=
  closed_then_cpu h (closed_wr h _ _ (closed_cyc h 3 (closed_refl h s))) rfl rfl

theorem closed_POP (h : StepClosed env R) {s t : sim65s} (h1 : R s t) : R s (POP env t).2 :=
  closed_rd h _ (closed_then_cpu h h1 rfl rfl)

theorem closed_POP_P (h : StepClosed env R) (s : sim65s) : R s (POP_P env s) :=
  closed_then_cpu h (closed_POP h (closed_cyc h 4 (closed_refl h s))) rfl rfl

theorem closed_POP_A (h : StepClosed env R) (s : sim65s) : R s (POP_A env s) :=
  closed_then_cpu h (closed_POP h (closed_cyc h 4 (closed_refl h s))) rfl rfl

theorem closed_do_bit (h : StepClosed env R) (s : sim65s) (addr : Nat) : R s (do_bit env s addr) := by
  unfold do_bit
  simp only
  split
  · exact h.cpu _ _ rfl rfl
  · exact closed_then_cpu h (closed_readByte h s _) rfl rfl

theorem closed_BIT_ZP (h : StepClosed env R) (data : Nat) (s : sim65s) : R s (BIT_ZP env data s) :=
  h.trans (closed_cyc h 3 (closed_refl h s)) (closed_do_bit h _ _)

theorem closed_BIT_ABS (h : StepClosed env R) (data : Nat) (s : sim65s) : R s (BIT_ABS env data s) :=
  h.trans (closed_cyc h 4 (closed_refl h s)) (closed_do_bit h _ _)

theorem closed_JSR (h : StepClosed env R) (data : Nat) (s : sim65s) : R s (JSR env data s) := by
  have h1 : R s (set_pc s (sub32 s.r.pc 1 &&& 0xFFFF)) := h.cpu _ _ rfl rfl
  have h2 := h.trans h1 (closed_PUSH h (fun s => s.r.pc >>> 8) _)
  have h3 := h.trans h2 (closed_PUSH h (fun s => s.r.pc) _)
  exact closed_then_cpu h h3 rfl rfl

theorem closed_RTS (h : StepClosed env R) (s : sim65s) : R s (RTS env s) := by
  have h1 : R s (POP env s).2 := closed_POP h (closed_refl h s)
  have h2 : R s (POP env (set_pc (POP env s).2 (POP env s).1)).2 :=
    closed_POP h (closed_then_cpu h h1 (set_pc_mem _ _) (set_pc_mems _ _))
  refine closed_then_cpu h h2 ?_ ?_
  · simp only [RTS, do_rts, add_cycles_mem, set_pc_mem]
  · simp only [RTS, do_rts, add_cycles_mems, set_pc_mems]

theorem closed_RTI (h : StepClosed env R) (s : sim65s) : R s (RTI env s) := by
  have h1 : R s (POP env (POP_P env s)).2 := closed_POP h (closed_POP_P h s)
  have h2 : R s (POP env (set_pc (POP env (POP_P env s)).2 (POP env (POP_P env s)).1)).2 :=
    closed_POP h (closed_then_cpu h h1 (set_pc_mem _ _) (set_pc_mems _ _))
  refine closed_then_cpu h h2 ?_ ?_
  · simp only [RTI, do_rti, add_cycles_mem, set_pc_mem]
  · simp only [RTI, do_rti, add_cycles_mems, set_pc_mems]

theorem closed_ite (s : sim65s) (c : Prop) [Decidable c] (a b : sim65s) (ha : R s a)
    (hb : R s b) : R s (if c then a else b) := by
  split <;> assumption

set_option maxRecDepth 8000 in
theorem closed_dispatch (h : StepClosed env R) (ins data : Nat) (s : sim65s) :
    R s (dispatch env ins data s) := by
  unfold dispatch
  refine closed_ite s _ _ _ (closed_set_error h _ _ _) ?_
  refine closed_ite s _ _ _ (closed_IND_X h opcpu_ORA _ _) ?_
  refine closed_ite s _ _ _ (closed_ZP_R h opcpu_ORA _ _) ?_
  refine closed_ite s _ _ _ (closed_ZP_RW h opcpu_ASL _ _) ?_
  refine closed_ite s _ _ _ (closed_PUSH h _ _) ?_
  refine closed_ite s _ _ _ (closed_IMM h opcpu_ORA _ _) ?_
  refine closed_ite s _ _ _ (closed_IMP_A h opcpu_ASL _) ?_
  refine closed_ite s _ _ _ (closed_ABS_R h opcpu_ORA _ _) ?_
  refine closed_ite s _ _ _ (closed_ABS_RW h opcpu_ASL _ _) ?_
  refine closed_ite s _ _ _ (closed_BRA_0 h _ _ _) ?_
  refine closed_ite s _ _ _ (closed_IND_Y h opcpu_ORA _ _) ?_
  refine closed_ite s _ _ _ (closed_ZPX_R h opcpu_ORA _ _) ?_
  refine closed_ite s _ _ _ (closed_ZPX_RW h opcpu_ASL _ _) ?_
  refine closed_ite s _ _ _ (closed_CL_F h _ _) ?_
  refine closed_ite s _ _ _ (closed_ABY_R h opcpu_ORA _ _) ?_
  refine closed_ite s _ _ _ (closed_ABX_R h opcpu_ORA _ _) ?_
  refine closed_ite s _ _ _ (closed_ABX_RW h opcpu_ASL _ _) ?_
  refine closed_ite s _ _ _ (closed_JSR h _ _) ?_
  refine closed_ite s _ _ _ (closed_IND_X h opcpu_AND _ _) ?_
  refine closed_ite s _ _ _ (closed_BIT_ZP h _ _) ?_
  refine closed_ite s _ _ _ (closed_ZP_R h opcpu_AND _ _) ?_
  refine closed_ite s _ _ _ (closed_ZP_RW h opcpu_ROL _ _) ?_
  refine closed_ite s _ _ _ (closed_POP_P h _) ?_
  refine closed_ite s _ _ _ (closed_IMM h opcpu_AND _ _) ?_
  refine closed_ite s _ _ _ (closed_IMP_A h opcpu_ROL _) ?_
  refine closed_ite s _ _ _ (closed_BIT_ABS h _ _) ?_
  refine closed_ite s _ _ _ (closed_ABS_R h opcpu_AND _ _) ?_
  refine closed_ite s _ _ _ (closed_ABS_RW h opcpu_ROL _ _) ?_
  refine closed_ite s _ _ _ (closed_BRA_1 h _ _ _) ?_
  refine closed_ite s _ _ _ (closed_IND_Y h opcpu_AND _ _) ?_
  refine closed_ite s _ _ _ (closed_ZPX_R h opcpu_AND _ _) ?_
  refine closed_ite s _ _ _ (closed_ZPX_RW h opcpu_ROL _ _) ?_
  refine closed_ite s _ _ _ (closed_SE_F h _ _) ?_
  refine closed_ite s _ _ _ (closed_ABY_R h opcpu_AND _ _) ?_
  refine closed_ite s _ _ _ (closed_ABX_R h opcpu_AND _ _) ?_
  refine closed_ite s _ _ _ (closed_ABX_RW h opcpu_ROL _ _) ?_
  refine closed_ite s _ _ _ (closed_RTI h _) ?_
  refine closed_ite s _ _ _ (closed_IND_X h opcpu_EOR _ _) ?_
  refine closed_ite s _ _ _ (closed_ZP_R h opcpu_EOR _ _) ?_
  refine closed_ite s _ _ _ (closed_ZP_RW h opcpu_LSR _ _) ?_
  refine closed_ite s _ _ _ (closed_PUSH h _ _) ?_
  refine closed_ite s _ _ _ (closed_IMM h opcpu_EOR _ _) ?_
  refine closed_ite s _ _ _ (closed_IMP_A h opcpu_LSR _) ?_
  refine closed_ite s _ _ _ (closed_JMP h _ _) ?_
  refine closed_ite s _ _ _ (closed_ABS_R h opcpu_EOR _ _) ?_
  refine closed_ite s _ _ _ (closed_ABS_RW h opcpu_LSR _ _) ?_
  refine closed_ite s _ _ _ (closed_BRA_0 h _ _ _) ?_
  refine closed_ite s _ _ _ (closed_IND_Y h opcpu_EOR _ _) ?_
  refine closed_ite s _ _ _ (closed_ZPX_R h opcpu_EOR _ _) ?_
  refine closed_ite s _ _ _ (closed_ZPX_RW h opcpu_LSR _ _) ?_
  refine closed_ite s _ _ _ (closed_CL_F h _ _) ?_
  refine closed_ite s _ _ _ (closed_ABY_R h opcpu_EOR _ _) ?_
  refine closed_ite s _ _ _ (closed_ABX_R h opcpu_EOR _ _) ?_
  refine closed_ite s _ _ _ (closed_ABX_RW h opcpu_LSR _ _) ?_
  refine closed_ite s _ _ _ (closed_RTS h _) ?_
  refine closed_ite s _ _ _ (closed_IND_X h opcpu_ADC _ _) ?_
  refine closed_ite s _ _ _ (closed_ZP_R h opcpu_ADC _ _) ?_
  refine closed_ite s _ _ _ (closed_ZP_RW h opcpu_ROR _ _) ?_
  refine closed_ite s _ _ _ (closed_POP_A h _) ?_
  refine closed_ite s _ _ _ (closed_IMM h opcpu_ADC _ _) ?_
  refine closed_ite s _ _ _ (closed_IMP_A h opcpu_ROR _) ?_
  refine closed_ite s _ _ _ (closed_JMP16 h _ _) ?_
  refine closed_ite s _ _ _ (closed_ABS_R h opcpu_ADC _ _) ?_
  refine closed_ite s _ _ _ (closed_ABS_RW h opcpu_ROR _ _) ?_
  refine closed_ite s _ _ _ (closed_BRA_1 h _ _ _) ?_
  refine closed_ite s _ _ _ (closed_IND_Y h opcpu_ADC _ _) ?_
  refine closed_ite s _ _ _ (closed_ZPX_R h opcpu_ADC _ _) ?_
  refine closed_ite s _ _ _ (closed_ZPX_RW h opcpu_ROR _ _) ?_
  refine closed_ite s _ _ _ (closed_SE_F h _ _) ?_
  refine closed_ite s _ _ _ (closed_ABY_R h opcpu_ADC _ _) ?_
  refine closed_ite s _ _ _ (closed_ABX_R h opcpu_ADC _ _) ?_
  refine closed_ite s _ _ _ (closed_ABX_RW h opcpu_ROR _ _) ?_
  refine closed_ite s _ _ _ (closed_INDW_X h opcpu_STA _ _) ?_
  refine closed_ite s _ _ _ (closed_ZP_W h opcpu_STY _ _) ?_
  refine closed_ite s _ _ _ (closed_ZP_W h opcpu_STA _ _) ?_
  refine closed_ite s _ _ _ (closed_ZP_W h opcpu_STX _ _) ?_
  refine closed_ite s _ _ _ (closed_IMP_Y h opcpu_DEC _) ?_
  refine closed_ite s _ _ _ (closed_IMP_X h opcpu_LDA _) ?_
  refine closed_ite s _ _ _ (closed_ABS_W h opcpu_STY _ _) ?_
  refine closed_ite s _ _ _ (closed_ABS_W h opcpu_STA _ _) ?_
  refine closed_ite s _ _ _ (closed_ABS_W h opcpu_STX _ _) ?_
  refine closed_ite s _ _ _ (closed_BRA_0 h _ _ _) ?_
  refine closed_ite s _ _ _ (closed_INDW_Y h opcpu_STA _ _) ?_
  refine closed_ite s _ _ _ (closed_ZPX_W h opcpu_STY _ _) ?_
  refine closed_ite s _ _ _ (closed_ZPX_W h opcpu_STA _ _) ?_
  refine closed_ite s _ _ _ (closed_ZPY_W h opcpu_STX _ _) ?_
  refine closed_ite s _ _ _ (closed_IMP_Y h opcpu_LDA _) ?_
  refine closed_ite s _ _ _ (closed_ABY_W h opcpu_STA _ _) ?_
  refine closed_ite s _ _ _ (closed_TXS h _) ?_
  refine closed_ite s _ _ _ (closed_ABX_W h opcpu_STA _ _) ?_
  refine closed_ite s _ _ _ (closed_IMM h opcpu_LDY _ _) ?_
  refine closed_ite s _ _ _ (closed_IND_X h opcpu_LDA _ _) ?_
  refine closed_ite s _ _ _ (closed_IMM h opcpu_LDX _ _) ?_
  refine closed_ite s _ _ _ (closed_ZP_R h opcpu_LDY _ _) ?_
  refine closed_ite s _ _ _ (closed_ZP_R h opcpu_LDA _ _) ?_
  refine closed_ite s _ _ _ (closed_ZP_R h opcpu_LDX _ _) ?_
  refine closed_ite s _ _ _ (closed_IMP_A h opcpu_LDY _) ?_
  refine closed_ite s _ _ _ (closed_IMM h opcpu_LDA _ _) ?_
  refine closed_ite s _ _ _ (closed_IMP_A h opcpu_LDX _) ?_
  refine closed_ite s _ _ _ (closed_ABS_R h opcpu_LDY _ _) ?_
  refine closed_ite s _ _ _ (closed_ABS_R h opcpu_LDA _ _) ?_
  refine closed_ite s _ _ _ (closed_ABS_R h opcpu_LDX _ _) ?_
  refine closed_ite s _ _ _ (closed_BRA_1 h _ _ _) ?_
  refine closed_ite s _ _ _ (closed_IND_Y h opcpu_LDA _ _) ?_
  refine closed_ite s _ _ _ (closed_ZPX_R h opcpu_LDY _ _) ?_
  refine closed_ite s _ _ _ (closed_ZPX_R h opcpu_LDA _ _) ?_
  refine closed_ite s _ _ _ (closed_ZPY_R h opcpu_LDX _ _) ?_
  refine closed_ite s _ _ _ (closed_CL_F h _ _) ?_
  refine closed_ite s _ _ _ (closed_ABY_R h opcpu_LDA _ _) ?_
  refine closed_ite s _ _ _ (closed_IMP_X h opcpu_TSX_op _) ?_
  refine closed_ite s _ _ _ (closed_ABX_R h opcpu_LDY _ _) ?_
  refine closed_ite s _ _ _ (closed_ABX_R h opcpu_LDA _ _) ?_
  refine closed_ite s _ _ _ (closed_ABY_R h opcpu_LDX _ _) ?_
  refine closed_ite s _ _ _ (closed_IMM h opcpu_CPY _ _) ?_
  refine closed_ite s _ _ _ (closed_IND_X h opcpu_CMP _ _) ?_
  refine closed_ite s _ _ _ (closed_ZP_R h opcpu_CPY _ _) ?_
  refine closed_ite s _ _ _ (closed_ZP_R h opcpu_CMP _ _) ?_
  refine closed_ite s _ _ _ (closed_ZP_RW h opcpu_DEC _ _) ?_
  refine closed_ite s _ _ _ (closed_IMP_Y h opcpu_INC _) ?_
  refine closed_ite s _ _ _ (closed_IMM h opcpu_CMP _ _) ?_
  refine closed_ite s _ _ _ (closed_IMP_X h opcpu_DEC _) ?_
  refine closed_ite s _ _ _ (closed_ABS_R h opcpu_CPY _ _) ?_
  refine closed_ite s _ _ _ (closed_ABS_R h opcpu_CMP _ _) ?_
  refine closed_ite s _ _ _ (closed_ABS_RW h opcpu_DEC _ _) ?_
  refine closed_ite s _ _ _ (closed_BRA_0 h _ _ _) ?_
  refine closed_ite s _ _ _ (closed_IND_Y h opcpu_CMP _ _) ?_
  refine closed_ite s _ _ _ (closed_ZPX_R h opcpu_CMP _ _) ?_
  refine closed_ite s _ _ _ (closed_ZPX_RW h opcpu_DEC _ _) ?_
  refine closed_ite s _ _ _ (closed_CL_F h _ _) ?_
  refine closed_ite s _ _ _ (closed_ABY_R h opcpu_CMP _ _) ?_
  refine closed_ite s _ _ _ (closed_ABX_R h opcpu_CMP _ _) ?_
  refine closed_ite s _ _ _ (closed_ABX_RW h opcpu_DEC _ _) ?_
  refine closed_ite s _ _ _ (closed_IMM h opcpu_CPX _ _) ?_
  refine closed_ite s _ _ _ (closed_IND_X h opcpu_SBC _ _) ?_
  refine closed_ite s _ _ _ (closed_ZP_R h opcpu_CPX _ _) ?_
  refine closed_ite s _ _ _ (closed_ZP_R h opcpu_SBC _ _) ?_
  refine closed_ite s _ _ _ (closed_ZP_RW h opcpu_INC _ _) ?_
  refine closed_ite s _ _ _ (closed_IMP_X h opcpu_INC _) ?_
  refine closed_ite s _ _ _ (closed_IMM h opcpu_SBC _ _) ?_
  refine closed_ite s _ _ _ (closed_NOP h _) ?_
  refine closed_ite s _ _ _ (closed_ABS_R h opcpu_CPX _ _) ?_
  refine closed_ite s _ _ _ (closed_ABS_R h opcpu_SBC _ _) ?_
  refine closed_ite s _ _ _ (closed_ABS_RW h opcpu_INC _ _) ?_
  refine closed_ite s _ _ _ (closed_BRA_1 h _ _ _) ?_
  refine closed_ite s _ _ _ (closed_IND_Y h opcpu_SBC _ _) ?_
  refine closed_ite s _ _ _ (closed_ZPX_R h opcpu_SBC _ _) ?_
  refine closed_ite s _ _ _ (closed_ZPX_RW h opcpu_INC _ _) ?_
  refine closed_ite s _ _ _ (closed_SE_F h _ _) ?_
  refine closed_ite s _ _ _ (closed_ABY_R h opcpu_SBC _ _) ?_
  refine closed_ite s _ _ _ (closed_ABX_R h opcpu_SBC _ _) ?_
  refine closed_ite s _ _ _ (closed_ABX_RW h opcpu_INC _ _) ?_
  exact closed_set_error h _ _ _

theorem closed_print_ind_label (h : StepClosed env R) (s : sim65s) (addr : Nat)
    (idx : Option Char) (hint : Bool) : R s (print_ind_label env s addr idx hint) := by
  unfold print_ind_label
  simp only
  split
  · split
    · exact closed_readWord h _ _
    · split
      · exact closed_readWord h _ _
      · exact closed_readWord h _ _
  · exact closed_refl h s

theorem closed_INSPRT_IDX (h : StepClosed env R) (s : sim65s) (data : Nat) (hint : Bool) :
    R s (INSPRT_IDX env s data hint) :=
  closed_print_ind_label h _ _ _ _

theorem closed_INSPRT_IDYW (h : StepClosed env R) (s : sim65s) (data : Nat) (hint : Bool) :
    R s (INSPRT_IDYW env s data hint) :=
  closed_print_ind_label h _ _ _ _

theorem closed_INSPRT_IND (h : StepClosed env R) (s : sim65s) (data : Nat) (hint : Bool) :
    R s (INSPRT_IND env s data hint) :=
  closed_print_ind_label h _ _ _ _

theorem closed_INSPRT_IDY (h : StepClosed env R) (s : sim65s) (data : Nat) (hint : Bool) :
    R s (INSPRT_IDY env s data hint) := by
  unfold INSPRT_IDY
  simp only
  refine h.trans ?_ (closed_print_ind_label h _ _ _ _)
  split
  · exact h.trans (closed_readWord h _ _) (closed_readWord h _ _)
  · exact closed_refl h s

set_option maxRecDepth 8000 in
theorem closed_print_curr_ins (h : StepClosed env R) (s : sim65s) (pc : Nat) (hint : Bool) :
    R s (print_curr_ins env s pc hint) := by
  unfold print_curr_ins
  simp only
  refine closed_ite s _ _ _ (closed_INSPRT_IDX h _ _ _) ?_
  refine closed_ite s _ _ _ (closed_INSPRT_IDYW h _ _ _) ?_
  refine closed_ite s _ _ _ (closed_INSPRT_IDY h _ _ _) ?_
  refine closed_ite s _ _ _ (closed_INSPRT_IDX h _ _ _) ?_
  refine closed_ite s _ _ _ (closed_INSPRT_IDX h _ _ _) ?_
  refine closed_ite s _ _ _ (closed_INSPRT_IDX h _ _ _) ?_
  refine closed_ite s _ _ _ (closed_INSPRT_IDY h _ _ _) ?_
  refine closed_ite s _ _ _ (closed_INSPRT_IDYW h _ _ _) ?_
  refine closed_ite s _ _ _ (closed_INSPRT_IDX h _ _ _) ?_
  refine closed_ite s _ _ _ (closed_INSPRT_IDX h _ _ _) ?_
  refine closed_ite s _ _ _ (closed_INSPRT_IDY h _ _ _) ?_
  refine closed_ite s _ _ _ (closed_INSPRT_IDYW h _ _ _) ?_
  refine closed_ite s _ _ _ (closed_INSPRT_IDX h _ _ _) ?_
  refine closed_ite s _ _ _ (closed_INSPRT_IDX h _ _ _) ?_
  refine closed_ite s _ _ _ (closed_INSPRT_IND h _ _ _) ?_
  refine closed_ite s _ _ _ (closed_INSPRT_IDY h _ _ _) ?_
  refine closed_ite s _ _ _ (closed_INSPRT_IDYW h _ _ _) ?_
  refine closed_ite s _ _ _ (closed_INSPRT_IDX h _ _ _) ?_
  refine closed_ite s _ _ _ (closed_INSPRT_IDX h _ _ _) ?_
  refine closed_ite s _ _ _ (closed_INSPRT_IDYW h _ _ _) ?_
  refine closed_ite s _ _ _ (closed_INSPRT_IDYW h _ _ _) ?_
  refine closed_ite s _ _ _ (closed_INSPRT_IDX h _ _ _) ?_
  refine closed_ite s _ _ _ (closed_INSPRT_IDX h _ _ _) ?_
  refine closed_ite s _ _ _ (closed_INSPRT_IDY h _ _ _) ?_
  refine closed_ite s _ _ _ (closed_INSPRT_IDY h _ _ _) ?_
  refine closed_ite s _ _ _ (closed_INSPRT_IDX h _ _ _) ?_
  refine closed_ite s _ _ _ (closed_INSPRT_IDX h _ _ _) ?_
  refine closed_ite s _ _ _ (closed_INSPRT_IDY h _ _ _) ?_
  refine closed_ite s _ _ _ (closed_INSPRT_IDYW h _ _ _) ?_
  refine closed_ite s _ _ _ (closed_INSPRT_IDX h _ _ _) ?_
  refine closed_ite s _ _ _ (closed_INSPRT_IDX h _ _ _) ?_
  refine closed_ite s _ _ _ (closed_INSPRT_IDY h _ _ _) ?_
  refine closed_ite s _ _ _ (closed_INSPRT_IDYW h _ _ _) ?_
  exact closed_refl h s

theorem closed_next_fetch (h : StepClosed env R) (s : sim65s) : R s (next_fetch s).2.2 :=
  h.cpu _ _ (err_only_mem (next_fetch_err_only s)) (err_only_mems (next_fetch_err_only s))

theorem closed_next_exec (h : StepClosed env R) (ins data : Nat) (s : sim65s) :
    R s (next_exec env ins data s) :=
  closed_then_cpu h
    (h.trans (h.cpu s (set_pc s (s.r.pc + ilen ins)) rfl rfl) (closed_dispatch h ins data _))
    (prof_only_mem (next_exec_prof_only env ins data s))
    (prof_only_mems (next_exec_prof_only env ins data s))

theorem next_body_unfold (env : CbEnv) (s : sim65s) :
    next_body env s =
      if (if s.debug ≥ sim65_debug_trace then sim65_print_reg env s else s).cycle_limit ≠ 0 ∧
          (if s.debug ≥ sim65_debug_trace then sim65_print_reg env s else s).cycles ≥
            (if s.debug ≥ sim65_debug_trace then sim65_print_reg env s else s).cycle_limit then
        set_error (if s.debug ≥ sim65_debug_trace then sim65_print_reg env s else s)
          sim65_err_cycle_limit
          (if s.debug ≥ sim65_debug_trace then sim65_print_reg env s else s).r.pc
      else
        next_exec env
          (next_fetch (if s.debug ≥ sim65_debug_trace then sim65_print_reg env s else s)).1
          (next_fetch (if s.debug ≥ sim65_debug_trace then sim65_print_reg env s else s)).2.1
          (next_fetch (if s.debug ≥ sim65_debug_trace then sim65_print_reg env s else s)).2.2 :=
  rfl

theorem closed_next_body (h : StepClosed env R) (s : sim65s) : R s (next_body env s) := by
  rw [next_body_unfold]
  have ht : R s (if s.debug ≥ sim65_debug_trace then sim65_print_reg env s else s) := by
    split
    · exact closed_print_curr_ins h _ _ _
    · exact closed_refl h s
  generalize (if s.debug ≥ sim65_debug_trace then sim65_print_reg env s else s) = t at ht
  split
  · exact h.trans ht (closed_set_error h _ _ _)
  · exact h.trans ht (h.trans (closed_next_fetch h t) (closed_next_exec h _ _ _))

theorem get_error_exit_mem (s : sim65s) :
    (get_error_exit s).2.mem = s.mem ∧ (get_error_exit s).2.mems = s.mems := by
  unfold get_error_exit
  simp only
  split_ifs <;> exact ⟨rfl, rfl⟩

/-- Every relation that the elementary changes respect holds between a state and the state
after one instruction step. -/
theorem closed_next (h : StepClosed env R) (s : sim65s) : R s (next env s) := by
  unfold next
  split
  · rename_i cb _
    simp only
    have h1 : R s (get_error_exit (set_error (env cb s s.r.pc sim65_cb_exec).2
        (env cb s s.r.pc sim65_cb_exec).1 s.r.pc)).2 :=
      closed_then_cpu h (h.trans (h.callback cb s _ _) (closed_set_error h _ _ _))
        (get_error_exit_mem _).1 (get_error_exit_mem _).2
    split
    · exact h1
    · exact h.trans h1 (closed_next_body h _)
  · exact closed_next_body h s

end closed

section status

theorem and_status (m c : Nat) : (m &&& c) &&& status_mask = (m &&& status_mask) &&& c := by
  rw [Nat.and_assoc, Nat.and_comm c status_mask, ← Nat.and_assoc]

theorem mod256_status (m : Nat) : (m % 256) &&& status_mask = m &&& status_mask := by
  rw [← and_0xFF, Nat.and_assoc]
  rfl

theorem or_cb_status (m : Nat) : (m ||| ms_callback) &&& status_mask = m &&& status_mask := by
  rw [Nat.and_distrib_right]
  show m &&& status_mask ||| 0 = _
  exact Nat.or_zero _

theorem status_class_and (m c : Nat) (h : status_class m)
    (hc : c = not8 ms_undef ∨ c = not8 (ms_undef ||| ms_rom ||| ms_invalid)) :
    status_class (m &&& c) := by
  unfold status_class at *
  rw [and_status]
  rcases hc with rfl | rfl <;> rcases h with h | h | h | h <;> rw [h] <;> decide

theorem status_class_clear_invalid (m : Nat) (h : status_class m) (hu : m &&& ms_undef = 0) :
    status_class (m &&& not8 ms_invalid) := by
  have hu' : (m &&& status_mask) &&& ms_undef = 0 := by
    rw [Nat.and_assoc]; exact hu
  unfold status_class at *
  rw [and_status]
  rcases h with h | h | h | h <;> rw [h] at hu' ⊢
  · exact absurd hu' (by decide)
  · decide
  · decide
  · decide

theorem status_class_rom (m : Nat) :
    status_class (((m &&& not8 (ms_undef ||| ms_invalid)) ||| ms_rom) % 256) := by
  unfold status_class
  rw [mod256_status, Nat.and_distrib_right, and_status]
  have hk : m &&& status_mask < 8 := lt_of_le_of_lt Nat.and_le_right (by decide)
  generalize m &&& status_mask = k at hk
  interval_cases k <;> decide

theorem status_class_cb (m : Nat) (h : status_class m) : status_class ((m ||| ms_callback) % 256) := by
  unfold status_class at *
  rw [mod256_status, or_cb_status]
  exact h

theorem status_class_zero : status_class 0 := by
  unfold status_class; decide

theorem for_range_induction {α : Type} (P : α → Prop) (body : Nat → α → α)
    (hb : ∀ a s, P s → P (body a s)) (addr end_ : Nat) (s : α) (h : P s) :
    P (for_range addr end_ body s) := by
  unfold for_range
  generalize List.range' addr (end_ - addr) = l
  induction l generalizing s with
  | nil => exact h
  | cons a l ih => exact ih _ (hb a s h)

theorem mem_inv_update (s : sim65s) (a m : Nat) (h : mem_inv s) (hm : status_class m) :
    ∀ b, status_class (Function.update s.mems a m b) := by
  intro b
  by_cases e : b = a
  · subst e; rw [Function.update_same]; exact hm
  · rw [Function.update_noteq e]; exact h b

end status

theorem mem_inv_new : mem_inv sim65_new := by
  intro a
  show status_class (if a < MAXRAM then ms_undef ||| ms_invalid else 0)
  split
  · unfold status_class; decide
  · exact status_class_zero

theorem mem_inv_add_ram (s : sim65s) (addr len : Nat) (h : mem_inv s) :
    mem_inv (sim65_add_ram s addr len) := by
  unfold sim65_add_ram
  simp only
  split
  · exact h
  · refine for_range_induction mem_inv _ ?_ _ _ s h
    intro a t ht
    exact mem_inv_update t a _ ht (status_class_and _ _ (ht a) (Or.inl rfl))

theorem mem_inv_add_zeroed_ram (s : sim65s) (addr len : Nat) (h : mem_inv s) :
    mem_inv (sim65_add_zeroed_ram s addr len) := by
  unfold sim65_add_zeroed_ram
  simp only
  split
  · exact h
  · refine for_range_induction mem_inv _ ?_ _ _ s h
    intro a t ht
    exact mem_inv_update t a _ ht (status_class_and _ _ (ht a) (Or.inr rfl))

theorem mem_inv_add_data_ram (s : sim65s) (addr : Nat) (data : Nat → Nat) (len : Nat)
    (h : mem_inv s) : mem_inv (sim65_add_data_ram s addr data len) := by
  unfold sim65_add_data_ram
  simp only
  split
  · exact h
  · refine for_range_induction mem_inv _ ?_ _ _ s h
    intro a t ht
    exact mem_inv_update t a _ ht (status_class_and _ _ (ht a) (Or.inr rfl))

theorem mem_inv_add_data_rom (s : sim65s) (addr : Nat) (data : Nat → Nat) (len : Nat)
    (h : mem_inv s) : mem_inv (sim65_add_data_rom s addr data len) := by
  unfold sim65_add_data_rom
  simp only
  split
  · exact h
  · refine for_range_induction mem_inv _ ?_ _ _ s h
    intro a t ht
    exact mem_inv_update t a _ ht (status_class_rom _)

theorem mem_inv_add_callback (s : sim65s) (addr : Nat) (cb : Option Nat) (type : Int)
    (h : mem_inv s) : mem_inv (sim65_add_callback s addr cb type) := by
  have hu := mem_inv_update s addr _ h (status_class_cb _ (h addr))
  unfold sim65_add_callback
  simp only
  split
  · exact h
  · split
    · exact hu
    · split
      · exact hu
      · split
        · exact hu
        · exact hu

theorem mem_inv_add_callback_range (s : sim65s) (addr len : Nat) (cb : Option Nat) (type : Int)
    (h : mem_inv s) : mem_inv (sim65_add_callback_range s addr len cb type) := by
  unfold sim65_add_callback_range
  exact for_range_induction mem_inv _ (fun a t ht => mem_inv_add_callback t a cb type ht) _ _ s h

theorem mem_inv_closed (env : CbEnv)
    (hcb : ∀ (cb : Nat) (s : sim65s) (a : Nat) (d : Int), mem_inv s → mem_inv (env cb s a d).2) :
    StepClosed env (fun s t => mem_inv s → mem_inv t) where
  trans := fun h1 h2 h => h2 (h1 h)
  cpu := fun s t _ hms h a => by rw [hms]; exact h a
  clear_invalid := fun s a hu h =>
    mem_inv_update s a _ h (status_class_clear_invalid _ (h a) hu)
  store := fun s a v _ h => mem_inv_update s a _ h status_class_zero
  callback := hcb

theorem status_class_excl (m : Nat) (h : status_class m) :
    (m &&& ms_undef ≠ 0 → m &&& ms_invalid ≠ 0) ∧
    (m &&& ms_rom ≠ 0 → m &&& ms_undef = 0 ∧ m &&& ms_invalid = 0) := by
  have e1 : m &&& ms_undef = (m &&& status_mask) &&& ms_undef := by rw [Nat.and_assoc]; rfl
  have e2 : m &&& ms_invalid = (m &&& status_mask) &&& ms_invalid := by rw [Nat.and_assoc]; rfl
  have e3 : m &&& ms_rom = (m &&& status_mask) &&& ms_rom := by rw [Nat.and_assoc]; rfl
  rw [e1, e2, e3]
  rcases h with h | h | h | h <;> rw [h] <;> decide

theorem mem_inv_reachable (env : CbEnv)
    (hcb : ∀ (cb : Nat) (s : sim65s) (a : Nat) (d : Int), mem_inv s → mem_inv (env cb s a d).2)
    (s : sim65s) (hs : Reachable env s) : mem_inv s := by
  have hc := mem_inv_closed env hcb
  induction hs with
  | new => exact mem_inv_new
  | add_ram s addr len _ ih => exact mem_inv_add_ram s addr len ih
  | add_zeroed_ram s addr len _ ih => exact mem_inv_add_zeroed_ram s addr len ih
  | add_data_ram s addr data len _ ih => exact mem_inv_add_data_ram s addr data len ih
  | add_data_rom s addr data len _ ih => exact mem_inv_add_data_rom s addr data len ih
  | add_callback s addr cb type _ ih => exact mem_inv_add_callback s addr cb type ih
  | add_callback_range s addr len cb type _ ih =>
      exact mem_inv_add_callback_range s addr len cb type ih
  | read s addr _ ih => exact closed_readByte hc s addr ih
  | write s addr val _ ih => exact closed_writeByte hc s addr val ih
  | bit s addr _ ih => exact closed_do_bit hc s addr ih
  | step s _ ih => exact closed_next hc s ih
  | setup s t _ _ hms ih => intro b; rw [hms]; exact ih b

/-- C9. Memory-status invariant: in every state reachable from `sim65_new` by region
installation, callback installation, CPU reads, CPU writes, BIT and instruction steps (the
installed callbacks themselves keeping the classification), the status of every address,
restricted to UNDEF, ROM and INVALID, is `UNDEF|INVALID`, `INVALID` alone, none, or `ROM`
alone; so UNDEF implies INVALID, and ROM excludes both UNDEF and INVALID. The CALLBACK bit
plays no part. -/
theorem mem_status_invariant (env : CbEnv)
    (hcb : ∀ (cb : Nat) (s : sim65s) (a : Nat) (d : Int), mem_inv s → mem_inv (env cb s a d).2)
    (s : sim65s) (hs : Reachable env s) (a : Nat) :
    (s.mems a &&& (ms_undef ||| ms_rom ||| ms_invalid) = ms_undef ||| ms_invalid ∨
     s.mems a &&& (ms_undef ||| ms_rom ||| ms_invalid) = ms_invalid ∨
     s.mems a &&& (ms_undef ||| ms_rom ||| ms_invalid) = 0 ∨
     s.mems a &&& (ms_undef ||| ms_rom ||| ms_invalid) = ms_rom) ∧
    (s.mems a &&& ms_undef ≠ 0 → s.mems a &&& ms_invalid ≠ 0) ∧
    (s.mems a &&& ms_rom ≠ 0 → s.mems a &&& ms_undef = 0 ∧ s.mems a &&& ms_invalid = 0) := by
  have hinv := mem_inv_reachable env hcb s hs
  exact ⟨hinv a, status_class_excl _ (hinv a)⟩

/-- The invariant at the ROM cell of `rom_state`, after one instruction step, with no
callbacks installed. -/
theorem mem_status_invariant_witness :
    (((next env_none rom_state).mems 0xF000 &&& (ms_undef ||| ms_rom ||| ms_invalid)
        = ms_undef ||| ms_invalid ∨
      (next env_none rom_state).mems 0xF000 &&& (ms_undef ||| ms_rom ||| ms_invalid)
        = ms_invalid ∨
      (next env_none rom_state).mems 0xF000 &&& (ms_undef ||| ms_rom ||| ms_invalid) = 0 ∨
      (next env_none rom_state).mems 0xF000 &&& (ms_undef ||| ms_rom ||| ms_invalid) = ms_rom) ∧
    ((next env_none rom_state).mems 0xF000 &&& ms_undef ≠ 0 →
      (next env_none rom_state).mems 0xF000 &&& ms_invalid ≠ 0) ∧
    ((next env_none rom_state).mems 0xF000 &&& ms_rom ≠ 0 →
      (next env_none rom_state).mems 0xF000 &&& ms_undef = 0 ∧
      (next env_none rom_state).mems 0xF000 &&& ms_invalid = 0)) :=
  mem_status_invariant env_none (fun _ _ _ _ h => h) (next env_none rom_state)
    (Reachable.step _ (Reachable.add_data_rom _ 0xF000 _ 1
      (Reachable.add_ram _ 0 0x10 Reachable.new))) 0xF000

theorem and_not_invalid_rom (m : Nat) : (m &&& not8 ms_invalid) &&& ms_rom = m &&& ms_rom := by
  rw [Nat.and_assoc]; rfl

theorem rom_kept_closed (env : CbEnv)
    (hcb : ∀ (cb : Nat) (s : sim65s) (a : Nat) (d : Int), rom_kept s (env cb s a d).2) :
    StepClosed env rom_kept where
  trans := fun h1 h2 a ha => ⟨((h2 a (h1 a ha).2).1).trans (h1 a ha).1, (h2 a (h1 a ha).2).2⟩
  cpu := fun s t hm hms a ha => by rw [hm, hms]; exact ⟨rfl, ha⟩
  clear_invalid := fun s a _ b hb => by
    refine ⟨rfl, ?_⟩
    show Function.update s.mems a (s.mems a &&& not8 ms_invalid) b &&& ms_rom ≠ 0
    by_cases e : b = a
    · subst e; rw [Function.update_same, and_not_invalid_rom]; exact hb
    · rw [Function.update_noteq e]; exact hb
  store := fun s a v ha b hb => by
    have e : b ≠ a := by
      rintro rfl
      apply hb
      rw [← and_not_invalid_rom, ha]
      rfl
    show Function.update s.mem a v b = s.mem b ∧ Function.update s.mems a 0 b &&& ms_rom ≠ 0
    rw [Function.update_noteq e, Function.update_noteq e]
    exact ⟨rfl, hb⟩
  callback := hcb

theorem writeByte_rom (env : CbEnv) (s : sim65s) (addr val : Nat)
    (hrom : s.mems (addr % 65536) &&& ms_rom ≠ 0)
    (hund : s.mems (addr % 65536) &&& ms_undef = 0)
    (hcb : s.cb_write (addr % 65536) = none) :
    writeByte env s addr val = set_error s sim65_err_write_rom (addr % 65536) := by
  have h0 : s.mems (addr % 65536) ≠ 0 := by
    intro h; rw [h] at hrom; exact hrom (Nat.zero_and _)
  have h1 : s.mems (addr % 65536) &&& not8 ms_invalid ≠ 0 := by
    intro h; apply hrom; rw [← and_not_invalid_rom, h]; rfl
  unfold writeByte
  simp only [if_neg h0]
  unfold writeByte_slow
  simp only [if_neg h1, hcb, ite_self, hund, ne_eq, not_true_eq_false, if_false, hrom,
    not_false_eq_true, if_true]

/-- C10. ROM is never modified by execution: for every instruction executed by `next` (the
callbacks themselves keeping the ROM cells), every address whose status has ROM set keeps its
value byte and its ROM bit; and a CPU write to a ROM cell (ROM set, status of one of the four
classes) with no write callback installed, when no error was latched, latches
`sim65_err_write_rom` at that address and leaves both memory arrays as they were. -/
theorem rom_never_modified (env : CbEnv)
    (hcb : ∀ (cb : Nat) (s : sim65s) (a : Nat) (d : Int), rom_kept s (env cb s a d).2)
    (s : sim65s) :
    (∀ a, s.mems a &&& ms_rom ≠ 0 →
      (next env s).mem a = s.mem a ∧ (next env s).mems a &&& ms_rom ≠ 0) ∧
    (∀ addr val, s.mems (addr % 65536) &&& ms_rom ≠ 0 → status_class (s.mems (addr % 65536)) →
      s.cb_write (addr % 65536) = none → s.error = 0 →
      (writeByte env s addr val).error = sim65_err_write_rom ∧
      (writeByte env s addr val).err_addr = addr % 65536 ∧
      (writeByte env s addr val).mem = s.mem ∧
      (writeByte env s addr val).mems = s.mems) := by
  refine ⟨closed_next (rom_kept_closed env hcb) s, ?_⟩
  intro addr val hrom hcl hw he
  rw [writeByte_rom env s addr val hrom ((status_class_excl _ hcl).2 hrom).1 hw]
  unfold set_error
  rw [if_pos ⟨by decide, he⟩]
  exact ⟨rfl, Nat.mod_mod _ _, rfl, rfl⟩

/-- The ROM cell of `rom_state` keeps its byte and its ROM bit over an instruction step, and
a CPU write of `$55` to it latches the write-to-ROM error there. -/
theorem rom_never_modified_witness :
    ((next env_none rom_state).mem 0xF000 = rom_state.mem 0xF000 ∧
      (next env_none rom_state).mems 0xF000 &&& ms_rom ≠ 0) ∧
    ((writeByte env_none rom_state 0xF000 0x55).error = sim65_err_write_rom ∧
      (writeByte env_none rom_state 0xF000 0x55).err_addr = 0xF000 ∧
      (writeByte env_none rom_state 0xF000 0x55).mem = rom_state.mem ∧
      (writeByte env_none rom_state 0xF000 0x55).mems = rom_state.mems) :=
  ⟨(rom_never_modified env_none (fun _ _ _ _ _ ha => ⟨rfl, ha⟩) rom_state).1 0xF000
      (by decide),
   (rom_never_modified env_none (fun _ _ _ _ _ ha => ⟨rfl, ha⟩) rom_state).2 0xF000 0x55
      (by decide) (by decide) (by decide) (by decide)⟩

/-! ## Cycle counts without callbacks -/

section cycles
variable (env : CbEnv)

theorem reads_only_refl (s : sim65s) : reads_only s s := rfl

theorem reads_only_trans {s t u : sim65s} (h1 : reads_only s t) (h2 : reads_only t u) :
    reads_only s u := by
  unfold reads_only at *
  rw [h2, h1]

theorem reads_only_of_err_only {s t : sim65s} (h : err_only s t) : reads_only s t := by
  unfold reads_only err_only at *
  rw [h]

theorem reads_only_set_error (s : sim65s) (e : Int) (a : Nat) : reads_only s (set_error s e a) :=
  reads_only_of_err_only (err_only_set_error s e a)

theorem reads_only_nocb {s t : sim65s} (h : reads_only s t) (hs : no_callbacks s) :
    no_callbacks t := by
  unfold reads_only at h
  rw [h]
  exact hs

theorem readByte_nocb (s : sim65s) (addr : Nat) (hs : no_callbacks s) :
    reads_only s (readByte env s addr).2 ∧ (readByte env s addr).1 = s.mem (addr % 65536) % 256 := by
  unfold readByte
  simp only
  split
  · exact ⟨rfl, rfl⟩
  · unfold readByte_slow
    simp only [(hs (addr % 65536)).1, ite_self]
    split
    · have h := reads_only_set_error s sim65_err_read_undef (addr % 65536)
      refine ⟨h, ?_⟩
      unfold reads_only at h
      rw [h]
    · have h := reads_only_set_error s sim65_err_read_uninit (addr % 65536)
      unfold reads_only at h ⊢
      constructor
      · rw [h]
      · rw [h]

theorem readWord_nocb (s : sim65s) (addr : Nat) (hs : no_callbacks s) :
    reads_only s (readWord env s addr).2 ∧
    (readWord env s addr).1 &&& 0xFF = s.mem (addr % 65536) % 256 := by
  unfold readWord
  simp only
  have h1 := readByte_nocb env s (addr % 65536) hs
  have h2 := readByte_nocb env (readByte env s (addr % 65536)).2 (addr % 65536 + 1)
    (reads_only_nocb h1.1 hs)
  refine ⟨reads_only_trans h1.1 h2.1, ?_⟩
  rw [h1.2, Nat.mod_mod]
  generalize (readByte env (readByte env s (addr % 65536)).2 (addr % 65536 + 1)).1 = d2
  generalize s.mem (addr % 65536) = m
  rw [and_0xFF]
  apply Nat.eq_of_testBit_eq
  intro i
  simp only [Nat.testBit_mod_two_pow, show (256 : Nat) = 2 ^ 8 from rfl,
    show (65536 : Nat) = 2 ^ 16 from rfl, Nat.testBit_or, Nat.testBit_shiftLeft]
  by_cases hi : i < 8
  · have : ¬ (i ≥ 8) := by omega
    have h16 : i < 16 := by omega
    simp [hi, this, h16]
  · simp [hi]

theorem writeByte_keep (s : sim65s) (addr val : Nat) (hs : no_callbacks s) :
    (writeByte env s addr val).cycles = s.cycles ∧ (writeByte env s addr val).r = s.r ∧
    (writeByte env s addr val).cb_read = s.cb_read ∧
    (writeByte env s addr val).cb_write = s.cb_write ∧
    (writeByte env s addr val).cb_exec = s.cb_exec := by
  unfold writeByte
  simp only
  split
  · exact ⟨rfl, rfl, rfl, rfl, rfl⟩
  · unfold writeByte_slow
    simp only [(hs (addr % 65536)).2.1, ite_self]
    have h1 := reads_only_set_error s sim65_err_write_undef (addr % 65536)
    have h2 := reads_only_set_error s sim65_err_write_rom (addr % 65536)
    unfold reads_only at h1 h2
    split
    · exact ⟨rfl, rfl, rfl, rfl, rfl⟩
    · split
      · rw [h1]; exact ⟨rfl, rfl, rfl, rfl, rfl⟩
      · split
        · rw [h2]; exact ⟨rfl, rfl, rfl, rfl, rfl⟩
        · exact ⟨rfl, rfl, rfl, rfl, rfl⟩

variable {env}

theorem cyc_refl (s : sim65s) : Cyc (fun c => c) s s := fun h => ⟨rfl, h⟩

theorem cyc_keep {f : Nat → Nat} {s t u : sim65s} (h1 : Cyc f s t) (hc : u.cycles = t.cycles)
    (hr : u.cb_read = t.cb_read) (hw : u.cb_write = t.cb_write) (hx : u.cb_exec = t.cb_exec) :
    Cyc f s u := by
  intro hs
  obtain ⟨h2, h3⟩ := h1 hs
  refine ⟨hc.trans h2, ?_⟩
  intro a
  rw [hr, hw, hx]
  exact h3 a

theorem cyc_rd {f : Nat → Nat} {s t : sim65s} (a : Nat) (h1 : Cyc f s t) :
    Cyc f s (readByte env t a).2 := by
  intro hs
  obtain ⟨h2, h3⟩ := h1 hs
  have h := (readByte_nocb env t a h3).1
  refine ⟨?_, reads_only_nocb h h3⟩
  unfold reads_only at h
  rw [h]
  exact h2

theorem cyc_rw {f : Nat → Nat} {s t : sim65s} (a : Nat) (h1 : Cyc f s t) :
    Cyc f s (readWord env t a).2 := by
  intro hs
  obtain ⟨h2, h3⟩ := h1 hs
  have h := (readWord_nocb env t a h3).1
  refine ⟨?_, reads_only_nocb h h3⟩
  unfold reads_only at h
  rw [h]
  exact h2

theorem cyc_wr {f : Nat → Nat} {s t : sim65s} (a v : Nat) (h1 : Cyc f s t) :
    Cyc f s (writeByte env t a v) := by
  intro hs
  obtain ⟨h2, h3⟩ := h1 hs
  obtain ⟨k1, _, k2, k3, k4⟩ := writeByte_keep env t a v h3
  refine ⟨k1.trans h2, ?_⟩
  intro b
  rw [k2, k3, k4]
  exact h3 b

theorem cyc_op {f : Nat → Nat} {op : Op} (hop : OpKeep op) {s t : sim65s} (v : Nat)
    (h1 : Cyc f s t) : Cyc f s (op t v).1 :=
  cyc_keep h1 (hop t v).1 (hop t v).2.1 (hop t v).2.2.1 (hop t v).2.2.2

theorem cyc_add {f : Nat → Nat} {s t : sim65s} (n : Nat) (h1 : Cyc f s t) :
    Cyc (fun c => (f c + n) % 2 ^ 64) s (add_cycles t n) := by
  intro hs
  obtain ⟨h2, h3⟩ := h1 hs
  refine ⟨?_, h3⟩
  show (t.cycles + n) % 2 ^ 64 = _
  rw [h2]

theorem cyc_trans {f g : Nat → Nat} {s t u : sim65s} (h1 : Cyc f s t) (h2 : Cyc g t u) :
    Cyc (fun c => g (f c)) s u := by
  intro hs
  obtain ⟨h3, h4⟩ := h1 hs
  obtain ⟨h5, h6⟩ := h2 h4
  exact ⟨by rw [h5, h3], h6⟩

theorem do_adc_keep (s : sim65s) (v : Nat) :
    (do_adc s v).cycles = s.cycles ∧ (do_adc s v).cb_read = s.cb_read ∧
    (do_adc s v).cb_write = s.cb_write ∧ (do_adc s v).cb_exec = s.cb_exec := by
  unfold do_adc; split <;> exact ⟨rfl, rfl, rfl, rfl⟩

theorem do_sbc_keep (s : sim65s) (v : Nat) :
    (do_sbc s v).cycles = s.cycles ∧ (do_sbc s v).cb_read = s.cb_read ∧
    (do_sbc s v).cb_write = s.cb_write ∧ (do_sbc s v).cb_exec = s.cb_exec := by
  unfold do_sbc; split <;> exact ⟨rfl, rfl, rfl, rfl⟩

theorem opkeep_ORA : OpKeep ORA := fun _ _ => ⟨rfl, rfl, rfl, rfl⟩

theorem opkeep_AND : OpKeep AND := fun _ _ => ⟨rfl, rfl, rfl, rfl⟩

theorem opkeep_EOR : OpKeep EOR := fun _ _ => ⟨rfl, rfl, rfl, rfl⟩

theorem opkeep_ASL : OpKeep ASL := fun _ _ => ⟨rfl, rfl, rfl, rfl⟩

theorem opkeep_ROL : OpKeep ROL := fun _ _ => ⟨rfl, rfl, rfl, rfl⟩

theorem opkeep_LSR : OpKeep LSR := fun _ _ => ⟨rfl, rfl, rfl, rfl⟩

theorem opkeep_ROR : OpKeep ROR := fun _ _ => ⟨rfl, rfl, rfl, rfl⟩

theorem opkeep_DEC : OpKeep DEC := fun _ _ => ⟨rfl, rfl, rfl, rfl⟩

theorem opkeep_INC : OpKeep INC := fun _ _ => ⟨rfl, rfl, rfl, rfl⟩

theorem opkeep_CMP : OpKeep CMP := fun _ _ => ⟨rfl, rfl, rfl, rfl⟩

theorem opkeep_CPX : OpKeep CPX := fun _ _ => ⟨rfl, rfl, rfl, rfl⟩

theorem opkeep_CPY : OpKeep CPY := fun _ _ => ⟨rfl, rfl, rfl, rfl⟩

theorem opkeep_LDA : OpKeep LDA := fun _ _ => ⟨rfl, rfl, rfl, rfl⟩

theorem opkeep_LDX : OpKeep LDX := fun _ _ => ⟨rfl, rfl, rfl, rfl⟩

theorem opkeep_LDY : OpKeep LDY := fun _ _ => ⟨rfl, rfl, rfl, rfl⟩

theorem opkeep_STA : OpKeep STA := fun _ _ => ⟨rfl, rfl, rfl, rfl⟩

theorem opkeep_STX : OpKeep STX := fun _ _ => ⟨rfl, rfl, rfl, rfl⟩

theorem opkeep_STY : OpKeep STY := fun _ _ => ⟨rfl, rfl, rfl, rfl⟩

theorem opkeep_TSX_op : OpKeep TSX_op := fun _ _ => ⟨rfl, rfl, rfl, rfl⟩

theorem opkeep_ADC : OpKeep ADC := fun s v => do_adc_keep s v

theorem opkeep_SBC : OpKeep SBC := fun s v => do_sbc_keep s v

theorem cy_ZP_R {op : Op} (hop : OpKeep op) (data : Nat) (s : sim65s) (hs : no_callbacks s) :
    (ZP_R env op data s).cycles = (s.cycles + 3) % 2 ^ 64 :=
  (cyc_op hop _ (cyc_rd _ (cyc_add 3 (cyc_refl s))) hs).1

theorem cy_ZP_W {op : Op} (hop : OpKeep op) (data : Nat) (s : sim65s) (hs : no_callbacks s) :
    (ZP_W env op data s).cycles = (s.cycles + 3) % 2 ^ 64 :=
  (cyc_wr _ _ (cyc_op hop 0 (cyc_add 3 (cyc_refl s))) hs).1

theorem cy_ZP_RW {op : Op} (hop : OpKeep op) (data : Nat) (s : sim65s) (hs : no_callbacks s) :
    (ZP_RW env op data s).cycles = (s.cycles + 5) % 2 ^ 64 :=
  (cyc_wr _ _ (cyc_op hop _ (cyc_rd _ (cyc_add 5 (cyc_refl s)))) hs).1

theorem cy_ABS_R {op : Op} (hop : OpKeep op) (data : Nat) (s : sim65s) (hs : no_callbacks s) :
    (ABS_R env op data s).cycles = (s.cycles + 4) % 2 ^ 64 :=
  (cyc_op hop _ (cyc_rd _ (cyc_add 4 (cyc_refl s))) hs).1

theorem cy_ABS_W {op : Op} (hop : OpKeep op) (data : Nat) (s : sim65s) (hs : no_callbacks s) :
    (ABS_W env op data s).cycles = (s.cycles + 4) % 2 ^ 64 :=
  (cyc_wr _ _ (cyc_op hop 0 (cyc_add 4 (cyc_refl s))) hs).1

theorem cy_ABS_RW {op : Op} (hop : OpKeep op) (data : Nat) (s : sim65s) (hs : no_callbacks s) :
    (ABS_RW env op data s).cycles = (s.cycles + 6) % 2 ^ 64 :=
  (cyc_wr _ _ (cyc_op hop _ (cyc_rd _ (cyc_add 6 (cyc_refl s)))) hs).1

theorem cy_ZPX_R {op : Op} (hop : OpKeep op) (data : Nat) (s : sim65s) (hs : no_callbacks s) :
    (ZPX_R env op data s).cycles = (s.cycles + 4) % 2 ^ 64 :=
  (cyc_op hop _ (cyc_rd _ (cyc_add 4 (cyc_refl s))) hs).1

theorem cy_ZPX_W {op : Op} (hop : OpKeep op) (data : Nat) (s : sim65s) (hs : no_callbacks s) :
    (ZPX_W env op data s).cycles = (s.cycles + 4) % 2 ^ 64 :=
  (cyc_wr _ _ (cyc_op hop 0 (cyc_add 4 (cyc_refl s))) hs).1

theorem cy_ZPX_RW {op : Op} (hop : OpKeep op) (data : Nat) (s : sim65s) (hs : no_callbacks s) :
    (ZPX_RW env op data s).cycles = (s.cycles + 6) % 2 ^ 64 :=
  (cyc_wr _ _ (cyc_op hop _ (cyc_rd _ (cyc_add 6 (cyc_refl s)))) hs).1

theorem cy_ZPY_R {op : Op} (hop : OpKeep op) (data : Nat) (s : sim65s) (hs : no_callbacks s) :
    (ZPY_R env op data s).cycles = (s.cycles + 4) % 2 ^ 64 :=
  (cyc_op hop _ (cyc_rd _ (cyc_add 4 (cyc_refl s))) hs).1

theorem cy_ZPY_W {op : Op} (hop : OpKeep op) (data : Nat) (s : sim65s) (hs : no_callbacks s) :
    (ZPY_W env op data s).cycles = (s.cycles + 4) % 2 ^ 64 :=
  (cyc_wr _ _ (cyc_op hop 0 (cyc_add 4 (cyc_refl s))) hs).1

theorem cy_ABX_W {op : Op} (hop : OpKeep op) (data : Nat) (s : sim65s) (hs : no_callbacks s) :
    (ABX_W env op data s).cycles = (s.cycles + 5) % 2 ^ 64 :=
  (cyc_wr _ _ (cyc_op hop 0 (cyc_add 5 (cyc_refl s))) hs).1

theorem cy_ABX_RW {op : Op} (hop : OpKeep op) (data : Nat) (s : sim65s) (hs : no_callbacks s) :
    (ABX_RW env op data s).cycles = (s.cycles + 7) % 2 ^ 64 :=
  (cyc_wr _ _ (cyc_op hop _ (cyc_rd _ (cyc_add 7 (cyc_refl s)))) hs).1

theorem cy_ABY_W {op : Op} (hop : OpKeep op) (data : Nat) (s : sim65s) (hs : no_callbacks s) :
    (ABY_W env op data s).cycles = (s.cycles + 5) % 2 ^ 64 :=
  (cyc_wr _ _ (cyc_op hop 0 (cyc_add 5 (cyc_refl s))) hs).1

theorem cy_IND_X {op : Op} (hop : OpKeep op) (data : Nat) (s : sim65s) (hs : no_callbacks s) :
    (IND_X env op data s).cycles = (s.cycles + 6) % 2 ^ 64 :=
  (cyc_op hop _ (cyc_rd _ (cyc_rw _ (cyc_add 6 (cyc_refl s)))) hs).1

theorem cy_INDW_X {op : Op} (hop : OpKeep op) (data : Nat) (s : sim65s) (hs : no_callbacks s) :
    (INDW_X env op data s).cycles = (s.cycles + 6) % 2 ^ 64 :=
  (cyc_wr _ _ (cyc_rw _ (cyc_add 6 (cyc_op hop 0 (cyc_refl s)))) hs).1

theorem cy_INDW_Y {op : Op} (hop : OpKeep op) (data : Nat) (s : sim65s) (hs : no_callbacks s) :
    (INDW_Y env op data s).cycles = (s.cycles + 6) % 2 ^ 64 :=
  (cyc_wr _ _ (cyc_rw _ (cyc_add 6 (cyc_op hop 0 (cyc_refl s)))) hs).1

theorem cy_IMM {op : Op} (hop : OpKeep op) (data : Nat) (s : sim65s) (hs : no_callbacks s) :
    (IMM op data s).cycles = (s.cycles + 2) % 2 ^ 64 :=
  (cyc_op hop _ (cyc_add 2 (cyc_refl s)) hs).1

theorem cy_IMP_A {op : Op} (hop : OpKeep op) (s : sim65s) (hs : no_callbacks s) :
    (IMP_A op s).cycles = (s.cycles + 2) % 2 ^ 64 :=
  (cyc_keep (cyc_op hop _ (cyc_add 2 (cyc_refl s))) rfl rfl rfl rfl hs).1

theorem cy_IMP_X {op : Op} (hop : OpKeep op) (s : sim65s) (hs : no_callbacks s) :
    (IMP_X op s).cycles = (s.cycles + 2) % 2 ^ 64 :=
  (cyc_keep (cyc_op hop _ (cyc_add 2 (cyc_refl s))) rfl rfl rfl rfl hs).1

theorem cy_IMP_Y {op : Op} (hop : OpKeep op) (s : sim65s) (hs : no_callbacks s) :
    (IMP_Y op s).cycles = (s.cycles + 2) % 2 ^ 64 :=
  (cyc_keep (cyc_op hop _ (cyc_add 2 (cyc_refl s))) rfl rfl rfl rfl hs).1

theorem cy_TXS (s : sim65s) (hs : no_callbacks s) :
    (TXS s).cycles = (s.cycles + 2) % 2 ^ 64 :=
  (cyc_keep (cyc_add 2 (cyc_refl s)) rfl rfl rfl rfl hs).1

theorem cy_JMP (data : Nat) (s : sim65s) (hs : no_callbacks s) :
    (JMP data s).cycles = (s.cycles + 3) % 2 ^ 64 :=
  (cyc_keep (cyc_add 3 (cyc_refl s)) rfl rfl rfl rfl hs).1

theorem cy_JMP16 (data : Nat) (s : sim65s) (hs : no_callbacks s) :
    (JMP16 env data s).cycles = (s.cycles + 5) % 2 ^ 64 :=
  (cyc_keep (cyc_rw _ (cyc_add 5 (cyc_refl s))) rfl rfl rfl rfl hs).1

theorem cy_NOP (s : sim65s) (_hs : no_callbacks s) :
    (add_cycles s 2).cycles = (s.cycles + 2) % 2 ^ 64 := rfl

theorem cy_CL_F (f : Nat) (s : sim65s) (_hs : no_callbacks s) :
    (CL_F f s).cycles = (s.cycles + 2) % 2 ^ 64 := rfl

theorem cy_SE_F (f : Nat) (s : sim65s) (_hs : no_callbacks s) :
    (SE_F f s).cycles = (s.cycles + 2) % 2 ^ 64 := rfl

theorem cyc_PUSH {f : Nat → Nat} {s t : sim65s} (val : sim65s → Nat) (h1 : Cyc f s t) :
    Cyc (fun c => (f c + 3) % 2 ^ 64) s (PUSH env val t) :=
  cyc_keep (cyc_wr _ _ (cyc_add 3 h1)) rfl rfl rfl rfl

theorem cy_PUSH (val : sim65s → Nat) (s : sim65s) (hs : no_callbacks s) :
    (PUSH env val s).cycles = (s.cycles + 3) % 2 ^ 64 :=
  (cyc_PUSH val (cyc_refl s) hs).1

theorem cyc_POP {f : Nat → Nat} {s t : sim65s} (h1 : Cyc f s t) : Cyc f s (POP env t).2 :=
  cyc_rd _ (cyc_keep h1 rfl rfl rfl rfl)

theorem cyc_POP_P {f : Nat → Nat} {s t : sim65s} (h1 : Cyc f s t) :
    Cyc (fun c => (f c + 4) % 2 ^ 64) s (POP_P env t) := by
  have h2 : Cyc (fun c => (f c + 4) % 2 ^ 64) s (POP env (add_cycles t 4)).2 :=
    cyc_POP (cyc_add 4 h1)
  exact cyc_keep h2 rfl rfl rfl rfl

theorem cy_POP_P (s : sim65s) (hs : no_callbacks s) :
    (POP_P env s).cycles = (s.cycles + 4) % 2 ^ 64 :=
  (cyc_POP_P (cyc_refl s) hs).1

theorem cy_POP_A (s : sim65s) (hs : no_callbacks s) :
    (POP_A env s).cycles = (s.cycles + 4) % 2 ^ 64 := by
  have h2 : Cyc (fun c => (c + 4) % 2 ^ 64) s (POP env (add_cycles s 4)).2 :=
    cyc_POP (cyc_add 4 (cyc_refl s))
  have h3 : Cyc (fun c => (c + 4) % 2 ^ 64) s (POP_A env s) := cyc_keep h2 rfl rfl rfl rfl
  exact (h3 hs).1

theorem cyc_do_bit {f : Nat → Nat} {s t : sim65s} (a : Nat) (h1 : Cyc f s t) :
    Cyc f s (do_bit env t a) := by
  unfold do_bit
  simp only
  split
  · exact cyc_keep h1 rfl rfl rfl rfl
  · exact cyc_keep (cyc_rd _ h1) rfl rfl rfl rfl

theorem cy_BIT_ZP (data : Nat) (s : sim65s) (hs : no_callbacks s) :
    (BIT_ZP env data s).cycles = (s.cycles + 3) % 2 ^ 64 :=
  (cyc_do_bit _ (cyc_add 3 (cyc_refl s)) hs).1

theorem cy_BIT_ABS (data : Nat) (s : sim65s) (hs : no_callbacks s) :
    (BIT_ABS env data s).cycles = (s.cycles + 4) % 2 ^ 64 :=
  (cyc_do_bit _ (cyc_add 4 (cyc_refl s)) hs).1

theorem cy_JSR (data : Nat) (s : sim65s) (hs : no_callbacks s) :
    (JSR env data s).cycles = (s.cycles + 6) % 2 ^ 64 := by
  have h1 : Cyc (fun c => c) s (set_pc s (sub32 s.r.pc 1 &&& 0xFFFF)) :=
    cyc_keep (cyc_refl s) rfl rfl rfl rfl
  have h2 : Cyc (fun c => (c + 3) % 2 ^ 64) s
      (PUSH env (fun s => s.r.pc >>> 8) (set_pc s (sub32 s.r.pc 1 &&& 0xFFFF))) :=
    cyc_PUSH _ h1
  have h3 : Cyc (fun c => ((c + 3) % 2 ^ 64 + 3) % 2 ^ 64) s
      (PUSH env (fun s => s.r.pc) (PUSH env (fun s => s.r.pc >>> 8)
        (set_pc s (sub32 s.r.pc 1 &&& 0xFFFF)))) :=
    cyc_PUSH _ h2
  have h4 := (h3 hs).1
  have e : (JSR env data s).cycles = (PUSH env (fun s => s.r.pc) (PUSH env (fun s => s.r.pc >>> 8)
      (set_pc s (sub32 s.r.pc 1 &&& 0xFFFF)))).cycles := by
    simp only [JSR, do_jsr, set_pc_cycles]
  rw [e, h4]
  simp only
  omega

theorem cy_RTS (s : sim65s) (hs : no_callbacks s) :
    (RTS env s).cycles = (s.cycles + 6) % 2 ^ 64 := by
  have h1 : Cyc (fun c => c) s (POP env s).2 := cyc_POP (cyc_refl s)
  have h2 : Cyc (fun c => c) s (POP env (set_pc (POP env s).2 (POP env s).1)).2 :=
    cyc_POP (cyc_keep h1 (set_pc_cycles _ _) (set_pc_cb_read _ _) (set_pc_cb_write _ _)
      (set_pc_cb_exec _ _))
  have h4 := (h2 hs).1
  have e : (RTS env s).cycles =
      ((POP env (set_pc (POP env s).2 (POP env s).1)).2.cycles + 6) % 2 ^ 64 := by
    simp only [RTS, do_rts, add_cycles_cycles, set_pc_cycles]
  rw [e, h4]

theorem cy_RTI (s : sim65s) (hs : no_callbacks s) :
    (RTI env s).cycles = (s.cycles + 6) % 2 ^ 64 := by
  have h0 : Cyc (fun c => (c + 4) % 2 ^ 64) s (POP_P env s) := cyc_POP_P (cyc_refl s)
  have h1 : Cyc (fun c => (c + 4) % 2 ^ 64) s (POP env (POP_P env s)).2 := cyc_POP h0
  have h2 : Cyc (fun c => (c + 4) % 2 ^ 64) s
      (POP env (set_pc (POP env (POP_P env s)).2 (POP env (POP_P env s)).1)).2 :=
    cyc_POP (cyc_keep h1 (set_pc_cycles _ _) (set_pc_cb_read _ _) (set_pc_cb_write _ _)
      (set_pc_cb_exec _ _))
  have h4 := (h2 hs).1
  have e : (RTI env s).cycles =
      ((POP env (set_pc (POP env (POP_P env s)).2 (POP env (POP_P env s)).1)).2.cycles + 2)
        % 2 ^ 64 := by
    simp only [RTI, do_rti, add_cycles_cycles, set_pc_cycles]
  rw [e, h4]
  simp only
  omega

theorem cyc_do_extra_absx (data : Nat) (s : sim65s) :
    Cyc (fun c => if (data &&& 0xFF) + s.r.x > 0xFF then ((c + 4) % 2 ^ 64 + 1) % 2 ^ 64
      else (c + 4) % 2 ^ 64) s (do_extra_absx (add_cycles s 4) data) := by
  unfold do_extra_absx
  simp only [add_cycles_r]
  by_cases hc : (data &&& 0xFF) + s.r.x > 0xFF
  · simp only [if_pos hc]
    split
    · exact cyc_keep (cyc_add 1 (cyc_add 4 (cyc_refl s))) rfl rfl rfl rfl
    · exact cyc_add 1 (cyc_add 4 (cyc_refl s))
  · simp only [if_neg hc]
    exact cyc_add 4 (cyc_refl s)

theorem cy_ABX_R {op : Op} (hop : OpKeep op) (data : Nat) (s : sim65s) (hs : no_callbacks s) :
    (ABX_R env op data s).cycles =
      (s.cycles + (4 + if (data &&& 0xFF) + s.r.x > 0xFF then 1 else 0)) % 2 ^ 64 := by
  have h : Cyc _ s (ABX_R env op data s) := cyc_op hop _ (cyc_rd _ (cyc_do_extra_absx data s))
  rw [(h hs).1]
  split <;> omega

theorem cyc_do_extra_absy (data : Nat) (s : sim65s) :
    Cyc (fun c => if (data &&& 0xFF) + s.r.y > 0xFF then ((c + 4) % 2 ^ 64 + 1) % 2 ^ 64
      else (c + 4) % 2 ^ 64) s (do_extra_absy (add_cycles s 4) data) := by
  unfold do_extra_absy
  simp only [add_cycles_r]
  by_cases hc : (data &&& 0xFF) + s.r.y > 0xFF
  · simp only [if_pos hc]
    split
    · exact cyc_keep (cyc_add 1 (cyc_add 4 (cyc_refl s))) rfl rfl rfl rfl
    · exact cyc_add 1 (cyc_add 4 (cyc_refl s))
  · simp only [if_neg hc]
    exact cyc_add 4 (cyc_refl s)

theorem cy_ABY_R {op : Op} (hop : OpKeep op) (data : Nat) (s : sim65s) (hs : no_callbacks s) :
    (ABY_R env op data s).cycles =
      (s.cycles + (4 + if (data &&& 0xFF) + s.r.y > 0xFF then 1 else 0)) % 2 ^ 64 := by
  have h : Cyc _ s (ABY_R env op data s) := cyc_op hop _ (cyc_rd _ (cyc_do_extra_absy data s))
  rw [(h hs).1]
  split <;> omega

theorem cy_IND_Y {op : Op} (hop : OpKeep op) (data : Nat) (s : sim65s) (hs : no_callbacks s) :
    (IND_Y env op data s).cycles =
      (s.cycles + (5 + if s.mem (data &&& 0xFF) % 256 + s.r.y > 0xFF then 1 else 0)) % 2 ^ 64 := by
  have h1 : Cyc (fun c => (c + 5) % 2 ^ 64) s (readWord env (add_cycles s 5) (data &&& 0xFF)).2 :=
    cyc_rw _ (cyc_add 5 (cyc_refl s))
  obtain ⟨hro, hlo⟩ := readWord_nocb env (add_cycles s 5) (data &&& 0xFF) hs
  have hm : (data &&& 0xFF) % 65536 = data &&& 0xFF :=
    Nat.mod_eq_of_lt (lt_of_le_of_lt Nat.and_le_right (by norm_num))
  rw [hm] at hlo
  have hy : (readWord env (add_cycles s 5) (data &&& 0xFF)).2.r.y = s.r.y := by
    unfold reads_only at hro
    rw [hro]
    rfl
  unfold IND_Y readIndY
  simp only
  rw [hlo, hy, add_cycles_mem]
  by_cases hc : s.mem (data &&& 0xFF) % 256 + s.r.y > 0xFF
  · simp only [if_pos hc]
    have h2 : Cyc (fun c => ((c + 5) % 2 ^ 64 + 1) % 2 ^ 64) s
        (if (add_cycles (readWord env (add_cycles s 5) (data &&& 0xFF)).2 1).do_prof ≠ 0 then
          { add_cycles (readWord env (add_cycles s 5) (data &&& 0xFF)).2 1 with
            prof := { (add_cycles (readWord env (add_cycles s 5) (data &&& 0xFF)).2 1).prof with
              ind_y_extra :=
                ((add_cycles (readWord env (add_cycles s 5) (data &&& 0xFF)).2 1).prof.ind_y_extra
                  + 1) % 2 ^ 32 } }
         else add_cycles (readWord env (add_cycles s 5) (data &&& 0xFF)).2 1) := by
      split
      · exact cyc_keep (cyc_add 1 h1) rfl rfl rfl rfl
      · exact cyc_add 1 h1
    rw [(cyc_op hop _ (cyc_rd _ h2) hs).1]
    omega
  · simp only [if_neg hc]
    rw [(cyc_op hop _ (cyc_rd _ h1) hs).1]

end cycles

section dcost
variable {env : CbEnv}

theorem dcost_in (u : sim65s) (data ins c : Nat) {l : List Nat} {A B : sim65s} {n : Nat}
    (hA : no_callbacks u → A.cycles = (u.cycles + n) % 2 ^ 64)
    (hn : published_cost c (data &&& 0xFF) u.r.x u.r.y (u.mem (data &&& 0xFF) % 256) = n)
    (hB : DispatchCost u data l ins B) :
    DispatchCost u data (c :: l) ins (if ins = c then A else B) := by
  intro hmem hu
  by_cases h : ins = c
  · rw [if_pos h, h, hn]
    exact hA hu
  · rw [if_neg h]
    rcases List.mem_cons.1 hmem with e | e
    · exact absurd e h
    · exact hB e hu

theorem dcost_out (u : sim65s) (data ins c : Nat) {l : List Nat} {A B : sim65s} (hc : c ∉ l)
    (hB : DispatchCost u data l ins B) :
    DispatchCost u data l ins (if ins = c then A else B) := by
  intro hmem hu
  by_cases h : ins = c
  · rw [h] at hmem
    exact absurd hmem hc
  · rw [if_neg h]
    exact hB hmem hu

theorem dcost_nil (u : sim65s) (data ins : Nat) (t : sim65s) : DispatchCost u data [] ins t :=
  fun h => absurd h (List.not_mem_nil _)

set_option maxRecDepth 8000 in
theorem dispatch_cost_sorted (u : sim65s) (data ins : Nat) :
    DispatchCost u data costed_sorted ins (dispatch env ins data u) := by
  unfold dispatch costed_sorted
  refine dcost_out u data ins 0x00 (by decide) ?_
  refine dcost_in u data ins 0x01 (cy_IND_X opkeep_ORA data u) rfl ?_
  refine dcost_in u data ins 0x05 (cy_ZP_R opkeep_ORA data u) rfl ?_
  refine dcost_in u data ins 0x06 (cy_ZP_RW opkeep_ASL data u) rfl ?_
  refine dcost_in u data ins 0x08 (cy_PUSH _ u) rfl ?_
  refine dcost_in u data ins 0x09 (cy_IMM opkeep_ORA data u) rfl ?_
  refine dcost_in u data ins 0x0A (cy_IMP_A opkeep_ASL u) rfl ?_
  refine dcost_in u data ins 0x0D (cy_ABS_R opkeep_ORA data u) rfl ?_
  refine dcost_in u data ins 0x0E (cy_ABS_RW opkeep_ASL data u) rfl ?_
  refine dcost_out u data ins 0x10 (by decide) ?_
  refine dcost_in u data ins 0x11 (cy_IND_Y opkeep_ORA data u) rfl ?_
  refine dcost_in u data ins 0x15 (cy_ZPX_R opkeep_ORA data u) rfl ?_
  refine dcost_in u data ins 0x16 (cy_ZPX_RW opkeep_ASL data u) rfl ?_
  refine dcost_in u data ins 0x18 (cy_CL_F _ u) rfl ?_
  refine dcost_in u data ins 0x19 (cy_ABY_R opkeep_ORA data u) rfl ?_
  refine dcost_in u data ins 0x1D (cy_ABX_R opkeep_ORA data u) rfl ?_
  refine dcost_in u data ins 0x1E (cy_ABX_RW opkeep_ASL data u) rfl ?_
  refine dcost_in u data ins 0x20 (cy_JSR data u) rfl ?_
  refine dcost_in u data ins 0x21 (cy_IND_X opkeep_AND data u) rfl ?_
  refine dcost_in u data ins 0x24 (cy_BIT_ZP data u) rfl ?_
  refine dcost_in u data ins 0x25 (cy_ZP_R opkeep_AND data u) rfl ?_
  refine dcost_in u data ins 0x26 (cy_ZP_RW opkeep_ROL data u) rfl ?_
  refine dcost_in u data ins 0x28 (cy_POP_P u) rfl ?_
  refine dcost_in u data ins 0x29 (cy_IMM opkeep_AND data u) rfl ?_
  refine dcost_in u data ins 0x2A (cy_IMP_A opkeep_ROL u) rfl ?_
  refine dcost_in u data ins 0x2C (cy_BIT_ABS data u) rfl ?_
  refine dcost_in u data ins 0x2D (cy_ABS_R opkeep_AND data u) rfl ?_
  refine dcost_in u data ins 0x2E (cy_ABS_RW opkeep_ROL data u) rfl ?_
  refine dcost_out u data ins 0x30 (by decide) ?_
  refine dcost_in u data ins 0x31 (cy_IND_Y opkeep_AND data u) rfl ?_
  refine dcost_in u data ins 0x35 (cy_ZPX_R opkeep_AND data u) rfl ?_
  refine dcost_in u data ins 0x36 (cy_ZPX_RW opkeep_ROL data u) rfl ?_
  refine dcost_in u data ins 0x38 (cy_SE_F _ u) rfl ?_
  refine dcost_in u data ins 0x39 (cy_ABY_R opkeep_AND data u) rfl ?_
  refine dcost_in u data ins 0x3D (cy_ABX_R opkeep_AND data u) rfl ?_
  refine dcost_in u data ins 0x3E (cy_ABX_RW opkeep_ROL data u) rfl ?_
  refine dcost_in u data ins 0x40 (cy_RTI u) rfl ?_
  refine dcost_in u data ins 0x41 (cy_IND_X opkeep_EOR data u) rfl ?_
  refine dcost_in u data ins 0x45 (cy_ZP_R opkeep_EOR data u) rfl ?_
  refine dcost_in u data ins 0x46 (cy_ZP_RW opkeep_LSR data u) rfl ?_
  refine dcost_in u data ins 0x48 (cy_PUSH _ u) rfl ?_
  refine dcost_in u data ins 0x49 (cy_IMM opkeep_EOR data u) rfl ?_
  refine dcost_in u data ins 0x4A (cy_IMP_A opkeep_LSR u) rfl ?_
  refine dcost_in u data ins 0x4C (cy_JMP data u) rfl ?_
  refine dcost_in u data ins 0x4D (cy_ABS_R opkeep_EOR data u) rfl ?_
  refine dcost_in u data ins 0x4E (cy_ABS_RW opkeep_LSR data u) rfl ?_
  refine dcost_out u data ins 0x50 (by decide) ?_
  refine dcost_in u data ins 0x51 (cy_IND_Y opkeep_EOR data u) rfl ?_
  refine dcost_in u data ins 0x55 (cy_ZPX_R opkeep_EOR data u) rfl ?_
  refine dcost_in u data ins 0x56 (cy_ZPX_RW opkeep_LSR data u) rfl ?_
  refine dcost_in u data ins 0x58 (cy_CL_F _ u) rfl ?_
  refine dcost_in u data ins 0x59 (cy_ABY_R opkeep_EOR data u) rfl ?_
  refine dcost_in u data ins 0x5D (cy_ABX_R opkeep_EOR data u) rfl ?_
  refine dcost_in u data ins 0x5E (cy_ABX_RW opkeep_LSR data u) rfl ?_
  refine dcost_in u data ins 0x60 (cy_RTS u) rfl ?_
  refine dcost_in u data ins 0x61 (cy_IND_X opkeep_ADC data u) rfl ?_
  refine dcost_in u data ins 0x65 (cy_ZP_R opkeep_ADC data u) rfl ?_
  refine dcost_in u data ins 0x66 (cy_ZP_RW opkeep_ROR data u) rfl ?_
  refine dcost_in u data ins 0x68 (cy_POP_A u) rfl ?_
  refine dcost_in u data ins 0x69 (cy_IMM opkeep_ADC data u) rfl ?_
  refine dcost_in u data ins 0x6A (cy_IMP_A opkeep_ROR u) rfl ?_
  refine dcost_in u data ins 0x6C (cy_JMP16 data u) rfl ?_
  refine dcost_in u data ins 0x6D (cy_ABS_R opkeep_ADC data u) rfl ?_
  refine dcost_in u data ins 0x6E (cy_ABS_RW opkeep_ROR data u) rfl ?_
  refine dcost_out u data ins 0x70 (by decide) ?_
  refine dcost_in u data ins 0x71 (cy_IND_Y opkeep_ADC data u) rfl ?_
  refine dcost_in u data ins 0x75 (cy_ZPX_R opkeep_ADC data u) rfl ?_
  refine dcost_in u data ins 0x76 (cy_ZPX_RW opkeep_ROR data u) rfl ?_
  refine dcost_in u data ins 0x78 (cy_SE_F _ u) rfl ?_
  refine dcost_in u data ins 0x79 (cy_ABY_R opkeep_ADC data u) rfl ?_
  refine dcost_in u data ins 0x7D (cy_ABX_R opkeep_ADC data u) rfl ?_
  refine dcost_in u data ins 0x7E (cy_ABX_RW opkeep_ROR data u) rfl ?_
  refine dcost_in u data ins 0x81 (cy_INDW_X opkeep_STA data u) rfl ?_
  refine dcost_in u data ins 0x84 (cy_ZP_W opkeep_STY data u) rfl ?_
  refine dcost_in u data ins 0x85 (cy_ZP_W opkeep_STA data u) rfl ?_
  refine dcost_in u data ins 0x86 (cy_ZP_W opkeep_STX data u) rfl ?_
  refine dcost_in u data ins 0x88 (cy_IMP_Y opkeep_DEC u) rfl ?_
  refine dcost_in u data ins 0x8A (cy_IMP_X opkeep_LDA u) rfl ?_
  refine dcost_in u data ins 0x8C (cy_ABS_W opkeep_STY data u) rfl ?_
  refine dcost_in u data ins 0x8D (cy_ABS_W opkeep_STA data u) rfl ?_
  refine dcost_in u data ins 0x8E (cy_ABS_W opkeep_STX data u) rfl ?_
  refine dcost_out u data ins 0x90 (by decide) ?_
  refine dcost_in u data ins 0x91 (cy_INDW_Y opkeep_STA data u) rfl ?_
  refine dcost_in u data ins 0x94 (cy_ZPX_W opkeep_STY data u) rfl ?_
  refine dcost_in u data ins 0x95 (cy_ZPX_W opkeep_STA data u) rfl ?_
  refine dcost_in u data ins 0x96 (cy_ZPY_W opkeep_STX data u) rfl ?_
  refine dcost_in u data ins 0x98 (cy_IMP_Y opkeep_LDA u) rfl ?_
  refine dcost_in u data ins 0x99 (cy_ABY_W opkeep_STA data u) rfl ?_
  refine dcost_in u data ins 0x9A (cy_TXS u) rfl ?_
  refine dcost_in u data ins 0x9D (cy_ABX_W opkeep_STA data u) rfl ?_
  refine dcost_in u data ins 0xA0 (cy_IMM opkeep_LDY data u) rfl ?_
  refine dcost_in u data ins 0xA1 (cy_IND_X opkeep_LDA data u) rfl ?_
  refine dcost_in u data ins 0xA2 (cy_IMM opkeep_LDX data u) rfl ?_
  refine dcost_in u data ins 0xA4 (cy_ZP_R opkeep_LDY data u) rfl ?_
  refine dcost_in u data ins 0xA5 (cy_ZP_R opkeep_LDA data u) rfl ?_
  refine dcost_in u data ins 0xA6 (cy_ZP_R opkeep_LDX data u) rfl ?_
  refine dcost_in u data ins 0xA8 (cy_IMP_A opkeep_LDY u) rfl ?_
  refine dcost_in u data ins 0xA9 (cy_IMM opkeep_LDA data u) rfl ?_
  refine dcost_in u data ins 0xAA (cy_IMP_A opkeep_LDX u) rfl ?_
  refine dcost_in u data ins 0xAC (cy_ABS_R opkeep_LDY data u) rfl ?_
  refine dcost_in u data ins 0xAD (cy_ABS_R opkeep_LDA data u) rfl ?_
  refine dcost_in u data ins 0xAE (cy_ABS_R opkeep_LDX data u) rfl ?_
  refine dcost_out u data ins 0xB0 (by decide) ?_
  refine dcost_in u data ins 0xB1 (cy_IND_Y opkeep_LDA data u) rfl ?_
  refine dcost_in u data ins 0xB4 (cy_ZPX_R opkeep_LDY data u) rfl ?_
  refine dcost_in u data ins 0xB5 (cy_ZPX_R opkeep_LDA data u) rfl ?_
  refine dcost_in u data ins 0xB6 (cy_ZPY_R opkeep_LDX data u) rfl ?_
  refine dcost_in u data ins 0xB8 (cy_CL_F _ u) rfl ?_
  refine dcost_in u data ins 0xB9 (cy_ABY_R opkeep_LDA data u) rfl ?_
  refine dcost_in u data ins 0xBA (cy_IMP_X opkeep_TSX_op u) rfl ?_
  refine dcost_in u data ins 0xBC (cy_ABX_R opkeep_LDY data u) rfl ?_
  refine dcost_in u data ins 0xBD (cy_ABX_R opkeep_LDA data u) rfl ?_
  refine dcost_in u data ins 0xBE (cy_ABY_R opkeep_LDX data u) rfl ?_
  refine dcost_in u data ins 0xC0 (cy_IMM opkeep_CPY data u) rfl ?_
  refine dcost_in u data ins 0xC1 (cy_IND_X opkeep_CMP data u) rfl ?_
  refine dcost_in u data ins 0xC4 (cy_ZP_R opkeep_CPY data u) rfl ?_
  refine dcost_in u data ins 0xC5 (cy_ZP_R opkeep_CMP data u) rfl ?_
  refine dcost_in u data ins 0xC6 (cy_ZP_RW opkeep_DEC data u) rfl ?_
  refine dcost_in u data ins 0xC8 (cy_IMP_Y opkeep_INC u) rfl ?_
  refine dcost_in u data ins 0xC9 (cy_IMM opkeep_CMP data u) rfl ?_
  refine dcost_in u data ins 0xCA (cy_IMP_X opkeep_DEC u) rfl ?_
  refine dcost_in u data ins 0xCC (cy_ABS_R opkeep_CPY data u) rfl ?_
  refine dcost_in u data ins 0xCD (cy_ABS_R opkeep_CMP data u) rfl ?_
  refine dcost_in u data ins 0xCE (cy_ABS_RW opkeep_DEC data u) rfl ?_
  refine dcost_out u data ins 0xD0 (by decide) ?_
  refine dcost_in u data ins 0xD1 (cy_IND_Y opkeep_CMP data u) rfl ?_
  refine dcost_in u data ins 0xD5 (cy_ZPX_R opkeep_CMP data u) rfl ?_
  refine dcost_in u data ins 0xD6 (cy_ZPX_RW opkeep_DEC data u) rfl ?_
  refine dcost_in u data ins 0xD8 (cy_CL_F _ u) rfl ?_
  refine dcost_in u data ins 0xD9 (cy_ABY_R opkeep_CMP data u) rfl ?_
  refine dcost_in u data ins 0xDD (cy_ABX_R opkeep_CMP data u) rfl ?_
  refine dcost_in u data ins 0xDE (cy_ABX_RW opkeep_DEC data u) rfl ?_
  refine dcost_in u data ins 0xE0 (cy_IMM opkeep_CPX data u) rfl ?_
  refine dcost_in u data ins 0xE1 (cy_IND_X opkeep_SBC data u) rfl ?_
  refine dcost_in u data ins 0xE4 (cy_ZP_R opkeep_CPX data u) rfl ?_
  refine dcost_in u data ins 0xE5 (cy_ZP_R opkeep_SBC data u) rfl ?_
  refine dcost_in u data ins 0xE6 (cy_ZP_RW opkeep_INC data u) rfl ?_
  refine dcost_in u data ins 0xE8 (cy_IMP_X opkeep_INC u) rfl ?_
  refine dcost_in u data ins 0xE9 (cy_IMM opkeep_SBC data u) rfl ?_
  refine dcost_in u data ins 0xEA (cy_NOP u) rfl ?_
  refine dcost_in u data ins 0xEC (cy_ABS_R opkeep_CPX data u) rfl ?_
  refine dcost_in u data ins 0xED (cy_ABS_R opkeep_SBC data u) rfl ?_
  refine dcost_in u data ins 0xEE (cy_ABS_RW opkeep_INC data u) rfl ?_
  refine dcost_out u data ins 0xF0 (by decide) ?_
  refine dcost_in u data ins 0xF1 (cy_IND_Y opkeep_SBC data u) rfl ?_
  refine dcost_in u data ins 0xF5 (cy_ZPX_R opkeep_SBC data u) rfl ?_
  refine dcost_in u data ins 0xF6 (cy_ZPX_RW opkeep_INC data u) rfl ?_
  refine dcost_in u data ins 0xF8 (cy_SE_F _ u) rfl ?_
  refine dcost_in u data ins 0xF9 (cy_ABY_R opkeep_SBC data u) rfl ?_
  refine dcost_in u data ins 0xFD (cy_ABX_R opkeep_SBC data u) rfl ?_
  refine dcost_in u data ins 0xFE (cy_ABX_RW opkeep_INC data u) rfl ?_
  exact dcost_nil u data ins _

end dcost

section trace
variable (env : CbEnv)

theorem ro_readWord2 (s : sim65s) (a b : Nat) (hs : no_callbacks s) :
    reads_only s (readWord env (readWord env s a).2 b).2 :=
  reads_only_trans (readWord_nocb env s a hs).1
    (readWord_nocb env _ b (reads_only_nocb (readWord_nocb env s a hs).1 hs)).1

theorem ro_print_ind_label (s : sim65s) (addr : Nat) (idx : Option Char) (hint : Bool)
    (hs : no_callbacks s) : reads_only s (print_ind_label env s addr idx hint) := by
  unfold print_ind_label
  simp only
  split
  · split
    · exact (readWord_nocb env s _ hs).1
    · split
      · exact (readWord_nocb env s _ hs).1
      · exact (readWord_nocb env s _ hs).1
  · exact reads_only_refl s

theorem ro_INSPRT_IDX (s : sim65s) (data : Nat) (hint : Bool) (hs : no_callbacks s) :
    reads_only s (INSPRT_IDX env s data hint) :=
  ro_print_ind_label env _ _ _ _ hs

theorem ro_INSPRT_IDYW (s : sim65s) (data : Nat) (hint : Bool) (hs : no_callbacks s) :
    reads_only s (INSPRT_IDYW env s data hint) :=
  ro_print_ind_label env _ _ _ _ hs

theorem ro_INSPRT_IND (s : sim65s) (data : Nat) (hint : Bool) (hs : no_callbacks s) :
    reads_only s (INSPRT_IND env s data hint) :=
  ro_print_ind_label env _ _ _ _ hs

theorem ro_INSPRT_IDY (s : sim65s) (data : Nat) (hint : Bool) (hs : no_callbacks s) :
    reads_only s (INSPRT_IDY env s data hint) := by
  unfold INSPRT_IDY
  simp only
  have h1 : reads_only s (if hint = true then (readWord env (readWord env s data).2 data).2
      else s) := by
    split
    · exact ro_readWord2 env s data data hs
    · exact reads_only_refl s
  exact reads_only_trans h1 (ro_print_ind_label env _ _ _ _ (reads_only_nocb h1 hs))

theorem ro_ite (s : sim65s) (c : Prop) [Decidable c] (a b : sim65s)
    (ha : no_callbacks s → reads_only s a) (hb : no_callbacks s → reads_only s b) :
    no_callbacks s → reads_only s (if c then a else b) := by
  split <;> assumption

set_option maxRecDepth 8000 in
theorem ro_print_curr_ins (s : sim65s) (pc : Nat) (hint : Bool) :
    no_callbacks s → reads_only s (print_curr_ins env s pc hint) := by
  unfold print_curr_ins
  simp only
  refine ro_ite s _ _ _ (ro_INSPRT_IDX env _ _ _) ?_
  refine ro_ite s _ _ _ (ro_INSPRT_IDYW env _ _ _) ?_
  refine ro_ite s _ _ _ (ro_INSPRT_IDY env _ _ _) ?_
  refine ro_ite s _ _ _ (ro_INSPRT_IDX env _ _ _) ?_
  refine ro_ite s _ _ _ (ro_INSPRT_IDX env _ _ _) ?_
  refine ro_ite s _ _ _ (ro_INSPRT_IDX env _ _ _) ?_
  refine ro_ite s _ _ _ (ro_INSPRT_IDY env _ _ _) ?_
  refine ro_ite s _ _ _ (ro_INSPRT_IDYW env _ _ _) ?_
  refine ro_ite s _ _ _ (ro_INSPRT_IDX env _ _ _) ?_
  refine ro_ite s _ _ _ (ro_INSPRT_IDX env _ _ _) ?_
  refine ro_ite s _ _ _ (ro_INSPRT_IDY env _ _ _) ?_
  refine ro_ite s _ _ _ (ro_INSPRT_IDYW env _ _ _) ?_
  refine ro_ite s _ _ _ (ro_INSPRT_IDX env _ _ _) ?_
  refine ro_ite s _ _ _ (ro_INSPRT_IDX env _ _ _) ?_
  refine ro_ite s _ _ _ (ro_INSPRT_IND env _ _ _) ?_
  refine ro_ite s _ _ _ (ro_INSPRT_IDY env _ _ _) ?_
  refine ro_ite s _ _ _ (ro_INSPRT_IDYW env _ _ _) ?_
  refine ro_ite s _ _ _ (ro_INSPRT_IDX env _ _ _) ?_
  refine ro_ite s _ _ _ (ro_INSPRT_IDX env _ _ _) ?_
  refine ro_ite s _ _ _ (ro_INSPRT_IDYW env _ _ _) ?_
  refine ro_ite s _ _ _ (ro_INSPRT_IDYW env _ _ _) ?_
  refine ro_ite s _ _ _ (ro_INSPRT_IDX env _ _ _) ?_
  refine ro_ite s _ _ _ (ro_INSPRT_IDX env _ _ _) ?_
  refine ro_ite s _ _ _ (ro_INSPRT_IDY env _ _ _) ?_
  refine ro_ite s _ _ _ (ro_INSPRT_IDY env _ _ _) ?_
  refine ro_ite s _ _ _ (ro_INSPRT_IDX env _ _ _) ?_
  refine ro_ite s _ _ _ (ro_INSPRT_IDX env _ _ _) ?_
  refine ro_ite s _ _ _ (ro_INSPRT_IDY env _ _ _) ?_
  refine ro_ite s _ _ _ (ro_INSPRT_IDYW env _ _ _) ?_
  refine ro_ite s _ _ _ (ro_INSPRT_IDX env _ _ _) ?_
  refine ro_ite s _ _ _ (ro_INSPRT_IDX env _ _ _) ?_
  refine ro_ite s _ _ _ (ro_INSPRT_IDY env _ _ _) ?_
  refine ro_ite s _ _ _ (ro_INSPRT_IDYW env _ _ _) ?_
  exact fun _ => reads_only_refl s

theorem next_cycles_dispatch (s : sim65s) (hcb : no_callbacks s) (hl : limit_ok s) :
    ∃ u, no_callbacks u ∧ u.cycles = s.cycles ∧ u.r.x = s.r.x ∧ u.r.y = s.r.y ∧ u.mem = s.mem ∧
      (next env s).cycles = (dispatch env (opcode_at s) (operand s) u).cycles := by
  rw [next_no_cb env s (hcb s.r.pc).2.2]
  unfold next_body
  have h1 : reads_only s (if s.debug ≥ sim65_debug_trace then sim65_print_reg env s else s) := by
    split
    · exact ro_print_curr_ins env s s.r.pc true hcb
    · exact reads_only_refl s
  generalize (if s.debug ≥ sim65_debug_trace then sim65_print_reg env s else s) = s1 at h1
  have hl1 : ¬ (s1.cycle_limit ≠ 0 ∧ s1.cycles ≥ s1.cycle_limit) := by
    unfold reads_only at h1
    rw [h1]
    exact hl
  simp only [if_neg hl1]
  have h2 := reads_only_trans h1 (reads_only_of_err_only (next_fetch_err_only s1))
  have hins : (next_fetch s1).1 = opcode_at s := by
    rw [next_fetch_ins]
    unfold reads_only at h1
    unfold opcode_at
    rw [h1]
  have hdat : (next_fetch s1).2.1 = operand s := by
    rw [next_fetch_data]
    unfold reads_only at h1
    unfold operand opcode_at operand1 operand2
    rw [h1]
  rw [hins, hdat]
  generalize (next_fetch s1).2.2 = s2 at h2
  refine ⟨set_pc s2 (s2.r.pc + ilen (opcode_at s)), ?_, ?_, ?_, ?_, ?_, ?_⟩
  · have := reads_only_nocb h2 hcb
    exact this
  · unfold reads_only at h2
    rw [h2]; rfl
  · unfold reads_only at h2
    rw [h2]; rfl
  · unfold reads_only at h2
    rw [h2]; rfl
  · unfold reads_only at h2
    rw [h2]; rfl
  · exact (prof_only_cycles (next_exec_prof_only env _ _ s2))

end trace

set_option maxRecDepth 100000 in
theorem costed_sorted_mem : ∀ x ∈ costed_ops, x ∈ costed_sorted := by decide

theorem next_brk (env : CbEnv) (s : sim65s) (hcb : s.cb_exec s.r.pc = none) (hlim : limit_ok s)
    (hop : s.mem (s.r.pc % 65536) = 0x00) (hc0 : exec_clean s (s.r.pc % 65536))
    (he : s.error = 0) :
    (next env s).cycles = s.cycles ∧ (next env s).error = sim65_err_break := by
  have hins : opcode_at s = 0x00 := by unfold opcode_at; rw [hop]
  have hil : ilen (opcode_at s) = 1 := by rw [hins]; rfl
  have hfe : (next_fetch s).2.2 = s :=
    next_fetch_clean s hc0 (fun h => by rw [hil] at h; exact absurd h (by decide))
      (fun h => by rw [hil] at h; exact absurd h (by decide))
  have htr : s.mem (s.r.pc % 65536) ∉ trace_read_ops := by rw [hop]; decide
  rw [next_eq_exec env s hcb hlim htr, hins, hfe]
  have hp := next_exec_prof_only env 0x00 (operand s) s
  have hd : dispatch env 0x00 (operand s) (set_pc s (s.r.pc + ilen 0x00)) =
      set_error (set_pc s (s.r.pc + ilen 0x00)) sim65_err_break
        (sub32 (set_pc s (s.r.pc + ilen 0x00)).r.pc 1) := by
    unfold dispatch
    rw [if_pos rfl]
  rw [hd] at hp
  rw [prof_only_cycles hp, prof_only_error hp]
  unfold set_error
  rw [if_pos ⟨by decide, he⟩]
  exact ⟨rfl, rfl⟩

/-- C1, as stated, fails at BRK: the opcode `$00` is a documented implied instruction, and
its step from a state with no latched error and no callbacks leaves the cycle counter as it
was (it latches the BRK error), instead of adding the 2 cycles of implied instructions. -/
theorem brk_cycles_claim_fails :
    opcode_at brk_state = 0x00 ∧ brk_state.error = 0 ∧ no_callbacks brk_state ∧
    limit_ok brk_state ∧
    (next env_none brk_state).error = sim65_err_break ∧
    (next env_none brk_state).cycles = brk_state.cycles ∧
    ¬ ((next env_none brk_state).cycles = (brk_state.cycles + 2) % 2 ^ 64) := by
  have h := next_brk env_none brk_state (by decide) (by decide) (by decide) (by decide)
    (by decide)
  refine ⟨by decide, by decide, fun _ => ⟨rfl, rfl, rfl⟩, by decide, h.2, h.1, ?_⟩
  rw [h.1]
  decide

/-- C1, amended. For every documented opcode other than BRK and the eight branches,
executed by `next` from a state with no callbacks installed (the cycle limit not stopping the
step), the cycle counter increases, modulo `2^64`, by exactly the published cost of its
addressing mode: 2 for immediate, implied and accumulator instructions; 3 for zero-page
reads and writes, 5 for zero-page read-modify-write; 4 for zero-page,X and zero-page,Y reads
and writes, 6 for zero-page,X read-modify-write; 4 for absolute reads and writes, 6 for
absolute read-modify-write; 4 for ABS,X and ABS,Y reads plus 1 exactly when the low byte of
the base address plus the index exceeds `0xFF`; 5 for ABS,X and ABS,Y writes; 7 for ABS,X
read-modify-write; 6 for (zp,X); 5 for (zp),Y reads plus 1 exactly when the low byte of the
fetched pointer plus Y exceeds `0xFF`; 6 for (zp),Y writes; 3 for PHA and PHP; 4 for PLA and
PLP; 3 for JMP absolute; 5 for JMP indirect; 6 for JSR, RTS and RTI. -/
theorem cycles_published (env : CbEnv) (s : sim65s) (hcb : no_callbacks s) (hlim : limit_ok s)
    (hop : opcode_at s ∈ costed_ops) :
    (next env s).cycles =
      (s.cycles + published_cost (opcode_at s) (operand s &&& 0xFF) s.r.x s.r.y
        (s.mem (operand s &&& 0xFF) % 256)) % 2 ^ 64 := by
  obtain ⟨u, hu, hc, hx, hy, hm, hn⟩ := next_cycles_dispatch env s hcb hlim
  rw [hn, dispatch_cost_sorted u _ _ (costed_sorted_mem _ hop) hu, hc, hx, hy, hm]

/-- The scenario LDA $12F0,X with X = `$20`: the low byte `$F0` plus X crosses the page, and
the step adds 5 cycles. -/
theorem cycles_published_witness :
    no_callbacks abx_state ∧ limit_ok abx_state ∧ opcode_at abx_state ∈ costed_ops ∧
    published_cost (opcode_at abx_state) (operand abx_state &&& 0xFF) abx_state.r.x
      abx_state.r.y (abx_state.mem (operand abx_state &&& 0xFF) % 256) = 5 ∧
    (next env_none abx_state).cycles =
      (abx_state.cycles + published_cost (opcode_at abx_state) (operand abx_state &&& 0xFF)
        abx_state.r.x abx_state.r.y (abx_state.mem (operand abx_state &&& 0xFF) % 256))
        % 2 ^ 64 :=
  ⟨fun _ => ⟨rfl, rfl, rfl⟩, by decide, by decide, by decide,
    cycles_published env_none abx_state (fun _ => ⟨rfl, rfl, rfl⟩) (by decide) (by decide)⟩

/-! ## Writes, reads and the error slot -/

theorem writeByte_callback_no_slot (env : CbEnv) (s : sim65s) (addr val : Nat)
    (hcb : s.mems (addr % 65536) &&& ms_callback ≠ 0) (hw : s.cb_write (addr % 65536) = none)
    (hu : s.mems (addr % 65536) &&& ms_undef = 0) (hr : s.mems (addr % 65536) &&& ms_rom = 0) :
    writeByte env s addr val = s := by
  have h0 : s.mems (addr % 65536) ≠ 0 := by
    intro h; rw [h] at hcb; exact hcb (Nat.zero_and _)
  have h1 : s.mems (addr % 65536) &&& not8 ms_invalid ≠ 0 := by
    intro h
    apply hcb
    have e : s.mems (addr % 65536) &&& ms_callback =
        (s.mems (addr % 65536) &&& not8 ms_invalid) &&& ms_callback := by
      rw [Nat.and_assoc]; rfl
    rw [e, h]; rfl
  unfold writeByte
  simp only [if_neg h0]
  unfold writeByte_slow
  simp only [if_neg h1, hw, ite_self, hu, hr, ne_eq, not_true_eq_false, if_false]

/-- C11, at the failing input: a CPU write of `$55` to the initialised RAM cell `$0080` of
`cb_ram_state` (UNDEF and ROM clear, a read callback installed, no write callback) leaves
the whole state as it was, so the value byte stays `$11`; and the same write to the
uninitialised RAM cell `$0081` leaves INVALID set. -/
theorem write_ram_with_read_callback_dropped :
    cb_ram_state.mems 0x80 &&& ms_undef = 0 ∧ cb_ram_state.mems 0x80 &&& ms_rom = 0 ∧
    cb_ram_state.cb_write 0x80 = none ∧
    writeByte env_none cb_ram_state 0x80 0x55 = cb_ram_state ∧
    (writeByte env_none cb_ram_state 0x80 0x55).mem 0x80 = 0x11 ∧
    cb_ram_state.mems 0x81 &&& ms_undef = 0 ∧ cb_ram_state.mems 0x81 &&& ms_rom = 0 ∧
    cb_ram_state.cb_write 0x81 = none ∧
    (writeByte env_none cb_ram_state 0x81 0x55).mems 0x81 &&& ms_invalid ≠ 0 := by
  have h1 := writeByte_callback_no_slot env_none cb_ram_state 0x80 0x55 (by decide) (by decide)
    (by decide) (by decide)
  have h2 := writeByte_callback_no_slot env_none cb_ram_state 0x81 0x55 (by decide) (by decide)
    (by decide) (by decide)
  refine ⟨by decide, by decide, by decide, h1, ?_, by decide, by decide, by decide, ?_⟩
  · rw [h1]; decide
  · rw [h2]; decide

/-- C12. RAM write/read round trip: for every address whose status is 0 or exactly INVALID
and every byte `v`, a CPU write of `v` followed by a CPU read of the same address returns
`v`, latches no error (error code and error address are those before the write), and
leaves the status at 0; the read itself changes nothing. -/
theorem ram_write_read_roundtrip (env : CbEnv) (s : sim65s) (addr v : Nat)
    (hst : s.mems (addr % 65536) = 0 ∨ s.mems (addr % 65536) = ms_invalid) (hv : v < 256) :
    (readByte env (writeByte env s addr v) addr).1 = v ∧
    (readByte env (writeByte env s addr v) addr).2.error = s.error ∧
    (readByte env (writeByte env s addr v) addr).2.err_addr = s.err_addr ∧
    (readByte env (writeByte env s addr v) addr).2.mems (addr % 65536) = 0 ∧
    (readByte env (writeByte env s addr v) addr).2 = writeByte env s addr v := by
  have hp : plain_ram s (addr % 65536) := by
    unfold plain_ram
    rcases hst with h | h <;> rw [h] <;> decide
  have hw := writeByte_plain env s addr v hp
  have h0 : (writeByte env s addr v).mems (addr % 65536) = 0 := by
    rw [hw]; exact Function.update_same _ _ _
  have hm : (writeByte env s addr v).mem (addr % 65536) = v := by
    rw [hw]
    show Function.update s.mem (addr % 65536) (v % 256) (addr % 65536) = v
    rw [Function.update_same]
    exact Nat.mod_eq_of_lt hv
  rw [readByte_zero env _ addr h0]
  refine ⟨?_, ?_, ?_, h0, rfl⟩
  · show (writeByte env s addr v).mem (addr % 65536) % 256 = v
    rw [hm]; exact Nat.mod_eq_of_lt hv
  · rw [hw]
  · rw [hw]

/-- The round trip at the uninitialised RAM cell `$0205` with the byte `$A7`. -/
theorem ram_write_read_roundtrip_witness :
    (ram_state.mems (0x205 % 65536) = 0 ∨ ram_state.mems (0x205 % 65536) = ms_invalid) ∧
    (readByte env_none (writeByte env_none ram_state 0x205 0xA7) 0x205).1 = 0xA7 ∧
    (readByte env_none (writeByte env_none ram_state 0x205 0xA7) 0x205).2.error
      = ram_state.error ∧
    (readByte env_none (writeByte env_none ram_state 0x205 0xA7) 0x205).2.mems
      (0x205 % 65536) = 0 :=
  ⟨by decide,
   (ram_write_read_roundtrip env_none ram_state 0x205 0xA7 (by decide) (by decide)).1,
   (ram_write_read_roundtrip env_none ram_state 0x205 0xA7 (by decide) (by decide)).2.1,
   (ram_write_read_roundtrip env_none ram_state 0x205 0xA7 (by decide) (by decide)).2.2.2.1⟩

theorem get_error_exit_cases (s : sim65s) (hl : is_errlvl s.errlvl) :
    (exits_at s.errlvl s.error ∧ (get_error_exit s).1 ≠ 0 ∧ (get_error_exit s).2 = s) ∨
    (¬ exits_at s.errlvl s.error ∧ (get_error_exit s).1 = 0 ∧
      (get_error_exit s).2 = { s with error := sim65_err_none }) := by
  unfold is_errlvl at hl
  by_cases hx : exits_at s.errlvl s.error
  · left
    refine ⟨hx, ?_⟩
    unfold exits_at at hx
    unfold get_error_exit
    simp only [sim65_err_none, sim65_err_exec_undef, sim65_err_exec_uninit,
      sim65_err_read_undef, sim65_err_read_uninit, sim65_err_write_undef, sim65_err_write_rom,
      sim65_err_break, sim65_err_invalid_ins, sim65_err_call_ret, sim65_err_cycle_limit,
      sim65_err_user, sim65_errlvl_none, sim65_errlvl_memory, sim65_errlvl_full] at hl hx ⊢
    have h0 : s.error ≠ 0 := by omega
    simp only [h0, if_false]
    by_cases h1 : s.error = -1 ∨ s.error = -7 ∨ s.error = -8 ∨ s.error = -9 ∨ s.error = -10 ∨
        s.error = -11
    · simp only [h1, if_true]
      exact ⟨by decide, trivial⟩
    · simp only [h1, if_false]
      by_cases h2 : s.error = -4 ∨ s.error = -6
      · have h3 : s.errlvl ≥ 2 := by omega
        simp only [h2, if_true, h3, decide_True, Bool.not_true, Bool.false_eq_true, if_false]
        exact ⟨h0, trivial⟩
      · have h4 : s.error = -2 ∨ s.error = -3 ∨ s.error = -5 := by omega
        have h3 : s.errlvl ≥ 1 := by omega
        simp only [h2, h4, if_true, if_false, h3, decide_True, Bool.not_true,
          Bool.false_eq_true]
        exact ⟨h0, trivial⟩
  · right
    refine ⟨hx, ?_⟩
    unfold exits_at at hx
    unfold get_error_exit
    simp only [sim65_err_none, sim65_err_exec_undef, sim65_err_exec_uninit,
      sim65_err_read_undef, sim65_err_read_uninit, sim65_err_write_undef, sim65_err_write_rom,
      sim65_err_break, sim65_err_invalid_ins, sim65_err_call_ret, sim65_err_cycle_limit,
      sim65_err_user, sim65_errlvl_none, sim65_errlvl_memory, sim65_errlvl_full] at hl hx ⊢
    by_cases h0 : s.error = 0
    · simp only [h0, if_true]
      refine ⟨trivial, ?_⟩
      cases s
      simp only at h0
      subst h0
      rfl
    · have h1 : ¬ (s.error = -1 ∨ s.error = -7 ∨ s.error = -8 ∨ s.error = -9 ∨
          s.error = -10 ∨ s.error = -11) := by omega
      simp only [h0, h1, if_false]
      by_cases h2 : s.error = -4 ∨ s.error = -6
      · have h3 : ¬ (s.errlvl ≥ 2) := by omega
        simp only [h2, if_true, h3, decide_False, Bool.not_false]
        exact ⟨trivial, trivial⟩
      · simp only [h2, if_false]
        by_cases h4 : s.error = -2 ∨ s.error = -3 ∨ s.error = -5
        · have h3 : ¬ (s.errlvl ≥ 1) := by omega
          simp only [h4, if_true, h3, decide_False, Bool.not_false]
          exact ⟨trivial, trivial⟩
        · simp only [h4, if_false, Bool.not_false, if_true]
          exact ⟨trivial, trivial⟩

/-- C15. Error-level exit policy: at each of the three error levels, `get_error_exit`
reports exit (a nonzero result) iff the latched error is one of BREAK, INVALID_INS,
EXEC_UNDEF, CALL_RET, CYCLE_LIMIT, USER, or one of EXEC_UNINIT, READ_UNDEF, WRITE_UNDEF at
level MEMORY or FULL, or one of READ_UNINIT, WRITE_ROM at level FULL; when it reports exit
the state, and so the error slot, is unchanged; when it reports no exit the error slot is
NONE afterwards and nothing else changes.  Consequently an error that exits at one level
exits at every higher level. -/
theorem get_error_exit_policy (s : sim65s) (hl : is_errlvl s.errlvl) :
    ((get_error_exit s).1 ≠ 0 ↔ exits_at s.errlvl s.error) ∧
    ((get_error_exit s).1 ≠ 0 → (get_error_exit s).2 = s) ∧
    ((get_error_exit s).1 = 0 → (get_error_exit s).2 = { s with error := sim65_err_none }) ∧
    (∀ t : sim65s, is_errlvl t.errlvl → t.error = s.error → s.errlvl ≤ t.errlvl →
      (get_error_exit s).1 ≠ 0 → (get_error_exit t).1 ≠ 0) := by
  have key : ∀ u : sim65s, is_errlvl u.errlvl →
      ((get_error_exit u).1 ≠ 0 ↔ exits_at u.errlvl u.error) := by
    intro u hu
    rcases get_error_exit_cases u hu with ⟨h1, h2, _⟩ | ⟨h1, h2, _⟩
    · exact ⟨fun _ => h1, fun _ => h2⟩
    · exact ⟨fun h => absurd h2 h, fun h => absurd h h1⟩
  refine ⟨key s hl, ?_, ?_, ?_⟩
  · intro h
    rcases get_error_exit_cases s hl with ⟨_, _, h3⟩ | ⟨_, h2, _⟩
    · exact h3
    · exact absurd h2 h
  · intro h
    rcases get_error_exit_cases s hl with ⟨_, h2, _⟩ | ⟨_, _, h3⟩
    · exact absurd h h2
    · exact h3
  · intro t ht he hle hs
    rw [key t ht, he]
    have hx := (key s hl).1 hs
    unfold exits_at at hx ⊢
    unfold is_errlvl at hl ht
    simp only [sim65_errlvl_none, sim65_errlvl_memory, sim65_errlvl_full] at hl ht hx ⊢
    rcases hx with h | ⟨h, h2⟩ | ⟨h, h2⟩
    · exact Or.inl h
    · exact Or.inr (Or.inl ⟨h, by omega⟩)
    · exact Or.inr (Or.inr ⟨h, by omega⟩)

/-- The policy at a state with READ_UNDEF latched at level MEMORY: exit is reported, and it
is still reported at level FULL. -/
theorem get_error_exit_policy_witness :
    is_errlvl (latched_state sim65_err_read_undef sim65_errlvl_memory).errlvl ∧
    ((get_error_exit (latched_state sim65_err_read_undef sim65_errlvl_memory)).1 ≠ 0 ↔
      exits_at sim65_errlvl_memory sim65_err_read_undef) ∧
    exits_at sim65_errlvl_memory sim65_err_read_undef ∧
    (get_error_exit (latched_state sim65_err_read_undef sim65_errlvl_full)).1 ≠ 0 :=
  ⟨by decide,
   (get_error_exit_policy (latched_state sim65_err_read_undef sim65_errlvl_memory)
      (by decide)).1,
   by decide,
   (get_error_exit_policy (latched_state sim65_err_read_undef sim65_errlvl_memory)
      (by decide)).2.2.2 (latched_state sim65_err_read_undef sim65_errlvl_full)
      (by decide) rfl (by decide) (by decide)⟩

/-- C19, at the failing input: right after `sim65_new` the flag-validity mask is 0, so no
flag is marked unknown and no read of a flag emits the uninitialised-flag diagnostic:
`sim65_new` stores `0xFF` in the mask and then calls `set_flags(s, 0xFF, 0x34)`, which
clears it. -/
theorem new_marks_no_flag_unknown :
    sim65_new.p_valid = 0 ∧ sim65_new.r.p = 0x34 ∧
    (∀ mask, get_flags_warns sim65_new mask = false) ∧
    get_flags_warns sim65_new FLAG_C = false := by
  refine ⟨by decide, by decide, ?_, by decide⟩
  intro mask
  unfold get_flags_warns
  have h : sim65_new.p_valid = 0 := by decide
  rw [h, Nat.zero_and]
  decide

/-! ## Region installation -/

theorem for_range_cell (Q : sim65s → Prop) (body : Nat → sim65s → sim65s) (a : Nat)
    (hat : ∀ s, Q (body a s)) (hother : ∀ i s, i ≠ a → Q s → Q (body i s))
    (addr end_ : Nat) (s : sim65s) (h1 : addr ≤ a) (h2 : a < end_) :
    Q (for_range addr end_ body s) := by
  unfold for_range
  have hmem : a ∈ List.range' addr (end_ - addr) := by
    rw [List.mem_range'_1]; omega
  generalize List.range' addr (end_ - addr) = l at hmem
  have key : ∀ (l : List Nat) (s : sim65s), (Q s ∨ a ∈ l) →
      Q (l.foldl (fun acc i => body i acc) s) := by
    intro l
    induction l with
    | nil =>
      intro s h
      rcases h with h | h
      · exact h
      · exact absurd h (List.not_mem_nil _)
    | cons i l ih =>
      intro s h
      refine ih (body i s) ?_
      by_cases e : i = a
      · left; rw [e]; exact hat s
      · rcases h with h | h
        · left; exact hother i s e h
        · right
          rcases List.mem_cons.1 h with h | h
          · exact absurd h.symm e
          · exact h
  exact key l s (Or.inr hmem)

theorem and_callback_ram (m : Nat) :
    (m &&& not8 (ms_undef ||| ms_rom ||| ms_invalid)) &&& ms_callback = m &&& ms_callback := by
  rw [Nat.and_assoc]; rfl

theorem and_callback_rom (m : Nat) :
    (((m &&& not8 (ms_undef ||| ms_invalid)) ||| ms_rom) % 256) &&& ms_callback
      = m &&& ms_callback := by
  rw [← and_0xFF, Nat.and_assoc, Nat.and_distrib_right, Nat.and_assoc]
  show m &&& 8 ||| 0 = m &&& ms_callback
  exact Nat.or_zero _

theorem install_data_callback (rom : Bool) (s : sim65s) (addr : Nat) (data : Nat → Nat)
    (len a : Nat) :
    (install_data rom s addr data len).mems a &&& ms_callback = s.mems a &&& ms_callback := by
  unfold install_data
  cases rom
  · simp only [Bool.false_eq_true, if_false]
    unfold sim65_add_data_ram
    simp only
    split
    · rfl
    · refine for_range_induction (fun t => t.mems a &&& ms_callback = s.mems a &&& ms_callback)
        _ ?_ _ _ s rfl
      intro i t ht
      show Function.update t.mems i _ a &&& ms_callback = _
      by_cases e : a = i
      · subst e; rw [Function.update_same, and_callback_ram]; exact ht
      · rw [Function.update_noteq e]; exact ht
  · simp only [if_true]
    unfold sim65_add_data_rom
    simp only
    split
    · rfl
    · refine for_range_induction (fun t => t.mems a &&& ms_callback = s.mems a &&& ms_callback)
        _ ?_ _ _ s rfl
      intro i t ht
      show Function.update t.mems i _ a &&& ms_callback = _
      by_cases e : a = i
      · subst e; rw [Function.update_same, and_callback_rom]; exact ht
      · rw [Function.update_noteq e]; exact ht

theorem rom_bits (m : Nat) :
    (((m &&& not8 (ms_undef ||| ms_invalid)) ||| ms_rom) % 256) &&& ms_undef = 0 ∧
    (((m &&& not8 (ms_undef ||| ms_invalid)) ||| ms_rom) % 256) &&& ms_invalid = 0 ∧
    (((m &&& not8 (ms_undef ||| ms_invalid)) ||| ms_rom) % 256) &&& ms_rom ≠ 0 := by
  have h := status_class_rom m
  have e : (((m &&& not8 (ms_undef ||| ms_invalid)) ||| ms_rom) % 256) &&& ms_rom = ms_rom := by
    rw [← and_0xFF, Nat.and_assoc, Nat.and_distrib_right, Nat.and_assoc]
    show m &&& 2 ||| 2 = 2
    apply Nat.eq_of_testBit_eq
    intro i
    rw [Nat.testBit_or, Nat.testBit_and]
    cases m.testBit i <;> cases (2 : Nat).testBit i <;> rfl
  have hr : (((m &&& not8 (ms_undef ||| ms_invalid)) ||| ms_rom) % 256) &&& ms_rom ≠ 0 := by
    rw [e]; decide
  exact ⟨((status_class_excl _ h).2 hr).1, ((status_class_excl _ h).2 hr).2, hr⟩

theorem ram_bits (m : Nat) :
    (m &&& not8 (ms_undef ||| ms_rom ||| ms_invalid)) &&& ms_undef = 0 ∧
    (m &&& not8 (ms_undef ||| ms_rom ||| ms_invalid)) &&& ms_invalid = 0 ∧
    (m &&& not8 (ms_undef ||| ms_rom ||| ms_invalid)) &&& ms_rom = 0 := by
  refine ⟨?_, ?_, ?_⟩ <;> rw [Nat.and_assoc] <;> exact Nat.and_zero m

theorem install_data_cell (rom : Bool) (s : sim65s) (addr : Nat) (data : Nat → Nat)
    (len a : Nat) (hr : in_range addr len a) (hlen : addr + len < 2 ^ 32) :
    (install_data rom s addr data len).mem a = data (a - addr) % 256 ∧
    (install_data rom s addr data len).mems a &&& ms_undef = 0 ∧
    (install_data rom s addr data len).mems a &&& ms_invalid = 0 ∧
    ((install_data rom s addr data len).mems a &&& ms_rom ≠ 0 ↔ rom = true) := by
  obtain ⟨h1, h2, h3⟩ := hr
  unfold MAXRAM at h3
  have hend : (addr + len) % 2 ^ 32 = addr + len := Nat.mod_eq_of_lt hlen
  have hlt : a < (if (addr + len) % 2 ^ 32 ≥ MAXRAM then MAXRAM else (addr + len) % 2 ^ 32) := by
    rw [hend]
    unfold MAXRAM
    split <;> omega
  have hnot : ¬ (addr ≥ MAXRAM) := by unfold MAXRAM; omega
  cases rom
  · have key : (sim65_add_data_ram s addr data len).mem a = data (a - addr) % 256 ∧
        (sim65_add_data_ram s addr data len).mems a &&& ms_undef = 0 ∧
        (sim65_add_data_ram s addr data len).mems a &&& ms_invalid = 0 ∧
        (sim65_add_data_ram s addr data len).mems a &&& ms_rom = 0 := by
      unfold sim65_add_data_ram
      dsimp only
      rw [if_neg hnot]
      refine for_range_cell
        (fun t => t.mem a = data (a - addr) % 256 ∧ t.mems a &&& ms_undef = 0 ∧
          t.mems a &&& ms_invalid = 0 ∧ t.mems a &&& ms_rom = 0) _ a ?_ ?_ _ _ s h1 hlt
      · intro t
        simp only [Function.update_same]
        exact ⟨trivial, (ram_bits _).1, (ram_bits _).2.1, (ram_bits _).2.2⟩
      · intro i t hi ht
        have e : a ≠ i := fun h => hi h.symm
        simp only [Function.update_noteq e]
        exact ht
    exact ⟨key.1, key.2.1, key.2.2.1, fun h => absurd key.2.2.2 h, fun h => absurd h (by decide)⟩
  · have key : (sim65_add_data_rom s addr data len).mem a = data (a - addr) % 256 ∧
        (sim65_add_data_rom s addr data len).mems a &&& ms_undef = 0 ∧
        (sim65_add_data_rom s addr data len).mems a &&& ms_invalid = 0 ∧
        (sim65_add_data_rom s addr data len).mems a &&& ms_rom ≠ 0 := by
      unfold sim65_add_data_rom
      dsimp only
      rw [if_neg hnot]
      refine for_range_cell
        (fun t => t.mem a = data (a - addr) % 256 ∧ t.mems a &&& ms_undef = 0 ∧
          t.mems a &&& ms_invalid = 0 ∧ t.mems a &&& ms_rom ≠ 0) _ a ?_ ?_ _ _ s h1 hlt
      · intro t
        simp only [Function.update_same]
        exact ⟨trivial, (rom_bits _).1, (rom_bits _).2.1, (rom_bits _).2.2⟩
      · intro i t hi ht
        have e : a ≠ i := fun h => hi h.symm
        simp only [Function.update_noteq e]
        exact ht
    exact ⟨key.1, key.2.1, key.2.2.1, fun _ => rfl, fun _ => key.2.2.2⟩

theorem for_range_empty {α : Type} (addr end_ : Nat) (body : Nat → α → α) (s : α)
    (h : end_ ≤ addr) : for_range addr end_ body s = s := by
  unfold for_range
  rw [Nat.sub_eq_zero_of_le h]
  rfl

theorem install_data_wrapped (rom : Bool) (s : sim65s) (addr : Nat) (data : Nat → Nat)
    (len : Nat) (h : (addr + len) % 2 ^ 32 ≤ addr) : install_data rom s addr data len = s := by
  have key : ∀ (body : Nat → sim65s → sim65s),
      (if addr ≥ MAXRAM then s
       else for_range addr
        (if (addr + len) % 2 ^ 32 ≥ MAXRAM then MAXRAM else (addr + len) % 2 ^ 32) body s)
        = s := by
    intro body
    split
    · rfl
    · rename_i hlt
      apply for_range_empty
      split <;> omega
  unfold install_data
  cases rom
  · exact key _
  · exact key _

/-- C13, the claim as stated fails.  ROM `AA` at `$8000`, then `sim65_add_data_ram` of the
byte `11` at `$8000` with the length `0xFFFFFFFF`: the address `$8000` lies in both ranges,
but the `unsigned` sum `addr + len` wraps to `$7FFF`, the loop of the later call does not
run, and the cell still holds `AA` with ROM set.  So does every later call whose
`addr + len`, reduced to 32 bits, is not above `addr`: it returns the state as it is. -/
theorem install_wrapped_later_call_ignored :
    in_range 0x8000 1 0x8000 ∧ in_range 0x8000 0xFFFFFFFF 0x8000 ∧
    bytes [0x11] (0x8000 - 0x8000) % 256 = 0x11 ∧
    (install_data false (install_data true sim65_new 0x8000 (bytes [0xAA]) 1)
      0x8000 (bytes [0x11]) 0xFFFFFFFF).mem 0x8000 = 0xAA ∧
    (install_data false (install_data true sim65_new 0x8000 (bytes [0xAA]) 1)
      0x8000 (bytes [0x11]) 0xFFFFFFFF).mems 0x8000 &&& ms_rom ≠ 0 ∧
    (∀ (rom : Bool) (s : sim65s) (addr : Nat) (data : Nat → Nat) (len : Nat),
      (addr + len) % 2 ^ 32 ≤ addr → install_data rom s addr data len = s) := by
  refine ⟨by decide, by decide, by decide, ?_, ?_, install_data_wrapped⟩
  · rw [install_data_wrapped false _ 0x8000 _ 0xFFFFFFFF (by decide)]; decide
  · rw [install_data_wrapped false _ 0x8000 _ 0xFFFFFFFF (by decide)]; decide

/-- C13, amended.  Last-writer-wins for region installation: after any two calls among
`sim65_add_data_ram` and `sim65_add_data_rom` of which the later has an `addr + len` that
does not overflow 32 bits, every address in the overlap of the two ranges holds the byte
supplied by the later call, has UNDEF and INVALID clear, has ROM set exactly when the later
call was `sim65_add_data_rom`, and has its CALLBACK bit as before the two calls. -/
theorem install_last_writer_wins (s : sim65s) (rom1 rom2 : Bool) (addr1 len1 addr2 len2 : Nat)
    (data1 data2 : Nat → Nat) (a : Nat) (_h1 : in_range addr1 len1 a)
    (h2 : in_range addr2 len2 a) (hlen2 : addr2 + len2 < 2 ^ 32) :
    (install_data rom2 (install_data rom1 s addr1 data1 len1) addr2 data2 len2).mem a
      = data2 (a - addr2) % 256 ∧
    (install_data rom2 (install_data rom1 s addr1 data1 len1) addr2 data2 len2).mems a
      &&& ms_undef = 0 ∧
    (install_data rom2 (install_data rom1 s addr1 data1 len1) addr2 data2 len2).mems a
      &&& ms_invalid = 0 ∧
    ((install_data rom2 (install_data rom1 s addr1 data1 len1) addr2 data2 len2).mems a
      &&& ms_rom ≠ 0 ↔ rom2 = true) ∧
    (install_data rom2 (install_data rom1 s addr1 data1 len1) addr2 data2 len2).mems a
      &&& ms_callback = s.mems a &&& ms_callback := by
  obtain ⟨c1, c2, c3, c4⟩ :=
    install_data_cell rom2 (install_data rom1 s addr1 data1 len1) addr2 data2 len2 a h2 hlen2
  refine ⟨c1, c2, c3, c4, ?_⟩
  rw [install_data_callback, install_data_callback]

/-- ROM `AA BB CC BB` at `$0300`, then RAM `11 22` at `$0302` over a machine with a read
callback at `$0302`: the cell `$0302` holds `$11`, is plain initialised RAM, and keeps its
CALLBACK bit. -/
theorem install_last_writer_wins_witness :
    in_range 0x300 4 0x302 ∧ in_range 0x302 2 0x302 ∧
    (install_data false (install_data true (sim65_add_callback sim65_new 0x302 (some 0)
        sim65_cb_read) 0x300 (bytes [0xAA, 0xBB, 0xCC, 0xDD]) 4)
      0x302 (bytes [0x11, 0x22]) 2).mem 0x302 = bytes [0x11, 0x22] (0x302 - 0x302) % 256 ∧
    ((install_data false (install_data true (sim65_add_callback sim65_new 0x302 (some 0)
        sim65_cb_read) 0x300 (bytes [0xAA, 0xBB, 0xCC, 0xDD]) 4)
      0x302 (bytes [0x11, 0x22]) 2).mems 0x302 &&& ms_rom ≠ 0 ↔ false = true) ∧
    (install_data false (install_data true (sim65_add_callback sim65_new 0x302 (some 0)
        sim65_cb_read) 0x300 (bytes [0xAA, 0xBB, 0xCC, 0xDD]) 4)
      0x302 (bytes [0x11, 0x22]) 2).mems 0x302 &&& ms_callback
      = (sim65_add_callback sim65_new 0x302 (some 0) sim65_cb_read).mems 0x302
        &&& ms_callback :=
  ⟨by decide, by decide,
   (install_last_writer_wins (sim65_add_callback sim65_new 0x302 (some 0) sim65_cb_read)
      true false 0x300 4 0x302 2 (bytes [0xAA, 0xBB, 0xCC, 0xDD]) (bytes [0x11, 0x22]) 0x302
      (by decide) (by decide) (by decide)).1,
   (install_last_writer_wins (sim65_add_callback sim65_new 0x302 (some 0) sim65_cb_read)
      true false 0x300 4 0x302 2 (bytes [0xAA, 0xBB, 0xCC, 0xDD]) (bytes [0x11, 0x22]) 0x302
      (by decide) (by decide) (by decide)).2.2.2.1,
   (install_last_writer_wins (sim65_add_callback sim65_new 0x302 (some 0) sim65_cb_read)
      true false 0x300 4 0x302 2 (bytes [0xAA, 0xBB, 0xCC, 0xDD]) (bytes [0x11, 0x22]) 0x302
      (by decide) (by decide) (by decide)).2.2.2.2⟩

/-! ## Every instruction step is composed of elementary changes -/

section steps
variable {env : CbEnv} {b : Bool}

theorem steps_mono {s t : sim65s} (h : Steps env false s t) : Steps env b s t := by
  induction h with
  | refl s => exact Steps.refl s
  | trans _ _ ih1 ih2 => exact Steps.trans ih1 ih2
  | flags s m v => exact Steps.flags s m v
  | regs s r h => exact Steps.regs s r h
  | cycles s n => exact Steps.cycles s n
  | prof s p => exact Steps.prof s p
  | error s e a => exact Steps.error s e a
  | clear_invalid s a h => exact Steps.clear_invalid s a h
  | store s a v h => exact Steps.store s a v h
  | callback cb s a d h => exact Steps.callback cb s a d h
  | bit_unknown s a h _ _ => exact absurd h (by decide)

theorem st_flags {s t : sim65s} (m v : Nat) (h : Steps env b s t) :
    Steps env b s (set_flags t m v) :=
  Steps.trans h (Steps.flags t m v)

theorem st_regs {s t : sim65s} (r : sim65_reg) (hp : r.p = t.r.p) (h : Steps env b s t) :
    Steps env b s { t with r := r } :=
  Steps.trans h (Steps.regs t r hp)

theorem st_set_a {s t : sim65s} (v : Nat) (h : Steps env b s t) : Steps env b s (set_a t v) :=
  st_regs _ rfl h

theorem st_set_x {s t : sim65s} (v : Nat) (h : Steps env b s t) : Steps env b s (set_x t v) :=
  st_regs _ rfl h

theorem st_set_y {s t : sim65s} (v : Nat) (h : Steps env b s t) : Steps env b s (set_y t v) :=
  st_regs _ rfl h

theorem st_set_s {s t : sim65s} (v : Nat) (h : Steps env b s t) : Steps env b s (set_s t v) :=
  st_regs _ rfl h

theorem st_set_pc {s t : sim65s} (v : Nat) (h : Steps env b s t) : Steps env b s (set_pc t v) :=
  st_regs _ rfl h

theorem st_cyc {s t : sim65s} (n : Nat) (h : Steps env b s t) :
    Steps env b s (add_cycles t n) :=
  Steps.trans h (Steps.cycles t n)

theorem st_prof {s t : sim65s} (p : sim65_prof) (h : Steps env b s t) :
    Steps env b s { t with prof := p } :=
  Steps.trans h (Steps.prof t p)

theorem st_err {s t : sim65s} (e : Int) (a : Nat) (h : Steps env b s t) :
    Steps env b s (set_error t e a) :=
  Steps.trans h (Steps.error t e a)

theorem st_SETZ {s t : sim65s} (a : Nat) (h : Steps env b s t) : Steps env b s (SETZ t a) :=
  st_flags _ _ h

theorem st_SETN {s t : sim65s} (a : Nat) (h : Steps env b s t) : Steps env b s (SETN t a) :=
  st_flags _ _ h

theorem st_SETC {s t : sim65s} (a : Bool) (h : Steps env b s t) : Steps env b s (SETC t a) :=
  st_flags _ _ h

theorem st_SETV {s t : sim65s} (a : Bool) (h : Steps env b s t) : Steps env b s (SETV t a) :=
  st_flags _ _ h

theorem st_SET_ZN {s t : sim65s} (a : Nat) (h : Steps env b s t) : Steps env b s (SET_ZN t a) :=
  st_SETZ _ (st_SETN _ h)

theorem steps_readByte (s : sim65s) (addr : Nat) : Steps env b s (readByte env s addr).2 := by
  unfold readByte
  simp only
  split
  · exact Steps.refl s
  · unfold readByte_slow
    split
    · rename_i cb hcb
      have hr : s.cb_read (addr % 65536) = some cb := by
        by_cases hc : s.mems (addr % 65536) &&& ms_callback ≠ 0
        · rw [if_pos hc] at hcb; exact hcb
        · rw [if_neg hc] at hcb; exact absurd hcb (by simp)
      exact st_err _ _ (Steps.callback cb s _ _ (Or.inl hr))
    · simp only
      split
      · exact Steps.error s _ _
      · rename_i hu
        have hu' : s.mems (addr % 65536) &&& ms_undef = 0 := by
          by_contra h; exact hu h
        have h2 : (set_error s sim65_err_read_uninit (addr % 65536)).mems = s.mems :=
          (set_error_mem s _ _).2
        exact Steps.trans (Steps.error s _ _)
          (Steps.clear_invalid (set_error s sim65_err_read_uninit (addr % 65536))
            (addr % 65536) (by rw [h2]; exact hu'))

theorem steps_writeByte (s : sim65s) (addr val : Nat) :
    Steps env b s (writeByte env s addr val) := by
  unfold writeByte
  simp only
  split
  · rename_i h0
    have h1 : s.mems (addr % 65536) &&& not8 ms_invalid = 0 := by rw [h0]; exact Nat.zero_and _
    have h2 : Steps env b s _ := Steps.store s (addr % 65536) val h1
    have e : Function.update s.mems (addr % 65536) 0 = s.mems := by
      rw [← h0]; exact Function.update_eq_self _ _
    rw [e] at h2
    exact h2
  · unfold writeByte_slow
    split
    · rename_i h1
      exact Steps.store s (addr % 65536) val h1
    · split
      · rename_i cb hcb
        have hw : s.cb_write (addr % 65536) = some cb := by
          by_cases hc : s.mems (addr % 65536) &&& ms_callback ≠ 0
          · rw [if_pos hc] at hcb; exact hcb
          · rw [if_neg hc] at hcb; exact absurd hcb (by simp)
        exact st_err _ _ (Steps.callback cb s _ _ (Or.inr hw))
      · split
        · exact Steps.error s _ _
        · split
          · exact Steps.error s _ _
          · exact Steps.refl s

theorem st_rd {s t : sim65s} (a : Nat) (h : Steps env b s t) :
    Steps env b s (readByte env t a).2 :=
  Steps.trans h (steps_readByte t a)

theorem st_wr {s t : sim65s} (a v : Nat) (h : Steps env b s t) :
    Steps env b s (writeByte env t a v) :=
  Steps.trans h (steps_writeByte t a v)

theorem st_rw {s t : sim65s} (a : Nat) (h : Steps env b s t) :
    Steps env b s (readWord env t a).2 :=
  st_rd _ (st_rd _ h)

theorem st_op {op : Op} (hop : OpSteps op) {s t : sim65s} (v : Nat) (h : Steps env b s t) :
    Steps env b s (op t v).1 :=
  Steps.trans h (steps_mono (hop env t v))

theorem opsteps_ORA : OpSteps ORA := fun _ s _ => st_SETN _ (st_SETZ _ (st_set_a _ (Steps.refl s)))

theorem opsteps_AND : OpSteps AND := fun _ s _ => st_SETN _ (st_SETZ _ (st_set_a _ (Steps.refl s)))

theorem opsteps_EOR : OpSteps EOR := fun _ s _ => st_SETN _ (st_SETZ _ (st_set_a _ (Steps.refl s)))

theorem opsteps_ASL : OpSteps ASL := fun _ s _ => st_SETN _ (st_SETZ _ (st_SETC _ (Steps.refl s)))

theorem opsteps_ROL : OpSteps ROL := fun _ s _ => st_SETN _ (st_SETZ _ (st_SETC _ (Steps.refl s)))

theorem opsteps_LSR : OpSteps LSR := fun _ s _ => st_SETN _ (st_SETZ _ (st_SETC _ (Steps.refl s)))

theorem opsteps_ROR : OpSteps ROR := fun _ s _ => st_SETN _ (st_SETZ _ (st_SETC _ (Steps.refl s)))

theorem opsteps_DEC : OpSteps DEC := fun _ s _ => st_SET_ZN _ (Steps.refl s)

theorem opsteps_INC : OpSteps INC := fun _ s _ => st_SET_ZN _ (Steps.refl s)

theorem opsteps_CMP : OpSteps CMP := fun _ s _ => st_SETC _ (st_SET_ZN _ (Steps.refl s))

theorem opsteps_CPX : OpSteps CPX := fun _ s _ => st_SETC _ (st_SET_ZN _ (Steps.refl s))

theorem opsteps_CPY : OpSteps CPY := fun _ s _ => st_SETC _ (st_SET_ZN _ (Steps.refl s))

theorem opsteps_LDA : OpSteps LDA := fun _ s _ => st_set_a _ (st_SET_ZN _ (Steps.refl s))

theorem opsteps_LDX : OpSteps LDX := fun _ s _ => st_set_x _ (st_SET_ZN _ (Steps.refl s))

theorem opsteps_LDY : OpSteps LDY := fun _ s _ => st_set_y _ (st_SET_ZN _ (Steps.refl s))

theorem opsteps_STA : OpSteps STA := fun _ s _ => Steps.refl s

theorem opsteps_STX : OpSteps STX := fun _ s _ => Steps.refl s

theorem opsteps_STY : OpSteps STY := fun _ s _ => Steps.refl s

theorem opsteps_TSX_op : OpSteps TSX_op := fun _ s _ => Steps.refl s

theorem opsteps_ADC : OpSteps ADC := by
  intro env s v
  show Steps env false s (do_adc s v)
  unfold do_adc
  split
  · exact st_regs _ rfl (st_SETC _ (st_SETV _ (st_SETN _ (st_SETZ _ (Steps.refl s)))))
  · exact st_regs _ rfl (st_SETZ _ (st_SETN _ (st_SETC _ (st_SETV _ (Steps.refl s)))))

theorem opsteps_SBC : OpSteps SBC := by
  intro env s v
  show Steps env false s (do_sbc s v)
  unfold do_sbc
  split
  · exact st_regs _ rfl (st_SETC _ (st_SETN _ (st_SETZ _ (st_SETV _ (Steps.refl s)))))
  · exact st_regs _ rfl (st_SETZ _ (st_SETN _ (st_SETC _ (st_SETV _ (Steps.refl s)))))

theorem st_extra_absx {s t : sim65s} (data : Nat) (h : Steps env b s t) :
    Steps env b s (do_extra_absx t data) := by
  unfold do_extra_absx
  simp only
  split
  · split
    · exact st_prof _ (st_cyc 1 h)
    · exact st_cyc 1 h
  · exact h

theorem st_extra_absy {s t : sim65s} (data : Nat) (h : Steps env b s t) :
    Steps env b s (do_extra_absy t data) := by
  unfold do_extra_absy
  simp only
  split
  · split
    · exact st_prof _ (st_cyc 1 h)
    · exact st_cyc 1 h
  · exact h

theorem st_ite {s : sim65s} (c : Prop) [Decidable c] {t u : sim65s} (h1 : Steps env b s t)
    (h2 : Steps env b s u) : Steps env b s (if c then t else u) := by
  split <;> assumption

theorem st_branch_taken {s t : sim65s} (h : Steps env b s t) :
    Steps env b s
      (if t.do_prof ≠ 0 then
        { t with prof := { t.prof with
            branch := Function.update t.prof.branch ((65536 + t.r.pc - 2) % 65536)
              ((t.prof.branch ((65536 + t.r.pc - 2) % 65536) + 1) % 2 ^ 32)
            branch_taken := (t.prof.branch_taken + 1) % 2 ^ 32 } }
       else t) :=
  st_ite _ (st_prof _ h) h

theorem steps_do_branch (s : sim65s) (off mask cond : Nat) :
    Steps env b s (do_branch s off mask cond) :=
  st_ite _
    (st_regs _ rfl
      (st_ite _
        (st_ite _ (st_prof _ (st_cyc 1 (st_branch_taken (st_cyc 1 (st_cyc 2 (Steps.refl s))))))
          (st_cyc 1 (st_branch_taken (st_cyc 1 (st_cyc 2 (Steps.refl s))))))
        (st_branch_taken (st_cyc 1 (st_cyc 2 (Steps.refl s))))))
    (st_ite _ (st_prof _ (st_cyc 2 (Steps.refl s))) (st_cyc 2 (Steps.refl s)))

theorem steps_ZP_R {op : Op} (hop : OpSteps op) (data : Nat) (s : sim65s) :
    Steps env b s (ZP_R env op data s) :=
  st_op hop _ (st_rd _ (st_cyc 3 (Steps.refl s)))

theorem steps_ZP_W {op : Op} (hop : OpSteps op) (data : Nat) (s : sim65s) :
    Steps env b s (ZP_W env op data s) :=
  st_wr _ _ (st_op hop 0 (st_cyc 3 (Steps.refl s)))

theorem steps_ZP_RW {op : Op} (hop : OpSteps op) (data : Nat) (s : sim65s) :
    Steps env b s (ZP_RW env op data s) :=
  st_wr _ _ (st_op hop _ (st_rd _ (st_cyc 5 (Steps.refl s))))

theorem steps_ABS_R {op : Op} (hop : OpSteps op) (data : Nat) (s : sim65s) :
    Steps env b s (ABS_R env op data s) :=
  st_op hop _ (st_rd _ (st_cyc 4 (Steps.refl s)))

theorem steps_ABS_W {op : Op} (hop : OpSteps op) (data : Nat) (s : sim65s) :
    Steps env b s (ABS_W env op data s) :=
  st_wr _ _ (st_op hop 0 (st_cyc 4 (Steps.refl s)))

theorem steps_ABS_RW {op : Op} (hop : OpSteps op) (data : Nat) (s : sim65s) :
    Steps env b s (ABS_RW env op data s) :=
  st_wr _ _ (st_op hop _ (st_rd _ (st_cyc 6 (Steps.refl s))))

theorem steps_ZPX_R {op : Op} (hop : OpSteps op) (data : Nat) (s : sim65s) :
    Steps env b s (ZPX_R env op data s) :=
  st_op hop _ (st_rd _ (st_cyc 4 (Steps.refl s)))

theorem steps_ZPX_W {op : Op} (hop : OpSteps op) (data : Nat) (s : sim65s) :
    Steps env b s (ZPX_W env op data s) :=
  st_wr _ _ (st_op hop 0 (st_cyc 4 (Steps.refl s)))

theorem steps_ZPX_RW {op : Op} (hop : OpSteps op) (data : Nat) (s : sim65s) :
    Steps env b s (ZPX_RW env op data s) :=
  st_wr _ _ (st_op hop _ (st_rd _ (st_cyc 6 (Steps.refl s))))

theorem steps_ZPY_R {op : Op} (hop : OpSteps op) (data : Nat) (s : sim65s) :
    Steps env b s (ZPY_R env op data s) :=
  st_op hop _ (st_rd _ (st_cyc 4 (Steps.refl s)))

theorem steps_ZPY_W {op : Op} (hop : OpSteps op) (data : Nat) (s : sim65s) :
    Steps env b s (ZPY_W env op data s) :=
  st_wr _ _ (st_op hop 0 (st_cyc 4 (Steps.refl s)))

theorem steps_ABX_W {op : Op} (hop : OpSteps op) (data : Nat) (s : sim65s) :
    Steps env b s (ABX_W env op data s) :=
  st_wr _ _ (st_op hop 0 (st_cyc 5 (Steps.refl s)))

theorem steps_ABX_RW {op : Op} (hop : OpSteps op) (data : Nat) (s : sim65s) :
    Steps env b s (ABX_RW env op data s) :=
  st_wr _ _ (st_op hop _ (st_rd _ (st_cyc 7 (Steps.refl s))))

theorem steps_ABY_W {op : Op} (hop : OpSteps op) (data : Nat) (s : sim65s) :
    Steps env b s (ABY_W env op data s) :=
  st_wr _ _ (st_op hop 0 (st_cyc 5 (Steps.refl s)))

theorem steps_ABX_R {op : Op} (hop : OpSteps op) (data : Nat) (s : sim65s) :
    Steps env b s (ABX_R env op data s) :=
  st_op hop _ (st_rd _ (st_extra_absx _ (st_cyc 4 (Steps.refl s))))

theorem steps_ABY_R {op : Op} (hop : OpSteps op) (data : Nat) (s : sim65s) :
    Steps env b s (ABY_R env op data s) :=
  st_op hop _ (st_rd _ (st_extra_absy _ (st_cyc 4 (Steps.refl s))))

theorem steps_readIndX (s : sim65s) (addr : Nat) : Steps env b s (readIndX env s addr).2 :=
  st_rd _ (st_rw _ (st_cyc 6 (Steps.refl s)))

theorem steps_readIndY (s : sim65s) (addr : Nat) : Steps env b s (readIndY env s addr).2 := by
  unfold readIndY
  simp only
  refine st_rd _ ?_
  split
  · split
    · exact st_prof _ (st_cyc 1 (st_rw _ (st_cyc 5 (Steps.refl s))))
    · exact st_cyc 1 (st_rw _ (st_cyc 5 (Steps.refl s)))
  · exact st_rw _ (st_cyc 5 (Steps.refl s))

theorem st_writeIndX {s t : sim65s} (addr val : Nat) (h : Steps env b s t) :
    Steps env b s (writeIndX env t addr val) :=
  st_wr _ _ (st_rw _ (st_cyc 6 h))

theorem st_writeIndY {s t : sim65s} (addr val : Nat) (h : Steps env b s t) :
    Steps env b s (writeIndY env t addr val) :=
  st_wr _ _ (st_rw _ (st_cyc 6 h))

theorem steps_IND_X {op : Op} (hop : OpSteps op) (data : Nat) (s : sim65s) :
    Steps env b s (IND_X env op data s) :=
  st_op hop _ (steps_readIndX s data)

theorem steps_IND_Y {op : Op} (hop : OpSteps op) (data : Nat) (s : sim65s) :
    Steps env b s (IND_Y env op data s) :=
  st_op hop _ (steps_readIndY s data)

theorem steps_INDW_X {op : Op} (hop : OpSteps op) (data : Nat) (s : sim65s) :
    Steps env b s (INDW_X env op data s) :=
  st_writeIndX _ _ (st_op hop 0 (Steps.refl s))

theorem steps_INDW_Y {op : Op} (hop : OpSteps op) (data : Nat) (s : sim65s) :
    Steps env b s (INDW_Y env op data s) :=
  st_writeIndY _ _ (st_op hop 0 (Steps.refl s))

theorem steps_IMM {op : Op} (hop : OpSteps op) (data : Nat) (s : sim65s) :
    Steps env b s (IMM op data s) :=
  st_op hop _ (st_cyc 2 (Steps.refl s))

theorem steps_IMP_A {op : Op} (hop : OpSteps op) (s : sim65s) :
    Steps env b s (IMP_A op s) :=
  st_SET_ZN _ (st_set_a _ (st_op hop _ (st_cyc 2 (Steps.refl s))))

theorem steps_IMP_X {op : Op} (hop : OpSteps op) (s : sim65s) :
    Steps env b s (IMP_X op s) :=
  st_SET_ZN _ (st_set_x _ (st_op hop _ (st_cyc 2 (Steps.refl s))))

theorem steps_IMP_Y {op : Op} (hop : OpSteps op) (s : sim65s) :
    Steps env b s (IMP_Y op s) :=
  st_SET_ZN _ (st_set_y _ (st_op hop _ (st_cyc 2 (Steps.refl s))))

theorem steps_TXS (s : sim65s) :
    Steps env b s (TXS s) :=
  st_set_s _ (st_cyc 2 (Steps.refl s))

theorem steps_JMP (data : Nat) (s : sim65s) :
    Steps env b s (JMP data s) :=
  st_set_pc _ (st_cyc 3 (Steps.refl s))

theorem steps_JMP16 (data : Nat) (s : sim65s) :
    Steps env b s (JMP16 env data s) :=
  st_set_pc _ (st_rw _ (st_cyc 5 (Steps.refl s)))

theorem steps_NOP (s : sim65s) : Steps env b s (add_cycles s 2) := Steps.cycles s 2

theorem steps_BRA_0 (a data : Nat) (s : sim65s) : Steps env b s (BRA_0 a data s) :=
  steps_do_branch s _ _ _

theorem steps_BRA_1 (a data : Nat) (s : sim65s) : Steps env b s (BRA_1 a data s) :=
  steps_do_branch s _ _ _

theorem steps_CL_F (f : Nat) (s : sim65s) : Steps env b s (CL_F f s) :=
  st_flags _ _ (st_cyc 2 (Steps.refl s))

theorem steps_SE_F (f : Nat) (s : sim65s) : Steps env b s (SE_F f s) :=
  st_flags _ _ (st_cyc 2 (Steps.refl s))

theorem st_PUSH {s t : sim65s} (val : sim65s → Nat) (h : Steps env b s t) :
    Steps env b s (PUSH env val t) :=
  st_set_s _ (st_wr _ _ (st_cyc 3 h))

theorem steps_PUSH (val : sim65s → Nat) (s : sim65s) : Steps env b s (PUSH env val s) :=
  st_PUSH val (Steps.refl s)

theorem st_POP {s t : sim65s} (h : Steps env b s t) : Steps env b s (POP env t).2 :=
  st_rd _ (st_set_s _ h)

theorem st_POP_P {s t : sim65s} (h : Steps env b s t) : Steps env b s (POP_P env t) :=
  st_flags _ _ (st_POP (st_cyc 4 h))

theorem steps_POP_P (s : sim65s) : Steps env b s (POP_P env s) := st_POP_P (Steps.refl s)

theorem steps_POP_A (s : sim65s) : Steps env b s (POP_A env s) :=
  st_set_a _ (st_SET_ZN _ (st_POP (st_cyc 4 (Steps.refl s))))

theorem st_do_bit {s t : sim65s} (addr : Nat) (h : Steps env true s t) :
    Steps env true s (do_bit env t addr) := by
  unfold do_bit
  simp only
  split
  · rename_i hc
    refine Steps.trans h (Steps.bit_unknown t (addr % 65536) rfl hc.1 ?_)
    by_contra h2
    exact hc.2 h2
  · exact st_SETZ _ (st_SETV _ (st_SETN _ (st_rd _ h)))

theorem st_do_bit_read {s t : sim65s} (addr : Nat) (hb : ¬ bit_skips t addr)
    (h : Steps env b s t) : Steps env b s (do_bit env t addr) := by
  unfold do_bit
  unfold bit_skips at hb
  simp only [if_neg hb]
  exact st_SETZ _ (st_SETV _ (st_SETN _ (st_rd _ h)))

theorem steps_BIT_ZP (data : Nat) (s : sim65s) : Steps env true s (BIT_ZP env data s) :=
  st_do_bit _ (st_cyc 3 (Steps.refl s))

theorem steps_BIT_ABS (data : Nat) (s : sim65s) : Steps env true s (BIT_ABS env data s) :=
  st_do_bit _ (st_cyc 4 (Steps.refl s))

theorem steps_JSR (data : Nat) (s : sim65s) : Steps env b s (JSR env data s) :=
  st_set_pc _ (st_PUSH _ (st_PUSH _ (st_set_pc _ (Steps.refl s))))

theorem steps_RTS (s : sim65s) : Steps env b s (RTS env s) :=
  st_cyc 6 (st_set_pc _ (st_set_pc _ (st_POP (st_set_pc _ (st_POP (Steps.refl s))))))

theorem steps_RTI (s : sim65s) : Steps env b s (RTI env s) :=
  st_cyc 2 (st_set_pc _ (st_set_pc _ (st_POP (st_set_pc _ (st_POP (st_POP_P (Steps.refl s)))))))

theorem steps_BIT_ZP_of (data : Nat) (s : sim65s)
    (hb : b = true ∨ ¬ bit_skips (add_cycles s 3) (data &&& 0xFF)) :
    Steps env b s (BIT_ZP env data s) := by
  rcases hb with h | h
  · subst h; exact steps_BIT_ZP data s
  · exact st_do_bit_read _ h (st_cyc 3 (Steps.refl s))

theorem steps_BIT_ABS_of (data : Nat) (s : sim65s)
    (hb : b = true ∨ ¬ bit_skips (add_cycles s 4) data) :
    Steps env b s (BIT_ABS env data s) := by
  rcases hb with h | h
  · subst h; exact steps_BIT_ABS data s
  · exact st_do_bit_read _ h (st_cyc 4 (Steps.refl s))

theorem st_ite_eq {s : sim65s} {c : Prop} [Decidable c] {t u : sim65s}
    (h1 : c → Steps env b s t) (h2 : Steps env b s u) : Steps env b s (if c then t else u) := by
  split
  · rename_i h; exact h1 h
  · exact h2

set_option maxRecDepth 8000 in
theorem steps_dispatch_of (ins data : Nat) (u : sim65s)
    (hb : b = true ∨ ((ins = 0x24 → ¬ bit_skips (add_cycles u 3) (data &&& 0xFF)) ∧
      (ins = 0x2C → ¬ bit_skips (add_cycles u 4) data))) :
    Steps env b u (dispatch env ins data u) := by
  unfold dispatch
  refine st_ite _ (Steps.error u _ _) ?_
  refine st_ite _ (steps_IND_X opsteps_ORA data u) ?_
  refine st_ite _ (steps_ZP_R opsteps_ORA data u) ?_
  refine st_ite _ (steps_ZP_RW opsteps_ASL data u) ?_
  refine st_ite _ (steps_PUSH _ u) ?_
  refine st_ite _ (steps_IMM opsteps_ORA data u) ?_
  refine st_ite _ (steps_IMP_A opsteps_ASL u) ?_
  refine st_ite _ (steps_ABS_R opsteps_ORA data u) ?_
  refine st_ite _ (steps_ABS_RW opsteps_ASL data u) ?_
  refine st_ite _ (steps_BRA_0 _ data u) ?_
  refine st_ite _ (steps_IND_Y opsteps_ORA data u) ?_
  refine st_ite _ (steps_ZPX_R opsteps_ORA data u) ?_
  refine st_ite _ (steps_ZPX_RW opsteps_ASL data u) ?_
  refine st_ite _ (steps_CL_F _ u) ?_
  refine st_ite _ (steps_ABY_R opsteps_ORA data u) ?_
  refine st_ite _ (steps_ABX_R opsteps_ORA data u) ?_
  refine st_ite _ (steps_ABX_RW opsteps_ASL data u) ?_
  refine st_ite _ (steps_JSR data u) ?_
  refine st_ite _ (steps_IND_X opsteps_AND data u) ?_
  refine st_ite_eq (fun e => steps_BIT_ZP_of data u (hb.imp id (fun h => h.1 e))) ?_
  refine st_ite _ (steps_ZP_R opsteps_AND data u) ?_
  refine st_ite _ (steps_ZP_RW opsteps_ROL data u) ?_
  refine st_ite _ (steps_POP_P u) ?_
  refine st_ite _ (steps_IMM opsteps_AND data u) ?_
  refine st_ite _ (steps_IMP_A opsteps_ROL u) ?_
  refine st_ite_eq (fun e => steps_BIT_ABS_of data u (hb.imp id (fun h => h.2 e))) ?_
  refine st_ite _ (steps_ABS_R opsteps_AND data u) ?_
  refine st_ite _ (steps_ABS_RW opsteps_ROL data u) ?_
  refine st_ite _ (steps_BRA_1 _ data u) ?_
  refine st_ite _ (steps_IND_Y opsteps_AND data u) ?_
  refine st_ite _ (steps_ZPX_R opsteps_AND data u) ?_
  refine st_ite _ (steps_ZPX_RW opsteps_ROL data u) ?_
  refine st_ite _ (steps_SE_F _ u) ?_
  refine st_ite _ (steps_ABY_R opsteps_AND data u) ?_
  refine st_ite _ (steps_ABX_R opsteps_AND data u) ?_
  refine st_ite _ (steps_ABX_RW opsteps_ROL data u) ?_
  refine st_ite _ (steps_RTI u) ?_
  refine st_ite _ (steps_IND_X opsteps_EOR data u) ?_
  refine st_ite _ (steps_ZP_R opsteps_EOR data u) ?_
  refine st_ite _ (steps_ZP_RW opsteps_LSR data u) ?_
  refine st_ite _ (steps_PUSH _ u) ?_
  refine st_ite _ (steps_IMM opsteps_EOR data u) ?_
  refine st_ite _ (steps_IMP_A opsteps_LSR u) ?_
  refine st_ite _ (steps_JMP data u) ?_
  refine st_ite _ (steps_ABS_R opsteps_EOR data u) ?_
  refine st_ite _ (steps_ABS_RW opsteps_LSR data u) ?_
  refine st_ite _ (steps_BRA_0 _ data u) ?_
  refine st_ite _ (steps_IND_Y opsteps_EOR data u) ?_
  refine st_ite _ (steps_ZPX_R opsteps_EOR data u) ?_
  refine st_ite _ (steps_ZPX_RW opsteps_LSR data u) ?_
  refine st_ite _ (steps_CL_F _ u) ?_
  refine st_ite _ (steps_ABY_R opsteps_EOR data u) ?_
  refine st_ite _ (steps_ABX_R opsteps_EOR data u) ?_
  refine st_ite _ (steps_ABX_RW opsteps_LSR data u) ?_
  refine st_ite _ (steps_RTS u) ?_
  refine st_ite _ (steps_IND_X opsteps_ADC data u) ?_
  refine st_ite _ (steps_ZP_R opsteps_ADC data u) ?_
  refine st_ite _ (steps_ZP_RW opsteps_ROR data u) ?_
  refine st_ite _ (steps_POP_A u) ?_
  refine st_ite _ (steps_IMM opsteps_ADC data u) ?_
  refine st_ite _ (steps_IMP_A opsteps_ROR u) ?_
  refine st_ite _ (steps_JMP16 data u) ?_
  refine st_ite _ (steps_ABS_R opsteps_ADC data u) ?_
  refine st_ite _ (steps_ABS_RW opsteps_ROR data u) ?_
  refine st_ite _ (steps_BRA_1 _ data u) ?_
  refine st_ite _ (steps_IND_Y opsteps_ADC data u) ?_
  refine st_ite _ (steps_ZPX_R opsteps_ADC data u) ?_
  refine st_ite _ (steps_ZPX_RW opsteps_ROR data u) ?_
  refine st_ite _ (steps_SE_F _ u) ?_
  refine st_ite _ (steps_ABY_R opsteps_ADC data u) ?_
  refine st_ite _ (steps_ABX_R opsteps_ADC data u) ?_
  refine st_ite _ (steps_ABX_RW opsteps_ROR data u) ?_
  refine st_ite _ (steps_INDW_X opsteps_STA data u) ?_
  refine st_ite _ (steps_ZP_W opsteps_STY data u) ?_
  refine st_ite _ (steps_ZP_W opsteps_STA data u) ?_
  refine st_ite _ (steps_ZP_W opsteps_STX data u) ?_
  refine st_ite _ (steps_IMP_Y opsteps_DEC u) ?_
  refine st_ite _ (steps_IMP_X opsteps_LDA u) ?_
  refine st_ite _ (steps_ABS_W opsteps_STY data u) ?_
  refine st_ite _ (steps_ABS_W opsteps_STA data u) ?_
  refine st_ite _ (steps_ABS_W opsteps_STX data u) ?_
  refine st_ite _ (steps_BRA_0 _ data u) ?_
  refine st_ite _ (steps_INDW_Y opsteps_STA data u) ?_
  refine st_ite _ (steps_ZPX_W opsteps_STY data u) ?_
  refine st_ite _ (steps_ZPX_W opsteps_STA data u) ?_
  refine st_ite _ (steps_ZPY_W opsteps_STX data u) ?_
  refine st_ite _ (steps_IMP_Y opsteps_LDA u) ?_
  refine st_ite _ (steps_ABY_W opsteps_STA data u) ?_
  refine st_ite _ (steps_TXS u) ?_
  refine st_ite _ (steps_ABX_W opsteps_STA data u) ?_
  refine st_ite _ (steps_IMM opsteps_LDY data u) ?_
  refine st_ite _ (steps_IND_X opsteps_LDA data u) ?_
  refine st_ite _ (steps_IMM opsteps_LDX data u) ?_
  refine st_ite _ (steps_ZP_R opsteps_LDY data u) ?_
  refine st_ite _ (steps_ZP_R opsteps_LDA data u) ?_
  refine st_ite _ (steps_ZP_R opsteps_LDX data u) ?_
  refine st_ite _ (steps_IMP_A opsteps_LDY u) ?_
  refine st_ite _ (steps_IMM opsteps_LDA data u) ?_
  refine st_ite _ (steps_IMP_A opsteps_LDX u) ?_
  refine st_ite _ (steps_ABS_R opsteps_LDY data u) ?_
  refine st_ite _ (steps_ABS_R opsteps_LDA data u) ?_
  refine st_ite _ (steps_ABS_R opsteps_LDX data u) ?_
  refine st_ite _ (steps_BRA_1 _ data u) ?_
  refine st_ite _ (steps_IND_Y opsteps_LDA data u) ?_
  refine st_ite _ (steps_ZPX_R opsteps_LDY data u) ?_
  refine st_ite _ (steps_ZPX_R opsteps_LDA data u) ?_
  refine st_ite _ (steps_ZPY_R opsteps_LDX data u) ?_
  refine st_ite _ (steps_CL_F _ u) ?_
  refine st_ite _ (steps_ABY_R opsteps_LDA data u) ?_
  refine st_ite _ (steps_IMP_X opsteps_TSX_op u) ?_
  refine st_ite _ (steps_ABX_R opsteps_LDY data u) ?_
  refine st_ite _ (steps_ABX_R opsteps_LDA data u) ?_
  refine st_ite _ (steps_ABY_R opsteps_LDX data u) ?_
  refine st_ite _ (steps_IMM opsteps_CPY data u) ?_
  refine st_ite _ (steps_IND_X opsteps_CMP data u) ?_
  refine st_ite _ (steps_ZP_R opsteps_CPY data u) ?_
  refine st_ite _ (steps_ZP_R opsteps_CMP data u) ?_
  refine st_ite _ (steps_ZP_RW opsteps_DEC data u) ?_
  refine st_ite _ (steps_IMP_Y opsteps_INC u) ?_
  refine st_ite _ (steps_IMM opsteps_CMP data u) ?_
  refine st_ite _ (steps_IMP_X opsteps_DEC u) ?_
  refine st_ite _ (steps_ABS_R opsteps_CPY data u) ?_
  refine st_ite _ (steps_ABS_R opsteps_CMP data u) ?_
  refine st_ite _ (steps_ABS_RW opsteps_DEC data u) ?_
  refine st_ite _ (steps_BRA_0 _ data u) ?_
  refine st_ite _ (steps_IND_Y opsteps_CMP data u) ?_
  refine st_ite _ (steps_ZPX_R opsteps_CMP data u) ?_
  refine st_ite _ (steps_ZPX_RW opsteps_DEC data u) ?_
  refine st_ite _ (steps_CL_F _ u) ?_
  refine st_ite _ (steps_ABY_R opsteps_CMP data u) ?_
  refine st_ite _ (steps_ABX_R opsteps_CMP data u) ?_
  refine st_ite _ (steps_ABX_RW opsteps_DEC data u) ?_
  refine st_ite _ (steps_IMM opsteps_CPX data u) ?_
  refine st_ite _ (steps_IND_X opsteps_SBC data u) ?_
  refine st_ite _ (steps_ZP_R opsteps_CPX data u) ?_
  refine st_ite _ (steps_ZP_R opsteps_SBC data u) ?_
  refine st_ite _ (steps_ZP_RW opsteps_INC data u) ?_
  refine st_ite _ (steps_IMP_X opsteps_INC u) ?_
  refine st_ite _ (steps_IMM opsteps_SBC data u) ?_
  refine st_ite _ (steps_NOP u) ?_
  refine st_ite _ (steps_ABS_R opsteps_CPX data u) ?_
  refine st_ite _ (steps_ABS_R opsteps_SBC data u) ?_
  refine st_ite _ (steps_ABS_RW opsteps_INC data u) ?_
  refine st_ite _ (steps_BRA_1 _ data u) ?_
  refine st_ite _ (steps_IND_Y opsteps_SBC data u) ?_
  refine st_ite _ (steps_ZPX_R opsteps_SBC data u) ?_
  refine st_ite _ (steps_ZPX_RW opsteps_INC data u) ?_
  refine st_ite _ (steps_SE_F _ u) ?_
  refine st_ite _ (steps_ABY_R opsteps_SBC data u) ?_
  refine st_ite _ (steps_ABX_R opsteps_SBC data u) ?_
  refine st_ite _ (steps_ABX_RW opsteps_INC data u) ?_
  exact Steps.error u _ _

theorem steps_readPc (s : sim65s) (off : Nat) : Steps env b s (readPc s off).2 := by
  unfold readPc readPc_slow
  simp only
  split
  · exact Steps.refl s
  · split
    · exact Steps.error s _ _
    · exact Steps.error s _ _

theorem steps_next_fetch (s : sim65s) : Steps env b s (next_fetch s).2.2 := by
  rw [next_fetch_eq]
  simp only
  split
  · exact Steps.trans (steps_readPc s 0)
      (Steps.trans (steps_readPc _ 1) (steps_readPc _ 2))
  · split
    · exact Steps.trans (steps_readPc s 0) (steps_readPc _ 1)
    · exact steps_readPc s 0

theorem steps_print_ind_label (s : sim65s) (addr : Nat) (idx : Option Char) (hint : Bool) :
    Steps env b s (print_ind_label env s addr idx hint) := by
  unfold print_ind_label
  simp only
  split
  · split
    · exact st_rw _ (Steps.refl s)
    · split
      · exact st_rw _ (Steps.refl s)
      · exact st_rw _ (Steps.refl s)
  · exact Steps.refl s

theorem steps_INSPRT_IDX (s : sim65s) (data : Nat) (hint : Bool) :
    Steps env b s (INSPRT_IDX env s data hint) :=
  steps_print_ind_label _ _ _ _

theorem steps_INSPRT_IDYW (s : sim65s) (data : Nat) (hint : Bool) :
    Steps env b s (INSPRT_IDYW env s data hint) :=
  steps_print_ind_label _ _ _ _

theorem steps_INSPRT_IND (s : sim65s) (data : Nat) (hint : Bool) :
    Steps env b s (INSPRT_IND env s data hint) :=
  steps_print_ind_label _ _ _ _

theorem steps_INSPRT_IDY (s : sim65s) (data : Nat) (hint : Bool) :
    Steps env b s (INSPRT_IDY env s data hint) := by
  unfold INSPRT_IDY
  simp only
  refine Steps.trans ?_ (steps_print_ind_label _ _ _ _)
  split
  · exact st_rw _ (st_rw _ (Steps.refl s))
  · exact Steps.refl s

set_option maxRecDepth 8000 in
theorem steps_print_curr_ins (s : sim65s) (pc : Nat) (hint : Bool) :
    Steps env b s (print_curr_ins env s pc hint) := by
  unfold print_curr_ins
  simp only
  refine st_ite _ (steps_INSPRT_IDX _ _ _) ?_
  refine st_ite _ (steps_INSPRT_IDYW _ _ _) ?_
  refine st_ite _ (steps_INSPRT_IDY _ _ _) ?_
  refine st_ite _ (steps_INSPRT_IDX _ _ _) ?_
  refine st_ite _ (steps_INSPRT_IDX _ _ _) ?_
  refine st_ite _ (steps_INSPRT_IDX _ _ _) ?_
  refine st_ite _ (steps_INSPRT_IDY _ _ _) ?_
  refine st_ite _ (steps_INSPRT_IDYW _ _ _) ?_
  refine st_ite _ (steps_INSPRT_IDX _ _ _) ?_
  refine st_ite _ (steps_INSPRT_IDX _ _ _) ?_
  refine st_ite _ (steps_INSPRT_IDY _ _ _) ?_
  refine st_ite _ (steps_INSPRT_IDYW _ _ _) ?_
  refine st_ite _ (steps_INSPRT_IDX _ _ _) ?_
  refine st_ite _ (steps_INSPRT_IDX _ _ _) ?_
  refine st_ite _ (steps_INSPRT_IND _ _ _) ?_
  refine st_ite _ (steps_INSPRT_IDY _ _ _) ?_
  refine st_ite _ (steps_INSPRT_IDYW _ _ _) ?_
  refine st_ite _ (steps_INSPRT_IDX _ _ _) ?_
  refine st_ite _ (steps_INSPRT_IDX _ _ _) ?_
  refine st_ite _ (steps_INSPRT_IDYW _ _ _) ?_
  refine st_ite _ (steps_INSPRT_IDYW _ _ _) ?_
  refine st_ite _ (steps_INSPRT_IDX _ _ _) ?_
  refine st_ite _ (steps_INSPRT_IDX _ _ _) ?_
  refine st_ite _ (steps_INSPRT_IDY _ _ _) ?_
  refine st_ite _ (steps_INSPRT_IDY _ _ _) ?_
  refine st_ite _ (steps_INSPRT_IDX _ _ _) ?_
  refine st_ite _ (steps_INSPRT_IDX _ _ _) ?_
  refine st_ite _ (steps_INSPRT_IDY _ _ _) ?_
  refine st_ite _ (steps_INSPRT_IDYW _ _ _) ?_
  refine st_ite _ (steps_INSPRT_IDX _ _ _) ?_
  refine st_ite _ (steps_INSPRT_IDX _ _ _) ?_
  refine st_ite _ (steps_INSPRT_IDY _ _ _) ?_
  refine st_ite _ (steps_INSPRT_IDYW _ _ _) ?_
  exact Steps.refl s

theorem steps_next_exec_of (ins data : Nat) (s : sim65s)
    (hb : b = true ∨ ((ins = 0x24 → ¬ bit_skips s (data &&& 0xFF)) ∧
      (ins = 0x2C → ¬ bit_skips s data))) :
    Steps env b s (next_exec env ins data s) := by
  unfold next_exec
  simp only
  have hd : Steps env b s (dispatch env ins data (set_pc s (s.r.pc + ilen ins))) :=
    Steps.trans (st_set_pc _ (Steps.refl s)) (steps_dispatch_of ins data _ hb)
  split
  · exact st_prof _ hd
  · exact hd

theorem next_cases (env : CbEnv) (s : sim65s) :
    (next_returns_early env s → next env s = next_prologue env s) ∧
    (¬ next_returns_early env s → next env s = next_body env (next_prologue env s)) := by
  unfold next next_returns_early next_prologue
  split
  · simp only
    constructor
    · intro h; rw [if_pos h]
    · intro h; rw [if_neg h]
  · exact ⟨fun h => absurd h id, fun _ => rfl⟩

theorem bit_skips_congr {s t : sim65s} (h : t.mems = s.mems) (a : Nat) :
    bit_skips t a ↔ bit_skips s a := by
  unfold bit_skips; rw [h]

theorem steps_next_body_of (s : sim65s)
    (hb : b = true ∨
      ((opcode_at (next_traced env s) = 0x24 →
          ¬ bit_skips (next_traced env s) (operand (next_traced env s) &&& 0xFF)) ∧
       (opcode_at (next_traced env s) = 0x2C →
          ¬ bit_skips (next_traced env s) (operand (next_traced env s))))) :
    Steps env b s (next_body env s) := by
  rw [next_body_unfold]
  have ht : Steps env b s (next_traced env s) := by
    unfold next_traced
    split
    · exact steps_print_curr_ins _ _ _
    · exact Steps.refl s
  change Steps env b s
    (if (next_traced env s).cycle_limit ≠ 0 ∧
        (next_traced env s).cycles ≥ (next_traced env s).cycle_limit then
      set_error (next_traced env s) sim65_err_cycle_limit (next_traced env s).r.pc
     else next_exec env (next_fetch (next_traced env s)).1 (next_fetch (next_traced env s)).2.1
      (next_fetch (next_traced env s)).2.2)
  generalize next_traced env s = t at ht hb
  split
  · exact st_err _ _ ht
  · refine Steps.trans ht (Steps.trans (steps_next_fetch t) (steps_next_exec_of _ _ _ ?_))
    rw [next_fetch_ins, next_fetch_data]
    have hm := err_only_mems (next_fetch_err_only t)
    rcases hb with h | h
    · exact Or.inl h
    · right
      exact ⟨fun e => fun hk => h.1 e ((bit_skips_congr hm _).1 hk),
             fun e => fun hk => h.2 e ((bit_skips_congr hm _).1 hk)⟩

end steps

/-! ## The flag-validity mask -/

theorem mask_subset_refl (a : Nat) : mask_subset a a := Nat.and_self a

theorem mask_subset_trans {a b c : Nat} (h1 : mask_subset a b) (h2 : mask_subset b c) :
    mask_subset a c := by
  unfold mask_subset at *
  calc a &&& c = (a &&& b) &&& c := by rw [h1]
    _ = a &&& (b &&& c) := Nat.and_assoc _ _ _
    _ = a &&& b := by rw [h2]
    _ = a := h1

theorem mask_subset_iff (a b : Nat) :
    mask_subset a b ↔ ∀ i, a.testBit i = true → b.testBit i = true := by
  unfold mask_subset
  constructor
  · intro h i hi
    have := congrArg (fun x => x.testBit i) h
    simp only [Nat.testBit_and, hi, Bool.true_and] at this
    exact this
  · intro h
    apply Nat.eq_of_testBit_eq
    intro i
    rw [Nat.testBit_and]
    cases ha : a.testBit i
    · rfl
    · rw [h i ha]; rfl

theorem testBit_set_flags_valid (s : sim65s) (m v j : Nat) :
    (set_flags s m v).p_valid.testBit j =
      (decide (j < 8) && (s.p_valid.testBit j && !(m % 256).testBit j)) := by
  simp only [set_flags]
  rw [show (256:Nat) = 2^8 from rfl, Nat.testBit_mod_two_pow, Nat.testBit_and, testBit_not8]
  by_cases h : j < 8 <;> simp [h]

theorem set_flags_valid_subset (s : sim65s) (m v : Nat) :
    mask_subset (set_flags s m v).p_valid s.p_valid := by
  rw [mask_subset_iff]
  intro i hi
  rw [testBit_set_flags_valid] at hi
  simp only [Bool.and_eq_true, decide_eq_true_eq] at hi
  exact hi.2.1

theorem set_error_p_valid (s : sim65s) (e : Int) (a : Nat) :
    (set_error s e a).p_valid = s.p_valid := by
  have h := err_only_set_error s e a
  unfold err_only at h
  rw [h]

theorem steps_p_valid {env : CbEnv}
    (hcb : ∀ (cb : Nat) (s : sim65s) (a : Nat) (d : Int),
      mask_subset (env cb s a d).2.p_valid s.p_valid)
    {s t : sim65s} (h : Steps env false s t) : mask_subset t.p_valid s.p_valid := by
  induction h with
  | refl s => exact mask_subset_refl _
  | trans _ _ ih1 ih2 => exact mask_subset_trans ih2 ih1
  | flags s m v => exact set_flags_valid_subset s m v
  | regs s r h => exact mask_subset_refl _
  | cycles s n => exact mask_subset_refl _
  | prof s p => exact mask_subset_refl _
  | error s e a => rw [set_error_p_valid]; exact mask_subset_refl _
  | clear_invalid s a h => exact mask_subset_refl _
  | store s a v h => exact mask_subset_refl _
  | callback cb s a d h => exact hcb cb s a d
  | bit_unknown s a h _ _ => exact absurd h (by decide)

theorem mask_subset_or_left (a k : Nat) : mask_subset a (a ||| k) := by
  rw [mask_subset_iff]
  intro i hi
  rw [Nat.testBit_or, hi]; rfl

theorem mask_subset_or_mono {a b : Nat} (k : Nat) (h : mask_subset a b) :
    mask_subset (a ||| k) (b ||| k) := by
  rw [mask_subset_iff] at *
  intro i hi
  rw [Nat.testBit_or] at *
  cases ha : a.testBit i
  · rw [ha] at hi
    simp only [Bool.false_or] at hi
    rw [hi]; simp
  · rw [h i ha]; rfl

theorem mask_subset_or_idem {a b k : Nat} (h : mask_subset a (b ||| k)) :
    mask_subset (a ||| k) (b ||| k) := by
  have h2 := mask_subset_or_mono k h
  have e : b ||| k ||| k = b ||| k := by rw [Nat.or_assoc, Nat.or_self]
  rw [e] at h2
  exact h2

theorem steps_p_valid_nvz {env : CbEnv} {b : Bool}
    (hcb : ∀ (cb : Nat) (s : sim65s) (a : Nat) (d : Int),
      mask_subset (env cb s a d).2.p_valid s.p_valid)
    {s t : sim65s} (h : Steps env b s t) :
    mask_subset t.p_valid (s.p_valid ||| (FLAG_N ||| FLAG_V ||| FLAG_Z)) := by
  induction h with
  | refl s => exact mask_subset_or_left _ _
  | trans _ _ ih1 ih2 => exact mask_subset_trans ih2 (mask_subset_or_idem ih1)
  | flags s m v => exact mask_subset_trans (set_flags_valid_subset s m v) (mask_subset_or_left _ _)
  | regs s r h => exact mask_subset_or_left _ _
  | cycles s n => exact mask_subset_or_left _ _
  | prof s p => exact mask_subset_or_left _ _
  | error s e a => rw [set_error_p_valid]; exact mask_subset_or_left _ _
  | clear_invalid s a h => exact mask_subset_or_left _ _
  | store s a v h => exact mask_subset_or_left _ _
  | callback cb s a d h => exact mask_subset_trans (hcb cb s a d) (mask_subset_or_left _ _)
  | bit_unknown s a _ _ _ =>
    show mask_subset ((s.p_valid ||| (FLAG_N ||| FLAG_V ||| FLAG_Z)) % 256) _
    rw [mask_subset_iff]
    intro i hi
    rw [show (256 : Nat) = 2 ^ 8 from rfl, Nat.testBit_mod_two_pow] at hi
    simp only [Bool.and_eq_true, decide_eq_true_eq] at hi
    exact hi.2

theorem get_error_exit_p_valid (s : sim65s) : (get_error_exit s).2.p_valid = s.p_valid := by
  unfold get_error_exit
  simp only
  split_ifs <;> rfl

theorem next_prologue_p_valid {env : CbEnv}
    (hcb : ∀ (cb : Nat) (s : sim65s) (a : Nat) (d : Int),
      mask_subset (env cb s a d).2.p_valid s.p_valid)
    (s : sim65s) : mask_subset (next_prologue env s).p_valid s.p_valid := by
  unfold next_prologue
  split
  · rw [get_error_exit_p_valid, set_error_p_valid]
    exact hcb _ _ _ _
  · exact mask_subset_refl _

/-- C20. Flag-validity evolution: `set_flags(mask, val)` sets each of the eight bits of P
to that of `(P & ~mask) | val`, clears the validity bits of `mask` and leaves the other
validity bits as they were, so it never sets one; and for every instruction step of `next`
(the callbacks themselves not adding validity bits) the validity mask afterwards is a
subset of the mask before, unless the instruction fetched is BIT on a cell with INVALID set
and CALLBACK clear; in every case the only bits a step can add are N, V and Z. -/
theorem flag_validity_evolution (env : CbEnv)
    (hcb : ∀ (cb : Nat) (s : sim65s) (a : Nat) (d : Int),
      mask_subset (env cb s a d).2.p_valid s.p_valid)
    (s : sim65s) (mask val : Nat) :
    (∀ i, i < 8 → (set_flags s mask val).r.p.testBit i =
      ((s.r.p.testBit i && !(mask % 256).testBit i) || (val % 256).testBit i)) ∧
    (∀ i, i < 8 → (set_flags s mask val).p_valid.testBit i =
      (s.p_valid.testBit i && !(mask % 256).testBit i)) ∧
    (set_flags s mask val).p_valid &&& (mask % 256) = 0 ∧
    mask_subset (set_flags s mask val).p_valid s.p_valid ∧
    (¬ bit_unknown_step env s → mask_subset (next env s).p_valid s.p_valid) ∧
    mask_subset (next env s).p_valid (s.p_valid ||| (FLAG_N ||| FLAG_V ||| FLAG_Z)) := by
  refine ⟨?_, ?_, ?_, set_flags_valid_subset s mask val, ?_, ?_⟩
  · intro i hi
    rw [testBit_set_flags]
    simp [hi]
  · intro i hi
    rw [testBit_set_flags_valid]
    simp [hi]
  · apply Nat.eq_of_testBit_eq
    intro i
    rw [Nat.testBit_and, testBit_set_flags_valid, Nat.zero_testBit]
    cases (mask % 256).testBit i <;> simp
  · intro hb
    have hp := next_prologue_p_valid hcb s
    by_cases he : next_returns_early env s
    · rw [(next_cases env s).1 he]
      exact hp
    · rw [(next_cases env s).2 he]
      refine mask_subset_trans (steps_p_valid hcb (steps_next_body_of _ (Or.inr ?_))) hp
      unfold bit_unknown_step at hb
      exact ⟨fun e hk => hb (Or.inl ⟨e, hk⟩), fun e hk => hb (Or.inr ⟨e, hk⟩)⟩

  · have hp := next_prologue_p_valid hcb s
    by_cases he : next_returns_early env s
    · rw [(next_cases env s).1 he]
      exact mask_subset_trans hp (mask_subset_or_left _ _)
    · rw [(next_cases env s).2 he]
      have h1 : mask_subset (next_body env (next_prologue env s)).p_valid
          ((next_prologue env s).p_valid ||| (FLAG_N ||| FLAG_V ||| FLAG_Z)) :=
        steps_p_valid_nvz hcb
          (steps_next_body_of (next_prologue env s) (Or.inl rfl) : Steps env true _ _)
      exact mask_subset_trans h1 (mask_subset_or_mono _ hp)

/-- The step LDA #$42 of `lda_state` is not a BIT: the validity mask after it is a subset of
the mask before. -/
theorem flag_validity_evolution_witness :
    ¬ bit_unknown_step env_none lda_state ∧
    mask_subset (next env_none lda_state).p_valid lda_state.p_valid ∧
    (set_flags lda_state FLAG_C FLAG_C).p_valid &&& (FLAG_C % 256) = 0 :=
  ⟨by decide,
   (flag_validity_evolution env_none (fun _ _ _ _ => mask_subset_refl _) lda_state FLAG_C
      FLAG_C).2.2.2.2.1 (by decide),
   (flag_validity_evolution env_none (fun _ _ _ _ => mask_subset_refl _) lda_state FLAG_C
      FLAG_C).2.2.1⟩

/-! ## Value bytes and the peek -/

theorem mem_bytes_update (s : sim65s) (a v : Nat) (h : mem_bytes s) (hv : v < 256) :
    ∀ c, Function.update s.mem a v c < 256 := by
  intro c
  by_cases e : c = a
  · subst e; rw [Function.update_same]; exact hv
  · rw [Function.update_noteq e]; exact h c

theorem steps_mem_bytes {env : CbEnv} {b : Bool}
    (hcb : ∀ (cb : Nat) (s : sim65s) (a : Nat) (d : Int), mem_bytes s → mem_bytes (env cb s a d).2)
    {s t : sim65s} (h : Steps env b s t) : mem_bytes s → mem_bytes t := by
  induction h with
  | refl s => exact id
  | trans _ _ ih1 ih2 => exact fun h => ih2 (ih1 h)
  | flags s m v => exact id
  | regs s r h => exact id
  | cycles s n => exact id
  | prof s p => exact id
  | error s e a =>
    intro h c
    rw [(set_error_mem s e a).1]
    exact h c
  | clear_invalid s a h => exact id
  | store s a v h => exact fun h => mem_bytes_update s a _ h (Nat.mod_lt _ (by norm_num))
  | callback cb s a d h => exact hcb cb s a d
  | bit_unknown s a _ _ _ => exact id

theorem next_mem_bytes {env : CbEnv}
    (hcb : ∀ (cb : Nat) (s : sim65s) (a : Nat) (d : Int), mem_bytes s → mem_bytes (env cb s a d).2)
    (s : sim65s) (h : mem_bytes s) : mem_bytes (next env s) := by
  have hp : mem_bytes (next_prologue env s) := by
    unfold next_prologue
    split
    · intro c
      rw [(get_error_exit_mem _).1, (set_error_mem _ _ _).1]
      exact hcb _ _ _ _ h c
    · exact h
  by_cases he : next_returns_early env s
  · rw [(next_cases env s).1 he]; exact hp
  · rw [(next_cases env s).2 he]
    exact steps_mem_bytes hcb
      (steps_next_body_of (next_prologue env s) (Or.inl rfl) : Steps env true _ _) hp

theorem mem_bytes_add_ram (s : sim65s) (addr len : Nat) (h : mem_bytes s) :
    mem_bytes (sim65_add_ram s addr len) := by
  unfold sim65_add_ram
  simp only
  split
  · exact h
  · refine for_range_induction mem_bytes _ ?_ _ _ s h
    intro i t ht
    exact ht

theorem mem_bytes_add_zeroed_ram (s : sim65s) (addr len : Nat) (h : mem_bytes s) :
    mem_bytes (sim65_add_zeroed_ram s addr len) := by
  unfold sim65_add_zeroed_ram
  simp only
  split
  · exact h
  · refine for_range_induction mem_bytes _ ?_ _ _ s h
    intro i t ht
    exact mem_bytes_update t i 0 ht (by norm_num)

theorem mem_bytes_add_data_ram (s : sim65s) (addr : Nat) (data : Nat → Nat) (len : Nat)
    (h : mem_bytes s) : mem_bytes (sim65_add_data_ram s addr data len) := by
  unfold sim65_add_data_ram
  simp only
  split
  · exact h
  · refine for_range_induction mem_bytes _ ?_ _ _ s h
    intro i t ht
    exact mem_bytes_update t i _ ht (Nat.mod_lt _ (by norm_num))

theorem mem_bytes_add_data_rom (s : sim65s) (addr : Nat) (data : Nat → Nat) (len : Nat)
    (h : mem_bytes s) : mem_bytes (sim65_add_data_rom s addr data len) := by
  unfold sim65_add_data_rom
  simp only
  split
  · exact h
  · refine for_range_induction mem_bytes _ ?_ _ _ s h
    intro i t ht
    exact mem_bytes_update t i _ ht (Nat.mod_lt _ (by norm_num))

theorem mem_bytes_add_callback (s : sim65s) (addr : Nat) (cb : Option Nat) (type : Int)
    (h : mem_bytes s) : mem_bytes (sim65_add_callback s addr cb type) := by
  unfold sim65_add_callback
  simp only
  split_ifs <;> exact h

theorem mem_bytes_add_callback_range (s : sim65s) (addr len : Nat) (cb : Option Nat)
    (type : Int) (h : mem_bytes s) : mem_bytes (sim65_add_callback_range s addr len cb type) := by
  unfold sim65_add_callback_range
  exact for_range_induction mem_bytes _ (fun i t ht => mem_bytes_add_callback t i cb type ht)
    _ _ s h

theorem mem_bytes_reachable (env : CbEnv)
    (hcb : ∀ (cb : Nat) (s : sim65s) (a : Nat) (d : Int), mem_bytes s → mem_bytes (env cb s a d).2)
    (s : sim65s) (hs : Reachable env s) : mem_bytes s := by
  induction hs with
  | new =>
    intro c
    show (0 : Nat) < 256
    decide
  | add_ram s addr len _ ih => exact mem_bytes_add_ram s addr len ih
  | add_zeroed_ram s addr len _ ih => exact mem_bytes_add_zeroed_ram s addr len ih
  | add_data_ram s addr data len _ ih => exact mem_bytes_add_data_ram s addr data len ih
  | add_data_rom s addr data len _ ih => exact mem_bytes_add_data_rom s addr data len ih
  | add_callback s addr cb type _ ih => exact mem_bytes_add_callback s addr cb type ih
  | add_callback_range s addr len cb type _ ih =>
      exact mem_bytes_add_callback_range s addr len cb type ih
  | read s addr _ ih =>
      exact steps_mem_bytes hcb (steps_readByte s addr : Steps env false _ _) ih
  | write s addr val _ ih =>
      exact steps_mem_bytes hcb (steps_writeByte s addr val : Steps env false _ _) ih
  | bit s addr _ ih =>
      exact steps_mem_bytes hcb (st_do_bit addr (Steps.refl s) : Steps env true _ _) ih
  | step s _ ih => exact next_mem_bytes hcb s ih
  | setup s t _ hm _ ih => intro c; rw [hm]; exact ih c

/-- C14. The peek `sim65_get_byte`: in every reachable state (the callbacks themselves
keeping the status classification and the value bytes below 256) it returns the stored
value byte, a number below 256, when `addr < 0x10000` and the INVALID bit of the cell is
clear, and returns `0x100` when the cell is INVALID or UNDEF or `addr >= 0x10000`.  It is a
function of the state: it changes nothing, latches no error and calls no callback. -/
theorem get_byte_peek (env : CbEnv)
    (hcb1 : ∀ (cb : Nat) (s : sim65s) (a : Nat) (d : Int), mem_inv s → mem_inv (env cb s a d).2)
    (hcb2 : ∀ (cb : Nat) (s : sim65s) (a : Nat) (d : Int),
      mem_bytes s → mem_bytes (env cb s a d).2)
    (s : sim65s) (hs : Reachable env s) (addr : Nat) :
    (addr < 0x10000 → s.mems addr &&& ms_invalid = 0 →
      sim65_get_byte s addr = s.mem addr ∧ sim65_get_byte s addr < 256) ∧
    (0x10000 ≤ addr ∨ s.mems addr &&& ms_invalid ≠ 0 ∨ s.mems addr &&& ms_undef ≠ 0 →
      sim65_get_byte s addr = 0x100) := by
  have hi := mem_inv_reachable env hcb1 s hs
  have hb := mem_bytes_reachable env hcb2 s hs
  unfold sim65_get_byte MAXRAM
  constructor
  · intro h1 h2
    have h1' : ¬ (addr ≥ 0x10000) := by omega
    rw [if_neg h1', if_neg (fun h => h h2)]
    exact ⟨rfl, hb addr⟩
  · intro h
    by_cases h1 : addr ≥ 0x10000
    · rw [if_pos h1]
    · rw [if_neg h1]
      have h2 : s.mems addr &&& ms_invalid ≠ 0 := by
        rcases h with h | h | h
        · exact absurd h h1
        · exact h
        · exact (status_class_excl _ (hi addr)).1 h
      rw [if_pos h2]

/-- The peek on `rom_state`: the ROM cell `$F000` gives its byte `$EA`, the uninitialised
RAM cell `$0003` and the uninstalled cell `$4000` give the sentinel. -/
theorem get_byte_peek_witness :
    (sim65_get_byte rom_state 0xF000 = rom_state.mem 0xF000 ∧
      sim65_get_byte rom_state 0xF000 < 256) ∧
    rom_state.mem 0xF000 = 0xEA ∧
    sim65_get_byte rom_state 0x0003 = 0x100 ∧
    sim65_get_byte rom_state 0x4000 = 0x100 :=
  ⟨(get_byte_peek env_none (fun _ _ _ _ h => h) (fun _ _ _ _ h => h) rom_state
      (Reachable.add_data_rom _ 0xF000 _ 1 (Reachable.add_ram _ 0 0x10 Reachable.new))
      0xF000).1 (by decide) (by decide),
   by decide,
   (get_byte_peek env_none (fun _ _ _ _ h => h) (fun _ _ _ _ h => h) rom_state
      (Reachable.add_data_rom _ 0xF000 _ 1 (Reachable.add_ram _ 0 0x10 Reachable.new))
      0x0003).2 (Or.inr (Or.inl (by decide))),
   (get_byte_peek env_none (fun _ _ _ _ h => h) (fun _ _ _ _ h => h) rom_state
      (Reachable.add_data_rom _ 0xF000 _ 1 (Reachable.add_ram _ 0 0x10 Reachable.new))
      0x4000).2 (Or.inr (Or.inr (by decide)))⟩

/-! ## BIT on a cell that cannot be read -/

theorem do_bit_skip (env : CbEnv) (s : sim65s) (addr : Nat) (h : bit_skips s addr) :
    do_bit env s addr =
      { s with p_valid := (s.p_valid ||| (FLAG_N ||| FLAG_V ||| FLAG_Z)) % 256 } := by
  unfold do_bit
  unfold bit_skips at h
  simp only [if_pos h]

theorem next_bit_skip (env : CbEnv) (s : sim65s) (op n : Nat)
    (hop : s.mem (s.r.pc % 65536) = op)
    (hdis : ∀ d t, dispatch env op d t =
      do_bit env (add_cycles t n) (if op = 0x24 then d &&& 0xFF else d))
    (hop256 : op < 256) (htr : op ∉ trace_read_ops)
    (hcb : s.cb_exec s.r.pc = none) (hlim : limit_ok s)
    (hc0 : exec_clean s (s.r.pc % 65536))
    (hc1 : ilen op > 1 → exec_clean s ((s.r.pc + 1) % 65536))
    (hc2 : ilen op > 2 → exec_clean s ((s.r.pc + 2) % 65536))
    (hsk : bit_skips s (if op = 0x24 then operand s &&& 0xFF else operand s)) :
    (next env s).error = s.error ∧ (next env s).err_addr = s.err_addr ∧
    (next env s).mems = s.mems ∧ (next env s).mem = s.mem ∧
    (next env s).r = { s.r with pc := (s.r.pc + ilen op) % 65536 } ∧
    (next env s).p_valid = (s.p_valid ||| (FLAG_N ||| FLAG_V ||| FLAG_Z)) % 256 ∧
    (next env s).cycles = (s.cycles + n) % 2 ^ 64 := by
  have hins : opcode_at s = op := by unfold opcode_at; rw [hop]; exact Nat.mod_eq_of_lt hop256
  have hfe : (next_fetch s).2.2 = s :=
    next_fetch_clean s hc0 (by rw [hins]; exact hc1) (by rw [hins]; exact hc2)
  have htr' : s.mem (s.r.pc % 65536) ∉ trace_read_ops := by rw [hop]; exact htr
  rw [next_eq_exec env s hcb hlim htr', hins, hfe]
  have hp := next_exec_prof_only env op (operand s) s
  have hsk' : bit_skips (add_cycles (set_pc s (s.r.pc + ilen op)) n)
      (if op = 0x24 then operand s &&& 0xFF else operand s) := hsk
  rw [hdis, do_bit_skip env _ _ hsk'] at hp
  refine ⟨?_, ?_, ?_, ?_, ?_, ?_, ?_⟩
  · exact (prof_only_error hp).trans rfl
  · exact (prof_only_err_addr hp).trans rfl
  · exact (prof_only_mems hp).trans rfl
  · exact (prof_only_mem hp).trans rfl
  · exact (prof_only_r hp).trans rfl
  · exact (prof_only_p_valid hp).trans rfl
  · exact (prof_only_cycles hp).trans rfl

/-- C18. BIT special case: for BIT zp (`24`) and BIT abs (`2C`) whose target cell has
INVALID set and CALLBACK clear (UNDEF cells included), the step latches no error, leaves
every status byte, every value byte, A, X, Y, S and P unchanged, sets the N, V and Z
bits of the flag-validity mask, and adds 3 (zero page) or 4 (absolute) cycles; PC moves past
the instruction.  The instruction bytes are on the fast fetch path and the step is one that
reaches the dispatch: no execute callback at PC, cycle limit not reached. -/
theorem bit_invalid_special_case (env : CbEnv) (s : sim65s) (hcb : s.cb_exec s.r.pc = none)
    (hlim : limit_ok s) (hc0 : exec_clean s (s.r.pc % 65536))
    (hc1 : exec_clean s ((s.r.pc + 1) % 65536)) :
    (s.mem (s.r.pc % 65536) = 0x24 → bit_skips s (operand1 s) →
      (next env s).error = s.error ∧ (next env s).err_addr = s.err_addr ∧
      (next env s).mems = s.mems ∧ (next env s).mem = s.mem ∧
      (next env s).r = { s.r with pc := (s.r.pc + 2) % 65536 } ∧
      (next env s).p_valid = (s.p_valid ||| (FLAG_N ||| FLAG_V ||| FLAG_Z)) % 256 ∧
      (next env s).cycles = (s.cycles + 3) % 2 ^ 64) ∧
    (s.mem (s.r.pc % 65536) = 0x2C → exec_clean s ((s.r.pc + 2) % 65536) →
      bit_skips s (operand1 s ||| (operand2 s <<< 8)) →
      (next env s).error = s.error ∧ (next env s).err_addr = s.err_addr ∧
      (next env s).mems = s.mems ∧ (next env s).mem = s.mem ∧
      (next env s).r = { s.r with pc := (s.r.pc + 3) % 65536 } ∧
      (next env s).p_valid = (s.p_valid ||| (FLAG_N ||| FLAG_V ||| FLAG_Z)) % 256 ∧
      (next env s).cycles = (s.cycles + 4) % 2 ^ 64) := by
  constructor
  · intro hop hsk
    have hins : opcode_at s = 0x24 := by unfold opcode_at; rw [hop]
    have hdat : operand s = operand1 s := by
      unfold operand
      rw [hins]
      rfl
    refine next_bit_skip env s 0x24 3 hop (fun _ _ => rfl) (by decide) (by decide) hcb hlim hc0
      (fun _ => hc1) (fun h => absurd h (by decide)) ?_
    rw [if_pos rfl, hdat, and_0xFF]
    have e : operand1 s % 256 = operand1 s := by unfold operand1; exact Nat.mod_mod _ _
    rw [e]
    exact hsk
  · intro hop hc2 hsk
    have hins : opcode_at s = 0x2C := by unfold opcode_at; rw [hop]
    have hdat : operand s = operand1 s ||| (operand2 s <<< 8) := by
      unfold operand
      rw [hins]
      rfl
    refine next_bit_skip env s 0x2C 4 hop (fun _ _ => rfl) (by decide) (by decide) hcb hlim hc0
      (fun _ => hc1) (fun _ => hc2) ?_
    rw [if_neg (by decide), hdat]
    exact hsk

/-- The scenario BIT $80 with `$0080` uninitialised RAM: no error, 3 cycles, N, V and Z
marked unknown. -/
theorem bit_invalid_special_case_witness :
    bit_state.mem (bit_state.r.pc % 65536) = 0x24 ∧ bit_skips bit_state (operand1 bit_state) ∧
    (next env_none bit_state).error = bit_state.error ∧
    (next env_none bit_state).mems = bit_state.mems ∧
    (next env_none bit_state).p_valid
      = (bit_state.p_valid ||| (FLAG_N ||| FLAG_V ||| FLAG_Z)) % 256 ∧
    (next env_none bit_state).cycles = (bit_state.cycles + 3) % 2 ^ 64 :=
  ⟨by decide, by decide,
   ((bit_invalid_special_case env_none bit_state (by decide) (by decide) (by decide)
      (by decide)).1 (by decide) (by decide)).1,
   ((bit_invalid_special_case env_none bit_state (by decide) (by decide) (by decide)
      (by decide)).1 (by decide) (by decide)).2.2.1,
   ((bit_invalid_special_case env_none bit_state (by decide) (by decide) (by decide)
      (by decide)).1 (by decide) (by decide)).2.2.2.2.2.1,
   ((bit_invalid_special_case env_none bit_state (by decide) (by decide) (by decide)
      (by decide)).1 (by decide) (by decide)).2.2.2.2.2.2⟩

/-! ## The first faulting read of an instruction -/

section readfault
variable {env : CbEnv}

theorem steps_keep_error (hk : keeps_errors env) {b : Bool} {s t : sim65s}
    (h : Steps env b s t) :
    t.errlvl = s.errlvl ∧
    (s.error ≠ 0 → t.error = s.error ∧ t.err_addr = s.err_addr) := by
  induction h with
  | refl s => exact ⟨rfl, fun _ => ⟨rfl, rfl⟩⟩
  | trans _ _ ih1 ih2 =>
    refine ⟨ih2.1.trans ih1.1, fun h => ?_⟩
    have h1 := ih1.2 h
    have h2 := ih2.2 (by rw [h1.1]; exact h)
    exact ⟨h2.1.trans h1.1, h2.2.trans h1.2⟩
  | flags s m v => exact ⟨rfl, fun _ => ⟨rfl, rfl⟩⟩
  | regs s r h => exact ⟨rfl, fun _ => ⟨rfl, rfl⟩⟩
  | cycles s n => exact ⟨rfl, fun _ => ⟨rfl, rfl⟩⟩
  | prof s p => exact ⟨rfl, fun _ => ⟨rfl, rfl⟩⟩
  | error s e a =>
    unfold set_error
    split
    · rename_i h
      exact ⟨rfl, fun h0 => absurd h.2 h0⟩
    · exact ⟨rfl, fun _ => ⟨rfl, rfl⟩⟩
  | clear_invalid s a h => exact ⟨rfl, fun _ => ⟨rfl, rfl⟩⟩
  | store s a v h => exact ⟨rfl, fun _ => ⟨rfl, rfl⟩⟩
  | callback cb s a d h => exact hk cb s a d
  | bit_unknown s a h _ _ => exact ⟨rfl, fun _ => ⟨rfl, rfl⟩⟩

theorem readByte_clean (env : CbEnv) (w : sim65s) (a : Nat) (h : read_clean w (a % 65536)) :
    readByte env w a = (w.mem (a % 65536) % 256, w) := by
  unfold readByte
  unfold read_clean at h
  simp only [if_pos h]

theorem undef_not_clean (w : sim65s) (a : Nat) (h : w.mems a &&& ms_undef ≠ 0) :
    ¬ (w.mems a &&& not8 ms_rom = 0) := by
  intro h0
  apply h
  apply Nat.eq_of_testBit_eq
  intro i
  have h1 := congrArg (fun n => n.testBit i) h0
  simp only [Nat.testBit_and, Nat.zero_testBit] at h1 ⊢
  by_cases hi : i = 0
  · subst hi
    have e : (not8 ms_rom).testBit 0 = true := by decide
    rw [e, Bool.and_true] at h1
    rw [h1, Bool.false_and]
  · have e : ms_undef.testBit i = false := by
      have : ms_undef = 1 := rfl
      rw [this]
      rcases i with _ | i
      · exact absurd rfl hi
      · simp [Nat.testBit_succ]
    rw [e, Bool.and_false]

theorem readByte_fault (env : CbEnv) (w : sim65s) (a : Nat)
    (hu : w.mems (a % 65536) &&& ms_undef ≠ 0) (hcb : w.cb_read (a % 65536) = none)
    (he : w.error = 0) :
    (readByte env w a).2.error = sim65_err_read_undef ∧
    (readByte env w a).2.err_addr = a % 65536 := by
  unfold readByte
  simp only [if_neg (undef_not_clean w _ hu)]
  unfold readByte_slow
  have e : (if w.mems (a % 65536) &&& ms_callback ≠ 0 then w.cb_read (a % 65536) else none)
      = none := by
    split
    · exact hcb
    · rfl
  rw [e]
  simp only [if_pos hu]
  unfold set_error
  have h2 : sim65_err_read_undef < 0 ∧ w.error = 0 := ⟨by decide, he⟩
  rw [if_pos h2]
  exact ⟨rfl, Nat.mod_mod _ _⟩

theorem rf_nil (u t : sim65s) : ReadFault u [] t := by
  intro k a h
  simp at h

/-- One read in front of the rest of an instruction: `w` is the state in which the read is
made, `F` the rest of the instruction as a function of the value read and of the state after
the read. -/
theorem rf_read (hk : keeps_errors env) (u w : sim65s) (hw : SameView u w)
    (he : u.error = 0) (a' a : Nat) (ha : a' % 65536 = a) (l : List Nat)
    (F : Nat → sim65s → sim65s) (hF : ∀ v x, Steps env false x (F v x))
    (hrest : read_clean u a → ReadFault u l (F (u.mem a % 256) w)) :
    ReadFault u (a :: l) (F (readByte env w a').1 (readByte env w a').2) := by
  obtain ⟨hm, hv, hc, hER⟩ := hw
  intro k c hkc hclean hund hcb
  rcases k with _ | k
  · simp only [List.get?_cons_zero, Option.some.injEq] at hkc
    subst hkc
    subst ha
    have hf := readByte_fault env w a' (by rw [hm]; exact hund) (by rw [hc]; exact hcb)
      (by rw [hER]; exact he)
    have hp := (steps_keep_error hk (hF (readByte env w a').1 (readByte env w a').2)).2
      (by rw [hf.1]; decide)
    exact ⟨hp.1.trans hf.1, hp.2.trans hf.2⟩
  · have h0 : read_clean u a := hclean 0 a (Nat.succ_pos k) rfl
    have h0w : read_clean w (a' % 65536) := by
      unfold read_clean; rw [ha, hm]; exact h0
    rw [readByte_clean env w a' h0w, ha, hv]
    refine hrest h0 k c ?_ ?_ hund hcb
    · simpa using hkc
    · intro j a2 hj hja
      exact hclean (j + 1) a2 (Nat.succ_lt_succ hj) (by simpa using hja)


theorem sv_extra_absx {u w : sim65s} (h : SameView u w) (d : Nat) :
    SameView u (do_extra_absx w d) ∧ (do_extra_absx w d).r = w.r := by
  unfold do_extra_absx
  simp only
  split
  · split
    · exact ⟨h, rfl⟩
    · exact ⟨h, rfl⟩
  · exact ⟨h, rfl⟩

theorem sv_extra_absy {u w : sim65s} (h : SameView u w) (d : Nat) :
    SameView u (do_extra_absy w d) ∧ (do_extra_absy w d).r = w.r := by
  unfold do_extra_absy
  simp only
  split
  · split
    · exact ⟨h, rfl⟩
    · exact ⟨h, rfl⟩
  · exact ⟨h, rfl⟩

theorem sv_refl (u : sim65s) : SameView u u := ⟨rfl, rfl, rfl, rfl⟩

theorem sv_cyc (u : sim65s) (n : Nat) : SameView u (add_cycles u n) := ⟨rfl, rfl, rfl, rfl⟩

theorem rf_ZP_R (hk : keeps_errors env) {op : Op} (hop : OpSteps op) (data : Nat) (u : sim65s)
    (he : u.error = 0) : ReadFault u [data % 256] (ZP_R env op data u) :=
  rf_read hk u (add_cycles u 3) (sv_cyc u 3) he (data &&& 0xFF) (data % 256)
    (by rw [and_0xFF]; omega) [] (fun v x => (op x v).1) (fun v x => hop env x v)
    (fun _ => rf_nil _ _)

theorem rf_ZP_RW (hk : keeps_errors env) {op : Op} (hop : OpSteps op) (data : Nat) (u : sim65s)
    (he : u.error = 0) : ReadFault u [data % 256] (ZP_RW env op data u) :=
  rf_read hk u (add_cycles u 5) (sv_cyc u 5) he (data &&& 0xFF) (data % 256)
    (by rw [and_0xFF]; omega) []
    (fun v x => writeByte env (op x v).1 (data &&& 0xFF) (op x v).2)
    (fun v x => st_wr _ _ (hop env x v))
    (fun _ => rf_nil _ _)

theorem rf_ABS_R (hk : keeps_errors env) {op : Op} (hop : OpSteps op) (data : Nat) (u : sim65s)
    (he : u.error = 0) : ReadFault u [data % 65536] (ABS_R env op data u) :=
  rf_read hk u (add_cycles u 4) (sv_cyc u 4) he data (data % 65536) rfl []
    (fun v x => (op x v).1) (fun v x => hop env x v) (fun _ => rf_nil _ _)

theorem rf_ABS_RW (hk : keeps_errors env) {op : Op} (hop : OpSteps op) (data : Nat) (u : sim65s)
    (he : u.error = 0) : ReadFault u [data % 65536] (ABS_RW env op data u) :=
  rf_read hk u (add_cycles u 6) (sv_cyc u 6) he data (data % 65536) rfl []
    (fun v x => writeByte env (op x v).1 data (op x v).2)
    (fun v x => st_wr _ _ (hop env x v))
    (fun _ => rf_nil _ _)

theorem rf_ZPX_R (hk : keeps_errors env) {op : Op} (hop : OpSteps op) (data : Nat) (u : sim65s)
    (he : u.error = 0) : ReadFault u [(data + u.r.x) % 256] (ZPX_R env op data u) :=
  rf_read hk u (add_cycles u 4) (sv_cyc u 4) he ((data + u.r.x) &&& 0xFF) ((data + u.r.x) % 256)
    (by rw [and_0xFF]; omega) [] (fun v x => (op x v).1) (fun v x => hop env x v)
    (fun _ => rf_nil _ _)

theorem rf_ZPX_RW (hk : keeps_errors env) {op : Op} (hop : OpSteps op) (data : Nat) (u : sim65s)
    (he : u.error = 0) : ReadFault u [(data + u.r.x) % 256] (ZPX_RW env op data u) :=
  rf_read hk u (add_cycles u 6) (sv_cyc u 6) he ((data + u.r.x) &&& 0xFF) ((data + u.r.x) % 256)
    (by rw [and_0xFF]; omega) []
    (fun v x => writeByte env (op x v).1 ((data + (op x v).1.r.x) &&& 0xFF) (op x v).2)
    (fun v x => st_wr _ _ (hop env x v))
    (fun _ => rf_nil _ _)

theorem rf_ZPY_R (hk : keeps_errors env) {op : Op} (hop : OpSteps op) (data : Nat) (u : sim65s)
    (he : u.error = 0) : ReadFault u [(data + u.r.y) % 256] (ZPY_R env op data u) :=
  rf_read hk u (add_cycles u 4) (sv_cyc u 4) he ((data + u.r.y) &&& 0xFF) ((data + u.r.y) % 256)
    (by rw [and_0xFF]; omega) [] (fun v x => (op x v).1) (fun v x => hop env x v)
    (fun _ => rf_nil _ _)

theorem rf_ABX_R (hk : keeps_errors env) {op : Op} (hop : OpSteps op) (data : Nat) (u : sim65s)
    (he : u.error = 0) : ReadFault u [(data + u.r.x) % 65536] (ABX_R env op data u) :=
  rf_read hk u (do_extra_absx (add_cycles u 4) data) (sv_extra_absx (sv_cyc u 4) data).1 he
    (data + (do_extra_absx (add_cycles u 4) data).r.x) ((data + u.r.x) % 65536)
    (by rw [(sv_extra_absx (sv_cyc u 4) data).2]; rfl) []
    (fun v x => (op x v).1) (fun v x => hop env x v) (fun _ => rf_nil _ _)

theorem rf_ABY_R (hk : keeps_errors env) {op : Op} (hop : OpSteps op) (data : Nat) (u : sim65s)
    (he : u.error = 0) : ReadFault u [(data + u.r.y) % 65536] (ABY_R env op data u) :=
  rf_read hk u (do_extra_absy (add_cycles u 4) data) (sv_extra_absy (sv_cyc u 4) data).1 he
    (data + (do_extra_absy (add_cycles u 4) data).r.y) ((data + u.r.y) % 65536)
    (by rw [(sv_extra_absy (sv_cyc u 4) data).2]; rfl) []
    (fun v x => (op x v).1) (fun v x => hop env x v) (fun _ => rf_nil _ _)

theorem rf_ABX_RW (hk : keeps_errors env) {op : Op} (hop : OpSteps op) (data : Nat) (u : sim65s)
    (he : u.error = 0) : ReadFault u [(data + u.r.x) % 65536] (ABX_RW env op data u) :=
  rf_read hk u (add_cycles u 7) (sv_cyc u 7) he (data + u.r.x) ((data + u.r.x) % 65536) rfl []
    (fun v x => writeByte env (op x v).1 (data + (op x v).1.r.x) (op x v).2)
    (fun v x => st_wr _ _ (hop env x v))
    (fun _ => rf_nil _ _)


theorem rf_readWord (hk : keeps_errors env) (u w : sim65s) (hw : SameView u w)
    (he : u.error = 0) (a p p1 : Nat) (hp : a % 65536 = p) (hp1 : (p + 1) % 65536 = p1)
    (l : List Nat) (G : Nat → sim65s → sim65s) (hG : ∀ v x, Steps env false x (G v x))
    (hrest : read_clean u p → read_clean u p1 →
      ReadFault u l (G ((u.mem p % 256 ||| (u.mem p1 % 256) <<< 8) % 65536) w)) :
    ReadFault u (p :: p1 :: l) (G (readWord env w a).1 (readWord env w a).2) :=
  rf_read hk u w hw he (a % 65536) p (by rw [Nat.mod_mod]; exact hp) (p1 :: l)
    (fun v x => G ((v ||| (readByte env x (a % 65536 + 1)).1 <<< 8) % 65536)
      (readByte env x (a % 65536 + 1)).2)
    (fun _ x => Steps.trans (steps_readByte x _) (hG _ _))
    (fun hc => rf_read hk u w hw he (a % 65536 + 1) p1 (by rw [hp]; exact hp1) l
      (fun v2 x => G ((u.mem p % 256 ||| v2 <<< 8) % 65536) x)
      (fun _ x => hG _ x)
      (fun hc1 => hrest hc hc1))

theorem word_val (u : sim65s) (p : Nat) :
    (u.mem p % 256 ||| (u.mem (p + 1) % 256) <<< 8) % 65536 = word_at u p := by
  unfold word_at
  rw [or_shl8 _ _ (Nat.mod_lt _ (by decide))]
  omega

theorem rf_IND_X (hk : keeps_errors env) {op : Op} (hop : OpSteps op) (data : Nat) (u : sim65s)
    (he : u.error = 0) :
    ReadFault u [(data + u.r.x) % 256, (data + u.r.x) % 256 + 1,
      word_at u ((data + u.r.x) % 256)] (IND_X env op data u) :=
  rf_readWord hk u (add_cycles u 6) (sv_cyc u 6) he ((data + u.r.x) &&& 0xFF)
    ((data + u.r.x) % 256) ((data + u.r.x) % 256 + 1) (by rw [and_0xFF]; omega) (by omega)
    [word_at u ((data + u.r.x) % 256)]
    (fun v x => (op (readByte env x v).2 (readByte env x v).1).1)
    (fun v x => st_op hop _ (steps_readByte x v))
    (fun _ _ => by
      rw [word_val]
      exact rf_read hk u (add_cycles u 6) (sv_cyc u 6) he _ _
        (Nat.mod_eq_of_lt (by unfold word_at; omega)) []
        (fun v x => (op x v).1) (fun v x => hop env x v) (fun _ => rf_nil _ _))

theorem sv_extra_indy {u w : sim65s} (h : SameView u w) (c : Prop) [Decidable c] :
    SameView u (if c then
        (if (add_cycles w 1).do_prof ≠ 0 then
          { add_cycles w 1 with prof := { (add_cycles w 1).prof with
              ind_y_extra := ((add_cycles w 1).prof.ind_y_extra + 1) % 2 ^ 32 } }
        else add_cycles w 1)
      else w) ∧
    (if c then
        (if (add_cycles w 1).do_prof ≠ 0 then
          { add_cycles w 1 with prof := { (add_cycles w 1).prof with
              ind_y_extra := ((add_cycles w 1).prof.ind_y_extra + 1) % 2 ^ 32 } }
        else add_cycles w 1)
      else w).r = w.r := by
  split
  · split
    · exact ⟨h, rfl⟩
    · exact ⟨h, rfl⟩
  · exact ⟨h, rfl⟩

theorem st_extra_indy (w : sim65s) (c : Prop) [Decidable c] :
    Steps env false w (if c then
        (if (add_cycles w 1).do_prof ≠ 0 then
          { add_cycles w 1 with prof := { (add_cycles w 1).prof with
              ind_y_extra := ((add_cycles w 1).prof.ind_y_extra + 1) % 2 ^ 32 } }
        else add_cycles w 1)
      else w) :=
  st_ite _ (st_ite _ (st_prof _ (st_cyc 1 (Steps.refl w))) (st_cyc 1 (Steps.refl w)))
    (Steps.refl w)

theorem rf_IND_Y (hk : keeps_errors env) {op : Op} (hop : OpSteps op) (data : Nat) (u : sim65s)
    (he : u.error = 0) :
    ReadFault u [data % 256, data % 256 + 1, (word_at u (data % 256) + u.r.y) % 65536]
      (IND_Y env op data u) :=
  rf_readWord hk u (add_cycles u 5) (sv_cyc u 5) he (data &&& 0xFF)
    (data % 256) (data % 256 + 1) (by rw [and_0xFF]; omega) (by omega)
    [(word_at u (data % 256) + u.r.y) % 65536]
    (fun v x => (op
      (readByte env
        (if (v &&& 0xFF) + x.r.y > 0xFF then
          (if (add_cycles x 1).do_prof ≠ 0 then
            { add_cycles x 1 with prof := { (add_cycles x 1).prof with
                ind_y_extra := ((add_cycles x 1).prof.ind_y_extra + 1) % 2 ^ 32 } }
          else add_cycles x 1)
        else x)
        (0xFFFF &&& (v + (if (v &&& 0xFF) + x.r.y > 0xFF then
          (if (add_cycles x 1).do_prof ≠ 0 then
            { add_cycles x 1 with prof := { (add_cycles x 1).prof with
                ind_y_extra := ((add_cycles x 1).prof.ind_y_extra + 1) % 2 ^ 32 } }
          else add_cycles x 1)
        else x).r.y))).2
      (readByte env
        (if (v &&& 0xFF) + x.r.y > 0xFF then
          (if (add_cycles x 1).do_prof ≠ 0 then
            { add_cycles x 1 with prof := { (add_cycles x 1).prof with
                ind_y_extra := ((add_cycles x 1).prof.ind_y_extra + 1) % 2 ^ 32 } }
          else add_cycles x 1)
        else x)
        (0xFFFF &&& (v + (if (v &&& 0xFF) + x.r.y > 0xFF then
          (if (add_cycles x 1).do_prof ≠ 0 then
            { add_cycles x 1 with prof := { (add_cycles x 1).prof with
                ind_y_extra := ((add_cycles x 1).prof.ind_y_extra + 1) % 2 ^ 32 } }
          else add_cycles x 1)
        else x).r.y))).1).1)
    (fun v x => st_op hop _ (st_rd _ (st_extra_indy x _)))
    (fun _ _ => by
      rw [word_val]
      exact rf_read hk u _ (sv_extra_indy (sv_cyc u 5) _).1 he _ _
        (by rw [(sv_extra_indy (sv_cyc u 5) _).2, Nat.and_comm, and_0xFFFF]; exact Nat.mod_mod _ _) []
        (fun v x => (op x v).1) (fun v x => hop env x v) (fun _ => rf_nil _ _))

theorem rf_INDW_X (hk : keeps_errors env) (data : Nat) (u : sim65s) (he : u.error = 0) :
    ReadFault u [(data + u.r.x) % 256, (data + u.r.x) % 256 + 1] (INDW_X env STA data u) :=
  rf_readWord hk u (add_cycles u 6) (sv_cyc u 6) he ((data + u.r.x) &&& 0xFF)
    ((data + u.r.x) % 256) ((data + u.r.x) % 256 + 1) (by rw [and_0xFF]; omega) (by omega) []
    (fun v x => writeByte env x v u.r.a)
    (fun v x => steps_writeByte x v _)
    (fun _ _ => rf_nil _ _)

theorem rf_INDW_Y (hk : keeps_errors env) (data : Nat) (u : sim65s) (he : u.error = 0) :
    ReadFault u [data % 256, data % 256 + 1] (INDW_Y env STA data u) :=
  rf_readWord hk u (add_cycles u 6) (sv_cyc u 6) he (data &&& 0xFF)
    (data % 256) (data % 256 + 1) (by rw [and_0xFF]; omega) (by omega) []
    (fun v x => writeByte env x (0xFFFF &&& (v + x.r.y)) u.r.a)
    (fun v x => steps_writeByte x _ _)
    (fun _ _ => rf_nil _ _)

theorem rf_JMP16 (hk : keeps_errors env) (data : Nat) (u : sim65s) (he : u.error = 0) :
    ReadFault u [data % 65536, (data % 65536 + 1) % 65536] (JMP16 env data u) :=
  rf_readWord hk u (add_cycles u 5) (sv_cyc u 5) he data
    (data % 65536) ((data % 65536 + 1) % 65536) rfl rfl []
    (fun v x => set_pc x v)
    (fun v x => st_set_pc v (Steps.refl x))
    (fun _ _ => rf_nil _ _)

theorem rf_POP (hk : keeps_errors env) (u w : sim65s) (hw : SameView u w)
    (he : u.error = 0) (a : Nat) (ha : 0x100 + (w.r.s + 1) % 256 = a)
    (l : List Nat) (G : Nat → sim65s → sim65s) (hG : ∀ v x, Steps env false x (G v x))
    (hrest : read_clean u a →
      ReadFault u l (G (u.mem a % 256) (set_s w ((w.r.s + 1) &&& 0xFF)))) :
    ReadFault u (a :: l) (G (POP env w).1 (POP env w).2) :=
  rf_read hk u (set_s w ((w.r.s + 1) &&& 0xFF)) hw he _ a
    (by
      show (0x100 + ((w.r.s + 1) &&& 0xFF) % 256) % 65536 = a
      rw [and_0xFF]; omega) l G hG hrest

theorem rf_POP_P (hk : keeps_errors env) (u : sim65s) (he : u.error = 0) :
    ReadFault u [0x100 + (u.r.s + 1) % 256] (POP_P env u) :=
  rf_POP hk u (add_cycles u 4) (sv_cyc u 4) he _ rfl []
    (fun v x => set_flags x 0xFF (v ||| 0x30))
    (fun _ x => Steps.flags x _ _)
    (fun _ => rf_nil _ _)

theorem rf_POP_A (hk : keeps_errors env) (u : sim65s) (he : u.error = 0) :
    ReadFault u [0x100 + (u.r.s + 1) % 256] (POP_A env u) :=
  rf_POP hk u (add_cycles u 4) (sv_cyc u 4) he _ rfl []
    (fun v x => (LDA x v).1)
    (fun v x => opsteps_LDA env x v)
    (fun _ => rf_nil _ _)


theorem rf_RTS (hk : keeps_errors env) (u : sim65s) (he : u.error = 0) :
    ReadFault u [0x100 + (u.r.s + 1) % 256, 0x100 + (u.r.s + 2) % 256] (RTS env u) :=
  rf_POP hk u u (sv_refl u) he _ rfl [0x100 + (u.r.s + 2) % 256]
    (fun v x => add_cycles (set_pc (set_pc (POP env (set_pc x v)).2
      ((POP env (set_pc x v)).2.r.pc ||| ((POP env (set_pc x v)).1 <<< 8)))
      (((set_pc (POP env (set_pc x v)).2
        ((POP env (set_pc x v)).2.r.pc ||| ((POP env (set_pc x v)).1 <<< 8))).r.pc + 1)
        &&& 0xFFFF)) 6)
    (fun _ x => st_cyc 6 (st_set_pc _ (st_set_pc _ (st_POP (st_set_pc _ (Steps.refl x))))))
    (fun _ => rf_POP hk u (set_pc (set_s u ((u.r.s + 1) &&& 0xFF))
        (u.mem (0x100 + (u.r.s + 1) % 256) % 256)) ⟨rfl, rfl, rfl, rfl⟩ he _
      (by
        show 0x100 + (((u.r.s + 1) &&& 0xFF) % 256 + 1) % 256 = 0x100 + (u.r.s + 2) % 256
        rw [and_0xFF]; omega) []
      (fun v y => add_cycles (set_pc (set_pc y (y.r.pc ||| (v <<< 8)))
        (((set_pc y (y.r.pc ||| (v <<< 8))).r.pc + 1) &&& 0xFFFF)) 6)
      (fun _ y => st_cyc 6 (st_set_pc _ (st_set_pc _ (Steps.refl y))))
      (fun _ => rf_nil _ _))

theorem rf_RTI (hk : keeps_errors env) (u : sim65s) (he : u.error = 0) :
    ReadFault u [0x100 + (u.r.s + 1) % 256, 0x100 + (u.r.s + 2) % 256,
      0x100 + (u.r.s + 3) % 256] (RTI env u) :=
  rf_POP hk u (add_cycles u 4) (sv_cyc u 4) he _ rfl
    [0x100 + (u.r.s + 2) % 256, 0x100 + (u.r.s + 3) % 256]
    (fun v0 x0 => (fun v x => add_cycles (set_pc (set_pc (POP env (set_pc x v)).2
      ((POP env (set_pc x v)).2.r.pc ||| ((POP env (set_pc x v)).1 <<< 8)))
      ((set_pc (POP env (set_pc x v)).2
        ((POP env (set_pc x v)).2.r.pc ||| ((POP env (set_pc x v)).1 <<< 8))).r.pc
        &&& 0xFFFF)) 2)
      (POP env (set_flags x0 0xFF (v0 ||| 0x30))).1
      (POP env (set_flags x0 0xFF (v0 ||| 0x30))).2)
    (fun _ x => st_cyc 2 (st_set_pc _ (st_set_pc _ (st_POP (st_set_pc _
      (st_POP (Steps.flags x _ _)))))))
    (fun _ => rf_POP hk u (set_flags (set_s (add_cycles u 4) ((u.r.s + 1) &&& 0xFF)) 0xFF
        (u.mem (0x100 + (u.r.s + 1) % 256) % 256 ||| 0x30)) ⟨rfl, rfl, rfl, rfl⟩ he _
      (by
        show 0x100 + (((u.r.s + 1) &&& 0xFF) % 256 + 1) % 256 = 0x100 + (u.r.s + 2) % 256
        rw [and_0xFF]; omega) [0x100 + (u.r.s + 3) % 256]
      (fun v x => add_cycles (set_pc (set_pc (POP env (set_pc x v)).2
        ((POP env (set_pc x v)).2.r.pc ||| ((POP env (set_pc x v)).1 <<< 8)))
        ((set_pc (POP env (set_pc x v)).2
          ((POP env (set_pc x v)).2.r.pc ||| ((POP env (set_pc x v)).1 <<< 8))).r.pc
          &&& 0xFFFF)) 2)
      (fun _ x => st_cyc 2 (st_set_pc _ (st_set_pc _ (st_POP (st_set_pc _ (Steps.refl x))))))
      (fun _ => rf_POP hk u
        (set_pc (set_s (set_flags (set_s (add_cycles u 4) ((u.r.s + 1) &&& 0xFF)) 0xFF
          (u.mem (0x100 + (u.r.s + 1) % 256) % 256 ||| 0x30))
          (((u.r.s + 1) &&& 0xFF) % 256 + 1 &&& 0xFF))
          (u.mem (0x100 + (u.r.s + 2) % 256) % 256)) ⟨rfl, rfl, rfl, rfl⟩ he _
        (by
          show 0x100 + ((((u.r.s + 1) &&& 0xFF) % 256 + 1 &&& 0xFF) % 256 + 1) % 256
            = 0x100 + (u.r.s + 3) % 256
          rw [and_0xFF, and_0xFF]; omega) []
        (fun v y => add_cycles (set_pc (set_pc y (y.r.pc ||| (v <<< 8)))
          ((set_pc y (y.r.pc ||| (v <<< 8))).r.pc &&& 0xFFFF)) 2)
        (fun _ y => st_cyc 2 (st_set_pc _ (st_set_pc _ (Steps.refl y))))
        (fun _ => rf_nil _ _)))

theorem rf_do_bit (hk : keeps_errors env) (u w : sim65s) (hw : SameView u w)
    (he : u.error = 0) (addr : Nat) :
    ReadFault u (if bit_skips u addr then [] else [addr % 65536]) (do_bit env w addr) := by
  by_cases h : bit_skips u addr
  · rw [if_pos h]; exact rf_nil _ _
  · rw [if_neg h]
    have h2 : ¬ (w.mems (addr % 65536) &&& ms_invalid ≠ 0 ∧
        ¬ (w.mems (addr % 65536) &&& ms_callback ≠ 0)) := by
      rw [hw.1]; exact h
    unfold do_bit
    simp only [if_neg h2]
    exact rf_read hk u w hw he (addr % 65536) (addr % 65536) (Nat.mod_mod _ _) []
      (fun v x => SETZ (SETV (SETN x v) (decide (v &&& 0x40 ≠ 0)))
        ((SETV (SETN x v) (decide (v &&& 0x40 ≠ 0))).r.a &&& v))
      (fun _ x => st_SETZ _ (st_SETV _ (st_SETN _ (Steps.refl x))))
      (fun _ => rf_nil _ _)

theorem rf_BIT_ZP (hk : keeps_errors env) (data : Nat) (u : sim65s) (he : u.error = 0) :
    ReadFault u (if bit_skips u (data % 256) then [] else [data % 256]) (BIT_ZP env data u) := by
  have h := rf_do_bit hk u (add_cycles u 3) (sv_cyc u 3) he (data &&& 0xFF)
  rw [and_0xFF, Nat.mod_eq_of_lt (show data % 256 < 65536 by omega)] at h
  unfold BIT_ZP
  rw [and_0xFF]
  exact h

theorem rf_BIT_ABS (hk : keeps_errors env) (data : Nat) (u : sim65s) (he : u.error = 0) :
    ReadFault u (if bit_skips u data then [] else [data % 65536]) (BIT_ABS env data u) :=
  rf_do_bit hk u (add_cycles u 4) (sv_cyc u 4) he data

end readfault

/-! ## The reads of each instruction -/

section readdispatch
variable {env : CbEnv}

theorem dr_in (u : sim65s) (data ins c : Nat) {l : List Nat} {L : List Nat} {A B : sim65s}
    (hA : ReadFault u L A) (hn : read_addrs c data u = L)
    (hB : DispatchReads u data l ins B) :
    DispatchReads u data (c :: l) ins (if ins = c then A else B) := by
  intro hmem
  by_cases h : ins = c
  · rw [if_pos h, h, hn]
    exact hA
  · rw [if_neg h]
    rcases List.mem_cons.1 hmem with e | e
    · exact absurd e h
    · exact hB e

theorem dr_out (u : sim65s) (data ins c : Nat) {l : List Nat} {A B : sim65s} (hc : c ∉ l)
    (hB : DispatchReads u data l ins B) :
    DispatchReads u data l ins (if ins = c then A else B) := by
  intro hmem
  by_cases h : ins = c
  · rw [h] at hmem
    exact absurd hmem hc
  · rw [if_neg h]
    exact hB hmem

theorem dr_nil (u : sim65s) (data ins : Nat) (t : sim65s) : DispatchReads u data [] ins t :=
  fun h => absurd h (List.not_mem_nil _)

set_option maxRecDepth 8000 in
theorem dispatch_reads_sorted (hk : keeps_errors env) (u : sim65s) (data ins : Nat)
    (he : u.error = 0) :
    DispatchReads u data reading_sorted ins (dispatch env ins data u) := by
  unfold dispatch reading_sorted
  refine dr_out u data ins 0x00 (by decide) ?_
  refine dr_in u data ins 0x01 (rf_IND_X hk opsteps_ORA data u he) rfl ?_
  refine dr_in u data ins 0x05 (rf_ZP_R hk opsteps_ORA data u he) rfl ?_
  refine dr_in u data ins 0x06 (rf_ZP_RW hk opsteps_ASL data u he) rfl ?_
  refine dr_out u data ins 0x08 (by decide) ?_
  refine dr_out u data ins 0x09 (by decide) ?_
  refine dr_out u data ins 0x0A (by decide) ?_
  refine dr_in u data ins 0x0D (rf_ABS_R hk opsteps_ORA data u he) rfl ?_
  refine dr_in u data ins 0x0E (rf_ABS_RW hk opsteps_ASL data u he) rfl ?_
  refine dr_out u data ins 0x10 (by decide) ?_
  refine dr_in u data ins 0x11 (rf_IND_Y hk opsteps_ORA data u he) rfl ?_
  refine dr_in u data ins 0x15 (rf_ZPX_R hk opsteps_ORA data u he) rfl ?_
  refine dr_in u data ins 0x16 (rf_ZPX_RW hk opsteps_ASL data u he) rfl ?_
  refine dr_out u data ins 0x18 (by decide) ?_
  refine dr_in u data ins 0x19 (rf_ABY_R hk opsteps_ORA data u he) rfl ?_
  refine dr_in u data ins 0x1D (rf_ABX_R hk opsteps_ORA data u he) rfl ?_
  refine dr_in u data ins 0x1E (rf_ABX_RW hk opsteps_ASL data u he) rfl ?_
  refine dr_out u data ins 0x20 (by decide) ?_
  refine dr_in u data ins 0x21 (rf_IND_X hk opsteps_AND data u he) rfl ?_
  refine dr_in u data ins 0x24 (rf_BIT_ZP hk data u he) rfl ?_
  refine dr_in u data ins 0x25 (rf_ZP_R hk opsteps_AND data u he) rfl ?_
  refine dr_in u data ins 0x26 (rf_ZP_RW hk opsteps_ROL data u he) rfl ?_
  refine dr_in u data ins 0x28 (rf_POP_P hk u he) rfl ?_
  refine dr_out u data ins 0x29 (by decide) ?_
  refine dr_out u data ins 0x2A (by decide) ?_
  refine dr_in u data ins 0x2C (rf_BIT_ABS hk data u he) rfl ?_
  refine dr_in u data ins 0x2D (rf_ABS_R hk opsteps_AND data u he) rfl ?_
  refine dr_in u data ins 0x2E (rf_ABS_RW hk opsteps_ROL data u he) rfl ?_
  refine dr_out u data ins 0x30 (by decide) ?_
  refine dr_in u data ins 0x31 (rf_IND_Y hk opsteps_AND data u he) rfl ?_
  refine dr_in u data ins 0x35 (rf_ZPX_R hk opsteps_AND data u he) rfl ?_
  refine dr_in u data ins 0x36 (rf_ZPX_RW hk opsteps_ROL data u he) rfl ?_
  refine dr_out u data ins 0x38 (by decide) ?_
  refine dr_in u data ins 0x39 (rf_ABY_R hk opsteps_AND data u he) rfl ?_
  refine dr_in u data ins 0x3D (rf_ABX_R hk opsteps_AND data u he) rfl ?_
  refine dr_in u data ins 0x3E (rf_ABX_RW hk opsteps_ROL data u he) rfl ?_
  refine dr_in u data ins 0x40 (rf_RTI hk u he) rfl ?_
  refine dr_in u data ins 0x41 (rf_IND_X hk opsteps_EOR data u he) rfl ?_
  refine dr_in u data ins 0x45 (rf_ZP_R hk opsteps_EOR data u he) rfl ?_
  refine dr_in u data ins 0x46 (rf_ZP_RW hk opsteps_LSR data u he) rfl ?_
  refine dr_out u data ins 0x48 (by decide) ?_
  refine dr_out u data ins 0x49 (by decide) ?_
  refine dr_out u data ins 0x4A (by decide) ?_
  refine dr_out u data ins 0x4C (by decide) ?_
  refine dr_in u data ins 0x4D (rf_ABS_R hk opsteps_EOR data u he) rfl ?_
  refine dr_in u data ins 0x4E (rf_ABS_RW hk opsteps_LSR data u he) rfl ?_
  refine dr_out u data ins 0x50 (by decide) ?_
  refine dr_in u data ins 0x51 (rf_IND_Y hk opsteps_EOR data u he) rfl ?_
  refine dr_in u data ins 0x55 (rf_ZPX_R hk opsteps_EOR data u he) rfl ?_
  refine dr_in u data ins 0x56 (rf_ZPX_RW hk opsteps_LSR data u he) rfl ?_
  refine dr_out u data ins 0x58 (by decide) ?_
  refine dr_in u data ins 0x59 (rf_ABY_R hk opsteps_EOR data u he) rfl ?_
  refine dr_in u data ins 0x5D (rf_ABX_R hk opsteps_EOR data u he) rfl ?_
  refine dr_in u data ins 0x5E (rf_ABX_RW hk opsteps_LSR data u he) rfl ?_
  refine dr_in u data ins 0x60 (rf_RTS hk u he) rfl ?_
  refine dr_in u data ins 0x61 (rf_IND_X hk opsteps_ADC data u he) rfl ?_
  refine dr_in u data ins 0x65 (rf_ZP_R hk opsteps_ADC data u he) rfl ?_
  refine dr_in u data ins 0x66 (rf_ZP_RW hk opsteps_ROR data u he) rfl ?_
  refine dr_in u data ins 0x68 (rf_POP_A hk u he) rfl ?_
  refine dr_out u data ins 0x69 (by decide) ?_
  refine dr_out u data ins 0x6A (by decide) ?_
  refine dr_in u data ins 0x6C (rf_JMP16 hk data u he) rfl ?_
  refine dr_in u data ins 0x6D (rf_ABS_R hk opsteps_ADC data u he) rfl ?_
  refine dr_in u data ins 0x6E (rf_ABS_RW hk opsteps_ROR data u he) rfl ?_
  refine dr_out u data ins 0x70 (by decide) ?_
  refine dr_in u data ins 0x71 (rf_IND_Y hk opsteps_ADC data u he) rfl ?_
  refine dr_in u data ins 0x75 (rf_ZPX_R hk opsteps_ADC data u he) rfl ?_
  refine dr_in u data ins 0x76 (rf_ZPX_RW hk opsteps_ROR data u he) rfl ?_
  refine dr_out u data ins 0x78 (by decide) ?_
  refine dr_in u data ins 0x79 (rf_ABY_R hk opsteps_ADC data u he) rfl ?_
  refine dr_in u data ins 0x7D (rf_ABX_R hk opsteps_ADC data u he) rfl ?_
  refine dr_in u data ins 0x7E (rf_ABX_RW hk opsteps_ROR data u he) rfl ?_
  refine dr_in u data ins 0x81 (rf_INDW_X hk data u he) rfl ?_
  refine dr_out u data ins 0x84 (by decide) ?_
  refine dr_out u data ins 0x85 (by decide) ?_
  refine dr_out u data ins 0x86 (by decide) ?_
  refine dr_out u data ins 0x88 (by decide) ?_
  refine dr_out u data ins 0x8A (by decide) ?_
  refine dr_out u data ins 0x8C (by decide) ?_
  refine dr_out u data ins 0x8D (by decide) ?_
  refine dr_out u data ins 0x8E (by decide) ?_
  refine dr_out u data ins 0x90 (by decide) ?_
  refine dr_in u data ins 0x91 (rf_INDW_Y hk data u he) rfl ?_
  refine dr_out u data ins 0x94 (by decide) ?_
  refine dr_out u data ins 0x95 (by decide) ?_
  refine dr_out u data ins 0x96 (by decide) ?_
  refine dr_out u data ins 0x98 (by decide) ?_
  refine dr_out u data ins 0x99 (by decide) ?_
  refine dr_out u data ins 0x9A (by decide) ?_
  refine dr_out u data ins 0x9D (by decide) ?_
  refine dr_out u data ins 0xA0 (by decide) ?_
  refine dr_in u data ins 0xA1 (rf_IND_X hk opsteps_LDA data u he) rfl ?_
  refine dr_out u data ins 0xA2 (by decide) ?_
  refine dr_in u data ins 0xA4 (rf_ZP_R hk opsteps_LDY data u he) rfl ?_
  refine dr_in u data ins 0xA5 (rf_ZP_R hk opsteps_LDA data u he) rfl ?_
  refine dr_in u data ins 0xA6 (rf_ZP_R hk opsteps_LDX data u he) rfl ?_
  refine dr_out u data ins 0xA8 (by decide) ?_
  refine dr_out u data ins 0xA9 (by decide) ?_
  refine dr_out u data ins 0xAA (by decide) ?_
  refine dr_in u data ins 0xAC (rf_ABS_R hk opsteps_LDY data u he) rfl ?_
  refine dr_in u data ins 0xAD (rf_ABS_R hk opsteps_LDA data u he) rfl ?_
  refine dr_in u data ins 0xAE (rf_ABS_R hk opsteps_LDX data u he) rfl ?_
  refine dr_out u data ins 0xB0 (by decide) ?_
  refine dr_in u data ins 0xB1 (rf_IND_Y hk opsteps_LDA data u he) rfl ?_
  refine dr_in u data ins 0xB4 (rf_ZPX_R hk opsteps_LDY data u he) rfl ?_
  refine dr_in u data ins 0xB5 (rf_ZPX_R hk opsteps_LDA data u he) rfl ?_
  refine dr_in u data ins 0xB6 (rf_ZPY_R hk opsteps_LDX data u he) rfl ?_
  refine dr_out u data ins 0xB8 (by decide) ?_
  refine dr_in u data ins 0xB9 (rf_ABY_R hk opsteps_LDA data u he) rfl ?_
  refine dr_out u data ins 0xBA (by decide) ?_
  refine dr_in u data ins 0xBC (rf_ABX_R hk opsteps_LDY data u he) rfl ?_
  refine dr_in u data ins 0xBD (rf_ABX_R hk opsteps_LDA data u he) rfl ?_
  refine dr_in u data ins 0xBE (rf_ABY_R hk opsteps_LDX data u he) rfl ?_
  refine dr_out u data ins 0xC0 (by decide) ?_
  refine dr_in u data ins 0xC1 (rf_IND_X hk opsteps_CMP data u he) rfl ?_
  refine dr_in u data ins 0xC4 (rf_ZP_R hk opsteps_CPY data u he) rfl ?_
  refine dr_in u data ins 0xC5 (rf_ZP_R hk opsteps_CMP data u he) rfl ?_
  refine dr_in u data ins 0xC6 (rf_ZP_RW hk opsteps_DEC data u he) rfl ?_
  refine dr_out u data ins 0xC8 (by decide) ?_
  refine dr_out u data ins 0xC9 (by decide) ?_
  refine dr_out u data ins 0xCA (by decide) ?_
  refine dr_in u data ins 0xCC (rf_ABS_R hk opsteps_CPY data u he) rfl ?_
  refine dr_in u data ins 0xCD (rf_ABS_R hk opsteps_CMP data u he) rfl ?_
  refine dr_in u data ins 0xCE (rf_ABS_RW hk opsteps_DEC data u he) rfl ?_
  refine dr_out u data ins 0xD0 (by decide) ?_
  refine dr_in u data ins 0xD1 (rf_IND_Y hk opsteps_CMP data u he) rfl ?_
  refine dr_in u data ins 0xD5 (rf_ZPX_R hk opsteps_CMP data u he) rfl ?_
  refine dr_in u data ins 0xD6 (rf_ZPX_RW hk opsteps_DEC data u he) rfl ?_
  refine dr_out u data ins 0xD8 (by decide) ?_
  refine dr_in u data ins 0xD9 (rf_ABY_R hk opsteps_CMP data u he) rfl ?_
  refine dr_in u data ins 0xDD (rf_ABX_R hk opsteps_CMP data u he) rfl ?_
  refine dr_in u data ins 0xDE (rf_ABX_RW hk opsteps_DEC data u he) rfl ?_
  refine dr_out u data ins 0xE0 (by decide) ?_
  refine dr_in u data ins 0xE1 (rf_IND_X hk opsteps_SBC data u he) rfl ?_
  refine dr_in u data ins 0xE4 (rf_ZP_R hk opsteps_CPX data u he) rfl ?_
  refine dr_in u data ins 0xE5 (rf_ZP_R hk opsteps_SBC data u he) rfl ?_
  refine dr_in u data ins 0xE6 (rf_ZP_RW hk opsteps_INC data u he) rfl ?_
  refine dr_out u data ins 0xE8 (by decide) ?_
  refine dr_out u data ins 0xE9 (by decide) ?_
  refine dr_out u data ins 0xEA (by decide) ?_
  refine dr_in u data ins 0xEC (rf_ABS_R hk opsteps_CPX data u he) rfl ?_
  refine dr_in u data ins 0xED (rf_ABS_R hk opsteps_SBC data u he) rfl ?_
  refine dr_in u data ins 0xEE (rf_ABS_RW hk opsteps_INC data u he) rfl ?_
  refine dr_out u data ins 0xF0 (by decide) ?_
  refine dr_in u data ins 0xF1 (rf_IND_Y hk opsteps_SBC data u he) rfl ?_
  refine dr_in u data ins 0xF5 (rf_ZPX_R hk opsteps_SBC data u he) rfl ?_
  refine dr_in u data ins 0xF6 (rf_ZPX_RW hk opsteps_INC data u he) rfl ?_
  refine dr_out u data ins 0xF8 (by decide) ?_
  refine dr_in u data ins 0xF9 (rf_ABY_R hk opsteps_SBC data u he) rfl ?_
  refine dr_in u data ins 0xFD (rf_ABX_R hk opsteps_SBC data u he) rfl ?_
  refine dr_in u data ins 0xFE (rf_ABX_RW hk opsteps_INC data u he) rfl ?_
  exact dr_nil u data ins _




theorem read_addrs_mem (ins data : Nat) (u : sim65s) (h : ins ∉ reading_sorted) :
    read_addrs ins data u = [] := by
  have s1 : ∀ x ∈ reads_zp, x ∈ reading_sorted := by decide
  have s2 : ∀ x ∈ reads_zpx, x ∈ reading_sorted := by decide
  have s3 : ∀ x ∈ reads_zpy, x ∈ reading_sorted := by decide
  have s4 : ∀ x ∈ reads_abs, x ∈ reading_sorted := by decide
  have s5 : ∀ x ∈ reads_abx, x ∈ reading_sorted := by decide
  have s6 : ∀ x ∈ reads_aby, x ∈ reading_sorted := by decide
  have s7 : ∀ x ∈ reads_indx, x ∈ reading_sorted := by decide
  have s8 : ∀ x ∈ reads_indy, x ∈ reading_sorted := by decide
  have s9 : ∀ x ∈ reads_ptr_x, x ∈ reading_sorted := by decide
  have s10 : ∀ x ∈ reads_ptr_y, x ∈ reading_sorted := by decide
  have s11 : ∀ x ∈ reads_jmp_ind, x ∈ reading_sorted := by decide
  have s12 : ∀ x ∈ reads_pull, x ∈ reading_sorted := by decide
  have s13 : ∀ x ∈ reads_rts, x ∈ reading_sorted := by decide
  have s14 : ∀ x ∈ reads_rti, x ∈ reading_sorted := by decide
  have s15 : ins ≠ 0x24 := fun e => h (by rw [e]; decide)
  have s16 : ins ≠ 0x2C := fun e => h (by rw [e]; decide)
  unfold read_addrs
  rw [if_neg (fun m => h (s1 _ m)), if_neg (fun m => h (s2 _ m)), if_neg (fun m => h (s3 _ m)),
    if_neg (fun m => h (s4 _ m)), if_neg (fun m => h (s5 _ m)), if_neg (fun m => h (s6 _ m)),
    if_neg (fun m => h (s7 _ m)), if_neg (fun m => h (s8 _ m)), if_neg (fun m => h (s9 _ m)),
    if_neg (fun m => h (s10 _ m)), if_neg (fun m => h (s11 _ m)), if_neg (fun m => h (s12 _ m)),
    if_neg (fun m => h (s13 _ m)), if_neg (fun m => h (s14 _ m)), if_neg s15, if_neg s16]

/-- For every opcode, the dispatch latches READ_UNDEF at the first cell of `read_addrs` that
is not read on the fast path, when that cell is UNDEF without read callback. -/
theorem dispatch_reads (hk : keeps_errors env) (u : sim65s) (data ins : Nat)
    (he : u.error = 0) : ReadFault u (read_addrs ins data u) (dispatch env ins data u) := by
  by_cases h : ins ∈ reading_sorted
  · exact dispatch_reads_sorted hk u data ins he h
  · rw [read_addrs_mem ins data u h]
    exact rf_nil _ _

theorem prof_only_errlvl {s t : sim65s} (h : prof_only s t) : t.errlvl = s.errlvl := by rw [h]

theorem exit_read_undef (t : sim65s) (h1 : t.error = sim65_err_read_undef)
    (h2 : t.errlvl = sim65_errlvl_memory) :
    (get_error_exit t).1 ≠ 0 ∧ (get_error_exit t).2 = t := by
  have hx : exits_at t.errlvl t.error := Or.inr (Or.inl ⟨Or.inr (Or.inl h1), Or.inl h2⟩)
  rcases get_error_exit_cases t (Or.inr (Or.inl h2)) with h | h
  · exact h.2
  · exact absurd hx h.1

theorem next_read_fault (hk : keeps_errors env) (s : sim65s)
    (he : s.error = 0) (hcb : s.cb_exec s.r.pc = none) (hlim : limit_ok s)
    (hdbg : s.debug < sim65_debug_trace) (hc0 : exec_clean s (s.r.pc % 65536))
    (hc1 : ilen (opcode_at s) > 1 → exec_clean s ((s.r.pc + 1) % 65536))
    (hc2 : ilen (opcode_at s) > 2 → exec_clean s ((s.r.pc + 2) % 65536)) :
    ReadFault s (read_addrs (opcode_at s) (operand s) s) (next env s) ∧
    (next env s).errlvl = s.errlvl := by
  have hfe : (next_fetch s).2.2 = s := next_fetch_clean s hc0 hc1 hc2
  have hn : next env s = next_exec env (opcode_at s) (operand s) s := by
    rw [next_no_cb env s hcb, next_body_eq env s hlim (fun h => absurd h (Nat.not_le.2 hdbg)),
      hfe]
  have hp := next_exec_prof_only env (opcode_at s) (operand s) s
  have hrf : ReadFault s (read_addrs (opcode_at s) (operand s) s)
      (dispatch env (opcode_at s) (operand s) (set_pc s (s.r.pc + ilen (opcode_at s)))) :=
    dispatch_reads hk (set_pc s (s.r.pc + ilen (opcode_at s))) (operand s) (opcode_at s) he
  have hst : Steps env true (set_pc s (s.r.pc + ilen (opcode_at s)))
      (dispatch env (opcode_at s) (operand s) (set_pc s (s.r.pc + ilen (opcode_at s)))) :=
    steps_dispatch_of _ _ _ (Or.inl rfl)
  rw [hn]
  refine ⟨?_, ?_⟩
  · intro k a hka hclean hund hnocb
    have h := hrf k a hka hclean hund hnocb
    exact ⟨(prof_only_error hp).trans h.1, (prof_only_err_addr hp).trans h.2⟩
  · exact (prof_only_errlvl hp).trans (steps_keep_error hk hst).1

theorem run_loop_exit_after (env : CbEnv) (s : sim65s) (he : s.error = 0)
    (hx : (get_error_exit (next env s)).1 ≠ 0 ∧ (get_error_exit (next env s)).2 = next env s)
    (fuel : Nat) : run_loop env (fuel + 2) s = some (next env s) := by
  have h0 : get_error_exit s = (0, s) := by
    unfold get_error_exit
    exact if_pos he
  have h1 : run_loop env (fuel + 2) s = run_loop env (fuel + 1) (next env s) := by
    show (if (get_error_exit s).1 ≠ 0 then some (get_error_exit s).2
      else run_loop env (fuel + 1) (next env (get_error_exit s).2)) = _
    rw [h0]
    rfl
  rw [h1]
  show (if (get_error_exit (next env s)).1 ≠ 0 then some (get_error_exit (next env s)).2
      else run_loop env fuel (next env (get_error_exit (next env s)).2)) = _
  rw [if_pos hx.1, hx.2]

end readdispatch

/-- C17, the claim as stated fails.  LDA ($10),Y (`B1 10`) at error level MEMORY with the
pointer cells `$0010` and `$0011` uninitialised RAM, Y = 0 and nothing installed at `$0000`:
the instruction reads the pointer cells and then, the pointer word being 0, the UNDEF cell
`$0000`, which has no read callback.  The first pointer read has latched READ_UNINIT at
`$0010`, the later READ_UNDEF is not recorded, `get_error_exit` clears the error at level
MEMORY and answers 0, and the run loop goes on to the next instruction. -/
theorem read_undef_masked_by_earlier_fault :
    indy_state.errlvl = sim65_errlvl_memory ∧ indy_state.error = 0 ∧
    opcode_at indy_state = 0xB1 ∧ operand indy_state = 0x10 ∧ indy_state.r.y = 0 ∧
    (readWord env_none indy_state 0x10).1 = 0 ∧
    read_addrs (opcode_at indy_state) (operand indy_state) indy_state = [0x10, 0x11, 0] ∧
    indy_state.mems 0 &&& ms_undef ≠ 0 ∧ indy_state.cb_read 0 = none ∧
    (next env_none indy_state).error = sim65_err_read_uninit ∧
    (next env_none indy_state).err_addr = 0x10 ∧
    (get_error_exit (next env_none indy_state)).1 = 0 ∧
    (run_loop env_none 2 indy_state).isNone = true := by
  refine ⟨rfl, rfl, ?_, ?_, ?_, ?_, ?_, ?_, ?_, ?_, ?_, ?_, ?_⟩ <;> decide

/-- C17, amended.  At error level MEMORY, a step that executes an instruction (no error
latched at its start, no execute callback at PC, cycle limit not reached, tracing off, the
instruction bytes on the fast fetch path) in which the first CPU read that leaves the fast
path is a read of an UNDEF cell `a` without read callback latches READ_UNDEF at `a`, and the
run loop exits after that instruction: `get_error_exit` answers nonzero and the loop started
at `s` returns the state after this one step.  The reads of the instruction are those of
`read_addrs`; the callbacks leave the error level and a latched error alone. -/
theorem read_undef_first_fault_exits (env : CbEnv) (hk : keeps_errors env) (s : sim65s)
    (hlvl : s.errlvl = sim65_errlvl_memory) (he : s.error = 0)
    (hcb : s.cb_exec s.r.pc = none) (hlim : limit_ok s) (hdbg : s.debug < sim65_debug_trace)
    (hc0 : exec_clean s (s.r.pc % 65536))
    (hc1 : ilen (opcode_at s) > 1 → exec_clean s ((s.r.pc + 1) % 65536))
    (hc2 : ilen (opcode_at s) > 2 → exec_clean s ((s.r.pc + 2) % 65536))
    (k a : Nat) (hka : (read_addrs (opcode_at s) (operand s) s).get? k = some a)
    (hclean : ∀ j a', j < k → (read_addrs (opcode_at s) (operand s) s).get? j = some a' →
      read_clean s a')
    (hund : s.mems a &&& ms_undef ≠ 0) (hnocb : s.cb_read a = none) :
    (next env s).error = sim65_err_read_undef ∧ (next env s).err_addr = a ∧
    (get_error_exit (next env s)).1 ≠ 0 ∧
    ∀ fuel, run_loop env (fuel + 2) s = some (next env s) := by
  have h := next_read_fault hk s he hcb hlim hdbg hc0 hc1 hc2
  have hf := h.1 k a hka hclean hund hnocb
  have hx := exit_read_undef (next env s) hf.1 (h.2.trans hlvl)
  exact ⟨hf.1, hf.2, hx.1, run_loop_exit_after env s he hx⟩

theorem read_undef_first_fault_exits_witness :
    lda_zp_state.errlvl = sim65_errlvl_memory ∧
    opcode_at lda_zp_state = 0xA5 ∧ operand lda_zp_state = 0 ∧
    read_addrs (opcode_at lda_zp_state) (operand lda_zp_state) lda_zp_state = [0] ∧
    lda_zp_state.mems 0 &&& ms_undef ≠ 0 ∧ lda_zp_state.cb_read 0 = none ∧
    ((next env_none lda_zp_state).error = sim65_err_read_undef ∧
      (next env_none lda_zp_state).err_addr = 0 ∧
      (get_error_exit (next env_none lda_zp_state)).1 ≠ 0 ∧
      ∀ fuel, run_loop env_none (fuel + 2) lda_zp_state = some (next env_none lda_zp_state)) ∧
    (sim65_run env_none 2 lda_zp_state none 0x200).map Prod.fst = some sim65_err_read_undef :=
  ⟨rfl, by decide, by decide, by decide, by decide, by decide,
    read_undef_first_fault_exits env_none (fun _ _ _ _ => ⟨rfl, fun _ => ⟨rfl, rfl⟩⟩)
      lda_zp_state rfl rfl (by decide) (by decide) (by decide) (by decide) (by decide)
      (by decide) 0 0 (by decide) (fun j _ hj => absurd hj (Nat.not_lt_zero j))
      (by decide) (by decide),
    by decide⟩

/-! ## The first error of a step -/

theorem next_body_traced (env : CbEnv) (s : sim65s) :
    next_body env s =
      if (next_traced env s).cycle_limit ≠ 0 ∧
          (next_traced env s).cycles ≥ (next_traced env s).cycle_limit then
        set_error (next_traced env s) sim65_err_cycle_limit (next_traced env s).r.pc
      else next_exec env (next_fetch (next_traced env s)).1 (next_fetch (next_traced env s)).2.1
        (next_fetch (next_traced env s)).2.2 :=
  next_body_unfold env s

theorem steps_traced_next_body (env : CbEnv) (s : sim65s) :
    Steps env true (next_traced env s) (next_body env s) := by
  rw [next_body_traced]
  split
  · exact Steps.error _ _ _
  · exact Steps.trans (steps_next_fetch _) (steps_next_exec_of _ _ _ (Or.inl rfl))

theorem steps_fetched_next_body (env : CbEnv) (s : sim65s) (hlim : limit_ok (next_traced env s)) :
    Steps env true (next_fetch (next_traced env s)).2.2 (next_body env s) := by
  rw [next_body_traced]
  unfold limit_ok at hlim
  rw [if_neg hlim]
  exact steps_next_exec_of _ _ _ (Or.inl rfl)

theorem readWord_state (env : CbEnv) (s : sim65s) (a : Nat) :
    (readWord env s a).2 = (readByte env (readByte env s (a % 65536)).2 (a % 65536 + 1)).2 := rfl

/-- C16, the claim as stated fails.  LDA $00 at error level NONE with an execute callback at
the address of the instruction that returns READ_UNINIT, and with `$0000` an UNDEF cell: the
value of the callback is latched at `$0200`, the first fault of the step; the exit check
inside `next` clears it and answers 0; the instruction then runs and its read of `$0000`
latches READ_UNDEF.  After the step the latched code and address are those of the second
fault. -/
theorem exec_callback_fault_replaced :
    lda_exec_cb_state.error = 0 ∧ lda_exec_cb_state.errlvl = sim65_errlvl_none ∧
    lda_exec_cb_state.cb_exec lda_exec_cb_state.r.pc = some 1 ∧
    opcode_at lda_exec_cb_state = 0xA5 ∧ operand lda_exec_cb_state = 0 ∧
    (set_error (env_ret sim65_err_read_uninit 1 lda_exec_cb_state 0x200 sim65_cb_exec).2
      (env_ret sim65_err_read_uninit 1 lda_exec_cb_state 0x200 sim65_cb_exec).1 0x200).error
      = sim65_err_read_uninit ∧
    (set_error (env_ret sim65_err_read_uninit 1 lda_exec_cb_state 0x200 sim65_cb_exec).2
      (env_ret sim65_err_read_uninit 1 lda_exec_cb_state 0x200 sim65_cb_exec).1 0x200).err_addr
      = 0x200 ∧
    ¬ next_returns_early (env_ret sim65_err_read_uninit) lda_exec_cb_state ∧
    (next_prologue (env_ret sim65_err_read_uninit) lda_exec_cb_state).error = 0 ∧
    (next (env_ret sim65_err_read_uninit) lda_exec_cb_state).error = sim65_err_read_undef ∧
    (next (env_ret sim65_err_read_uninit) lda_exec_cb_state).err_addr = 0 := by
  refine ⟨?_, ?_, ?_, ?_, ?_, ?_, ?_, ?_, ?_, ?_, ?_⟩ <;> decide

/-- C16, amended.  First error wins: `set_error(e, addr)` changes the error slot and the
error address only when `e < 0` and no error is latched, and then sets them to `e` and
`addr`; if an error is already latched, or `e >= 0`, the state is left as it was; nothing but
the two error fields ever changes.  Hence no elementary change of an instruction step
replaces a latched error: not a fetch, a CPU read or a CPU write; of the two reads of a
pointer fetch (`readWord`) a fault of the first is the one latched after the second; the
dispatch of any opcode keeps a latched error; and in a step of `next` that goes past its
execute-callback block an error that is latched after that block, after the trace line or
after the fetch of the instruction is the one latched, with its address, when the step ends,
whatever faults follow it.  (The error that the execute callback returns is not covered: if
it does not exit, the exit check of that block clears it before the instruction runs.)  The
callbacks leave the error level and a latched error alone. -/
theorem first_error_wins (env : CbEnv) (hk : keeps_errors env) :
    (∀ (s : sim65s) (e : Int) (addr : Nat),
      (e < 0 → s.error = 0 →
        (set_error s e addr).error = e ∧ (set_error s e addr).err_addr = addr % 65536) ∧
      (s.error ≠ 0 ∨ 0 ≤ e → set_error s e addr = s) ∧
      set_error s e addr =
        { s with error := (set_error s e addr).error,
                 err_addr := (set_error s e addr).err_addr }) ∧
    (∀ (s t : sim65s), Steps env true s t → s.error ≠ 0 →
      t.error = s.error ∧ t.err_addr = s.err_addr) ∧
    (∀ (s : sim65s) (a v : Nat), s.error ≠ 0 →
      ((readPc s a).2.error = s.error ∧ (readPc s a).2.err_addr = s.err_addr) ∧
      ((readByte env s a).2.error = s.error ∧ (readByte env s a).2.err_addr = s.err_addr) ∧
      ((writeByte env s a v).error = s.error ∧ (writeByte env s a v).err_addr = s.err_addr)) ∧
    (∀ (s : sim65s) (a : Nat), (readByte env s (a % 65536)).2.error ≠ 0 →
      (readWord env s a).2.error = (readByte env s (a % 65536)).2.error ∧
      (readWord env s a).2.err_addr = (readByte env s (a % 65536)).2.err_addr) ∧
    (∀ (ins data : Nat) (s : sim65s), s.error ≠ 0 →
      (dispatch env ins data s).error = s.error ∧
      (dispatch env ins data s).err_addr = s.err_addr) ∧
    (∀ (s : sim65s), ¬ next_returns_early env s →
      ((next_prologue env s).error ≠ 0 →
        (next env s).error = (next_prologue env s).error ∧
        (next env s).err_addr = (next_prologue env s).err_addr) ∧
      ((next_traced env (next_prologue env s)).error ≠ 0 →
        (next env s).error = (next_traced env (next_prologue env s)).error ∧
        (next env s).err_addr = (next_traced env (next_prologue env s)).err_addr) ∧
      (limit_ok (next_traced env (next_prologue env s)) →
        (next_fetch (next_traced env (next_prologue env s))).2.2.error ≠ 0 →
        (next env s).error = (next_fetch (next_traced env (next_prologue env s))).2.2.error ∧
        (next env s).err_addr =
          (next_fetch (next_traced env (next_prologue env s))).2.2.err_addr)) := by
  have keep : ∀ (s t : sim65s), Steps env true s t → s.error ≠ 0 →
      t.error = s.error ∧ t.err_addr = s.err_addr :=
    fun s t h => (steps_keep_error hk h).2
  refine ⟨?_, keep, ?_, ?_, ?_, ?_⟩
  · intro s e addr
    refine ⟨?_, ?_, err_only_set_error s e addr⟩
    · intro he hs
      unfold set_error
      rw [if_pos ⟨he, hs⟩]
      exact ⟨rfl, rfl⟩
    · intro h
      unfold set_error
      rw [if_neg]
      rintro ⟨h3, h4⟩
      rcases h with h | h
      · exact h h4
      · omega
  · intro s a v h
    exact ⟨keep _ _ (steps_readPc s a) h, keep _ _ (steps_readByte s a) h,
      keep _ _ (steps_writeByte s a v) h⟩
  · intro s a h
    rw [readWord_state]
    exact keep _ _ (steps_readByte _ _) h
  · intro ins data s h
    exact keep _ _ (steps_dispatch_of ins data s (Or.inl rfl)) h
  · intro s hne
    rw [(next_cases env s).2 hne]
    refine ⟨?_, ?_, ?_⟩
    · exact keep _ _ (steps_next_body_of _ (Or.inl rfl))
    · exact keep _ _ (steps_traced_next_body env _)
    · intro hlim
      exact keep _ _ (steps_fetched_next_body env _ hlim)

/-- Two faults in one step on machines without callbacks.  BRK in uninitialised RAM: the
fetch latches EXEC_UNINIT at `$0200` and the BREAK of the dispatch does not replace it.
LDA ($10),Y with uninitialised pointer cells: the read of `$0010` latches READ_UNINIT, and
neither the read of `$0011`, the second read of the pointer fetch, nor the later read of the
UNDEF cell `$0000` replaces it. -/
theorem first_error_wins_witness :
    keeps_errors env_none ∧
    ¬ next_returns_early env_none brk_uninit_state ∧
    limit_ok (next_traced env_none (next_prologue env_none brk_uninit_state)) ∧
    (next_fetch (next_traced env_none (next_prologue env_none brk_uninit_state))).2.2.error
      = sim65_err_exec_uninit ∧
    opcode_at brk_uninit_state = 0x00 ∧
    ((next env_none brk_uninit_state).error =
        (next_fetch (next_traced env_none (next_prologue env_none brk_uninit_state))).2.2.error ∧
      (next env_none brk_uninit_state).err_addr =
        (next_fetch
          (next_traced env_none (next_prologue env_none brk_uninit_state))).2.2.err_addr) ∧
    (readByte env_none indy_state (0x10 % 65536)).2.error = sim65_err_read_uninit ∧
    (readByte env_none indy_state (0x10 % 65536)).2.err_addr = 0x10 ∧
    ¬ read_clean indy_state 0x11 ∧ indy_state.mems 0 &&& ms_undef ≠ 0 ∧
    ((readWord env_none indy_state 0x10).2.error =
        (readByte env_none indy_state (0x10 % 65536)).2.error ∧
      (readWord env_none indy_state 0x10).2.err_addr =
        (readByte env_none indy_state (0x10 % 65536)).2.err_addr) ∧
    ((readByte env_none (readWord env_none indy_state 0x10).2 0).2.error =
        (readWord env_none indy_state 0x10).2.error ∧
      (readByte env_none (readWord env_none indy_state 0x10).2 0).2.err_addr =
        (readWord env_none indy_state 0x10).2.err_addr) :=
  ⟨fun _ _ _ _ => ⟨rfl, fun _ => ⟨rfl, rfl⟩⟩, by decide, by decide, by decide, by decide,
   ((first_error_wins env_none (fun _ _ _ _ => ⟨rfl, fun _ => ⟨rfl, rfl⟩⟩)).2.2.2.2.2
      brk_uninit_state (by decide)).2.2 (by decide) (by decide),
   by decide, by decide, by decide, by decide,
   (first_error_wins env_none (fun _ _ _ _ => ⟨rfl, fun _ => ⟨rfl, rfl⟩⟩)).2.2.2.1
      indy_state 0x10 (by decide),
   ((first_error_wins env_none (fun _ _ _ _ => ⟨rfl, fun _ => ⟨rfl, rfl⟩⟩)).2.2.1
      (readWord env_none indy_state 0x10).2 0 0 (by decide)).2.1⟩

/-! ## The initial state and the opcodes that stop -/

/-- C21. Initial state: after `sim65_new`, A = X = Y = 0, S = 0xFF, P = 0x34, the cycle
counter and the cycle limit are 0, no error is latched, every one of the 65536 addresses has
status UNDEF|INVALID, and no read, write or execute callback is installed at any address. -/
theorem new_initial_state :
    sim65_new.r.a = 0 ∧ sim65_new.r.x = 0 ∧ sim65_new.r.y = 0 ∧ sim65_new.r.s = 0xFF ∧
    sim65_new.r.p = 0x34 ∧ sim65_new.cycles = 0 ∧ sim65_new.cycle_limit = 0 ∧
    sim65_new.error = sim65_err_none ∧
    (∀ a, a < 65536 → sim65_new.mems a = ms_undef ||| ms_invalid) ∧
    (∀ a, sim65_new.cb_read a = none ∧ sim65_new.cb_write a = none ∧
      sim65_new.cb_exec a = none) := by
  refine ⟨rfl, rfl, rfl, rfl, by decide, rfl, rfl, rfl, ?_, fun _ => ⟨rfl, rfl, rfl⟩⟩
  intro a ha
  show (if a < MAXRAM then ms_undef ||| ms_invalid else 0) = ms_undef ||| ms_invalid
  exact if_pos ha

theorem ite_default {ins c : Nat} {A B D : sim65s} (hc : ins ≠ c) (hB : B = D) :
    (if ins = c then A else B) = D := by
  rw [if_neg hc]; exact hB

set_option maxRecDepth 8000 in
/-- An opcode without `case` takes the `default` of the `switch`. -/
theorem dispatch_default (env : CbEnv) (ins data : Nat) (s : sim65s)
    (h : ins ∉ implemented_ops) :
    dispatch env ins data s = set_error s sim65_err_invalid_ins (sub32 s.r.pc 1) := by
  have hne : ∀ c, c ∈ implemented_ops → ins ≠ c := fun c hc e => h (e ▸ hc)
  unfold dispatch
  refine ite_default (hne 0x00 (by decide)) ?_
  refine ite_default (hne 0x01 (by decide)) ?_
  refine ite_default (hne 0x05 (by decide)) ?_
  refine ite_default (hne 0x06 (by decide)) ?_
  refine ite_default (hne 0x08 (by decide)) ?_
  refine ite_default (hne 0x09 (by decide)) ?_
  refine ite_default (hne 0x0A (by decide)) ?_
  refine ite_default (hne 0x0D (by decide)) ?_
  refine ite_default (hne 0x0E (by decide)) ?_
  refine ite_default (hne 0x10 (by decide)) ?_
  refine ite_default (hne 0x11 (by decide)) ?_
  refine ite_default (hne 0x15 (by decide)) ?_
  refine ite_default (hne 0x16 (by decide)) ?_
  refine ite_default (hne 0x18 (by decide)) ?_
  refine ite_default (hne 0x19 (by decide)) ?_
  refine ite_default (hne 0x1D (by decide)) ?_
  refine ite_default (hne 0x1E (by decide)) ?_
  refine ite_default (hne 0x20 (by decide)) ?_
  refine ite_default (hne 0x21 (by decide)) ?_
  refine ite_default (hne 0x24 (by decide)) ?_
  refine ite_default (hne 0x25 (by decide)) ?_
  refine ite_default (hne 0x26 (by decide)) ?_
  refine ite_default (hne 0x28 (by decide)) ?_
  refine ite_default (hne 0x29 (by decide)) ?_
  refine ite_default (hne 0x2A (by decide)) ?_
  refine ite_default (hne 0x2C (by decide)) ?_
  refine ite_default (hne 0x2D (by decide)) ?_
  refine ite_default (hne 0x2E (by decide)) ?_
  refine ite_default (hne 0x30 (by decide)) ?_
  refine ite_default (hne 0x31 (by decide)) ?_
  refine ite_default (hne 0x35 (by decide)) ?_
  refine ite_default (hne 0x36 (by decide)) ?_
  refine ite_default (hne 0x38 (by decide)) ?_
  refine ite_default (hne 0x39 (by decide)) ?_
  refine ite_default (hne 0x3D (by decide)) ?_
  refine ite_default (hne 0x3E (by decide)) ?_
  refine ite_default (hne 0x40 (by decide)) ?_
  refine ite_default (hne 0x41 (by decide)) ?_
  refine ite_default (hne 0x45 (by decide)) ?_
  refine ite_default (hne 0x46 (by decide)) ?_
  refine ite_default (hne 0x48 (by decide)) ?_
  refine ite_default (hne 0x49 (by decide)) ?_
  refine ite_default (hne 0x4A (by decide)) ?_
  refine ite_default (hne 0x4C (by decide)) ?_
  refine ite_default (hne 0x4D (by decide)) ?_
  refine ite_default (hne 0x4E (by decide)) ?_
  refine ite_default (hne 0x50 (by decide)) ?_
  refine ite_default (hne 0x51 (by decide)) ?_
  refine ite_default (hne 0x55 (by decide)) ?_
  refine ite_default (hne 0x56 (by decide)) ?_
  refine ite_default (hne 0x58 (by decide)) ?_
  refine ite_default (hne 0x59 (by decide)) ?_
  refine ite_default (hne 0x5D (by decide)) ?_
  refine ite_default (hne 0x5E (by decide)) ?_
  refine ite_default (hne 0x60 (by decide)) ?_
  refine ite_default (hne 0x61 (by decide)) ?_
  refine ite_default (hne 0x65 (by decide)) ?_
  refine ite_default (hne 0x66 (by decide)) ?_
  refine ite_default (hne 0x68 (by decide)) ?_
  refine ite_default (hne 0x69 (by decide)) ?_
  refine ite_default (hne 0x6A (by decide)) ?_
  refine ite_default (hne 0x6C (by decide)) ?_
  refine ite_default (hne 0x6D (by decide)) ?_
  refine ite_default (hne 0x6E (by decide)) ?_
  refine ite_default (hne 0x70 (by decide)) ?_
  refine ite_default (hne 0x71 (by decide)) ?_
  refine ite_default (hne 0x75 (by decide)) ?_
  refine ite_default (hne 0x76 (by decide)) ?_
  refine ite_default (hne 0x78 (by decide)) ?_
  refine ite_default (hne 0x79 (by decide)) ?_
  refine ite_default (hne 0x7D (by decide)) ?_
  refine ite_default (hne 0x7E (by decide)) ?_
  refine ite_default (hne 0x81 (by decide)) ?_
  refine ite_default (hne 0x84 (by decide)) ?_
  refine ite_default (hne 0x85 (by decide)) ?_
  refine ite_default (hne 0x86 (by decide)) ?_
  refine ite_default (hne 0x88 (by decide)) ?_
  refine ite_default (hne 0x8A (by decide)) ?_
  refine ite_default (hne 0x8C (by decide)) ?_
  refine ite_default (hne 0x8D (by decide)) ?_
  refine ite_default (hne 0x8E (by decide)) ?_
  refine ite_default (hne 0x90 (by decide)) ?_
  refine ite_default (hne 0x91 (by decide)) ?_
  refine ite_default (hne 0x94 (by decide)) ?_
  refine ite_default (hne 0x95 (by decide)) ?_
  refine ite_default (hne 0x96 (by decide)) ?_
  refine ite_default (hne 0x98 (by decide)) ?_
  refine ite_default (hne 0x99 (by decide)) ?_
  refine ite_default (hne 0x9A (by decide)) ?_
  refine ite_default (hne 0x9D (by decide)) ?_
  refine ite_default (hne 0xA0 (by decide)) ?_
  refine ite_default (hne 0xA1 (by decide)) ?_
  refine ite_default (hne 0xA2 (by decide)) ?_
  refine ite_default (hne 0xA4 (by decide)) ?_
  refine ite_default (hne 0xA5 (by decide)) ?_
  refine ite_default (hne 0xA6 (by decide)) ?_
  refine ite_default (hne 0xA8 (by decide)) ?_
  refine ite_default (hne 0xA9 (by decide)) ?_
  refine ite_default (hne 0xAA (by decide)) ?_
  refine ite_default (hne 0xAC (by decide)) ?_
  refine ite_default (hne 0xAD (by decide)) ?_
  refine ite_default (hne 0xAE (by decide)) ?_
  refine ite_default (hne 0xB0 (by decide)) ?_
  refine ite_default (hne 0xB1 (by decide)) ?_
  refine ite_default (hne 0xB4 (by decide)) ?_
  refine ite_default (hne 0xB5 (by decide)) ?_
  refine ite_default (hne 0xB6 (by decide)) ?_
  refine ite_default (hne 0xB8 (by decide)) ?_
  refine ite_default (hne 0xB9 (by decide)) ?_
  refine ite_default (hne 0xBA (by decide)) ?_
  refine ite_default (hne 0xBC (by decide)) ?_
  refine ite_default (hne 0xBD (by decide)) ?_
  refine ite_default (hne 0xBE (by decide)) ?_
  refine ite_default (hne 0xC0 (by decide)) ?_
  refine ite_default (hne 0xC1 (by decide)) ?_
  refine ite_default (hne 0xC4 (by decide)) ?_
  refine ite_default (hne 0xC5 (by decide)) ?_
  refine ite_default (hne 0xC6 (by decide)) ?_
  refine ite_default (hne 0xC8 (by decide)) ?_
  refine ite_default (hne 0xC9 (by decide)) ?_
  refine ite_default (hne 0xCA (by decide)) ?_
  refine ite_default (hne 0xCC (by decide)) ?_
  refine ite_default (hne 0xCD (by decide)) ?_
  refine ite_default (hne 0xCE (by decide)) ?_
  refine ite_default (hne 0xD0 (by decide)) ?_
  refine ite_default (hne 0xD1 (by decide)) ?_
  refine ite_default (hne 0xD5 (by decide)) ?_
  refine ite_default (hne 0xD6 (by decide)) ?_
  refine ite_default (hne 0xD8 (by decide)) ?_
  refine ite_default (hne 0xD9 (by decide)) ?_
  refine ite_default (hne 0xDD (by decide)) ?_
  refine ite_default (hne 0xDE (by decide)) ?_
  refine ite_default (hne 0xE0 (by decide)) ?_
  refine ite_default (hne 0xE1 (by decide)) ?_
  refine ite_default (hne 0xE4 (by decide)) ?_
  refine ite_default (hne 0xE5 (by decide)) ?_
  refine ite_default (hne 0xE6 (by decide)) ?_
  refine ite_default (hne 0xE8 (by decide)) ?_
  refine ite_default (hne 0xE9 (by decide)) ?_
  refine ite_default (hne 0xEA (by decide)) ?_
  refine ite_default (hne 0xEC (by decide)) ?_
  refine ite_default (hne 0xED (by decide)) ?_
  refine ite_default (hne 0xEE (by decide)) ?_
  refine ite_default (hne 0xF0 (by decide)) ?_
  refine ite_default (hne 0xF1 (by decide)) ?_
  refine ite_default (hne 0xF5 (by decide)) ?_
  refine ite_default (hne 0xF6 (by decide)) ?_
  refine ite_default (hne 0xF8 (by decide)) ?_
  refine ite_default (hne 0xF9 (by decide)) ?_
  refine ite_default (hne 0xFD (by decide)) ?_
  refine ite_default (hne 0xFE (by decide)) ?_
  rfl

set_option maxRecDepth 100000 in
theorem ilen_unimplemented (ins : Nat) (h : ins ∉ implemented_ops) : ilen ins = 1 := by
  by_cases hlt : ins < 256
  · have key : ∀ i, i < 256 → i ∉ implemented_ops → ilen i = 1 := by decide
    exact key ins hlt h
  · unfold ilen
    have hlen : ilen_table.length = 256 := by decide
    rw [List.getD_eq_default _ _ (by rw [hlen]; omega)]

theorem exit_always (t : sim65s)
    (h : t.error = sim65_err_break ∨ t.error = sim65_err_invalid_ins ∨
      t.error = sim65_err_cycle_limit ∨ t.error = sim65_err_call_ret ∨
      t.error = sim65_err_user ∨ t.error = sim65_err_exec_undef) :
    (get_error_exit t).1 ≠ 0 ∧ (get_error_exit t).2 = t := by
  have h0 : ¬ t.error = sim65_err_none := by
    rcases h with h | h | h | h | h | h <;> rw [h] <;> decide
  have h1 : t.error = sim65_err_exec_undef ∨ t.error = sim65_err_break ∨
      t.error = sim65_err_invalid_ins ∨ t.error = sim65_err_call_ret ∨
      t.error = sim65_err_cycle_limit ∨ t.error = sim65_err_user := by
    rcases h with h | h | h | h | h | h
    · exact Or.inr (Or.inl h)
    · exact Or.inr (Or.inr (Or.inl h))
    · exact Or.inr (Or.inr (Or.inr (Or.inr (Or.inl h))))
    · exact Or.inr (Or.inr (Or.inr (Or.inl h)))
    · exact Or.inr (Or.inr (Or.inr (Or.inr (Or.inr h))))
    · exact Or.inl h
  unfold get_error_exit
  rw [if_neg h0, if_pos h1]
  refine ⟨?_, rfl⟩
  show (1 : Int) ≠ 0
  decide

theorem run_loop_exit_now (env : CbEnv) (t : sim65s)
    (hx : (get_error_exit t).1 ≠ 0 ∧ (get_error_exit t).2 = t) (fuel : Nat) :
    run_loop env (fuel + 1) t = some t := by
  show (if (get_error_exit t).1 ≠ 0 then some (get_error_exit t).2
      else run_loop env fuel (next env (get_error_exit t).2)) = _
  rw [if_pos hx.1, hx.2]

theorem set_error_latch (u : sim65s) (e : Int) (a : Nat) (he : e < 0) (h0 : u.error = 0) :
    set_error u e a = { u with error := e, err_addr := a % 65536 } := by
  unfold set_error
  rw [if_pos ⟨he, h0⟩]

/-- C22, the claim as stated fails.  BRK in uninitialised RAM at error level NONE: the two
cells at `$0200` are RAM that was never written, so their value byte is 0, the opcode of BRK.
The step starts with no error latched, no execute callback at PC, no cycle limit and tracing
off; the fetch of the opcode byte latches EXEC_UNINIT at `$0200`, the BREAK of the dispatch
is not recorded, the exit check clears the error and answers 0, and the run goes on over the
second BRK as well, until the fetch at the undefined cell `$0202` ends it with EXEC_UNDEF. -/
theorem brk_in_uninitialised_ram_passed :
    brk_uninit_state.error = 0 ∧ brk_uninit_state.errlvl = sim65_errlvl_none ∧
    brk_uninit_state.cb_exec brk_uninit_state.r.pc = none ∧ limit_ok brk_uninit_state ∧
    brk_uninit_state.debug < sim65_debug_trace ∧
    opcode_at brk_uninit_state = 0x00 ∧ ¬ exec_clean brk_uninit_state 0x200 ∧
    (next env_none brk_uninit_state).error = sim65_err_exec_uninit ∧
    (next env_none brk_uninit_state).error ≠ sim65_err_break ∧
    (next env_none brk_uninit_state).err_addr = 0x200 ∧
    (next env_none brk_uninit_state).r.pc = 0x201 ∧
    (get_error_exit (next env_none brk_uninit_state)).1 = 0 ∧
    (run_loop env_none 2 brk_uninit_state).isNone = true ∧
    (sim65_run env_none 4 brk_uninit_state none 0x200).map
      (fun x => (x.1, x.2.err_addr, x.2.r.pc)) = some (sim65_err_exec_undef, 0x202, 0x203) := by
  refine ⟨?_, ?_, ?_, ?_, ?_, ?_, ?_, ?_, ?_, ?_, ?_, ?_, ?_, ?_⟩ <;> decide

/-- C22, amended.  Opcodes that are not executed stop at their own address when nothing is
latched before the dispatch.  Every opcode without a `case` in the dispatch has instruction
length 1.  A step on such an opcode latches INVALID_INS, a step on opcode `00` latches BREAK;
in both cases the latched address is the address of the opcode byte, PC is left at that
address + 1 (in 16 bits), A, X, Y, S, P, both memory arrays and the cycle counter are
unchanged (no stack push, no vector fetch), and the exit check of the run loop reports exit
whatever the error level is, so that the loop returns the state after this one step.  The
step is one that reaches the dispatch with nothing latched: no error at its start, no
execute callback at PC, cycle limit not reached, the opcode byte on the fast fetch path, and
a trace line that reads no memory. -/
theorem unexecuted_opcode_stops (env : CbEnv) (s : sim65s) (he : s.error = 0)
    (hcb : s.cb_exec s.r.pc = none) (hlim : limit_ok s)
    (hc0 : exec_clean s (s.r.pc % 65536))
    (htr : s.debug ≥ sim65_debug_trace → s.mem (s.r.pc % 65536) ∉ trace_read_ops)
    (hop : opcode_at s = 0x00 ∨ opcode_at s ∉ implemented_ops) :
    ilen (opcode_at s) = 1 ∧
    (next env s).error =
      (if opcode_at s = 0x00 then sim65_err_break else sim65_err_invalid_ins) ∧
    (next env s).err_addr = s.r.pc % 65536 ∧
    (next env s).r = { s.r with pc := (s.r.pc + 1) % 65536 } ∧
    (next env s).mem = s.mem ∧ (next env s).mems = s.mems ∧
    (next env s).cycles = s.cycles ∧
    (get_error_exit (next env s)).1 ≠ 0 ∧
    ∀ fuel, run_loop env (fuel + 2) s = some (next env s) := by
  have hil : ilen (opcode_at s) = 1 := by
    rcases hop with h | h
    · rw [h]; rfl
    · exact ilen_unimplemented _ h
  have hfe : (next_fetch s).2.2 = s :=
    next_fetch_clean s hc0 (fun h => absurd h (by rw [hil]; decide))
      (fun h => absurd h (by rw [hil]; decide))
  have hn : next env s = next_exec env (opcode_at s) (operand s) s := by
    rw [next_no_cb env s hcb, next_body_eq env s hlim htr, hfe]
  have hp := next_exec_prof_only env (opcode_at s) (operand s) s
  have hE : (if opcode_at s = 0x00 then sim65_err_break else sim65_err_invalid_ins) < 0 := by
    split <;> decide
  have hd : dispatch env (opcode_at s) (operand s) (set_pc s (s.r.pc + ilen (opcode_at s))) =
      set_error (set_pc s (s.r.pc + ilen (opcode_at s)))
        (if opcode_at s = 0x00 then sim65_err_break else sim65_err_invalid_ins)
        (sub32 (set_pc s (s.r.pc + ilen (opcode_at s))).r.pc 1) := by
    rcases hop with h | h
    · rw [h, if_pos rfl]; rfl
    · have h0 : opcode_at s ≠ 0x00 := fun e => h (by rw [e]; decide)
      rw [if_neg h0]
      exact dispatch_default env _ _ _ h
  rw [hd, set_error_latch (set_pc s (s.r.pc + ilen (opcode_at s))) _ _ hE he, hil] at hp
  have haddr : sub32 (set_pc s (s.r.pc + 1)).r.pc 1 % 65536 = s.r.pc % 65536 := by
    show sub32 ((s.r.pc + 1) % 65536) 1 % 65536 = s.r.pc % 65536
    unfold sub32
    omega
  have herr : (next env s).error =
      (if opcode_at s = 0x00 then sim65_err_break else sim65_err_invalid_ins) := by
    rw [hn]; exact (prof_only_error hp).trans rfl
  have hx : (get_error_exit (next env s)).1 ≠ 0 ∧ (get_error_exit (next env s)).2 = next env s := by
    apply exit_always
    rw [herr]
    by_cases h : opcode_at s = 0x00
    · rw [if_pos h]; exact Or.inl rfl
    · rw [if_neg h]; exact Or.inr (Or.inl rfl)
  refine ⟨hil, herr, ?_, ?_, ?_, ?_, ?_, hx.1, run_loop_exit_after env s he hx⟩
  · rw [hn]; exact ((prof_only_err_addr hp).trans rfl).trans haddr
  · rw [hn]; exact (prof_only_r hp).trans rfl
  · rw [hn]; exact (prof_only_mem hp).trans rfl
  · rw [hn]; exact (prof_only_mems hp).trans rfl
  · rw [hn]; exact (prof_only_cycles hp).trans rfl

theorem unexecuted_opcode_stops_witness :
    opcode_at kil_state = 0x02 ∧ opcode_at brk_state = 0x00 ∧
    (next env_none kil_state).error = sim65_err_invalid_ins ∧
    (next env_none kil_state).err_addr = 0x200 ∧
    (next env_none kil_state).r.pc = 0x201 ∧
    (next env_none brk_state).error = sim65_err_break ∧
    (next env_none brk_state).err_addr = 0x200 ∧
    ∀ fuel, run_loop env_none (fuel + 2) kil_state = some (next env_none kil_state) :=
  ⟨by decide, by decide,
   (unexecuted_opcode_stops env_none kil_state rfl (by decide) (by decide) (by decide)
      (fun h => absurd h (by decide)) (Or.inr (by decide))).2.1,
   (unexecuted_opcode_stops env_none kil_state rfl (by decide) (by decide) (by decide)
      (fun h => absurd h (by decide)) (Or.inr (by decide))).2.2.1,
   congrArg sim65_reg.pc
     (unexecuted_opcode_stops env_none kil_state rfl (by decide) (by decide) (by decide)
       (fun h => absurd h (by decide)) (Or.inr (by decide))).2.2.2.1,
   (unexecuted_opcode_stops env_none brk_state rfl (by decide) (by decide) (by decide)
      (fun h => absurd h (by decide)) (Or.inl (by decide))).2.1,
   (unexecuted_opcode_stops env_none brk_state rfl (by decide) (by decide) (by decide)
      (fun h => absurd h (by decide)) (Or.inl (by decide))).2.2.1,
   (unexecuted_opcode_stops env_none kil_state rfl (by decide) (by decide) (by decide)
      (fun h => absurd h (by decide)) (Or.inr (by decide))).2.2.2.2.2.2.2.2⟩

/-- C23, at the failing input.  After one NOP the counter is 2;
`sim65_set_cycle_limit(s, 0xFFFFFFFFFFFFFFFF)` then stores the limit `2 + (2^64 - 1)` reduced
to 64 bits, which is 1.  The next step begins with `cycles = 2`, below `c0 + L = 2^64 + 1`,
and yet latches CYCLE_LIMIT at PC without executing the second NOP; the claim says that a
step begun below `c0 + L` never latches CYCLE_LIMIT by itself. -/
theorem cycle_limit_wraps :
    (next env_none nop_state).cycles = 2 ∧
    wrapped_limit_state.cycle_limit = 1 ∧ wrapped_limit_state.cycles = 2 ∧
    wrapped_limit_state.cycles < 2 + 0xFFFFFFFFFFFFFFFF ∧
    wrapped_limit_state.error = 0 ∧ wrapped_limit_state.cb_exec wrapped_limit_state.r.pc = none ∧
    opcode_at wrapped_limit_state = 0xEA ∧
    (next env_none wrapped_limit_state).error = sim65_err_cycle_limit ∧
    (next env_none wrapped_limit_state).err_addr = 0x201 ∧
    (next env_none wrapped_limit_state).r.pc = 0x201 ∧
    (next env_none wrapped_limit_state).cycles = 2 := by
  refine ⟨?_, ?_, ?_, ?_, ?_, ?_, ?_, ?_, ?_, ?_, ?_⟩ <;> decide

/-! ## RTI and JMP indirect -/

theorem POP_clean (env : CbEnv) (s : sim65s) (h : read_clean s (0x100 + (s.r.s + 1) % 256)) :
    POP env s = (s.mem (0x100 + (s.r.s + 1) % 256) % 256, set_s s ((s.r.s + 1) &&& 0xFF)) := by
  unfold POP
  simp only
  have e : (0x100 + (set_s s ((s.r.s + 1) &&& 0xFF)).r.s) % 65536 = 0x100 + (s.r.s + 1) % 256 := by
    rw [set_s_r, and_0xFF]
    simp only []
    omega
  have hz : read_clean (set_s s ((s.r.s + 1) &&& 0xFF))
      ((0x100 + (set_s s ((s.r.s + 1) &&& 0xFF)).r.s) % 65536) := by
    rw [e]; exact h
  have := readByte_clean env (set_s s ((s.r.s + 1) &&& 0xFF)) _ hz
  rw [e, set_s_mem] at this
  exact this

theorem or_0x30_lt (v : Nat) (h : v < 256) : (v ||| 0x30) % 256 = v ||| 0x30 :=
  Nat.mod_eq_of_lt (Nat.or_lt_two_pow (n := 8) h (by decide))

theorem do_rti_clean (env : CbEnv) (s : sim65s)
    (h1 : read_clean s (0x100 + (s.r.s + 1) % 256))
    (h2 : read_clean s (0x100 + (s.r.s + 2) % 256))
    (h3 : read_clean s (0x100 + (s.r.s + 3) % 256)) :
    (do_rti env s).r.p = s.mem (0x100 + (s.r.s + 1) % 256) % 256 ||| 0x30 ∧
    (do_rti env s).p_valid = 0 ∧
    (do_rti env s).r.pc =
      s.mem (0x100 + (s.r.s + 2) % 256) % 256 + 256 * (s.mem (0x100 + (s.r.s + 3) % 256) % 256) ∧
    (do_rti env s).r.s = (s.r.s + 3) % 256 ∧
    (do_rti env s).cycles = (s.cycles + 6) % 2 ^ 64 ∧
    (do_rti env s).r.a = s.r.a ∧ (do_rti env s).r.x = s.r.x ∧ (do_rti env s).r.y = s.r.y ∧
    (do_rti env s).mem = s.mem ∧ (do_rti env s).mems = s.mems ∧
    (do_rti env s).error = s.error ∧ (do_rti env s).err_addr = s.err_addr := by
  have e0 := POP_clean env (add_cycles s 4) h1
  rw [add_cycles_r, add_cycles_mem] at e0
  generalize hv : s.mem (0x100 + (s.r.s + 1) % 256) % 256 = v at *
  have hv' : v < 256 := by rw [← hv]; exact Nat.mod_lt _ (by norm_num)
  generalize hs1 : set_flags (set_s (add_cycles s 4) ((s.r.s + 1) &&& 0xFF)) 0xFF (v ||| 0x30) = s1
  have hs1r : s1.r = { s.r with s := (s.r.s + 1) % 256, p := v ||| 0x30 } := by
    rw [← hs1, set_flags_r, set_s_r, add_cycles_r, and_0xFF, or_0x30_lt v hv']
    have e : not8 (0xFF % 256) = 0 := by decide
    simp only [e, Nat.and_zero, Nat.zero_or, Nat.mod_mod]
    rw [Nat.mod_eq_of_lt (Nat.or_lt_two_pow (n := 8) hv' (by decide))]
  have hs1v : s1.p_valid = 0 := by
    rw [← hs1, set_flags_p_valid]
    have e : not8 (0xFF % 256) = 0 := by decide
    rw [e, Nat.and_zero]
  have hs1m : s1.mems = s.mems := by rw [← hs1]; rfl
  have hs1mem : s1.mem = s.mem := by rw [← hs1]; rfl
  have hs1c : s1.cycles = (s.cycles + 4) % 2 ^ 64 := by rw [← hs1]; rfl
  have hs1e : s1.error = s.error ∧ s1.err_addr = s.err_addr := by rw [← hs1]; exact ⟨rfl, rfl⟩
  have hs1S : s1.r.s = (s.r.s + 1) % 256 := by rw [hs1r]
  have ea : 0x100 + (s1.r.s + 1) % 256 = 0x100 + (s.r.s + 2) % 256 := by rw [hs1S]; omega
  have e1 := POP_clean env s1 (by rw [ea]; unfold read_clean; rw [hs1m]; exact h2)
  rw [ea, hs1mem] at e1
  generalize hlo : s.mem (0x100 + (s.r.s + 2) % 256) % 256 = lo at *
  have hlo' : lo < 256 := by rw [← hlo]; exact Nat.mod_lt _ (by norm_num)
  generalize hs2 : set_pc (set_s s1 ((s1.r.s + 1) &&& 0xFF)) lo = s2
  have hs2r : s2.r = { s.r with s := (s.r.s + 2) % 256, p := v ||| 0x30, pc := lo } := by
    rw [← hs2, set_pc_r, set_s_r, hs1r, and_0xFF]
    simp only [Nat.mod_mod]
    rw [Nat.mod_eq_of_lt (show lo < 65536 by omega)]
    congr 1
    omega
  have hs2m : s2.mems = s.mems := by rw [← hs2]; exact hs1m
  have hs2mem : s2.mem = s.mem := by rw [← hs2]; exact hs1mem
  have hs2S : s2.r.s = (s.r.s + 2) % 256 := by rw [hs2r]
  have eb : 0x100 + (s2.r.s + 1) % 256 = 0x100 + (s.r.s + 3) % 256 := by rw [hs2S]; omega
  have e2 := POP_clean env s2 (by rw [eb]; unfold read_clean; rw [hs2m]; exact h3)
  rw [eb, hs2mem] at e2
  generalize hhi : s.mem (0x100 + (s.r.s + 3) % 256) % 256 = hi at *
  have hhi' : hi < 256 := by rw [← hhi]; exact Nat.mod_lt _ (by norm_num)
  have hmain : do_rti env s =
      add_cycles (set_pc (set_pc (set_s s2 ((s2.r.s + 1) &&& 0xFF))
        ((set_s s2 ((s2.r.s + 1) &&& 0xFF)).r.pc ||| (hi <<< 8)))
        ((set_pc (set_s s2 ((s2.r.s + 1) &&& 0xFF))
          ((set_s s2 ((s2.r.s + 1) &&& 0xFF)).r.pc ||| (hi <<< 8))).r.pc &&& 0xFFFF)) 2 := by
    unfold do_rti POP_P
    simp only
    rw [e0]
    simp only
    rw [hs1, e1]
    simp only
    rw [hs2, e2]
  rw [hmain]
  have hpc : ((lo ||| hi <<< 8) % 65536 &&& 0xFFFF) % 65536 = lo + 256 * hi := by
    rw [and_0xFFFF, or_shl8 lo hi hlo']; omega
  refine ⟨?_, ?_, ?_, ?_, ?_, ?_, ?_, ?_, ?_, ?_, ?_, ?_⟩
  · simp only [add_cycles_r, set_pc_r, set_s_r, hs2r]
  · show s2.p_valid = 0
    rw [← hs2]; exact hs1v
  · simp only [add_cycles_r, set_pc_r, set_s_r, hs2r]
    exact hpc
  · simp only [add_cycles_r, set_pc_r, set_s_r, hs2r, and_0xFF]
    omega
  · show (s2.cycles + 2) % 2 ^ 64 = _
    have : s2.cycles = s1.cycles := by rw [← hs2]; rfl
    rw [this, hs1c]; omega
  · simp only [add_cycles_r, set_pc_r, set_s_r, hs2r]
  · simp only [add_cycles_r, set_pc_r, set_s_r, hs2r]
  · simp only [add_cycles_r, set_pc_r, set_s_r, hs2r]
  · exact hs2mem
  · exact hs2m
  · show s2.error = s.error
    rw [← hs2]; exact hs1e.1
  · show s2.err_addr = s.err_addr
    rw [← hs2]; exact hs1e.2


/-- C28. RTI: with stack pointer S and the three stack cells `0x100+((S+1) mod 256)`,
`0x100+((S+2) mod 256)`, `0x100+((S+3) mod 256)` readable (on the fast read path), the step
on opcode `40` sets P to the first byte OR 0x30, clears the whole flag-validity mask, sets PC
to the second byte + 256 * the third byte with no +1 adjustment, sets S to `(S+3) mod 256`
and adds 6 cycles (in 64 bits); A, X, Y and both memory arrays are unchanged.  The step is
one that reaches the dispatch: no execute callback at PC, cycle limit not reached. -/
theorem rti_step (env : CbEnv) (s : sim65s) (hcb : s.cb_exec s.r.pc = none) (hlim : limit_ok s)
    (hop : s.mem (s.r.pc % 65536) = 0x40)
    (h1 : read_clean s (0x100 + (s.r.s + 1) % 256))
    (h2 : read_clean s (0x100 + (s.r.s + 2) % 256))
    (h3 : read_clean s (0x100 + (s.r.s + 3) % 256)) :
    (next env s).r.p = s.mem (0x100 + (s.r.s + 1) % 256) % 256 ||| 0x30 ∧
    (next env s).p_valid = 0 ∧
    (next env s).r.pc =
      s.mem (0x100 + (s.r.s + 2) % 256) % 256 + 256 * (s.mem (0x100 + (s.r.s + 3) % 256) % 256) ∧
    (next env s).r.s = (s.r.s + 3) % 256 ∧
    (next env s).cycles = (s.cycles + 6) % 2 ^ 64 ∧
    (next env s).r.a = s.r.a ∧ (next env s).r.x = s.r.x ∧ (next env s).r.y = s.r.y ∧
    (next env s).mem = s.mem ∧ (next env s).mems = s.mems := by
  have hins : opcode_at s = 0x40 := by unfold opcode_at; rw [hop]
  have htr : s.mem (s.r.pc % 65536) ∉ trace_read_ops := by rw [hop]; decide
  have hfe := next_fetch_err_only s
  rw [next_eq_exec env s hcb hlim htr, hins]
  generalize (next_fetch s).2.2 = sf at hfe
  generalize operand s = data
  have hp := next_exec_prof_only env 0x40 data sf
  have hd : dispatch env 0x40 data (set_pc sf (sf.r.pc + ilen 0x40)) =
      do_rti env (set_pc sf (sf.r.pc + 1)) := rfl
  rw [hd] at hp
  have hr3 : (set_pc sf (sf.r.pc + 1)).r = { s.r with pc := (s.r.pc + 1) % 65536 } := by
    rw [set_pc_r, err_only_r hfe]
  have hm3 : (set_pc sf (sf.r.pc + 1)).mems = s.mems := by rw [set_pc_mems, err_only_mems hfe]
  have hmem3 : (set_pc sf (sf.r.pc + 1)).mem = s.mem := by rw [set_pc_mem, err_only_mem hfe]
  have hc3 : (set_pc sf (sf.r.pc + 1)).cycles = s.cycles := by
    rw [set_pc_cycles, err_only_cycles hfe]
  generalize set_pc sf (sf.r.pc + 1) = s3 at *
  have hS3 : s3.r.s = s.r.s := by rw [hr3]
  have hcl : ∀ a, read_clean s a → read_clean s3 a := by
    intro a h; unfold read_clean at h ⊢; rw [hm3]; exact h
  have hf := do_rti_clean env s3 (by rw [hS3]; exact hcl _ h1) (by rw [hS3]; exact hcl _ h2)
    (by rw [hS3]; exact hcl _ h3)
  rw [hS3, hmem3, hm3, hc3, hr3] at hf
  rw [prof_only_r hp, prof_only_cycles hp, prof_only_p_valid hp, prof_only_mem hp,
    prof_only_mems hp]
  exact ⟨hf.1, hf.2.1, hf.2.2.1, hf.2.2.2.1, hf.2.2.2.2.1, hf.2.2.2.2.2.1, hf.2.2.2.2.2.2.1,
    hf.2.2.2.2.2.2.2.1, hf.2.2.2.2.2.2.2.2.1, hf.2.2.2.2.2.2.2.2.2.1⟩

theorem rti_step_witness :
    rti_state.mem (rti_state.r.pc % 65536) = 0x40 ∧ rti_state.r.s = 0xFC ∧
    (next env_none rti_state).r.p = 0xF1 ∧ (next env_none rti_state).p_valid = 0 ∧
    (next env_none rti_state).r.pc = 0x12FF ∧ (next env_none rti_state).r.s = 0xFF ∧
    (next env_none rti_state).cycles = 6 := by
  have h := rti_step env_none rti_state (by decide) (by decide) (by decide) (by decide)
    (by decide) (by decide)
  exact ⟨by decide, by decide, h.1.trans (by decide), h.2.1, h.2.2.1.trans (by decide),
    h.2.2.2.1.trans (by decide), h.2.2.2.2.1.trans (by decide)⟩

theorem readByte_no_read_cb (env : CbEnv) (s : sim65s) (addr : Nat)
    (h : s.cb_read (addr % 65536) = none) :
    reads_only s (readByte env s addr).2 ∧ (readByte env s addr).1 = s.mem (addr % 65536) % 256 := by
  unfold readByte
  simp only
  split
  · exact ⟨rfl, rfl⟩
  · unfold readByte_slow
    simp only [h, ite_self]
    split
    · have h := reads_only_set_error s sim65_err_read_undef (addr % 65536)
      refine ⟨h, ?_⟩
      unfold reads_only at h
      rw [h]
    · have h := reads_only_set_error s sim65_err_read_uninit (addr % 65536)
      unfold reads_only at h ⊢
      refine ⟨?_, ?_⟩
      · rw [h]
      · rw [h]

theorem reads_only_fields {s t : sim65s} (h : reads_only s t) :
    t.mem = s.mem ∧ t.r = s.r ∧ t.cycles = s.cycles ∧ t.cb_read = s.cb_read ∧
    t.p_valid = s.p_valid := by
  unfold reads_only at h
  rw [h]
  exact ⟨rfl, rfl, rfl, rfl, rfl⟩

theorem JMP16_no_read_cb (env : CbEnv) (u : sim65s) (data : Nat)
    (h1 : u.cb_read (data % 65536) = none) (h2 : u.cb_read ((data % 65536 + 1) % 65536) = none) :
    (JMP16 env data u).r =
      { u.r with pc := u.mem (data % 65536) % 256 +
        256 * (u.mem ((data % 65536 + 1) % 65536) % 256) } ∧
    (JMP16 env data u).cycles = (u.cycles + 5) % 2 ^ 64 ∧
    (JMP16 env data u).mem = u.mem ∧ (JMP16 env data u).p_valid = u.p_valid := by
  have e1 := readByte_no_read_cb env (add_cycles u 5) (data % 65536)
    (by rw [Nat.mod_mod]; exact h1)
  have f1 := reads_only_fields e1.1
  have e2 := readByte_no_read_cb env (readByte env (add_cycles u 5) (data % 65536)).2
    (data % 65536 + 1) (by rw [f1.2.2.2.1]; exact h2)
  have f2 := reads_only_fields e2.1
  rw [Nat.mod_mod] at e1
  have hw : JMP16 env data u =
      set_pc (readByte env (readByte env (add_cycles u 5) (data % 65536)).2
          (data % 65536 + 1)).2
        (((readByte env (add_cycles u 5) (data % 65536)).1 |||
          ((readByte env (readByte env (add_cycles u 5) (data % 65536)).2
            (data % 65536 + 1)).1 <<< 8)) % 65536) := rfl
  rw [hw, e1.2, e2.2, f1.1]
  generalize (readByte env (readByte env (add_cycles u 5) (data % 65536)).2
    (data % 65536 + 1)).2 = t at f2
  rw [f1.1, f1.2.1, f1.2.2.1, f1.2.2.2.2] at f2
  have hlo : u.mem (data % 65536) % 256 < 256 := Nat.mod_lt _ (by norm_num)
  have hhi : u.mem ((data % 65536 + 1) % 65536) % 256 < 256 := Nat.mod_lt _ (by norm_num)
  refine ⟨?_, ?_, ?_, ?_⟩
  · have hpc : ((add_cycles u 5).mem (data % 65536) % 256 |||
        ((add_cycles u 5).mem ((data % 65536 + 1) % 65536) % 256) <<< 8) % 65536 % 65536 =
        u.mem (data % 65536) % 256 + 256 * (u.mem ((data % 65536 + 1) % 65536) % 256) := by
      rw [add_cycles_mem, or_shl8 _ _ hlo]
      omega
    rw [set_pc_r, f2.2.1, hpc]
    rfl
  · rw [set_pc_cycles, f2.2.2.1]; rfl
  · rw [set_pc_mem, f2.1]; rfl
  · rw [set_pc_p_valid, f2.2.2.2.2]; rfl

theorem print_reg_jmp_ind (env : CbEnv) (s : sim65s) (hop : s.mem (s.r.pc % 65536) = 0x6C)
    (hb : mem_bytes s) :
    sim65_print_reg env s = (readWord env s (operand s)).2 := by
  have e : s.r.pc % 65536 &&& 0xFFFF = s.r.pc % 65536 := by
    rw [and_0xFFFF]; exact Nat.mod_mod _ _
  have e1 : (1 + s.r.pc % 65536) &&& 0xFFFF = (s.r.pc + 1) % 65536 := by
    rw [and_0xFFFF]; omega
  have e2 : (2 + s.r.pc % 65536) &&& 0xFFFF = (s.r.pc + 2) % 65536 := by
    rw [and_0xFFFF]; omega
  have hins : opcode_at s = 0x6C := by unfold opcode_at; rw [hop]
  have hopd : operand s = s.mem ((s.r.pc + 1) % 65536) + 256 * s.mem ((s.r.pc + 2) % 65536) := by
    unfold operand
    rw [hins]
    have : ilen 0x6C > 2 := by decide
    rw [if_pos this, or_shl8 _ _ (by unfold operand1; exact Nat.mod_lt _ (by norm_num))]
    unfold operand1 operand2
    rw [Nat.mod_eq_of_lt (hb _), Nat.mod_eq_of_lt (hb _)]
    omega
  have hlt : operand s < 65536 := by
    rw [hopd]
    have := hb ((s.r.pc + 1) % 65536)
    have := hb ((s.r.pc + 2) % 65536)
    omega
  unfold sim65_print_reg print_curr_ins
  simp only [e, e1, e2, hop]
  have i2 : ¬ (ilen 0x6C = 2) := by decide
  have i3 : ilen 0x6C = 3 := by decide
  simp only [if_neg i2, if_pos i3]
  have hd : (s.mem ((s.r.pc + 1) % 65536) + s.mem ((s.r.pc + 2) % 65536) <<< 8) % 2 ^ 32 =
      operand s := by
    rw [hopd, Nat.shiftLeft_eq]
    have := hb ((s.r.pc + 1) % 65536)
    have := hb ((s.r.pc + 2) % 65536)
    omega
  rw [hd]
  simp only [Nat.reduceEqDiff, if_false, if_true]
  unfold INSPRT_IND print_ind_label
  simp only [if_true]
  rw [Nat.mod_eq_of_lt hlt]
  rfl

theorem readWord_no_read_cb (env : CbEnv) (s : sim65s) (a : Nat)
    (h1 : s.cb_read (a % 65536) = none) (h2 : s.cb_read ((a % 65536 + 1) % 65536) = none) :
    reads_only s (readWord env s a).2 := by
  have e1 := readByte_no_read_cb env s (a % 65536) (by rw [Nat.mod_mod]; exact h1)
  have f1 := reads_only_fields e1.1
  have e2 := readByte_no_read_cb env (readByte env s (a % 65536)).2 (a % 65536 + 1)
    (by rw [f1.2.2.2.1]; exact h2)
  exact reads_only_trans e1.1 e2.1

/-- The instruction part of the step of JMP indirect, from the state left by the trace
block. -/
theorem jmp_ind_exec (env : CbEnv) (s : sim65s) (hop : s.mem (s.r.pc % 65536) = 0x6C)
    (h1 : s.cb_read (operand s % 65536) = none)
    (h2 : s.cb_read ((operand s % 65536 + 1) % 65536) = none) :
    (next_exec env (opcode_at s) (operand s) (next_fetch s).2.2).r =
      { s.r with pc := s.mem (operand s % 65536) % 256 +
        256 * (s.mem ((operand s % 65536 + 1) % 65536) % 256) } ∧
    (next_exec env (opcode_at s) (operand s) (next_fetch s).2.2).cycles =
      (s.cycles + 5) % 2 ^ 64 ∧
    (next_exec env (opcode_at s) (operand s) (next_fetch s).2.2).mem = s.mem := by
  have hins : opcode_at s = 0x6C := by unfold opcode_at; rw [hop]
  have hfe := next_fetch_err_only s
  rw [hins]
  generalize (next_fetch s).2.2 = sf at hfe
  generalize operand s = data at h1 h2 ⊢
  have hp := next_exec_prof_only env 0x6C data sf
  have hd : dispatch env 0x6C data (set_pc sf (sf.r.pc + ilen 0x6C)) =
      JMP16 env data (set_pc sf (sf.r.pc + 3)) := rfl
  rw [hd] at hp
  have hr3 : (set_pc sf (sf.r.pc + 3)).r = { s.r with pc := (s.r.pc + 3) % 65536 } := by
    rw [set_pc_r, err_only_r hfe]
  have hmem3 : (set_pc sf (sf.r.pc + 3)).mem = s.mem := by rw [set_pc_mem, err_only_mem hfe]
  have hc3 : (set_pc sf (sf.r.pc + 3)).cycles = s.cycles := by
    rw [set_pc_cycles, err_only_cycles hfe]
  have hcb3 : (set_pc sf (sf.r.pc + 3)).cb_read = s.cb_read := by
    show sf.cb_read = s.cb_read
    unfold err_only at hfe
    rw [hfe]
  generalize set_pc sf (sf.r.pc + 3) = s3 at *
  have hf := JMP16_no_read_cb env s3 data (by rw [hcb3]; exact h1) (by rw [hcb3]; exact h2)
  rw [hmem3, hc3, hr3] at hf
  rw [prof_only_r hp, prof_only_cycles hp, prof_only_mem hp]
  exact ⟨hf.1, hf.2.1, hf.2.2.1⟩

/-- C29. JMP indirect does not wrap within a page: for every 16-bit operand `a` (bytes
`6C lo hi`), the step sets PC to the byte at `a` + 256 * the byte at `(a+1) mod 65536`, so
for `a = $xxFF` the high byte comes from the first byte of the next page, and adds 5 cycles
(in 64 bits); A, X, Y, S, P and the value bytes are unchanged.  The bytes are the stored
ones: no read callback is installed at the two cells, and every value byte is below 256.
The step is one that reaches the dispatch: no execute callback at PC, cycle limit not
reached. -/
theorem jmp_indirect_no_page_wrap (env : CbEnv) (s : sim65s) (hb : mem_bytes s)
    (hcb : s.cb_exec s.r.pc = none) (hlim : limit_ok s)
    (hop : s.mem (s.r.pc % 65536) = 0x6C)
    (h1 : s.cb_read (operand s % 65536) = none)
    (h2 : s.cb_read ((operand s % 65536 + 1) % 65536) = none) :
    operand s = s.mem ((s.r.pc + 1) % 65536) + 256 * s.mem ((s.r.pc + 2) % 65536) ∧
    (next env s).r =
      { s.r with pc := s.mem (operand s % 65536) +
        256 * s.mem ((operand s % 65536 + 1) % 65536) } ∧
    (next env s).cycles = (s.cycles + 5) % 2 ^ 64 ∧
    (next env s).mem = s.mem := by
  have hins : opcode_at s = 0x6C := by unfold opcode_at; rw [hop]
  have hopd : operand s = s.mem ((s.r.pc + 1) % 65536) + 256 * s.mem ((s.r.pc + 2) % 65536) := by
    unfold operand
    rw [hins]
    have : ilen 0x6C > 2 := by decide
    rw [if_pos this, or_shl8 _ _ (by unfold operand1; exact Nat.mod_lt _ (by norm_num))]
    unfold operand1 operand2
    rw [Nat.mod_eq_of_lt (hb _), Nat.mod_eq_of_lt (hb _)]
    omega
  refine ⟨hopd, ?_⟩
  have hro : reads_only s (if s.debug ≥ sim65_debug_trace then sim65_print_reg env s else s) := by
    split
    · rw [print_reg_jmp_ind env s hop hb]
      exact readWord_no_read_cb env s (operand s) h1 h2
    · exact reads_only_refl s
  rw [next_no_cb env s hcb, next_body_unfold]
  generalize (if s.debug ≥ sim65_debug_trace then sim65_print_reg env s else s) = s1 at hro
  have hs1 : s1 = { s with error := s1.error, err_addr := s1.err_addr, mems := s1.mems } := hro
  have hmem : s1.mem = s.mem := by rw [hs1]
  have hr : s1.r = s.r := by rw [hs1]
  have hc : s1.cycles = s.cycles := by rw [hs1]
  have hcl : s1.cycle_limit = s.cycle_limit := by rw [hs1]
  have hcr : s1.cb_read = s.cb_read := by rw [hs1]
  have hl1 : ¬ (s1.cycle_limit ≠ 0 ∧ s1.cycles ≥ s1.cycle_limit) := by
    rw [hcl, hc]; exact hlim
  rw [if_neg hl1, next_fetch_ins, next_fetch_data]
  have hop1 : s1.mem (s1.r.pc % 65536) = 0x6C := by rw [hmem, hr]; exact hop
  have ho1 : operand s1 = operand s := by
    unfold operand opcode_at operand1 operand2
    rw [hmem, hr]
  have hf := jmp_ind_exec env s1 hop1 (by rw [ho1, hcr]; exact h1) (by rw [ho1, hcr]; exact h2)
  rw [ho1, hmem, hr, hc, Nat.mod_eq_of_lt (hb _), Nat.mod_eq_of_lt (hb _)] at hf
  rw [ho1]
  exact hf

theorem jmp_indirect_no_page_wrap_witness :
    jmp_ind_state.mem (jmp_ind_state.r.pc % 65536) = 0x6C ∧ operand jmp_ind_state = 0x12FF ∧
    jmp_ind_state.mem 0x12FF = 0x34 ∧ jmp_ind_state.mem 0x1300 = 0x56 ∧
    jmp_ind_state.mem 0x1200 = 0x78 ∧
    (next env_none jmp_ind_state).r.pc = 0x5634 ∧ (next env_none jmp_ind_state).cycles = 5 := by
  have hb0 : mem_bytes sim65_new := by
    intro c
    show (0 : Nat) < 256
    decide
  have hb1 : mem_bytes (sim65_add_data_ram (sim65_add_data_ram (sim65_add_data_ram sim65_new
      0x200 (bytes [0x6C, 0xFF, 0x12]) 3) 0x1200 (bytes [0x78]) 1) 0x12FF (bytes [0x34, 0x56]) 2) :=
    mem_bytes_add_data_ram _ _ _ _ (mem_bytes_add_data_ram _ _ _ _
      (mem_bytes_add_data_ram _ _ _ _ hb0))
  have hb : mem_bytes jmp_ind_state := fun a => hb1 a
  have h := jmp_indirect_no_page_wrap env_none jmp_ind_state hb (by decide) (by decide)
    (by decide) (by decide) (by decide)
  exact ⟨by decide, by decide, by decide, by decide, by decide,
    (congrArg sim65_reg.pc h.2.1).trans (by decide), h.2.2.1.trans (by decide)⟩

/-! ## `sim65_run` and `sim65_call` -/

theorem add_callback_exec_zero (x : sim65s) (cb : Option Nat) :
    sim65_add_callback x 0 cb sim65_cb_exec =
      { x with mems := Function.update x.mems 0 ((x.mems 0 ||| ms_callback) % 256),
               cb_exec := Function.update x.cb_exec 0 cb } := by
  unfold sim65_add_callback
  have h0 : ¬ (0 ≥ MAXRAM) := by decide
  have h1 : ¬ (sim65_cb_exec = sim65_cb_read) := by decide
  have h2 : ¬ (sim65_cb_exec = sim65_cb_write) := by decide
  simp only [if_neg h0, if_neg h1, if_neg h2, if_true]

theorem run_loop_step (env : CbEnv) (s : sim65s) (he : s.error = 0) (fuel : Nat) :
    run_loop env (fuel + 1) s = run_loop env fuel (next env s) := by
  have h0 : get_error_exit s = (0, s) := by
    unfold get_error_exit
    exact if_pos he
  show (if (get_error_exit s).1 ≠ 0 then some (get_error_exit s).2
    else run_loop env fuel (next env (get_error_exit s).2)) = _
  rw [h0]
  rfl

theorem do_rts_frame (env : CbEnv) (s : sim65s)
    (h1 : s.mems (0x100 + (s.r.s + 1) % 256) = 0) (h2 : s.mems (0x100 + (s.r.s + 2) % 256) = 0) :
    (do_rts env s).error = s.error ∧ (do_rts env s).err_addr = s.err_addr ∧
    (do_rts env s).cb_exec = s.cb_exec ∧ (do_rts env s).mems = s.mems ∧
    (do_rts env s).mem = s.mem ∧ (do_rts env s).errlvl = s.errlvl := by
  have e1 := POP_zero env s h1
  generalize s.mem (0x100 + (s.r.s + 1) % 256) % 256 = lo at *
  generalize hs1 : set_pc (set_s s ((s.r.s + 1) &&& 0xFF)) lo = s1
  have hs1S : s1.r.s = (s.r.s + 1) % 256 := by
    rw [← hs1, set_pc_r, set_s_r, and_0xFF]; simp only []; exact Nat.mod_mod _ _
  have hs1m : s1.mems = s.mems := by rw [← hs1, set_pc_mems, set_s_mems]
  have ea : 0x100 + (s1.r.s + 1) % 256 = 0x100 + (s.r.s + 2) % 256 := by rw [hs1S]; omega
  have e2 := POP_zero env s1 (by rw [ea, hs1m]; exact h2)
  generalize s1.mem (0x100 + (s1.r.s + 1) % 256) % 256 = hi at *
  unfold do_rts
  simp only
  rw [e1]
  simp only
  rw [hs1, e2]
  have hf : s1.error = s.error ∧ s1.err_addr = s.err_addr ∧ s1.cb_exec = s.cb_exec ∧
      s1.mem = s.mem ∧ s1.errlvl = s.errlvl := by
    rw [← hs1]; exact ⟨rfl, rfl, rfl, rfl, rfl⟩
  exact ⟨hf.1, hf.2.1, hf.2.2.1, hs1m, hf.2.2.2.1, hf.2.2.2.2⟩

/-- The step of RTS from initialised memory: what it leaves alone. -/
theorem next_rts_frame (env : CbEnv) (s : sim65s) (hcb : s.cb_exec s.r.pc = none)
    (hlim : limit_ok s) (hop : s.mem (s.r.pc % 65536) = 0x60)
    (hc0 : exec_clean s (s.r.pc % 65536))
    (h1 : s.mems (0x100 + (s.r.s + 1) % 256) = 0) (h2 : s.mems (0x100 + (s.r.s + 2) % 256) = 0) :
    (next env s).error = s.error ∧ (next env s).cb_exec = s.cb_exec ∧
    (next env s).mems = s.mems ∧ (next env s).mem = s.mem ∧
    (next env s).errlvl = s.errlvl := by
  have hins : opcode_at s = 0x60 := by unfold opcode_at; rw [hop]
  have htr : s.mem (s.r.pc % 65536) ∉ trace_read_ops := by rw [hop]; decide
  have hfe : (next_fetch s).2.2 = s :=
    next_fetch_clean s hc0 (fun h => absurd h (by rw [hins]; decide))
      (fun h => absurd h (by rw [hins]; decide))
  rw [next_eq_exec env s hcb hlim htr, hins, hfe]
  generalize operand s = data
  have hp := next_exec_prof_only env 0x60 data s
  have hd : dispatch env 0x60 data (set_pc s (s.r.pc + ilen 0x60)) =
      do_rts env (set_pc s (s.r.pc + 1)) := rfl
  rw [hd] at hp
  have hf := do_rts_frame env (set_pc s (s.r.pc + 1)) h1 h2
  have e1 : (next_exec env 0x60 data s).cb_exec = (do_rts env (set_pc s (s.r.pc + 1))).cb_exec := by
    rw [hp]
  have e2 : (next_exec env 0x60 data s).errlvl = (do_rts env (set_pc s (s.r.pc + 1))).errlvl := by
    rw [hp]
  exact ⟨(prof_only_error hp).trans hf.1, e1.trans hf.2.2.1, (prof_only_mems hp).trans hf.2.2.2.1,
    (prof_only_mem hp).trans hf.2.2.2.2.1, e2.trans hf.2.2.2.2.2⟩

/-- The step at an address whose execute slot holds the return callback: it latches CALL_RET
there and returns before anything else. -/
theorem next_rts_callback (env : CbEnv)
    (henv : env sim65_rts_callback_id = sim65_rts_callback) (s : sim65s) (he : s.error = 0)
    (hcb : s.cb_exec s.r.pc = some sim65_rts_callback_id) :
    next env s = { s with error := sim65_err_call_ret, err_addr := s.r.pc % 65536 } := by
  have hx := exit_always { s with error := sim65_err_call_ret, err_addr := s.r.pc % 65536 }
    (Or.inr (Or.inr (Or.inr (Or.inl rfl))))
  unfold next
  rw [hcb]
  simp only [henv]
  have e : set_error (sim65_rts_callback s s.r.pc sim65_cb_exec).2
      (sim65_rts_callback s s.r.pc sim65_cb_exec).1 s.r.pc =
      { s with error := sim65_err_call_ret, err_addr := s.r.pc % 65536 } :=
    set_error_latch s sim65_err_call_ret s.r.pc (by decide) he
  rw [e, if_pos hx.1, hx.2]


theorem call_run_entry_fields (A : sim65s) (addr : Nat) :
    (run_entry (set_pc (push_result (push_result (set_pc A (sub32 A.r.pc 1 &&& 0xFFFF))
      (65535 >>> 8)) 65535) addr) none addr).r =
      { A.r with pc := addr % 65536, s := (255 + (255 + A.r.s) % 256) % 256 } ∧
    (run_entry (set_pc (push_result (push_result (set_pc A (sub32 A.r.pc 1 &&& 0xFFFF))
      (65535 >>> 8)) 65535) addr) none addr).error = 0 ∧
    (run_entry (set_pc (push_result (push_result (set_pc A (sub32 A.r.pc 1 &&& 0xFFFF))
      (65535 >>> 8)) 65535) addr) none addr).mem =
      Function.update (Function.update A.mem (0x100 + A.r.s) (65535 >>> 8 % 256))
        (0x100 + (255 + A.r.s) % 256) (65535 % 256) ∧
    (run_entry (set_pc (push_result (push_result (set_pc A (sub32 A.r.pc 1 &&& 0xFFFF))
      (65535 >>> 8)) 65535) addr) none addr).mems =
      Function.update (Function.update A.mems (0x100 + A.r.s) 0)
        (0x100 + (255 + A.r.s) % 256) 0 ∧
    (run_entry (set_pc (push_result (push_result (set_pc A (sub32 A.r.pc 1 &&& 0xFFFF))
      (65535 >>> 8)) 65535) addr) none addr).cb_exec = A.cb_exec ∧
    (run_entry (set_pc (push_result (push_result (set_pc A (sub32 A.r.pc 1 &&& 0xFFFF))
      (65535 >>> 8)) 65535) addr) none addr).cycles = ((A.cycles + 3) % 2 ^ 64 + 3) % 2 ^ 64 ∧
    (run_entry (set_pc (push_result (push_result (set_pc A (sub32 A.r.pc 1 &&& 0xFFFF))
      (65535 >>> 8)) 65535) addr) none addr).cycle_limit = A.cycle_limit :=
  ⟨rfl, rfl, rfl, rfl, rfl, rfl, rfl⟩

/-- The run of `sim65_call` on a target that holds RTS: the call returns 0 from the state in
which the return callback has latched CALL_RET, with PC and the error slot reset. -/
theorem call_rts_run (env : CbEnv) (henv : env sim65_rts_callback_id = sim65_rts_callback)
    (s : sim65s) (regs : Option sim65_reg) (addr fuel : Nat)
    (hS : (call_entry s regs).r.s < 256) (ht : addr % 65536 ≠ 0)
    (hop : (call_entry s regs).mem (addr % 65536) = 0x60)
    (hc0 : exec_clean (call_entry s regs) (addr % 65536))
    (h1 : plain_ram (call_entry s regs) (0x100 + (call_entry s regs).r.s))
    (h2 : plain_ram (call_entry s regs) (0x100 + (255 + (call_entry s regs).r.s) % 256))
    (hn1 : addr % 65536 ≠ 0x100 + (call_entry s regs).r.s)
    (hn2 : addr % 65536 ≠ 0x100 + (255 + (call_entry s regs).r.s) % 256)
    (hcb : (call_entry s regs).cb_exec (addr % 65536) = none)
    (hlim : (call_entry s regs).cycle_limit = 0 ∨
      ((call_entry s regs).cycles + 6) % 2 ^ 64 < (call_entry s regs).cycle_limit) :
    ∃ t, sim65_call env (fuel + 3) s regs addr = some (0, t) ∧ t.error = 0 ∧
      t.r.pc = (call_entry s regs).r.pc % 65536 ∧ t.r.s = (call_entry s regs).r.s ∧
      t.r.a = (call_entry s regs).r.a ∧ t.r.x = (call_entry s regs).r.x ∧
      t.r.y = (call_entry s regs).r.y ∧ t.r.p = (call_entry s regs).r.p ∧
      t.cycles = ((call_entry s regs).cycles + 12) % 2 ^ 64 ∧
      t.cb_exec 0 = some sim65_rts_callback_id ∧
      t.mems 0 = ((call_entry s regs).mems 0 ||| ms_callback) % 256 := by
  have hcall : sim65_call env (fuel + 3) s regs addr =
      match (run_loop env (fuel + 3)
        (run_entry (do_jsr env (sim65_add_callback (set_pc (call_entry s regs) 0) 0
          (some sim65_rts_callback_id) sim65_cb_exec) addr) none addr)).map
          (fun t => (t.error, t)) with
      | none => none
      | some (err, t) =>
        if err = sim65_err_call_ret then
          some (sim65_err_none,
            { set_pc t (call_entry s regs).r.pc with error := sim65_err_none })
        else some (err, t) := rfl
  generalize call_entry s regs = s0 at *
  rw [add_callback_exec_zero] at hcall
  generalize hA : ({ set_pc s0 0 with
      mems := Function.update (set_pc s0 0).mems 0 (((set_pc s0 0).mems 0 ||| ms_callback) % 256),
      cb_exec := Function.update (set_pc s0 0).cb_exec 0 (some sim65_rts_callback_id) } :
      sim65s) = A at hcall
  have hAr : A.r = { s0.r with pc := 0 } := by rw [← hA]; rfl
  have hAm : A.mems = Function.update s0.mems 0 ((s0.mems 0 ||| ms_callback) % 256) := by
    rw [← hA]; rfl
  have hAmem : A.mem = s0.mem := by rw [← hA]; rfl
  have hAcb : A.cb_exec = Function.update s0.cb_exec 0 (some sim65_rts_callback_id) := by
    rw [← hA]; rfl
  have hAc : A.cycles = s0.cycles ∧ A.cycle_limit = s0.cycle_limit ∧ A.debug = s0.debug := by
    rw [← hA]; exact ⟨rfl, rfl, rfl⟩
  have hAS : A.r.s = s0.r.s := by rw [hAr]
  have hp1 : plain_ram A (0x100 + A.r.s) := by
    unfold plain_ram at h1 ⊢
    rw [hAS, hAm, Function.update_noteq (by omega)]; exact h1
  have hp2 : plain_ram A (0x100 + (255 + A.r.s) % 256) := by
    unfold plain_ram at h2 ⊢
    rw [hAS, hAm, Function.update_noteq (by omega)]; exact h2
  have hB := do_jsr_plain env A addr (by rw [hAS]; exact hS) hp1 hp2
  have hApc : (set_pc A (sub32 A.r.pc 1 &&& 0xFFFF)).r.pc = 65535 := by
    rw [set_pc_r, hAr]
    show (sub32 0 1 &&& 0xFFFF) % 65536 = 65535
    decide
  rw [hApc] at hB
  rw [hB] at hcall
  have hF := call_run_entry_fields A addr
  generalize run_entry (set_pc (push_result (push_result (set_pc A (sub32 A.r.pc 1 &&& 0xFFFF))
      (65535 >>> 8)) 65535) addr) none addr = C at hcall hF
  rw [hAS, hAmem, hAm, hAcb, hAc.1, hAc.2.1, hAr] at hF
  obtain ⟨hCr0, hCe, hCmem, hCm, hCcb, hCc, hCl⟩ := hF
  have hCr : C.r = { s0.r with pc := addr % 65536, s := (254 + s0.r.s) % 256 } := by
    have e : (255 + (255 + s0.r.s) % 256) % 256 = (254 + s0.r.s) % 256 := by omega
    rw [hCr0, e]
  have hCpc : C.r.pc = addr % 65536 := by rw [hCr]
  have hCS : C.r.s = (254 + s0.r.s) % 256 := by rw [hCr]
  -- the RTS step
  have k1 : C.cb_exec C.r.pc = none := by
    rw [hCpc, hCcb, Function.update_noteq ht]; exact hcb
  have k2 : limit_ok C := by
    unfold limit_ok
    rw [hCl, hCc]
    rcases hlim with h | h
    · intro ⟨h0, _⟩; exact h0 h
    · intro ⟨_, h0⟩; omega
  have k3 : C.mem (C.r.pc % 65536) = 0x60 := by
    rw [hCpc, Nat.mod_mod, hCmem, Function.update_noteq hn2, Function.update_noteq hn1]
    exact hop
  have k4 : exec_clean C (C.r.pc % 65536) := by
    unfold exec_clean at hc0 ⊢
    rw [hCpc, Nat.mod_mod, hCm, Function.update_noteq hn2, Function.update_noteq hn1,
      Function.update_noteq ht]
    exact hc0
  have a1 : 0x100 + (C.r.s + 1) % 256 = 0x100 + (255 + s0.r.s) % 256 := by rw [hCS]; omega
  have a2 : 0x100 + (C.r.s + 2) % 256 = 0x100 + s0.r.s := by rw [hCS]; omega
  have k5 : C.mems (0x100 + (C.r.s + 1) % 256) = 0 := by
    rw [a1, hCm, Function.update_same]
  have k6 : C.mems (0x100 + (C.r.s + 2) % 256) = 0 := by
    rw [a2, hCm, Function.update_noteq (by omega), Function.update_same]
  have hv := next_rts env C k1 k2 k3 k5 k6
  have hf := next_rts_frame env C k1 k2 k3 k4 k5 k6
  rw [a1, a2, hCmem, Function.update_same, Function.update_noteq (by omega),
    Function.update_same, hCS, hCc] at hv
  generalize hD : next env C = D at hv hf
  have hDpc : D.r.pc = 0 := by rw [hv.1]; decide
  have hDe : D.error = 0 := by rw [hf.1]; exact hCe
  have hDcb : D.cb_exec D.r.pc = some sim65_rts_callback_id := by
    rw [hDpc, hf.2.1, hCcb, Function.update_same]
  have hE := next_rts_callback env henv D hDe hDcb
  have hx := exit_always { D with error := sim65_err_call_ret, err_addr := D.r.pc % 65536 }
    (Or.inr (Or.inr (Or.inr (Or.inl rfl))))
  have hrun : run_loop env (fuel + 3) C =
      some { D with error := sim65_err_call_ret, err_addr := D.r.pc % 65536 } := by
    rw [run_loop_step env C hCe (fuel + 2), hD,
      run_loop_exit_after env D hDe (by rw [hE]; exact hx) fuel, hE]
  rw [hrun] at hcall
  refine ⟨{ set_pc { D with error := sim65_err_call_ret, err_addr := D.r.pc % 65536 } s0.r.pc
      with error := sim65_err_none }, hcall.trans rfl, rfl, rfl, ?_, ?_, ?_, ?_, ?_, ?_, ?_, ?_⟩
  · show D.r.s = s0.r.s
    rw [hv.2.1]; omega
  · show D.r.a = s0.r.a
    rw [hv.2.2.2.1, hCr]
  · show D.r.x = s0.r.x
    rw [hv.2.2.2.2.1, hCr]
  · show D.r.y = s0.r.y
    rw [hv.2.2.2.2.2.1, hCr]
  · show D.r.p = s0.r.p
    rw [hv.2.2.2.2.2.2, hCr]
  · show D.cycles = _
    rw [hv.2.2.1]; omega
  · show D.cb_exec 0 = _
    rw [hf.2.1, hCcb, Function.update_same]
  · show D.mems 0 = _
    rw [hf.2.2.1, hCm, Function.update_noteq (by omega), Function.update_noteq (by omega),
      Function.update_same]


/-- C24, the claim as stated fails.  A call of address 0 whose byte is RTS (`60`) in
initialised memory, with the two stack cells `$01FF` and `$01FE` plain RAM: the execute
callback that `sim65_call` has installed at address 0, its return address, fires before the
RTS is fetched.  The call returns 0 with PC restored, but S is `$FD` instead of `$FF` (the
two pushes are not pulled) and the cycle counter has advanced by 6, not 12. -/
theorem call_of_address_zero :
    call_zero_state.mem 0 = 0x60 ∧ exec_clean call_zero_state 0 ∧
    call_zero_state.r.s = 0xFF ∧ plain_ram call_zero_state 0x1FF ∧
    plain_ram call_zero_state 0x1FE ∧ call_zero_state.cycles = 0 ∧
    (sim65_call env_rts 3 call_zero_state none 0).map
      (fun x => (x.1, x.2.r.pc, x.2.r.s, x.2.cycles)) = some (0, 0x200, 0xFD, 6) := by
  refine ⟨?_, ?_, ?_, ?_, ?_, ?_, ?_⟩ <;> decide

/-- C24, amended.  `sim65_call` returns through the matching RTS: when the target is not
address 0 and not one of the two stack cells, its byte is RTS (`60`) in initialised memory
without execute callback, the two stack cells `0x100+S` and `0x100+((S-1) mod 256)` are plain
RAM, and the cycle limit does not stop the RTS, then with enough fuel for three evaluations
of the loop condition `sim65_call` returns NONE (0) with the error slot cleared, PC restored
to the caller's PC from before the call, S, A, X, Y and P unchanged, and the cycle counter
increased by exactly 12 (in 64 bits).  The registers are those after the optional copy of
`regs`; the environment holds `sim65_rts_callback` under its identifier. -/
theorem call_returns_through_rts (env : CbEnv)
    (henv : env sim65_rts_callback_id = sim65_rts_callback)
    (s : sim65s) (regs : Option sim65_reg) (addr fuel : Nat)
    (hS : (call_entry s regs).r.s < 256) (ht : addr % 65536 ≠ 0)
    (hop : (call_entry s regs).mem (addr % 65536) = 0x60)
    (hc0 : exec_clean (call_entry s regs) (addr % 65536))
    (h1 : plain_ram (call_entry s regs) (0x100 + (call_entry s regs).r.s))
    (h2 : plain_ram (call_entry s regs) (0x100 + (255 + (call_entry s regs).r.s) % 256))
    (hn1 : addr % 65536 ≠ 0x100 + (call_entry s regs).r.s)
    (hn2 : addr % 65536 ≠ 0x100 + (255 + (call_entry s regs).r.s) % 256)
    (hcb : (call_entry s regs).cb_exec (addr % 65536) = none)
    (hlim : (call_entry s regs).cycle_limit = 0 ∨
      ((call_entry s regs).cycles + 6) % 2 ^ 64 < (call_entry s regs).cycle_limit) :
    ∃ t, sim65_call env (fuel + 3) s regs addr = some (sim65_err_none, t) ∧
      t.error = sim65_err_none ∧
      t.r.pc = (call_entry s regs).r.pc % 65536 ∧ t.r.s = (call_entry s regs).r.s ∧
      t.r.a = (call_entry s regs).r.a ∧ t.r.x = (call_entry s regs).r.x ∧
      t.r.y = (call_entry s regs).r.y ∧ t.r.p = (call_entry s regs).r.p ∧
      t.cycles = ((call_entry s regs).cycles + 12) % 2 ^ 64 := by
  obtain ⟨t, g1, g2, g3, g4, g5, g6, g7, g8, g9, _, _⟩ :=
    call_rts_run env henv s regs addr fuel hS ht hop hc0 h1 h2 hn1 hn2 hcb hlim
  exact ⟨t, g1, g2, g3, g4, g5, g6, g7, g8, g9⟩

theorem call_returns_through_rts_witness :
    call_state.mem 0x300 = 0x60 ∧ call_state.r.s = 0xFF ∧ call_state.r.pc = 0x200 ∧
    call_state.cycles = 0 ∧
    ∃ t, sim65_call env_rts 3 call_state none 0x300 = some (sim65_err_none, t) ∧
      t.error = sim65_err_none ∧
      t.r.pc = (call_entry call_state none).r.pc % 65536 ∧
      t.r.s = (call_entry call_state none).r.s ∧
      t.r.a = (call_entry call_state none).r.a ∧ t.r.x = (call_entry call_state none).r.x ∧
      t.r.y = (call_entry call_state none).r.y ∧ t.r.p = (call_entry call_state none).r.p ∧
      t.cycles = ((call_entry call_state none).cycles + 12) % 2 ^ 64 :=
  ⟨by decide, by decide, by decide, by decide,
    call_returns_through_rts env_rts rfl call_state none 0x300 0 (by decide) (by decide)
      (by decide) (by decide) (by decide) (by decide) (by decide) (by decide) (by decide)
      (by decide)⟩


theorem callback_bit_not_clean (m : Nat) (h : m &&& ms_callback ≠ 0) :
    m &&& not8 ms_rom ≠ 0 ∧ m ≠ 0 := by
  have h3 : m.testBit 3 = true := (and_two_pow_ne_zero m 3).1 h
  have h4 : (m &&& not8 ms_rom).testBit 3 = true := by
    rw [Nat.testBit_and, h3, testBit_not8]
    decide
  refine ⟨?_, ?_⟩
  · intro h0
    rw [h0] at h4
    simp at h4
  · intro h0
    rw [h0] at h3
    simp at h3

theorem callback_bit_not_plain (m : Nat) (h : m &&& ms_callback ≠ 0) :
    m &&& not8 ms_invalid ≠ 0 ∧ (m &&& not8 ms_invalid) &&& ms_callback ≠ 0 := by
  have h3 : m.testBit 3 = true := (and_two_pow_ne_zero m 3).1 h
  have h4 : (m &&& not8 ms_invalid).testBit 3 = true := by
    rw [Nat.testBit_and, h3, testBit_not8]
    decide
  refine ⟨?_, (and_two_pow_ne_zero _ 3).2 h4⟩
  intro h0
  rw [h0] at h4
  simp at h4

theorem set_error_cb_exec (s : sim65s) (e : Int) (a : Nat) :
    (set_error s e a).cb_exec = s.cb_exec := by
  unfold set_error; split <;> rfl

theorem get_error_exit_cb_exec (s : sim65s) : (get_error_exit s).2.cb_exec = s.cb_exec := by
  unfold get_error_exit
  simp only
  split_ifs <;> rfl

theorem rts_installed_congr {s t : sim65s} (h1 : t.cb_exec = s.cb_exec) (h2 : t.mems = s.mems)
    (h : rts_installed s) : rts_installed t := by
  unfold rts_installed at h ⊢
  rw [h1, h2]; exact h

theorem steps_rts_installed {env : CbEnv} (hk : keeps_rts env) {b : Bool} {s t : sim65s}
    (h : Steps env b s t) : rts_installed s → rts_installed t := by
  induction h with
  | refl s => exact id
  | trans _ _ ih1 ih2 => exact fun h => ih2 (ih1 h)
  | flags s m v => exact rts_installed_congr rfl rfl
  | regs s r h => exact rts_installed_congr rfl rfl
  | cycles s n => exact rts_installed_congr rfl rfl
  | prof s p => exact rts_installed_congr rfl rfl
  | error s e a => exact rts_installed_congr (set_error_cb_exec s e a) (set_error_mem s e a).2
  | clear_invalid s a h =>
    intro hi
    refine ⟨hi.1, ?_⟩
    show Function.update s.mems a (s.mems a &&& not8 ms_invalid) 0 &&& ms_callback ≠ 0
    by_cases ha : (0 : Nat) = a
    · subst ha
      rw [Function.update_same]
      exact (callback_bit_not_plain _ hi.2).2
    · rw [Function.update_noteq ha]
      exact hi.2
  | store s a v h =>
    intro hi
    refine ⟨hi.1, ?_⟩
    show Function.update s.mems a 0 0 &&& ms_callback ≠ 0
    by_cases ha : (0 : Nat) = a
    · subst ha
      exact absurd h (callback_bit_not_plain _ hi.2).1
    · rw [Function.update_noteq ha]
      exact hi.2
  | callback cb s a d h => exact hk cb s a d
  | bit_unknown s a h _ _ => exact rts_installed_congr rfl rfl

theorem next_rts_installed {env : CbEnv} (hk : keeps_rts env) (s : sim65s)
    (h : rts_installed s) : rts_installed (next env s) := by
  have hp : rts_installed (next_prologue env s) := by
    unfold next_prologue
    split
    · exact rts_installed_congr
        ((get_error_exit_cb_exec _).trans (set_error_cb_exec _ _ _))
        ((get_error_exit_mem _).2.trans (set_error_mem _ _ _).2) (hk _ _ _ _ h)
    · exact h
  by_cases he : next_returns_early env s
  · rw [(next_cases env s).1 he]; exact hp
  · rw [(next_cases env s).2 he]
    have hs : Steps env true (next_prologue env s) (next_body env (next_prologue env s)) :=
      steps_next_body_of _ (Or.inl rfl)
    exact steps_rts_installed hk hs hp

theorem run_loop_rts_installed {env : CbEnv} (hk : keeps_rts env) (fuel : Nat) :
    ∀ (s t : sim65s), rts_installed s → run_loop env fuel s = some t → rts_installed t := by
  induction fuel with
  | zero =>
    intro s t _ h
    exact absurd h (by show (none : Option sim65s) ≠ some t; simp)
  | succ n ih =>
    intro s t hs h
    have hg : rts_installed (get_error_exit s).2 :=
      rts_installed_congr (get_error_exit_cb_exec s) (get_error_exit_mem s).2 hs
    have hstep : run_loop env (n + 1) s =
        if (get_error_exit s).1 ≠ 0 then some (get_error_exit s).2
        else run_loop env n (next env (get_error_exit s).2) := rfl
    rw [hstep] at h
    by_cases hx : (get_error_exit s).1 ≠ 0
    · rw [if_pos hx] at h
      rw [← Option.some.inj h]; exact hg
    · rw [if_neg hx] at h
      exact ih _ t (next_rts_installed hk _ hg) h

theorem call_rts_installed {env : CbEnv} (hk : keeps_rts env) (fuel : Nat) (s : sim65s)
    (regs : Option sim65_reg) (addr : Nat) (e : Int) (t : sim65s)
    (h : sim65_call env fuel s regs addr = some (e, t)) : rts_installed t := by
  have hcall : sim65_call env fuel s regs addr =
      match (run_loop env fuel
        (run_entry (do_jsr env (sim65_add_callback (set_pc (call_entry s regs) 0) 0
          (some sim65_rts_callback_id) sim65_cb_exec) addr) none addr)).map
          (fun t => (t.error, t)) with
      | none => none
      | some (err, t) =>
        if err = sim65_err_call_ret then
          some (sim65_err_none,
            { set_pc t (call_entry s regs).r.pc with error := sim65_err_none })
        else some (err, t) := rfl
  rw [hcall] at h
  have hA : rts_installed (sim65_add_callback (set_pc (call_entry s regs) 0) 0
      (some sim65_rts_callback_id) sim65_cb_exec) := by
    rw [add_callback_exec_zero]
    have c1 : Function.update (set_pc (call_entry s regs) 0).cb_exec 0
        (some sim65_rts_callback_id) 0 = some sim65_rts_callback_id :=
      Function.update_same _ _ _
    refine ⟨c1, ?_⟩
    show Function.update (call_entry s regs).mems 0
      (((call_entry s regs).mems 0 ||| ms_callback) % 256) 0 &&& ms_callback ≠ 0
    rw [Function.update_same]
    apply (and_two_pow_ne_zero _ 3).2
    rw [show (256 : Nat) = 2 ^ 8 from rfl, Nat.testBit_mod_two_pow, Nat.testBit_or]
    have : ms_callback.testBit 3 = true := by decide
    rw [this]
    simp
  have hB : rts_installed (do_jsr env (sim65_add_callback (set_pc (call_entry s regs) 0) 0
      (some sim65_rts_callback_id) sim65_cb_exec) addr) :=
    steps_rts_installed hk (steps_JSR addr _ : Steps env true _ _) hA
  generalize do_jsr env (sim65_add_callback (set_pc (call_entry s regs) 0) 0
      (some sim65_rts_callback_id) sim65_cb_exec) addr = B at h hB
  have hC : rts_installed (run_entry B none addr) := ⟨hB.1, hB.2⟩
  generalize run_entry B none addr = C at h hC
  cases hr : run_loop env fuel C with
  | none =>
    rw [hr] at h
    exact absurd h (by show (none : Option (Int × sim65s)) ≠ some (e, t); simp)
  | some u =>
    rw [hr] at h
    have hu := run_loop_rts_installed hk fuel C u hC hr
    have h' : (if u.error = sim65_err_call_ret then
        some (sim65_err_none, { set_pc u (call_entry s regs).r.pc with error := sim65_err_none })
        else some (u.error, u)) = some (e, t) := h
    by_cases hc : u.error = sim65_err_call_ret
    · rw [if_pos hc] at h'
      have := (Prod.mk.inj (Option.some.inj h')).2
      rw [← this]
      exact ⟨hu.1, hu.2⟩
    · rw [if_neg hc] at h'
      have := (Prod.mk.inj (Option.some.inj h')).2
      rw [← this]
      exact hu


/-- C25, the claim as stated fails.  In the call scenario address 0 is zeroed RAM without
callback: a CPU write of `$55` to it stores the byte and a CPU read latches nothing.  After
`sim65_call` has returned 0, the execute slot of address 0 still holds the return callback
and the status byte of address 0 is CALLBACK (8) instead of 0; the same CPU write now
leaves the byte 0 and the same CPU read latches READ_UNINIT. -/
theorem call_callback_not_removed :
    call_state.cb_exec 0 = none ∧ call_state.mems 0 = 0 ∧
    (writeByte env_rts call_state 0 0x55).mem 0 = 0x55 ∧
    (readByte env_rts call_state 0).2.error = sim65_err_none ∧
    (sim65_call env_rts 3 call_state none 0x300).map (fun x => (x.1, x.2.mems 0)) =
      some (sim65_err_none, ms_callback) ∧
    (sim65_call env_rts 3 call_state none 0x300).map (fun x => x.2.cb_exec 0) =
      some (some sim65_rts_callback_id) ∧
    (sim65_call env_rts 3 call_state none 0x300).map
      (fun x => ((writeByte env_rts x.2 0 0x55).mem 0, (readByte env_rts x.2 0).2.error)) =
      some (0, sim65_err_read_uninit) := by
  refine ⟨?_, ?_, ?_, ?_, ?_, ?_, ?_⟩ <;> decide

theorem rts_installed_slow (env : CbEnv) (t : sim65s) (h : rts_installed t) :
    readByte env t 0 = ((readByte_slow env t 0).1 % 256, (readByte_slow env t 0).2) ∧
    ∀ v, writeByte env t 0 v = writeByte_slow env t 0 (v % 256) := by
  have hb : t.mems (0 % 65536) &&& ms_callback ≠ 0 := h.2
  refine ⟨?_, fun v => ?_⟩
  · unfold readByte
    simp only [if_neg (callback_bit_not_clean _ hb).1]
  · unfold writeByte
    simp only [if_neg (callback_bit_not_clean _ hb).2]

/-- C25, amended.  The execute callback that `sim65_call` installs at address 0x0000 stays
installed: whenever `sim65_call` returns, with whatever result, the execute slot of address
0 holds the return callback and the status byte of address 0 has CALLBACK set, whatever they
were before the call, so that a later CPU read of address 0 is the one of `readByte_slow` and
a later CPU write the one of `writeByte_slow`; and in the situation of C24 the call does
return, with the status byte of address 0 equal to the one before the call with CALLBACK
added.  The callbacks of the environment are assumed not to remove the return callback
themselves. -/
theorem call_callback_persists (env : CbEnv)
    (henv : env sim65_rts_callback_id = sim65_rts_callback) (hk : keeps_rts env) :
    (∀ (fuel : Nat) (s : sim65s) (regs : Option sim65_reg) (addr : Nat) (e : Int) (t : sim65s),
      sim65_call env fuel s regs addr = some (e, t) →
      rts_installed t ∧
      readByte env t 0 = ((readByte_slow env t 0).1 % 256, (readByte_slow env t 0).2) ∧
      ∀ v, writeByte env t 0 v = writeByte_slow env t 0 (v % 256)) ∧
    (∀ (s : sim65s) (regs : Option sim65_reg) (addr fuel : Nat),
      (call_entry s regs).r.s < 256 → addr % 65536 ≠ 0 →
      (call_entry s regs).mem (addr % 65536) = 0x60 →
      exec_clean (call_entry s regs) (addr % 65536) →
      plain_ram (call_entry s regs) (0x100 + (call_entry s regs).r.s) →
      plain_ram (call_entry s regs) (0x100 + (255 + (call_entry s regs).r.s) % 256) →
      addr % 65536 ≠ 0x100 + (call_entry s regs).r.s →
      addr % 65536 ≠ 0x100 + (255 + (call_entry s regs).r.s) % 256 →
      (call_entry s regs).cb_exec (addr % 65536) = none →
      ((call_entry s regs).cycle_limit = 0 ∨
        ((call_entry s regs).cycles + 6) % 2 ^ 64 < (call_entry s regs).cycle_limit) →
      ∃ t, sim65_call env (fuel + 3) s regs addr = some (sim65_err_none, t) ∧
        t.cb_exec 0 = some sim65_rts_callback_id ∧
        t.mems 0 = ((call_entry s regs).mems 0 ||| ms_callback) % 256) := by
  refine ⟨fun fuel s regs addr e t h =>
    ⟨call_rts_installed hk fuel s regs addr e t h,
      rts_installed_slow env t (call_rts_installed hk fuel s regs addr e t h)⟩, ?_⟩
  intro s regs addr fuel hS ht hop hc0 h1 h2 hn1 hn2 hcb hlim
  obtain ⟨t, g1, _, _, _, _, _, _, _, _, g10, g11⟩ :=
    call_rts_run env henv s regs addr fuel hS ht hop hc0 h1 h2 hn1 hn2 hcb hlim
  exact ⟨t, g1, g10, g11⟩

theorem call_callback_persists_witness :
    call_state.cb_exec 0 = none ∧ call_state.mems 0 = 0 ∧
    ∃ t, sim65_call env_rts 3 call_state none 0x300 = some (sim65_err_none, t) ∧
      t.cb_exec 0 = some sim65_rts_callback_id ∧
      t.mems 0 = ((call_entry call_state none).mems 0 ||| ms_callback) % 256 :=
  ⟨by decide, by decide,
    (call_callback_persists env_rts rfl (fun _ _ _ _ h => h)).2 call_state none 0x300 0
      (by decide) (by decide) (by decide) (by decide) (by decide) (by decide) (by decide)
      (by decide) (by decide) (by decide)⟩

/-- C26, at the failing input.  `sim65_run` with a null `regs` enters its loop with the
registers the state already holds, only PC is set: on a fresh machine S is `$FF` and P is
`$34`, not 0, and they are still so when a BRK at the start address ends the run; after a
first run has loaded `$42` into A, a second run with null `regs` starts with A = `$42`. -/
theorem run_null_keeps_registers :
    (∀ (env : CbEnv) (fuel : Nat) (s : sim65s) (addr : Nat),
      sim65_run env fuel s none addr =
        (run_loop env fuel (run_entry s none addr)).map (fun t => (t.error, t))) ∧
    (∀ (s : sim65s) (addr : Nat), (run_entry s none addr).r = { s.r with pc := addr % 65536 }) ∧
    (run_entry sim65_new none 0x200).r.s = 0xFF ∧ (run_entry sim65_new none 0x200).r.p = 0x34 ∧
    (sim65_run env_none 2 brk_state none 0x200).map (fun x => (x.1, x.2.r.a, x.2.r.s, x.2.r.p)) =
      some (sim65_err_break, 0, 0xFF, 0x34) ∧
    (sim65_run env_none 3 lda_state none 0x200).map
      (fun x => (x.2.r.a, (run_entry x.2 none 0x200).r.a)) = some (0x42, 0x42) := by
  refine ⟨fun _ _ _ _ => rfl, fun _ _ => rfl, ?_, ?_, ?_, ?_⟩ <;> decide

/-! ## Errors returned by callbacks -/

theorem readByte_callback (env : CbEnv) (w : sim65s) (a cb : Nat)
    (hbit : w.mems (a % 65536) &&& ms_callback ≠ 0) (hcb : w.cb_read (a % 65536) = some cb) :
    (readByte env w a).2 =
      set_error (env cb w (a % 65536) sim65_cb_read).2 (env cb w (a % 65536) sim65_cb_read).1
        (a % 65536) := by
  unfold readByte
  simp only [if_neg (callback_bit_not_clean _ hbit).1]
  unfold readByte_slow
  simp only [if_pos hbit, hcb]

theorem writeByte_callback (env : CbEnv) (w : sim65s) (a v cb : Nat)
    (hbit : w.mems (a % 65536) &&& ms_callback ≠ 0) (hcb : w.cb_write (a % 65536) = some cb) :
    writeByte env w a v =
      set_error (env cb w (a % 65536) ((v % 256 : Nat) : Int)).2
        (env cb w (a % 65536) ((v % 256 : Nat) : Int)).1 (a % 65536) := by
  unfold writeByte
  simp only [if_neg (callback_bit_not_clean _ hbit).2]
  unfold writeByte_slow
  simp only [if_neg (callback_bit_not_plain _ hbit).1, if_pos hbit, hcb]

theorem next_exec_callback (env : CbEnv) (s : sim65s) (cb : Nat)
    (hcb : s.cb_exec s.r.pc = some cb) :
    next env s =
      if (get_error_exit (set_error (env cb s s.r.pc sim65_cb_exec).2
          (env cb s s.r.pc sim65_cb_exec).1 s.r.pc)).1 ≠ 0 then
        (get_error_exit (set_error (env cb s s.r.pc sim65_cb_exec).2
          (env cb s s.r.pc sim65_cb_exec).1 s.r.pc)).2
      else next_body env (get_error_exit (set_error (env cb s s.r.pc sim65_cb_exec).2
          (env cb s s.r.pc sim65_cb_exec).1 s.r.pc)).2 := by
  unfold next
  rw [hcb]

theorem latched_exit (env : CbEnv) (hk : keeps_errors env) (x : sim65s) (e : Int) (a : Nat)
    (he : e < 0) (hx : x.error = e ∧ x.err_addr = a) (hl : is_errlvl x.errlvl) :
    ∀ (b : Bool) (t : sim65s), Steps env b x t →
      t.error = e ∧ t.err_addr = a ∧ t.errlvl = x.errlvl ∧
      ((get_error_exit t).1 ≠ 0 ↔ exits_at x.errlvl e) ∧
      (exits_at x.errlvl e → ∀ fuel, run_loop env (fuel + 1) t = some t) ∧
      (¬ exits_at x.errlvl e → (get_error_exit t).2 = { t with error := sim65_err_none }) := by
  intro b t hs
  have hp := steps_keep_error hk hs
  have h1 := hp.2 (by rw [hx.1]; omega)
  have hte : t.error = e := h1.1.trans hx.1
  have hlt : is_errlvl t.errlvl := by rw [hp.1]; exact hl
  refine ⟨hte, h1.2.trans hx.2, hp.1, ?_, ?_, ?_⟩
  · rcases get_error_exit_cases t hlt with ⟨c1, c2, _⟩ | ⟨c1, c2, _⟩
    · rw [hp.1, hte] at c1
      exact ⟨fun _ => c1, fun _ => c2⟩
    · rw [hp.1, hte] at c1
      exact ⟨fun h => absurd c2 h, fun h => absurd h c1⟩
  · intro hex fuel
    rcases get_error_exit_cases t hlt with ⟨_, c2, c3⟩ | ⟨c1, _, _⟩
    · exact run_loop_exit_now env t ⟨c2, c3⟩ fuel
    · rw [hp.1, hte] at c1
      exact absurd hex c1
  · intro hex
    rcases get_error_exit_cases t hlt with ⟨c1, _, _⟩ | ⟨_, _, c3⟩
    · rw [hp.1, hte] at c1
      exact absurd c1 hex
    · exact c3


/-- C27, the claim as stated fails.  LDA $80 at error level NONE with a read callback on
`$0080` that returns the negative value READ_UNINIT, a member of `enum sim65_error`: the
instruction starts with no error latched, the value is latched at `$0080`, and the exit
check of the run loop clears it and answers 0, so the loop goes on. -/
theorem callback_error_cleared :
    lda_cb_state.errlvl = sim65_errlvl_none ∧ lda_cb_state.error = 0 ∧
    opcode_at lda_cb_state = 0xA5 ∧ operand lda_cb_state = 0x80 ∧
    lda_cb_state.cb_read 0x80 = some 1 ∧ lda_cb_state.mems 0x80 &&& ms_callback ≠ 0 ∧
    (env_ret sim65_err_read_uninit 1 lda_cb_state 0x80 sim65_cb_read).1 < 0 ∧
    (next (env_ret sim65_err_read_uninit) lda_cb_state).error = sim65_err_read_uninit ∧
    (next (env_ret sim65_err_read_uninit) lda_cb_state).err_addr = 0x80 ∧
    (get_error_exit (next (env_ret sim65_err_read_uninit) lda_cb_state)).1 = 0 ∧
    (get_error_exit (next (env_ret sim65_err_read_uninit) lda_cb_state)).2.error =
      sim65_err_none ∧
    (run_loop (env_ret sim65_err_read_uninit) 2 lda_cb_state).isNone = true := by
  refine ⟨?_, ?_, ?_, ?_, ?_, ?_, ?_, ?_, ?_, ?_, ?_, ?_⟩ <;> decide

/-- C27, amended.  A negative value returned by a callback when no error is latched is
latched at the address of the access, and the exit check of the run loop after the
instruction reports exit exactly when that value is an error that exits at the error level
in force (BREAK, INVALID_INS, EXEC_UNDEF, CALL_RET, CYCLE_LIMIT, USER at every level;
EXEC_UNINIT, READ_UNDEF, WRITE_UNDEF from level MEMORY; READ_UNINIT, WRITE_ROM at level
FULL); any other negative value is cleared and the loop goes on.  For an execute callback:
when the value exits, `next` returns at once with it latched and the run loop returns that
state; otherwise the error is cleared and the instruction at PC is executed.  For a read
callback and for a write callback: the value is latched by the access and is still latched
after any further elementary changes of the same instruction, where the exit check decides
as said.  The callbacks leave the error level and a latched error alone and the one that
returns the value latches nothing itself. -/
theorem callback_error_exit (env : CbEnv) (hk : keeps_errors env) (s : sim65s) (cb : Nat)
    (he : s.error = 0) (hl : is_errlvl s.errlvl) :
    (s.cb_exec s.r.pc = some cb →
      (env cb s s.r.pc sim65_cb_exec).1 < 0 → (env cb s s.r.pc sim65_cb_exec).2.error = 0 →
      (exits_at s.errlvl (env cb s s.r.pc sim65_cb_exec).1 →
        (next env s).error = (env cb s s.r.pc sim65_cb_exec).1 ∧
        (next env s).err_addr = s.r.pc % 65536 ∧
        (get_error_exit (next env s)).1 ≠ 0 ∧
        ∀ fuel, run_loop env (fuel + 2) s = some (next env s)) ∧
      (¬ exits_at s.errlvl (env cb s s.r.pc sim65_cb_exec).1 →
        next env s = next_body env
          { (env cb s s.r.pc sim65_cb_exec).2 with
            error := sim65_err_none, err_addr := s.r.pc % 65536 })) ∧
    (∀ a : Nat, s.mems (a % 65536) &&& ms_callback ≠ 0 → s.cb_read (a % 65536) = some cb →
      (env cb s (a % 65536) sim65_cb_read).1 < 0 →
      (env cb s (a % 65536) sim65_cb_read).2.error = 0 →
      ∀ (b : Bool) (t : sim65s), Steps env b (readByte env s a).2 t →
        t.error = (env cb s (a % 65536) sim65_cb_read).1 ∧ t.err_addr = a % 65536 ∧
        ((get_error_exit t).1 ≠ 0 ↔ exits_at s.errlvl (env cb s (a % 65536) sim65_cb_read).1) ∧
        (exits_at s.errlvl (env cb s (a % 65536) sim65_cb_read).1 →
          ∀ fuel, run_loop env (fuel + 1) t = some t) ∧
        (¬ exits_at s.errlvl (env cb s (a % 65536) sim65_cb_read).1 →
          (get_error_exit t).2 = { t with error := sim65_err_none })) ∧
    (∀ a v : Nat, s.mems (a % 65536) &&& ms_callback ≠ 0 → s.cb_write (a % 65536) = some cb →
      (env cb s (a % 65536) ((v % 256 : Nat) : Int)).1 < 0 →
      (env cb s (a % 65536) ((v % 256 : Nat) : Int)).2.error = 0 →
      ∀ (b : Bool) (t : sim65s), Steps env b (writeByte env s a v) t →
        t.error = (env cb s (a % 65536) ((v % 256 : Nat) : Int)).1 ∧ t.err_addr = a % 65536 ∧
        ((get_error_exit t).1 ≠ 0 ↔
          exits_at s.errlvl (env cb s (a % 65536) ((v % 256 : Nat) : Int)).1) ∧
        (exits_at s.errlvl (env cb s (a % 65536) ((v % 256 : Nat) : Int)).1 →
          ∀ fuel, run_loop env (fuel + 1) t = some t) ∧
        (¬ exits_at s.errlvl (env cb s (a % 65536) ((v % 256 : Nat) : Int)).1 →
          (get_error_exit t).2 = { t with error := sim65_err_none })) := by
  have site : ∀ (a : Nat) (d : Int), (env cb s a d).1 < 0 → (env cb s a d).2.error = 0 →
      ∀ (b : Bool) (t : sim65s),
        Steps env b (set_error (env cb s a d).2 (env cb s a d).1 a) t →
        t.error = (env cb s a d).1 ∧ t.err_addr = a % 65536 ∧
        ((get_error_exit t).1 ≠ 0 ↔ exits_at s.errlvl (env cb s a d).1) ∧
        (exits_at s.errlvl (env cb s a d).1 → ∀ fuel, run_loop env (fuel + 1) t = some t) ∧
        (¬ exits_at s.errlvl (env cb s a d).1 →
          (get_error_exit t).2 = { t with error := sim65_err_none }) := by
    intro a d hneg h0 b t hs
    have hlat := set_error_latch (env cb s a d).2 (env cb s a d).1 a hneg h0
    have hlv : (set_error (env cb s a d).2 (env cb s a d).1 a).errlvl = s.errlvl := by
      rw [hlat]; exact (hk cb s a d).1
    have h := latched_exit env hk (set_error (env cb s a d).2 (env cb s a d).1 a)
      (env cb s a d).1 (a % 65536) hneg (by rw [hlat]; exact ⟨rfl, rfl⟩)
      (by rw [hlv]; exact hl) b t hs
    rw [hlv] at h
    exact ⟨h.1, h.2.1, h.2.2.2.1, h.2.2.2.2.1, h.2.2.2.2.2⟩
  refine ⟨?_, ?_, ?_⟩
  · intro hcb hneg h0
    have hn := next_exec_callback env s cb hcb
    have hs := site s.r.pc sim65_cb_exec hneg h0 false _ (Steps.refl _)
    have hlat := set_error_latch (env cb s s.r.pc sim65_cb_exec).2
      (env cb s s.r.pc sim65_cb_exec).1 s.r.pc hneg h0
    refine ⟨fun hex => ?_, fun hex => ?_⟩
    · have hx1 := hs.2.2.1.2 hex
      have hne : next env s = set_error (env cb s s.r.pc sim65_cb_exec).2
          (env cb s s.r.pc sim65_cb_exec).1 s.r.pc := by
        rw [hn, if_pos hx1]
        have := hs.2.2.2.1 hex 0
        rcases get_error_exit_cases (set_error (env cb s s.r.pc sim65_cb_exec).2
          (env cb s s.r.pc sim65_cb_exec).1 s.r.pc)
          (by rw [hlat]; show is_errlvl (env cb s s.r.pc sim65_cb_exec).2.errlvl
              rw [(hk cb s s.r.pc sim65_cb_exec).1]; exact hl) with ⟨_, _, c3⟩ | ⟨_, c2, _⟩
        · exact c3
        · exact absurd c2 hx1
      rw [hne]
      refine ⟨hs.1, hs.2.1, hx1, fun fuel => ?_⟩
      rw [run_loop_step env s he (fuel + 1), hne]
      exact hs.2.2.2.1 hex fuel
    · have hx0 : ¬ (get_error_exit (set_error (env cb s s.r.pc sim65_cb_exec).2
          (env cb s s.r.pc sim65_cb_exec).1 s.r.pc)).1 ≠ 0 := fun h => hex (hs.2.2.1.1 h)
      rw [hn, if_neg hx0, hs.2.2.2.2 hex, hlat]
  · intro a hbit hcb hneg h0 b t hs
    rw [readByte_callback env s a cb hbit hcb] at hs
    have h := site (a % 65536) sim65_cb_read hneg h0 b t hs
    rw [Nat.mod_mod] at h
    exact h
  · intro a v hbit hcb hneg h0 b t hs
    rw [writeByte_callback env s a v cb hbit hcb] at hs
    have h := site (a % 65536) ((v % 256 : Nat) : Int) hneg h0 b t hs
    rw [Nat.mod_mod] at h
    exact h

theorem callback_error_exit_witness :
    lda_cb_state.error = 0 ∧ lda_cb_state.errlvl = sim65_errlvl_none ∧
    exits_at lda_cb_state.errlvl sim65_err_user ∧
    (readByte (env_ret sim65_err_user) lda_cb_state 0x80).2.error = sim65_err_user ∧
    (get_error_exit (readByte (env_ret sim65_err_user) lda_cb_state 0x80).2).1 ≠ 0 ∧
    (next (env_ret sim65_err_user) lda_cb_state).error = sim65_err_user ∧
    (get_error_exit (next (env_ret sim65_err_user) lda_cb_state)).1 ≠ 0 :=
  ⟨by decide, by decide, by decide,
   ((callback_error_exit (env_ret sim65_err_user) (fun _ _ _ _ => ⟨rfl, fun _ => ⟨rfl, rfl⟩⟩)
      lda_cb_state 1 (by decide) (by decide)).2.1 0x80 (by decide) (by decide) (by decide)
      (by decide) false _ (Steps.refl _)).1,
   ((callback_error_exit (env_ret sim65_err_user) (fun _ _ _ _ => ⟨rfl, fun _ => ⟨rfl, rfl⟩⟩)
      lda_cb_state 1 (by decide) (by decide)).2.1 0x80 (by decide) (by decide) (by decide)
      (by decide) false _ (Steps.refl _)).2.2.1.2 (by decide),
   by decide, by decide⟩

/-! ## The names of the disassembler -/

set_option maxRecDepth 100000 in
theorem mnemonic_case_table :
    ∀ ins, ins < 256 →
      (all_upper (mnemonic ins) = true ↔ ins ∈ implemented_ops) ∧
      (all_lower (mnemonic ins) = true ↔ ins ∉ implemented_ops) := by
  decide

set_option maxRecDepth 100000 in
theorem implemented_not_default :
    ∀ ins, ins ∈ implemented_ops →
      (dispatch env_none ins 0 sim65_new).error ≠ sim65_err_invalid_ins := by
  decide

/-- C30. For every opcode byte 0..255, the name that the disassembler prints is entirely
uppercase exactly when the opcode has a `case` in the dispatch of the executor, and entirely
lowercase exactly when it has none.  The opcodes without `case` are exactly those on which
the dispatch is its `default`, the latching of INVALID_INS at the opcode address, in every
state; an opcode with a `case` does not latch INVALID_INS on a fresh machine. -/
theorem mnemonic_case_matches_dispatch (ins : Nat) (h : ins < 256) :
    (all_upper (mnemonic ins) = true ↔ ins ∈ implemented_ops) ∧
    (all_lower (mnemonic ins) = true ↔ ins ∉ implemented_ops) ∧
    (ins ∉ implemented_ops ↔
      ∀ (env : CbEnv) (data : Nat) (s : sim65s),
        dispatch env ins data s = set_error s sim65_err_invalid_ins (sub32 s.r.pc 1)) ∧
    (ins ∈ implemented_ops →
      (dispatch env_none ins 0 sim65_new).error ≠ sim65_err_invalid_ins) := by
  refine ⟨(mnemonic_case_table ins h).1, (mnemonic_case_table ins h).2, ⟨?_, ?_⟩,
    implemented_not_default ins⟩
  · intro hn env data s
    exact dispatch_default env ins data s hn
  · intro hall hmem
    apply implemented_not_default ins hmem
    rw [hall env_none 0 sim65_new]
    decide

theorem mnemonic_case_matches_dispatch_witness :
    mnemonic 0xA9 = "LDA" ∧ all_upper (mnemonic 0xA9) = true ∧ 0xA9 ∈ implemented_ops ∧
    mnemonic 0xA7 = "lax" ∧ all_lower (mnemonic 0xA7) = true ∧ 0xA7 ∉ implemented_ops ∧
    ∀ (env : CbEnv) (data : Nat) (s : sim65s),
      dispatch env 0xA7 data s = set_error s sim65_err_invalid_ins (sub32 s.r.pc 1) :=
  ⟨by decide, by decide, (mnemonic_case_matches_dispatch 0xA9 (by decide)).1.1 (by decide),
   by decide, by decide, (mnemonic_case_matches_dispatch 0xA7 (by decide)).2.1.1 (by decide),
   (mnemonic_case_matches_dispatch 0xA7 (by decide)).2.2.1.1 (by decide)⟩

/-! ## Binary and decimal subtraction -/

theorem flag_SETV_C (s : sim65s) (b : Bool) : flag (SETV s b) FLAG_C = flag s FLAG_C := by
  rw [flag_SETV _ _ _ (by decide)]; simp [FLAG_C, FLAG_V]

theorem do_sbc_binary_eq (s : sim65s) (v : Nat) (hD : flag s FLAG_D = false) :
    do_sbc s v =
      set_a (SETZ (SETN (SETC (SETV s
        (decide (((s.r.a ^^^ v) &&&
          (s.r.a ^^^ ((sub32 (0xFF + s.r.a) v + carry_in s) % 2^32))) &&& 0x80 ≠ 0)))
        (decide ((sub32 (0xFF + s.r.a) v + carry_in s) % 2^32 > 0xFF)))
        ((sub32 (0xFF + s.r.a) v + carry_in s) % 2^32))
        ((sub32 (0xFF + s.r.a) v + carry_in s) % 2^32))
        (((sub32 (0xFF + s.r.a) v + carry_in s) % 2^32) &&& 0xFF) := by
  have hd : ¬ GETD s ≠ 0 := fun e => by
    rw [GETD_ne_zero, hD] at e; exact Bool.noConfusion e
  unfold do_sbc
  rw [if_neg hd]
  simp only [GETC_ite, carry_in, set_a, SETC_a, SETV_a, SETZ_a, SETN_a]

theorem do_sbc_decimal_eq (s : sim65s) (v : Nat) (hD : flag s FLAG_D = true) :
    do_sbc s v =
      set_a (SETC (SETN (SETZ (SETV s
        (decide (((s.r.a ^^^ (v ^^^ 0xFF)) &&&
          (s.r.a ^^^ ((s.r.a + (v ^^^ 0xFF) + carry_in s) % 2^32))) &&& 0x80 ≠ 0)))
        ((s.r.a + (v ^^^ 0xFF) + carry_in s) % 2^32))
        (sbc_dec_fin s.r.a v (carry_in s)))
        (decide (sbc_dec_fin s.r.a v (carry_in s) > 0xFF)))
        (sbc_dec_fin s.r.a v (carry_in s) &&& 0xFF) := by
  have hd : GETD s ≠ 0 := (GETD_ne_zero s).2 hD
  unfold do_sbc
  rw [if_pos hd]
  simp only [GETC_ite, carry_in, set_a, SETC_a, SETV_a, SETZ_a, SETN_a, flag_SETZ_C,
    flag_SETV_C, sbc_dec_fin, sbc_dec_mid, sbc_dec_lo]

theorem xor_0xFF (v : Nat) (hv : v < 256) : v ^^^ 0xFF = 255 - v := by
  interval_cases v <;> rfl

theorem carry_in_le (s : sim65s) : carry_in s ≤ 1 := by unfold carry_in; split <;> omega

theorem carry_in_congr (s t : sim65s) (h : flag t FLAG_C = flag s FLAG_C) :
    carry_in t = carry_in s := by unfold carry_in; rw [h]

theorem sbc_overflow_as_adc (a v t : Nat) :
    (((a ^^^ v) &&& (a ^^^ t)) &&& 0x80 ≠ 0) ↔
      ((not32 (a ^^^ (v ^^^ 0xFF)) &&& (a ^^^ t)) &&& 0x80 ≠ 0) := by
  have h1 := and_two_pow_ne_zero ((a ^^^ v) &&& (a ^^^ t)) 7
  have h2 := and_two_pow_ne_zero (not32 (a ^^^ (v ^^^ 0xFF)) &&& (a ^^^ t)) 7
  rw [show (0x80 : Nat) = 2 ^ 7 from rfl, h1, h2, Nat.testBit_and, Nat.testBit_and,
    not32_testBit _ _ (by norm_num), Nat.testBit_xor, Nat.testBit_xor, Nat.testBit_xor,
    Nat.testBit_xor, show (0xFF : Nat) = 2 ^ 8 - 1 from rfl, Nat.testBit_two_pow_sub_one]
  simp

theorem sbc_sum (a v c : Nat) (ha : a < 256) (hv : v < 256) (hc : c ≤ 1) :
    (sub32 (0xFF + a) v + c) % 2^32 = a + (255 - v) + c := by
  unfold sub32
  omega

/-- C39. In binary mode SBC is ADC of the complemented operand: for every accumulator `A`
and operand `v` in 0..255 and either carry-in `c`, with D clear, `do_sbc` on `v` leaves the
very state that `do_adc` leaves on `v XOR 0xFF` (so the same A, C, V, N and Z), with
`A' = (A - v - (1 - c)) mod 256` and `C' = 1` iff `A >= v + (1 - c)`. -/
theorem sbc_binary_is_adc_complement (s : sim65s) (v : Nat) (ha : s.r.a < 256) (hv : v < 256)
    (hD : flag s FLAG_D = false) :
    do_sbc s v = do_adc s (v ^^^ 0xFF) ∧
    (∀ f ∈ [FLAG_C, FLAG_V, FLAG_N, FLAG_Z],
      flag (do_sbc s v) f = flag (do_adc s (v ^^^ 0xFF)) f) ∧
    (do_sbc s v).r.a = (256 + s.r.a - v - (1 - carry_in s)) % 256 ∧
    flag (do_sbc s v) FLAG_C = decide (s.r.a ≥ v + (1 - carry_in s)) := by
  have hc := carry_in_le s
  have hsum := sbc_sum s.r.a v (carry_in s) ha hv hc
  have hadd : (s.r.a + (v ^^^ 0xFF) + carry_in s) % 2^32 = s.r.a + (255 - v) + carry_in s := by
    rw [xor_0xFF v hv]; omega
  have hV : decide (((s.r.a ^^^ v) &&& (s.r.a ^^^ (s.r.a + (255 - v) + carry_in s))) &&& 0x80 ≠ 0)
      = decide ((not32 (s.r.a ^^^ (v ^^^ 0xFF)) &&&
          (s.r.a ^^^ (s.r.a + (255 - v) + carry_in s))) &&& 0x80 ≠ 0) := by
    rw [Bool.eq_iff_iff]
    simp only [decide_eq_true_eq]
    exact sbc_overflow_as_adc _ _ _
  have heq : do_sbc s v = do_adc s (v ^^^ 0xFF) := by
    rw [do_sbc_binary_eq s v hD, do_adc_binary_eq s _ hD, hsum, hadd, hV]
  refine ⟨heq, fun f _ => by rw [heq], ?_, ?_⟩
  · rw [do_sbc_binary_eq s v hD, hsum, set_a_a, and_0xFF, Nat.mod_mod]
    omega
  · rw [do_sbc_binary_eq s v hD, hsum, flag_set_a, flag_SETZ _ _ _ (by decide),
      flag_SETN _ _ _ (by decide), flag_SETC _ _ _ (by decide)]
    simp only [FLAG_Z, FLAG_N, FLAG_C]
    simp only [if_true, Nat.reduceEqDiff, if_false]
    rw [Bool.eq_iff_iff]
    simp only [decide_eq_true_eq]
    omega

/-- The instance `A = 0x50`, `v = 0xF0`, `C = 1` of `sbc_binary_is_adc_complement`:
`A' = 0x60`, a borrow (`C' = 0`). -/
theorem sbc_binary_is_adc_complement_witness :
    (alu_state 0x50 true false).r.a < 256 ∧ 0xF0 < 256 ∧
    flag (alu_state 0x50 true false) FLAG_D = false ∧
    (do_sbc (alu_state 0x50 true false) 0xF0).r.a = 0x60 ∧
    flag (do_sbc (alu_state 0x50 true false) 0xF0) FLAG_C = false ∧
    (do_adc (alu_state 0x50 true false) 0x0F).r.a = 0x60 :=
  have h := sbc_binary_is_adc_complement (alu_state 0x50 true false) 0xF0 (by decide)
    (by decide) (by decide)
  ⟨by decide, by decide, by decide, by rw [h.2.2.1]; decide, by rw [h.2.2.2]; decide,
    by rw [← show (0xF0 : Nat) ^^^ 0xFF = 0x0F from by decide, ← h.1, h.2.2.1]; decide⟩

theorem adc_overflow_forms (a v t : Nat) :
    (((a ^^^ v) &&& 0x80 = 0) ∧ ((v ^^^ t) &&& 0x80 ≠ 0)) ↔
      ((not32 (a ^^^ v) &&& (a ^^^ t)) &&& 0x80 ≠ 0) := by
  have h1 := and_two_pow_ne_zero (a ^^^ v) 7
  have h2 := and_two_pow_ne_zero (v ^^^ t) 7
  have h3 := and_two_pow_ne_zero (not32 (a ^^^ v) &&& (a ^^^ t)) 7
  have h1' : ((a ^^^ v) &&& 0x80 = 0) ↔ (a ^^^ v).testBit 7 = false := by
    rw [← Bool.not_eq_true, ← h1]; exact not_not.symm
  rw [h1', show (0x80 : Nat) = 2 ^ 7 from rfl, h2, h3, Nat.testBit_and,
    not32_testBit _ _ (by norm_num), Nat.testBit_xor, Nat.testBit_xor, Nat.testBit_xor]
  cases a.testBit 7 <;> cases v.testBit 7 <;> cases t.testBit 7 <;> simp

theorem adc_dec_mid_no_carry (a v c : Nat) (ha : a < 256) (hv : v < 256) (hc : c ≤ 1)
    (hlo : (a &&& 0xF) + (v &&& 0xF) + c < 10) : adc_dec_mid a v c = a + v + c := by
  unfold adc_dec_mid adc_dec_lo
  rw [if_neg (by omega), and_0xF, and_0xF, and_0xF0 a ha, and_0xF0 v hv]
  omega

/-- C34, as stated, fails: with `A = 0x79`, operand `0x00` and carry-in 1, decimal ADC
(79 + 0 + 1) sets V while binary ADC on the same `A`, operand and carry leaves V clear. -/
theorem adc_decimal_v_differs :
    (alu_state 0x79 true true).r.a = (alu_state 0x79 true false).r.a ∧
    flag (alu_state 0x79 true true) FLAG_C = flag (alu_state 0x79 true false) FLAG_C ∧
    flag (alu_state 0x79 true true) FLAG_D = true ∧
    flag (alu_state 0x79 true false) FLAG_D = false ∧
    flag (do_adc (alu_state 0x79 true true) 0x00) FLAG_V = true ∧
    flag (do_adc (alu_state 0x79 true false) 0x00) FLAG_V = false ∧
    ¬ (flag (do_adc (alu_state 0x79 true true) 0x00) FLAG_V =
        flag (do_adc (alu_state 0x79 true false) 0x00) FLAG_V) := by
  decide

/-- C34, amended. In decimal-mode ADC the Z flag is that of the binary sum: for every `A`,
operand `v` and carry-in `c`, Z after `do_adc` with D set equals the Z that `do_adc`
produces for the same `A`, `v` and `c` with D clear.  The V flag is computed from the sum
after the decimal fix-up of the low digit (and before that of the high digit): it is set
iff `A` and `v` agree in bit 7 and that sum differs from `v` in bit 7; it equals the V of
the binary sum whenever the low digits do not carry, `(A & 0xF) + (v & 0xF) + c < 10`. -/
theorem adc_decimal_z_binary (s t : sim65s) (v : Nat) (ha : s.r.a < 256) (hv : v < 256)
    (hD : flag s FLAG_D = true) (hB : flag t FLAG_D = false) (hA : t.r.a = s.r.a)
    (hC : flag t FLAG_C = flag s FLAG_C) :
    flag (do_adc s v) FLAG_Z = flag (do_adc t v) FLAG_Z ∧
    flag (do_adc s v) FLAG_Z = decide ((s.r.a + v + carry_in s) % 256 = 0) ∧
    flag (do_adc s v) FLAG_V =
      (decide ((s.r.a ^^^ v) &&& 0x80 = 0) &&
        decide ((v ^^^ adc_dec_mid s.r.a v (carry_in s)) &&& 0x80 ≠ 0)) ∧
    ((s.r.a &&& 0xF) + (v &&& 0xF) + carry_in s < 10 →
      flag (do_adc s v) FLAG_V = flag (do_adc t v) FLAG_V) := by
  have hc := carry_in_le s
  have hct := carry_in_congr s t hC
  have ht : (s.r.a + v + carry_in s) % 2^32 = s.r.a + v + carry_in s :=
    Nat.mod_eq_of_lt (by omega)
  have hZ : flag (do_adc s v) FLAG_Z = decide ((s.r.a + v + carry_in s) % 256 = 0) := by
    rw [do_adc_decimal_eq s v hD, ht, flag_set_a, flag_SETC _ _ _ (by decide),
      flag_SETV _ _ _ (by decide), flag_SETN _ _ _ (by decide), flag_SETZ _ _ _ (by decide)]
    simp [FLAG_Z, FLAG_N, FLAG_C, FLAG_V]
  have hZb : flag (do_adc t v) FLAG_Z = decide ((s.r.a + v + carry_in s) % 256 = 0) := by
    rw [do_adc_binary_eq t v hB, hA, hct, ht, flag_set_a, flag_SETZ _ _ _ (by decide)]
    simp [FLAG_Z]
  have hV : flag (do_adc s v) FLAG_V =
      (decide ((s.r.a ^^^ v) &&& 0x80 = 0) &&
        decide ((v ^^^ adc_dec_mid s.r.a v (carry_in s)) &&& 0x80 ≠ 0)) := by
    rw [do_adc_decimal_eq s v hD, flag_set_a, flag_SETC _ _ _ (by decide),
      flag_SETV _ _ _ (by decide)]
    simp [FLAG_C, FLAG_V]
  have hVb : flag (do_adc t v) FLAG_V =
      decide ((not32 (s.r.a ^^^ v) &&& (s.r.a ^^^ (s.r.a + v + carry_in s))) &&& 0x80 ≠ 0) := by
    rw [do_adc_binary_eq t v hB, hA, hct, ht, flag_set_a, flag_SETZ _ _ _ (by decide),
      flag_SETN _ _ _ (by decide), flag_SETC _ _ _ (by decide), flag_SETV _ _ _ (by decide)]
    simp [FLAG_Z, FLAG_N, FLAG_C, FLAG_V]
  refine ⟨hZ.trans hZb.symm, hZ, hV, fun hlo => ?_⟩
  rw [hV, hVb, adc_dec_mid_no_carry _ _ _ ha hv hc hlo, Bool.eq_iff_iff]
  simp only [Bool.and_eq_true, decide_eq_true_eq]
  exact adc_overflow_forms _ _ _

/-- The instance `A = 0x25`, `v = 0x37`, `c = 0` of `adc_decimal_z_binary` (the low digits
carry): Z is clear in both modes, V is clear in decimal mode. -/
theorem adc_decimal_z_binary_witness :
    (alu_state 0x25 false true).r.a < 256 ∧ 0x37 < 256 ∧
    flag (alu_state 0x25 false true) FLAG_D = true ∧
    flag (alu_state 0x25 false false) FLAG_D = false ∧
    flag (do_adc (alu_state 0x25 false true) 0x37) FLAG_Z =
      flag (do_adc (alu_state 0x25 false false) 0x37) FLAG_Z ∧
    flag (do_adc (alu_state 0x25 false true) 0x37) FLAG_Z = false :=
  have h := adc_decimal_z_binary (alu_state 0x25 false true) (alu_state 0x25 false false) 0x37
    (by decide) (by decide) (by decide) (by decide) (by decide) (by decide)
  ⟨by decide, by decide, by decide, by decide, h.1, by rw [h.2.1]; decide⟩

theorem sbc_overflow_forms (a v t : Nat) :
    (decide (((a ^^^ (v ^^^ 0xFF)) &&& (a ^^^ t)) &&& 0x80 ≠ 0) =
      decide (((a ^^^ v) &&& (a ^^^ t)) &&& 0x80 ≠ 0)) ↔ t.testBit 7 = a.testBit 7 := by
  have h1 := and_two_pow_ne_zero ((a ^^^ (v ^^^ 0xFF)) &&& (a ^^^ t)) 7
  have h2 := and_two_pow_ne_zero ((a ^^^ v) &&& (a ^^^ t)) 7
  rw [Bool.eq_iff_iff]
  simp only [decide_eq_true_eq]
  rw [show (0x80 : Nat) = 2 ^ 7 from rfl, h1, h2, Nat.testBit_and, Nat.testBit_and,
    Nat.testBit_xor, Nat.testBit_xor, Nat.testBit_xor, Nat.testBit_xor,
    show (0xFF : Nat) = 2 ^ 8 - 1 from rfl, Nat.testBit_two_pow_sub_one]
  cases a.testBit 7 <;> cases v.testBit 7 <;> cases t.testBit 7 <;> simp

/-- C35. Decimal-mode SBC against binary-mode SBC on the same `A`, operand and carry-in:
with `A = 0x00`, operand `0x01` and no borrow (00 - 01), decimal mode sets V and binary
mode leaves it clear.  For every `A`, operand `v` and carry-in the Z flags of the two
modes agree, and the V flags agree exactly when bit 7 of `A + (v XOR 0xFF) + c` is bit 7
of `A`: decimal mode evaluates the overflow expression of binary mode on the complemented
operand. -/
theorem sbc_decimal_v_not_binary :
    ((alu_state 0x00 true true).r.a = (alu_state 0x00 true false).r.a ∧
      flag (alu_state 0x00 true true) FLAG_C = flag (alu_state 0x00 true false) FLAG_C ∧
      flag (alu_state 0x00 true true) FLAG_D = true ∧
      flag (alu_state 0x00 true false) FLAG_D = false ∧
      flag (do_sbc (alu_state 0x00 true true) 0x01) FLAG_V = true ∧
      flag (do_sbc (alu_state 0x00 true false) 0x01) FLAG_V = false) ∧
    (∀ (s t : sim65s) (v : Nat), s.r.a < 256 → v < 256 → flag s FLAG_D = true →
      flag t FLAG_D = false → t.r.a = s.r.a → flag t FLAG_C = flag s FLAG_C →
      flag (do_sbc s v) FLAG_Z = flag (do_sbc t v) FLAG_Z ∧
      (flag (do_sbc s v) FLAG_V = flag (do_sbc t v) FLAG_V ↔
        (s.r.a + (v ^^^ 0xFF) + carry_in s).testBit 7 = s.r.a.testBit 7)) := by
  refine ⟨by decide, fun s t v ha hv hD hB hA hC => ?_⟩
  have hc := carry_in_le s
  have hct := carry_in_congr s t hC
  have hsum := sbc_sum s.r.a v (carry_in s) ha hv hc
  have hadd : (s.r.a + (v ^^^ 0xFF) + carry_in s) % 2^32 = s.r.a + (255 - v) + carry_in s := by
    rw [xor_0xFF v hv]; omega
  have hZ : flag (do_sbc s v) FLAG_Z = decide ((s.r.a + (255 - v) + carry_in s) % 256 = 0) := by
    rw [do_sbc_decimal_eq s v hD, hadd, flag_set_a, flag_SETC _ _ _ (by decide),
      flag_SETN _ _ _ (by decide), flag_SETZ _ _ _ (by decide)]
    simp [FLAG_Z, FLAG_N, FLAG_C]
  have hZb : flag (do_sbc t v) FLAG_Z = decide ((s.r.a + (255 - v) + carry_in s) % 256 = 0) := by
    rw [do_sbc_binary_eq t v hB, hA, hct, hsum, flag_set_a, flag_SETZ _ _ _ (by decide)]
    simp [FLAG_Z]
  have hV : flag (do_sbc s v) FLAG_V =
      decide (((s.r.a ^^^ (v ^^^ 0xFF)) &&&
        (s.r.a ^^^ (s.r.a + (255 - v) + carry_in s))) &&& 0x80 ≠ 0) := by
    rw [do_sbc_decimal_eq s v hD, hadd, flag_set_a, flag_SETC _ _ _ (by decide),
      flag_SETN _ _ _ (by decide), flag_SETZ _ _ _ (by decide), flag_SETV _ _ _ (by decide)]
    simp [FLAG_Z, FLAG_N, FLAG_C, FLAG_V]
  have hVb : flag (do_sbc t v) FLAG_V =
      decide (((s.r.a ^^^ v) &&& (s.r.a ^^^ (s.r.a + (255 - v) + carry_in s))) &&& 0x80 ≠ 0) := by
    rw [do_sbc_binary_eq t v hB, hA, hct, hsum, flag_set_a, flag_SETZ _ _ _ (by decide),
      flag_SETN _ _ _ (by decide), flag_SETC _ _ _ (by decide), flag_SETV _ _ _ (by decide)]
    simp [FLAG_Z, FLAG_N, FLAG_C, FLAG_V]
  refine ⟨hZ.trans hZb.symm, ?_⟩
  rw [hV, hVb, xor_0xFF v hv]
  have := sbc_overflow_forms s.r.a v (s.r.a + (255 - v) + carry_in s)
  rw [xor_0xFF v hv] at this
  exact this

theorem xor_0xFF_lo (v : Nat) (hv : v < 256) : (v ^^^ 0xFF) &&& 0xF = 15 - v % 16 := by
  rw [xor_0xFF v hv, and_0xF]; omega

theorem xor_0xFF_hi (v : Nat) (hv : v < 256) : (v ^^^ 0xFF) &&& 0xF0 = (15 - v / 16) * 16 := by
  rw [xor_0xFF v hv, and_0xF0 _ (by omega)]; omega

theorem bcd_digits (h l : Nat) (hl : l ≤ 9) :
    (10 * h + l) / 10 * 16 + (10 * h + l) % 10 = 16 * h + l := by omega

theorem sbc_bcd_core (ah al vh vl c : Nat) (ha1 : ah ≤ 9) (ha2 : al ≤ 9) (hv1 : vh ≤ 9)
    (hv2 : vl ≤ 9) (hc : c ≤ 1) :
    ∃ fin : Nat,
      fin = (if (if al + (15 - vl) + c < 16 then (al + (15 - vl) + c - 6) % 16
                 else al + (15 - vl) + c) + (ah * 16 + (15 - vh) * 16) < 256
             then ((if al + (15 - vl) + c < 16 then (al + (15 - vl) + c - 6) % 16
                    else al + (15 - vl) + c) + (ah * 16 + (15 - vh) * 16) - 96) % 256
             else (if al + (15 - vl) + c < 16 then (al + (15 - vl) + c - 6) % 16
                   else al + (15 - vl) + c) + (ah * 16 + (15 - vh) * 16)) ∧
      fin % 256 = (100 + (ah * 10 + al) - (vh * 10 + vl) - (1 - c)) % 100 / 10 * 16 +
                  (100 + (ah * 10 + al) - (vh * 10 + vl) - (1 - c)) % 100 % 10 ∧
      (fin > 0xFF ↔ ah * 10 + al ≥ vh * 10 + vl + (1 - c)) := by
  refine ⟨_, rfl, ?_, ?_⟩
  · by_cases hl : al + (15 - vl) + c < 16
    · rw [if_pos hl]
      have e : (al + (15 - vl) + c - 6) % 16 = al + 10 + c - 1 - vl := by omega
      rw [e]
      by_cases hh : al + 10 + c - 1 - vl + (ah * 16 + (15 - vh) * 16) < 256
      · rw [if_pos hh]
        have hd : (100 + (ah * 10 + al) - (vh * 10 + vl) - (1 - c)) % 100 =
            10 * (ah + 10 - 1 - vh) + (al + 10 + c - 1 - vl) := by omega
        rw [hd, bcd_digits _ _ (by omega)]; omega
      · rw [if_neg hh]
        have hd : (100 + (ah * 10 + al) - (vh * 10 + vl) - (1 - c)) % 100 =
            10 * (ah - 1 - vh) + (al + 10 + c - 1 - vl) := by omega
        rw [hd, bcd_digits _ _ (by omega)]; omega
    · rw [if_neg hl]
      by_cases hh : al + (15 - vl) + c + (ah * 16 + (15 - vh) * 16) < 256
      · rw [if_pos hh]
        have hd : (100 + (ah * 10 + al) - (vh * 10 + vl) - (1 - c)) % 100 =
            10 * (ah + 10 - vh) + (al + c - 1 - vl) := by omega
        rw [hd, bcd_digits _ _ (by omega)]; omega
      · rw [if_neg hh]
        have hd : (100 + (ah * 10 + al) - (vh * 10 + vl) - (1 - c)) % 100 =
            10 * (ah - vh) + (al + c - 1 - vl) := by omega
        rw [hd, bcd_digits _ _ (by omega)]; omega
  · split_ifs <;> omega

theorem sbc_dec_fin_bcd (a v c : Nat) (ha : bcd_valid a) (hv : bcd_valid v) (hc : c ≤ 1) :
    sbc_dec_fin a v c % 256 = bcd_enc ((100 + bcd_dec a - bcd_dec v - (1 - c)) % 100) ∧
    (sbc_dec_fin a v c > 0xFF ↔ bcd_dec a ≥ bcd_dec v + (1 - c)) := by
  obtain ⟨ha1, ha2⟩ := ha
  obtain ⟨hv1, hv2⟩ := hv
  have ha' : a < 256 := by omega
  have hv' : v < 256 := by omega
  unfold sbc_dec_fin sbc_dec_mid sbc_dec_lo bcd_enc bcd_dec
  rw [and_0xF, xor_0xFF_lo v hv', xor_0xFF_hi v hv', and_0xF0 a ha']
  clear ha' hv'
  generalize a % 16 = al at *
  generalize a / 16 = ah at *
  generalize v % 16 = vl at *
  generalize v / 16 = vh at *
  obtain ⟨fin, hfin, h1, h2⟩ := sbc_bcd_core ah al vh vl c ha1 ha2 hv1 hv2 hc
  have e6 : sub32 (al + (15 - vl) + c) 6 &&& 0x0F = (al + (15 - vl) + c - 6) % 16 := by
    rw [and_0xF]; unfold sub32; omega
  rw [e6]
  have hmid : ((if al + (15 - vl) + c < 0x10 then (al + (15 - vl) + c - 6) % 16
      else al + (15 - vl) + c) + (ah * 16 + (15 - vh) * 16)) % 2 ^ 32 =
      (if al + (15 - vl) + c < 16 then (al + (15 - vl) + c - 6) % 16
        else al + (15 - vl) + c) + (ah * 16 + (15 - vh) * 16) :=
    Nat.mod_eq_of_lt (by split_ifs <;> omega)
  rw [hmid]
  have e96 : sub32 ((if al + (15 - vl) + c < 16 then (al + (15 - vl) + c - 6) % 16
      else al + (15 - vl) + c) + (ah * 16 + (15 - vh) * 16)) 0x60 &&& 0xFF =
      ((if al + (15 - vl) + c < 16 then (al + (15 - vl) + c - 6) % 16
        else al + (15 - vl) + c) + (ah * 16 + (15 - vh) * 16) - 96) % 256 := by
    rw [and_0xFF]; unfold sub32; split_ifs <;> omega
  rw [e96, ← hfin]
  exact ⟨h1, h2⟩

/-- C36. Decimal-mode SBC (D set) on valid packed BCD: for every `A` and operand `v` whose
two nibbles are each at most 9 and either carry-in `c` (borrow `b = 1 - c`), `do_sbc`
leaves `A'` equal to the packed-BCD encoding of `(dec(A) - dec(v) - b) mod 100` and
`C' = 1` iff `dec(A) - dec(v) - b >= 0`. -/
theorem sbc_decimal_bcd (s : sim65s) (v : Nat) (hD : flag s FLAG_D = true)
    (ha : bcd_valid s.r.a) (hv : bcd_valid v) :
    (do_sbc s v).r.a =
      bcd_enc ((100 + bcd_dec s.r.a - bcd_dec v - (1 - carry_in s)) % 100) ∧
    flag (do_sbc s v) FLAG_C = decide (bcd_dec s.r.a ≥ bcd_dec v + (1 - carry_in s)) ∧
    (((bcd_dec s.r.a : Int) - bcd_dec v - (1 - carry_in s)) % 100 =
      ((100 + bcd_dec s.r.a - bcd_dec v - (1 - carry_in s)) % 100 : Nat)) ∧
    (bcd_dec s.r.a ≥ bcd_dec v + (1 - carry_in s) ↔
      (0 : Int) ≤ (bcd_dec s.r.a : Int) - bcd_dec v - (1 - carry_in s)) := by
  have hc := carry_in_le s
  obtain ⟨h1, h2⟩ := sbc_dec_fin_bcd s.r.a v (carry_in s) ha hv hc
  rw [do_sbc_decimal_eq s v hD]
  have hda : bcd_dec s.r.a ≤ 99 := by unfold bcd_dec; unfold bcd_valid at ha; omega
  have hdv : bcd_dec v ≤ 99 := by unfold bcd_dec; unfold bcd_valid at hv; omega
  refine ⟨?_, ?_, ?_, ?_⟩
  · rw [set_a_a, and_0xFF, Nat.mod_mod, h1]
  · rw [flag_set_a, flag_SETC _ _ _ (by decide), if_pos rfl]
    rw [Bool.eq_iff_iff]
    simp only [decide_eq_true_eq]
    exact h2
  · omega
  · omega

/-- The instance `A = 0x42`, `v = 0x17`, `C = 1` of `sbc_decimal_bcd`: 42 - 17 = 25,
no borrow. -/
theorem sbc_decimal_bcd_witness :
    flag (alu_state 0x42 true true) FLAG_D = true ∧
    bcd_valid (alu_state 0x42 true true).r.a ∧ bcd_valid 0x17 ∧
    (do_sbc (alu_state 0x42 true true) 0x17).r.a = 0x25 ∧
    flag (do_sbc (alu_state 0x42 true true) 0x17) FLAG_C = true :=
  have h := sbc_decimal_bcd (alu_state 0x42 true true) 0x17 (by decide) (by decide) (by decide)
  ⟨by decide, by decide, by decide, by rw [h.1]; decide, by rw [h.2.1]; decide⟩

/-! ## The fetch and the CPU read -/

theorem readPc_state (s : sim65s) (off : Nat) :
    (readPc s off).2 =
      if s.mems ((s.r.pc + off) % 65536) &&& not8 (ms_rom ||| ms_callback) = 0 then s
      else if s.mems ((s.r.pc + off) % 65536) &&& ms_undef ≠ 0 then
        set_error s sim65_err_exec_undef ((s.r.pc + off) % 65536)
      else set_error s sim65_err_exec_uninit ((s.r.pc + off) % 65536) := by
  unfold readPc readPc_slow
  simp only
  split
  · rfl
  · split <;> rfl

theorem readPc_value (s : sim65s) (off : Nat) :
    (readPc s off).1 = s.mem ((s.r.pc + off) % 65536) % 256 := by
  unfold readPc readPc_slow
  simp only
  split
  · rfl
  · split <;> unfold set_error <;> split <;> rfl

theorem set_error_latched (s : sim65s) (e : Int) (a : Nat) (he : e < 0) (h0 : s.error = 0)
    (ha : a < 65536) :
    (set_error s e a).error = e ∧ (set_error s e a).err_addr = a := by
  unfold set_error
  rw [if_pos ⟨he, h0⟩]
  exact ⟨rfl, Nat.mod_eq_of_lt ha⟩

theorem set_error_tables (s : sim65s) (e : Int) (a : Nat) (cr cw : Nat → Option Nat) :
    set_error { s with cb_read := cr, cb_write := cw } e a =
      { set_error s e a with cb_read := cr, cb_write := cw } := by
  unfold set_error
  split <;> rfl

/-- C33. The program-counter fetch bypasses the callbacks: for every state and offset,
`readPc` returns the stored value byte of the cell at PC + offset; it latches nothing when
the status of the cell has no bit other than ROM or CALLBACK, and otherwise applies
`set_error` with EXEC_UNDEF when UNDEF is set and with EXEC_UNINIT when it is clear (so
with no error latched before, that error is latched at the address of the cell); nothing but
the error slot and its address changes, in particular no status byte; and replacing the
read-callback and write-callback tables by any others changes neither the byte nor the
effect on the state. -/
theorem readPc_bypasses_callbacks (s : sim65s) (off : Nat) :
    (readPc s off).1 = s.mem ((s.r.pc + off) % 65536) % 256 ∧
    (exec_clean s ((s.r.pc + off) % 65536) → (readPc s off).2 = s) ∧
    (¬ exec_clean s ((s.r.pc + off) % 65536) → s.error = 0 →
      (readPc s off).2.error =
        (if s.mems ((s.r.pc + off) % 65536) &&& ms_undef ≠ 0 then sim65_err_exec_undef
         else sim65_err_exec_uninit) ∧
      (readPc s off).2.err_addr = (s.r.pc + off) % 65536) ∧
    (s.error ≠ 0 → (readPc s off).2 = s) ∧
    err_only s (readPc s off).2 ∧
    (readPc s off).2.mems = s.mems ∧ (readPc s off).2.mem = s.mem ∧
    (∀ cr cw : Nat → Option Nat,
      readPc { s with cb_read := cr, cb_write := cw } off =
        ((readPc s off).1, { (readPc s off).2 with cb_read := cr, cb_write := cw })) := by
  have hlt : (s.r.pc + off) % 65536 < 65536 := Nat.mod_lt _ (by norm_num)
  have herr := readPc_err_only s off
  refine ⟨readPc_value s off, fun h => ?_, fun h h0 => ?_, fun h0 => ?_, herr, ?_, ?_,
    fun cr cw => ?_⟩
  · rw [readPc_state]; exact if_pos h
  · have h' : ¬ (s.mems ((s.r.pc + off) % 65536) &&& not8 (ms_rom ||| ms_callback) = 0) := h
    rw [readPc_state, if_neg h']
    by_cases hu : s.mems ((s.r.pc + off) % 65536) &&& ms_undef ≠ 0
    · rw [if_pos hu, if_pos hu]
      exact set_error_latched s _ _ (by decide) h0 hlt
    · rw [if_neg hu, if_neg hu]
      exact set_error_latched s _ _ (by decide) h0 hlt
  · rw [readPc_state]
    have e : ∀ x a, set_error s x a = s := fun x a => by
      unfold set_error; rw [if_neg (fun c => h0 c.2)]
    split
    · rfl
    · split <;> exact e _ _
  · unfold err_only at herr; rw [herr]
  · unfold err_only at herr; rw [herr]
  · refine Prod.ext ?_ ?_
    · rw [readPc_value, readPc_value]
    · show (readPc { s with cb_read := cr, cb_write := cw } off).2 = _
      rw [readPc_state, readPc_state]
      show (if s.mems ((s.r.pc + off) % 65536) &&& not8 (ms_rom ||| ms_callback) = 0 then _
        else _) = _
      split
      · rfl
      · split <;> exact set_error_tables s _ _ cr cw

theorem readByte_no_callback (env : CbEnv) (s : sim65s) (a : Nat) (ha : a < 65536)
    (hcb : s.cb_read a = none) :
    readByte env s a =
      (s.mem a % 256,
        if s.mems a &&& not8 ms_rom = 0 then s
        else if s.mems a &&& ms_undef ≠ 0 then set_error s sim65_err_read_undef a
        else { set_error s sim65_err_read_uninit a with
          mems := Function.update s.mems a (s.mems a &&& not8 ms_invalid) }) := by
  unfold readByte
  rw [Nat.mod_eq_of_lt ha]
  simp only
  split
  · rfl
  · unfold readByte_slow
    have e : (if s.mems a &&& ms_callback ≠ 0 then s.cb_read a else none) = none := by
      split
      · exact hcb
      · rfl
    rw [e]
    simp only
    have hm : ∀ x, (set_error s x a).mem = s.mem := fun x => (set_error_mem s x a).1
    have hms : ∀ x, (set_error s x a).mems = s.mems := fun x => (set_error_mem s x a).2
    split
    · rw [hm]
    · simp only [hm, hms]

theorem callback_bit_slow (m : Nat) (h : m &&& ms_callback ≠ 0) : ¬ (m &&& not8 ms_rom = 0) := by
  intro h0
  apply h
  apply Nat.eq_of_testBit_eq
  intro i
  have h1 := congrArg (fun n => n.testBit i) h0
  simp only [Nat.testBit_and, Nat.zero_testBit] at h1 ⊢
  by_cases hi : i = 3
  · subst hi
    have e : (not8 ms_rom).testBit 3 = true := by decide
    rw [e, Bool.and_true] at h1
    rw [h1, Bool.false_and]
  · have e : ms_callback.testBit i = false := by
      rw [show ms_callback = 2 ^ 3 from rfl, Nat.testBit_two_pow]
      simp only [decide_eq_false_iff_not]
      exact fun c => hi c.symm
    rw [e, Bool.and_false]

theorem status_plain (m : Nat) (hm : m < 16) (hu : m &&& ms_undef = 0) (hi : m &&& ms_invalid = 0)
    (hc : m &&& ms_callback = 0) : m &&& not8 ms_rom = 0 := by
  revert hu hi hc
  interval_cases m <;> decide

theorem status_invalid_slow (m : Nat) (hi : m &&& ms_invalid ≠ 0) : ¬ (m &&& not8 ms_rom = 0) := by
  intro h0
  apply hi
  apply Nat.eq_of_testBit_eq
  intro i
  have h1 := congrArg (fun n => n.testBit i) h0
  simp only [Nat.testBit_and, Nat.zero_testBit] at h1 ⊢
  by_cases hi2 : i = 2
  · subst hi2
    have e : (not8 ms_rom).testBit 2 = true := by decide
    rw [e, Bool.and_true] at h1
    rw [h1, Bool.false_and]
  · have e : ms_invalid.testBit i = false := by
      rw [show ms_invalid = 2 ^ 2 from rfl, Nat.testBit_two_pow]
      simp only [decide_eq_false_iff_not]
      exact fun c => hi2 c.symm
    rw [e, Bool.and_false]

theorem status_initialised (m : Nat) (hm : m < 16) (hu : m &&& ms_undef = 0)
    (hc : m &&& ms_callback = 0) : (m &&& not8 ms_invalid) &&& not8 ms_rom = 0 := by
  revert hu hc
  interval_cases m <;> decide

theorem and_not8_invalid_callback (m : Nat) (hc : m &&& ms_callback ≠ 0) :
    (m &&& not8 ms_invalid) &&& ms_callback ≠ 0 := by
  intro h0
  apply hc
  apply Nat.eq_of_testBit_eq
  intro i
  have h1 := congrArg (fun n => n.testBit i) h0
  simp only [Nat.testBit_and, Nat.zero_testBit] at h1 ⊢
  by_cases hi : i = 3
  · subst hi
    have e : (not8 ms_invalid).testBit 3 = true := by decide
    rw [e, Bool.and_true] at h1
    exact h1
  · have e : ms_callback.testBit i = false := by
      rw [show ms_callback = 2 ^ 3 from rfl, Nat.testBit_two_pow]
      simp only [decide_eq_false_iff_not]
      exact fun c => hi c.symm
    rw [e, Bool.and_false]

theorem and_not8_invalid_undef (m : Nat) (hu : m &&& ms_undef = 0) :
    (m &&& not8 ms_invalid) &&& ms_undef = 0 := by
  apply Nat.eq_of_testBit_eq
  intro i
  have h1 := congrArg (fun n => n.testBit i) hu
  simp only [Nat.testBit_and, Nat.zero_testBit] at h1 ⊢
  rw [Bool.and_assoc, Bool.and_comm (Nat.testBit (not8 ms_invalid) i), ← Bool.and_assoc, h1,
    Bool.false_and]

/-- The read of a cell whose status has UNDEF clear and CALLBACK set, with no read callback
installed: READ_UNINIT is latched, and the status keeps its CALLBACK bit, so that every
later read of the cell does the same. -/
theorem readByte_callback_bit (env : CbEnv) (s : sim65s) (a : Nat) (ha : a < 65536)
    (hcb : s.cb_read a = none) (h0 : s.error = 0) (hu : s.mems a &&& ms_undef = 0)
    (hc : s.mems a &&& ms_callback ≠ 0) :
    (readByte env s a).1 = s.mem a % 256 ∧
    (readByte env s a).2.error = sim65_err_read_uninit ∧
    (readByte env s a).2.err_addr = a ∧
    (readByte env s a).2.mem = s.mem ∧
    (readByte env s a).2.cb_read = s.cb_read ∧
    (readByte env s a).2.mems a &&& ms_undef = 0 ∧
    (readByte env s a).2.mems a &&& ms_callback ≠ 0 := by
  rw [readByte_no_callback env s a ha hcb]
  simp only [if_neg (callback_bit_slow _ hc), if_neg (not_not.mpr hu)]
  have hl := set_error_latched s sim65_err_read_uninit a (by decide) h0 ha
  refine ⟨trivial, hl.1, hl.2, (set_error_mem s _ a).1, ?_, ?_, ?_⟩
  · unfold set_error; split <;> rfl
  · show Function.update s.mems a (s.mems a &&& not8 ms_invalid) a &&& ms_undef = 0
    rw [Function.update_same]
    exact and_not8_invalid_undef _ hu
  · show Function.update s.mems a (s.mems a &&& not8 ms_invalid) a &&& ms_callback ≠ 0
    rw [Function.update_same]
    exact and_not8_invalid_callback _ hc

/-- The classification of the CPU read of a cell whose status has CALLBACK clear. -/
theorem readByte_classes (env : CbEnv) (s : sim65s) (a : Nat) (ha : a < 65536)
    (hm : s.mems a < 16) (hc : s.mems a &&& ms_callback = 0) (h0 : s.error = 0) :
    (readByte env s a).1 = s.mem a % 256 ∧
    (s.mems a &&& ms_undef = 0 → s.mems a &&& ms_invalid = 0 → (readByte env s a).2 = s) ∧
    (s.mems a &&& ms_undef ≠ 0 →
      (readByte env s a).2 = { s with error := sim65_err_read_undef, err_addr := a }) ∧
    (s.mems a &&& ms_undef = 0 → s.mems a &&& ms_invalid ≠ 0 →
      (readByte env s a).2 =
        { s with error := sim65_err_read_uninit, err_addr := a,
                 mems := Function.update s.mems a (s.mems a &&& not8 ms_invalid) } ∧
      (readByte env s a).2.mems a &&& ms_invalid = 0 ∧
      readByte env (readByte env s a).2 a = (s.mem a % 256, (readByte env s a).2)) := by
  have hcb : (if s.mems a &&& ms_callback ≠ 0 then s.cb_read a else none) = none :=
    if_neg (not_not.mpr hc)
  have hrd : readByte env s a =
      (s.mem a % 256,
        if s.mems a &&& not8 ms_rom = 0 then s
        else if s.mems a &&& ms_undef ≠ 0 then set_error s sim65_err_read_undef a
        else { set_error s sim65_err_read_uninit a with
          mems := Function.update s.mems a (s.mems a &&& not8 ms_invalid) }) := by
    unfold readByte
    rw [Nat.mod_eq_of_lt ha]
    simp only
    split
    · rfl
    · unfold readByte_slow
      rw [hcb]
      simp only
      have hm : ∀ x, (set_error s x a).mem = s.mem := fun x => (set_error_mem s x a).1
      have hms : ∀ x, (set_error s x a).mems = s.mems := fun x => (set_error_mem s x a).2
      split
      · rw [hm]
      · simp only [hm, hms]
  have hse : ∀ e : Int, e < 0 → set_error s e a = { s with error := e, err_addr := a } := by
    intro e he
    unfold set_error
    rw [if_pos ⟨he, h0⟩, Nat.mod_eq_of_lt ha]
  refine ⟨by rw [hrd], fun hu hi => ?_, fun hu => ?_, fun hu hi => ?_⟩
  · rw [hrd]; exact if_pos (status_plain _ hm hu hi hc)
  · rw [hrd]
    simp only [if_neg (undef_not_clean s a hu), if_pos hu]
    exact hse _ (by decide)
  · have e1 : (readByte env s a).2 =
        { s with error := sim65_err_read_uninit, err_addr := a,
                 mems := Function.update s.mems a (s.mems a &&& not8 ms_invalid) } := by
      rw [hrd]
      simp only [if_neg (status_invalid_slow _ hi), if_neg (not_not.mpr hu)]
      rw [hse _ (by decide)]
    have e2 : (readByte env s a).2.mems a &&& not8 ms_rom = 0 := by
      rw [e1]
      show Function.update s.mems a (s.mems a &&& not8 ms_invalid) a &&& not8 ms_rom = 0
      rw [Function.update_same]
      exact status_initialised _ hm hu hc
    refine ⟨e1, ?_, ?_⟩
    · rw [e1]
      show Function.update s.mems a (s.mems a &&& not8 ms_invalid) a &&& ms_invalid = 0
      rw [Function.update_same, Nat.and_assoc]
      have : not8 ms_invalid &&& ms_invalid = 0 := by decide
      rw [this, Nat.and_zero]
    · have h3 := readByte_clean env (readByte env s a).2 a
        (by unfold read_clean; rw [Nat.mod_eq_of_lt ha]; exact e2)
      rw [Nat.mod_eq_of_lt ha] at h3
      rw [h3]
      have : (readByte env s a).2.mem = s.mem := by rw [e1]
      rw [this]

/-- C32. The CPU read of a cell without read callback whose status has the CALLBACK bit:
on the machine with zeroed RAM at `$0080` and a write callback (and no read callback)
installed there, the cell has INVALID and UNDEF clear, yet the read of `$0080` latches
READ_UNINIT, a second read latches it again, and `sim65_run` on `LDA $80` at error level
FULL returns READ_UNINIT with A = 0.  In general such a read latches READ_UNINIT whenever
UNDEF is clear and CALLBACK is set, and the status keeps the CALLBACK bit; for a cell with
CALLBACK clear the read returns the stored byte and latches nothing when UNDEF and INVALID
are clear, latches READ_UNDEF when UNDEF is set, and latches READ_UNINIT and clears INVALID
when UNDEF is clear and INVALID is set, after which a second read latches nothing and
returns the same byte. -/
theorem read_classification_callback_bit :
    (lda_wcb_state.cb_read 0x80 = none ∧ lda_wcb_state.error = 0 ∧
      lda_wcb_state.mem 0x80 = 0 ∧
      lda_wcb_state.mems 0x80 &&& ms_undef = 0 ∧ lda_wcb_state.mems 0x80 &&& ms_invalid = 0 ∧
      (readByte env_none lda_wcb_state 0x80).1 = 0 ∧
      (readByte env_none lda_wcb_state 0x80).2.error = sim65_err_read_uninit ∧
      (readByte env_none lda_wcb_state 0x80).2.err_addr = 0x80 ∧
      (readByte env_none
        { (readByte env_none lda_wcb_state 0x80).2 with error := sim65_err_none } 0x80).2.error
        = sim65_err_read_uninit ∧
      (sim65_run env_none 2 lda_wcb_state none 0x200).map
        (fun x => (x.1, x.2.err_addr, x.2.r.a, x.2.r.pc)) =
        some (sim65_err_read_uninit, 0x80, 0, 0x202)) ∧
    (∀ (env : CbEnv) (s : sim65s) (a : Nat), a < 65536 → s.cb_read a = none → s.error = 0 →
      s.mems a &&& ms_undef = 0 → s.mems a &&& ms_callback ≠ 0 →
      (readByte env s a).1 = s.mem a % 256 ∧
      (readByte env s a).2.error = sim65_err_read_uninit ∧
      (readByte env s a).2.err_addr = a ∧
      (readByte env s a).2.mems a &&& ms_callback ≠ 0) ∧
    (∀ (env : CbEnv) (s : sim65s) (a : Nat), a < 65536 → s.mems a < 16 →
      s.mems a &&& ms_callback = 0 → s.error = 0 →
      (readByte env s a).1 = s.mem a % 256 ∧
      (s.mems a &&& ms_undef = 0 → s.mems a &&& ms_invalid = 0 → (readByte env s a).2 = s) ∧
      (s.mems a &&& ms_undef ≠ 0 →
        (readByte env s a).2 = { s with error := sim65_err_read_undef, err_addr := a }) ∧
      (s.mems a &&& ms_undef = 0 → s.mems a &&& ms_invalid ≠ 0 →
        (readByte env s a).2 =
          { s with error := sim65_err_read_uninit, err_addr := a,
                   mems := Function.update s.mems a (s.mems a &&& not8 ms_invalid) } ∧
        (readByte env s a).2.mems a &&& ms_invalid = 0 ∧
        readByte env (readByte env s a).2 a = (s.mem a % 256, (readByte env s a).2))) := by
  refine ⟨by decide, fun env s a ha hcb h0 hu hc => ?_, fun env s a ha hm hc h0 =>
    readByte_classes env s a ha hm hc h0⟩
  have h := readByte_callback_bit env s a ha hcb h0 hu hc
  exact ⟨h.1, h.2.1, h.2.2.1, h.2.2.2.2.2.2⟩

/-! ## The frame of region installation -/

/-- A loop whose body rewrites the status of its cell by `f` and the value of its cell by `g`,
run over distinct cells. -/
theorem foldl_cells (f g : Nat → Nat → Nat) (l : List Nat) (hn : l.Nodup) (s : sim65s) :
    l.foldl (fun acc a => { acc with
        mems := Function.update acc.mems a (f a (acc.mems a))
        mem := Function.update acc.mem a (g a (acc.mem a)) }) s =
      { s with
        mems := fun x => if x ∈ l then f x (s.mems x) else s.mems x
        mem := fun x => if x ∈ l then g x (s.mem x) else s.mem x } := by
  induction l generalizing s with
  | nil => simp
  | cons a l ih =>
    have hn' := (List.nodup_cons.1 hn)
    rw [List.foldl_cons, ih hn'.2]
    have e1 : (fun x => if x ∈ l then f x (Function.update s.mems a (f a (s.mems a)) x)
        else Function.update s.mems a (f a (s.mems a)) x) =
        (fun x => if x ∈ a :: l then f x (s.mems x) else s.mems x) := by
      funext x
      by_cases hx : x = a
      · subst hx
        rw [if_neg hn'.1, if_pos (List.mem_cons_self _ _), Function.update_same]
      · rw [Function.update_noteq hx]
        by_cases hl : x ∈ l
        · rw [if_pos hl, if_pos (List.mem_cons_of_mem _ hl)]
        · rw [if_neg hl, if_neg (fun c => (List.mem_cons.1 c).elim hx hl)]
    have e2 : (fun x => if x ∈ l then g x (Function.update s.mem a (g a (s.mem a)) x)
        else Function.update s.mem a (g a (s.mem a)) x) =
        (fun x => if x ∈ a :: l then g x (s.mem x) else s.mem x) := by
      funext x
      by_cases hx : x = a
      · subst hx
        rw [if_neg hn'.1, if_pos (List.mem_cons_self _ _), Function.update_same]
      · rw [Function.update_noteq hx]
        by_cases hl : x ∈ l
        · rw [if_pos hl, if_pos (List.mem_cons_of_mem _ hl)]
        · rw [if_neg hl, if_neg (fun c => (List.mem_cons.1 c).elim hx hl)]
    show ({ s with mems := _, mem := _ } : sim65s) = _
    simp only [e1, e2]

theorem mem_clipped_range (addr len a : Nat) (hlen : addr + len < 2 ^ 32) :
    a ∈ List.range' addr
      ((if (addr + len) % 2 ^ 32 ≥ MAXRAM then MAXRAM else (addr + len) % 2 ^ 32) - addr) ↔
      in_range addr len a := by
  rw [List.mem_range'_1, Nat.mod_eq_of_lt hlen]
  unfold in_range MAXRAM
  split <;> omega

/-- The effect of a region installation whose body rewrites status by `f` and value by
`g`. -/
theorem for_range_cells (f g : Nat → Nat → Nat) (s : sim65s) (addr len : Nat)
    (hlen : addr + len < 2 ^ 32) :
    for_range addr (if (addr + len) % 2 ^ 32 ≥ MAXRAM then MAXRAM else (addr + len) % 2 ^ 32)
      (fun a acc => { acc with
        mems := Function.update acc.mems a (f a (acc.mems a))
        mem := Function.update acc.mem a (g a (acc.mem a)) }) s =
      { s with
        mems := fun x => if in_range addr len x then f x (s.mems x) else s.mems x
        mem := fun x => if in_range addr len x then g x (s.mem x) else s.mem x } := by
  unfold for_range
  rw [foldl_cells f g _ (List.nodup_range' _ _) s]
  have e1 : (fun x => if x ∈ List.range' addr
      ((if (addr + len) % 2 ^ 32 ≥ MAXRAM then MAXRAM else (addr + len) % 2 ^ 32) - addr)
      then f x (s.mems x) else s.mems x) =
      (fun x => if in_range addr len x then f x (s.mems x) else s.mems x) := by
    funext x
    by_cases h : in_range addr len x
    · rw [if_pos h, if_pos ((mem_clipped_range addr len x hlen).2 h)]
    · rw [if_neg h, if_neg (fun c => h ((mem_clipped_range addr len x hlen).1 c))]
  have e2 : (fun x => if x ∈ List.range' addr
      ((if (addr + len) % 2 ^ 32 ≥ MAXRAM then MAXRAM else (addr + len) % 2 ^ 32) - addr)
      then g x (s.mem x) else s.mem x) =
      (fun x => if in_range addr len x then g x (s.mem x) else s.mem x) := by
    funext x
    by_cases h : in_range addr len x
    · rw [if_pos h, if_pos ((mem_clipped_range addr len x hlen).2 h)]
    · rw [if_neg h, if_neg (fun c => h ((mem_clipped_range addr len x hlen).1 c))]
  rw [e1, e2]

theorem in_range_lt (addr len a : Nat) (h : in_range addr len a) : addr < MAXRAM :=
  lt_of_le_of_lt h.1 h.2.2

theorem not_in_range_high (addr len : Nat) (h : addr ≥ MAXRAM) :
    (fun x => in_range addr len x) = fun _ => False := by
  funext x
  exact propext ⟨fun c => absurd (in_range_lt addr len x c) (not_lt.2 h), False.elim⟩

theorem add_ram_eq (s : sim65s) (addr len : Nat) (hlen : addr + len < 2 ^ 32) :
    sim65_add_ram s addr len =
      { s with mems := fun x =>
          if in_range addr len x then s.mems x &&& not8 ms_undef else s.mems x } := by
  unfold sim65_add_ram
  dsimp only
  split
  · rename_i h
    have e : (fun x => if in_range addr len x then s.mems x &&& not8 ms_undef else s.mems x) =
        s.mems := by
      funext x
      exact if_neg (fun c => absurd (in_range_lt addr len x c) (not_lt.2 h))
    rw [e]
  · have hb : (fun a (acc : sim65s) =>
        { acc with mems := Function.update acc.mems a (acc.mems a &&& not8 ms_undef) }) =
        (fun a (acc : sim65s) => { acc with
          mems := Function.update acc.mems a ((fun _ m => m &&& not8 ms_undef) a (acc.mems a))
          mem := Function.update acc.mem a ((fun _ v => v) a (acc.mem a)) }) := by
      funext a acc
      have : Function.update acc.mem a (acc.mem a) = acc.mem := Function.update_eq_self _ _
      simp only [this]
    rw [hb, for_range_cells (fun _ m => m &&& not8 ms_undef) (fun _ v => v) s addr len hlen]
    have e : (fun x => if in_range addr len x then s.mem x else s.mem x) = s.mem := by
      funext x; split <;> rfl
    simp only [e]

theorem add_zeroed_ram_eq (s : sim65s) (addr len : Nat) (hlen : addr + len < 2 ^ 32) :
    sim65_add_zeroed_ram s addr len =
      { s with
        mems := fun x => if in_range addr len x then
          s.mems x &&& not8 (ms_undef ||| ms_rom ||| ms_invalid) else s.mems x
        mem := fun x => if in_range addr len x then 0 else s.mem x } := by
  unfold sim65_add_zeroed_ram
  dsimp only
  split
  · rename_i h
    have e1 : (fun x => if in_range addr len x then
        s.mems x &&& not8 (ms_undef ||| ms_rom ||| ms_invalid) else s.mems x) = s.mems := by
      funext x
      exact if_neg (fun c => absurd (in_range_lt addr len x c) (not_lt.2 h))
    have e2 : (fun x => if in_range addr len x then 0 else s.mem x) = s.mem := by
      funext x
      exact if_neg (fun c => absurd (in_range_lt addr len x c) (not_lt.2 h))
    rw [e1, e2]
  · exact for_range_cells (fun _ m => m &&& not8 (ms_undef ||| ms_rom ||| ms_invalid))
      (fun _ _ => 0) s addr len hlen

theorem add_data_ram_eq (s : sim65s) (addr : Nat) (data : Nat → Nat) (len : Nat)
    (hlen : addr + len < 2 ^ 32) :
    sim65_add_data_ram s addr data len =
      { s with
        mems := fun x => if in_range addr len x then
          s.mems x &&& not8 (ms_undef ||| ms_rom ||| ms_invalid) else s.mems x
        mem := fun x => if in_range addr len x then data (x - addr) % 256 else s.mem x } := by
  unfold sim65_add_data_ram
  dsimp only
  split
  · rename_i h
    have e1 : (fun x => if in_range addr len x then
        s.mems x &&& not8 (ms_undef ||| ms_rom ||| ms_invalid) else s.mems x) = s.mems := by
      funext x
      exact if_neg (fun c => absurd (in_range_lt addr len x c) (not_lt.2 h))
    have e2 : (fun x => if in_range addr len x then data (x - addr) % 256 else s.mem x) =
        s.mem := by
      funext x
      exact if_neg (fun c => absurd (in_range_lt addr len x c) (not_lt.2 h))
    rw [e1, e2]
  · exact for_range_cells (fun _ m => m &&& not8 (ms_undef ||| ms_rom ||| ms_invalid))
      (fun x _ => data (x - addr) % 256) s addr len hlen

theorem add_data_rom_eq (s : sim65s) (addr : Nat) (data : Nat → Nat) (len : Nat)
    (hlen : addr + len < 2 ^ 32) :
    sim65_add_data_rom s addr data len =
      { s with
        mems := fun x => if in_range addr len x then
          ((s.mems x &&& not8 (ms_undef ||| ms_invalid)) ||| ms_rom) % 256 else s.mems x
        mem := fun x => if in_range addr len x then data (x - addr) % 256 else s.mem x } := by
  unfold sim65_add_data_rom
  dsimp only
  split
  · rename_i h
    have e1 : (fun x => if in_range addr len x then
        ((s.mems x &&& not8 (ms_undef ||| ms_invalid)) ||| ms_rom) % 256 else s.mems x) =
        s.mems := by
      funext x
      exact if_neg (fun c => absurd (in_range_lt addr len x c) (not_lt.2 h))
    have e2 : (fun x => if in_range addr len x then data (x - addr) % 256 else s.mem x) =
        s.mem := by
      funext x
      exact if_neg (fun c => absurd (in_range_lt addr len x c) (not_lt.2 h))
    rw [e1, e2]
  · exact for_range_cells (fun _ m => ((m &&& not8 (ms_undef ||| ms_invalid)) ||| ms_rom) % 256)
      (fun x _ => data (x - addr) % 256) s addr len hlen

theorem and_not8_undef (m : Nat) :
    (m &&& not8 ms_undef) &&& ms_undef = 0 ∧
    ∀ b ∈ [ms_invalid, ms_rom, ms_callback], (m &&& not8 ms_undef) &&& b = m &&& b := by
  refine ⟨?_, ?_⟩
  · rw [Nat.and_assoc]; exact Nat.and_zero m
  · intro b hb
    rw [Nat.and_assoc]
    have : not8 ms_undef &&& b = b := by
      revert b; decide
    rw [this]

/-- C38. Region installation is clipped and framed: for every `addr` and `len` with
`addr + len` below 2^32, `sim65_add_ram` changes nothing but the status array; on the
addresses `a` of the clipped range, `addr <= a < min(addr + len, 0x10000)`, the new status
is the old one with UNDEF cleared (UNDEF clear, and INVALID, ROM and CALLBACK as before);
at every other address the status is as before; `sim65_add_zeroed_ram`,
`sim65_add_data_ram` and `sim65_add_data_rom` change nothing but the two memory arrays, and
these only on the clipped range; with `addr >= 0x10000` each of the four leaves the state
as it is. -/
theorem install_clipped_framed (s : sim65s) (addr len : Nat) (data : Nat → Nat)
    (hlen : addr + len < 2 ^ 32) :
    (∀ a, in_range addr len a ↔ addr ≤ a ∧ a < min (addr + len) 0x10000) ∧
    sim65_add_ram s addr len = { s with mems := (sim65_add_ram s addr len).mems } ∧
    (∀ a, in_range addr len a →
      (sim65_add_ram s addr len).mems a = s.mems a &&& not8 ms_undef ∧
      (sim65_add_ram s addr len).mems a &&& ms_undef = 0 ∧
      ∀ b ∈ [ms_invalid, ms_rom, ms_callback],
        (sim65_add_ram s addr len).mems a &&& b = s.mems a &&& b) ∧
    (∀ a, ¬ in_range addr len a → (sim65_add_ram s addr len).mems a = s.mems a) ∧
    (sim65_add_zeroed_ram s addr len =
        { s with mem := (sim65_add_zeroed_ram s addr len).mem,
                 mems := (sim65_add_zeroed_ram s addr len).mems } ∧
      ∀ a, ¬ in_range addr len a →
        (sim65_add_zeroed_ram s addr len).mems a = s.mems a ∧
        (sim65_add_zeroed_ram s addr len).mem a = s.mem a) ∧
    (sim65_add_data_ram s addr data len =
        { s with mem := (sim65_add_data_ram s addr data len).mem,
                 mems := (sim65_add_data_ram s addr data len).mems } ∧
      ∀ a, ¬ in_range addr len a →
        (sim65_add_data_ram s addr data len).mems a = s.mems a ∧
        (sim65_add_data_ram s addr data len).mem a = s.mem a) ∧
    (sim65_add_data_rom s addr data len =
        { s with mem := (sim65_add_data_rom s addr data len).mem,
                 mems := (sim65_add_data_rom s addr data len).mems } ∧
      ∀ a, ¬ in_range addr len a →
        (sim65_add_data_rom s addr data len).mems a = s.mems a ∧
        (sim65_add_data_rom s addr data len).mem a = s.mem a) ∧
    (addr ≥ 0x10000 →
      sim65_add_ram s addr len = s ∧ sim65_add_zeroed_ram s addr len = s ∧
      sim65_add_data_ram s addr data len = s ∧ sim65_add_data_rom s addr data len = s) := by
  refine ⟨fun a => ?_, ?_, fun a ha => ?_, fun a ha => ?_, ⟨?_, fun a ha => ?_⟩,
    ⟨?_, fun a ha => ?_⟩, ⟨?_, fun a ha => ?_⟩, fun h => ⟨?_, ?_, ?_, ?_⟩⟩
  · unfold in_range MAXRAM; omega
  · rw [add_ram_eq s addr len hlen]
  · rw [add_ram_eq s addr len hlen]
    show (if in_range addr len a then s.mems a &&& not8 ms_undef else s.mems a) = _ ∧
      (if in_range addr len a then s.mems a &&& not8 ms_undef else s.mems a) &&& ms_undef = 0 ∧
      ∀ b ∈ [ms_invalid, ms_rom, ms_callback],
        (if in_range addr len a then s.mems a &&& not8 ms_undef else s.mems a) &&& b =
          s.mems a &&& b
    rw [if_pos ha]
    exact ⟨rfl, (and_not8_undef _).1, (and_not8_undef _).2⟩
  · rw [add_ram_eq s addr len hlen]
    exact if_neg ha
  · rw [add_zeroed_ram_eq s addr len hlen]
  · rw [add_zeroed_ram_eq s addr len hlen]
    exact ⟨if_neg ha, if_neg ha⟩
  · rw [add_data_ram_eq s addr data len hlen]
  · rw [add_data_ram_eq s addr data len hlen]
    exact ⟨if_neg ha, if_neg ha⟩
  · rw [add_data_rom_eq s addr data len hlen]
  · rw [add_data_rom_eq s addr data len hlen]
    exact ⟨if_neg ha, if_neg ha⟩
  · unfold sim65_add_ram; exact if_pos h
  · unfold sim65_add_zeroed_ram; exact if_pos h
  · unfold sim65_add_data_ram; exact if_pos h
  · unfold sim65_add_data_rom; exact if_pos h

/-- The instance of `install_clipped_framed` at the fresh machine with `addr = 0xFFF8` and
`len = 0x10`, a range that is clipped at `0x10000`: the last cell `$FFFF` has UNDEF cleared
and INVALID kept, the cell `$FFF7` in front of the range is as before. -/
theorem install_clipped_framed_witness :
    0xFFF8 + 0x10 < 2 ^ 32 ∧ in_range 0xFFF8 0x10 0xFFFF ∧ ¬ in_range 0xFFF8 0x10 0xFFF7 ∧
    (sim65_add_ram sim65_new 0xFFF8 0x10).mems 0xFFFF = ms_invalid ∧
    (sim65_add_ram sim65_new 0xFFF8 0x10).mems 0xFFF7 = ms_undef ||| ms_invalid :=
  have h := install_clipped_framed sim65_new 0xFFF8 0x10 (fun _ => 0) (by decide)
  ⟨by decide, by decide, by decide,
    (h.2.2.1 0xFFFF (by decide)).1.trans (by decide),
    (h.2.2.2.1 0xFFF7 (by decide)).trans (by decide)⟩

/-! ## The disassembler -/

set_option maxRecDepth 100000 in
theorem standard_documented :
    ∀ ins, ins < 256 → (ins ∈ implemented_ops ↔ (standard ins).isSome = true) := by
  decide

section profile
variable {env : CbEnv}

theorem wp_mem (s : sim65s) (d : Nat) (p : sim65_prof) : (with_prof s d p).mem = s.mem := rfl
theorem wp_mems (s : sim65s) (d : Nat) (p : sim65_prof) : (with_prof s d p).mems = s.mems := rfl
theorem wp_r (s : sim65s) (d : Nat) (p : sim65_prof) : (with_prof s d p).r = s.r := rfl
theorem wp_error (s : sim65s) (d : Nat) (p : sim65_prof) : (with_prof s d p).error = s.error := rfl
theorem wp_cycles (s : sim65s) (d : Nat) (p : sim65_prof) : (with_prof s d p).cycles = s.cycles :=
  rfl
theorem wp_cycle_limit (s : sim65s) (d : Nat) (p : sim65_prof) :
    (with_prof s d p).cycle_limit = s.cycle_limit := rfl
theorem wp_errlvl (s : sim65s) (d : Nat) (p : sim65_prof) : (with_prof s d p).errlvl = s.errlvl :=
  rfl
theorem wp_debug (s : sim65s) (d : Nat) (p : sim65_prof) : (with_prof s d p).debug = s.debug := rfl
theorem wp_p_valid (s : sim65s) (d : Nat) (p : sim65_prof) :
    (with_prof s d p).p_valid = s.p_valid := rfl
theorem wp_cb_read (s : sim65s) (d : Nat) (p : sim65_prof) :
    (with_prof s d p).cb_read = s.cb_read := rfl
theorem wp_cb_write (s : sim65s) (d : Nat) (p : sim65_prof) :
    (with_prof s d p).cb_write = s.cb_write := rfl
theorem wp_cb_exec (s : sim65s) (d : Nat) (p : sim65_prof) :
    (with_prof s d p).cb_exec = s.cb_exec := rfl
theorem wp_do_prof (s : sim65s) (d : Nat) (p : sim65_prof) : (with_prof s d p).do_prof = d := rfl
theorem wp_prof (s : sim65s) (d : Nat) (p : sim65_prof) : (with_prof s d p).prof = p := rfl

theorem wp_wp (s : sim65s) (d e : Nat) (p q : sim65_prof) :
    with_prof (with_prof s d p) e q = with_prof s e q := rfl

theorem wp_self (s : sim65s) : with_prof s s.do_prof s.prof = s := rfl

theorem wp_set_flags (s : sim65s) (d : Nat) (p : sim65_prof) (m v : Nat) :
    set_flags (with_prof s d p) m v = with_prof (set_flags s m v) d p := rfl

theorem wp_get_flags (s : sim65s) (d : Nat) (p : sim65_prof) (m : Nat) :
    get_flags (with_prof s d p) m = get_flags s m := rfl

theorem wp_add_cycles (s : sim65s) (d : Nat) (p : sim65_prof) (n : Nat) :
    add_cycles (with_prof s d p) n = with_prof (add_cycles s n) d p := rfl

theorem wp_set_a (s : sim65s) (d : Nat) (p : sim65_prof) (v : Nat) :
    set_a (with_prof s d p) v = with_prof (set_a s v) d p := rfl

theorem wp_set_x (s : sim65s) (d : Nat) (p : sim65_prof) (v : Nat) :
    set_x (with_prof s d p) v = with_prof (set_x s v) d p := rfl

theorem wp_set_y (s : sim65s) (d : Nat) (p : sim65_prof) (v : Nat) :
    set_y (with_prof s d p) v = with_prof (set_y s v) d p := rfl

theorem wp_set_s (s : sim65s) (d : Nat) (p : sim65_prof) (v : Nat) :
    set_s (with_prof s d p) v = with_prof (set_s s v) d p := rfl

theorem wp_set_pc (s : sim65s) (d : Nat) (p : sim65_prof) (v : Nat) :
    set_pc (with_prof s d p) v = with_prof (set_pc s v) d p := rfl

theorem wp_SET_ZN (s : sim65s) (d : Nat) (p : sim65_prof) (v : Nat) :
    SET_ZN (with_prof s d p) v = with_prof (SET_ZN s v) d p := rfl

theorem wp_set_error (s : sim65s) (d : Nat) (p : sim65_prof) (e : Int) (a : Nat) :
    set_error (with_prof s d p) e a = with_prof (set_error s e a) d p := by
  unfold set_error
  rw [wp_error]
  split <;> rfl

theorem wp_get_error_exit (s : sim65s) (d : Nat) (p : sim65_prof) :
    get_error_exit (with_prof s d p) =
      ((get_error_exit s).1, with_prof (get_error_exit s).2 d p) := by
  unfold get_error_exit
  simp only [wp_error, wp_errlvl]
  repeat' split
  all_goals rfl

theorem wp_do_adc (s : sim65s) (d : Nat) (p : sim65_prof) (v : Nat) :
    do_adc (with_prof s d p) v = with_prof (do_adc s v) d p := by
  unfold do_adc
  show (if GETD s ≠ 0 then _ else _) = _
  split <;> rfl

theorem wp_do_sbc (s : sim65s) (d : Nat) (p : sim65_prof) (v : Nat) :
    do_sbc (with_prof s d p) v = with_prof (do_sbc s v) d p := by
  unfold do_sbc
  show (if GETD s ≠ 0 then _ else _) = _
  split <;> rfl

theorem pfo_ORA : ProfFreeOp ORA := fun _ _ _ _ => rfl
theorem pfo_AND : ProfFreeOp AND := fun _ _ _ _ => rfl
theorem pfo_EOR : ProfFreeOp EOR := fun _ _ _ _ => rfl
theorem pfo_ADC : ProfFreeOp ADC := fun s v d p => by
  unfold ADC; rw [wp_do_adc]
theorem pfo_SBC : ProfFreeOp SBC := fun s v d p => by
  unfold SBC; rw [wp_do_sbc]
theorem pfo_ASL : ProfFreeOp ASL := fun _ _ _ _ => rfl
theorem pfo_ROL : ProfFreeOp ROL := fun _ _ _ _ => rfl
theorem pfo_LSR : ProfFreeOp LSR := fun _ _ _ _ => rfl
theorem pfo_ROR : ProfFreeOp ROR := fun _ _ _ _ => rfl
theorem pfo_DEC : ProfFreeOp DEC := fun _ _ _ _ => rfl
theorem pfo_INC : ProfFreeOp INC := fun _ _ _ _ => rfl
theorem pfo_CMP : ProfFreeOp CMP := fun _ _ _ _ => rfl
theorem pfo_CPX : ProfFreeOp CPX := fun _ _ _ _ => rfl
theorem pfo_CPY : ProfFreeOp CPY := fun _ _ _ _ => rfl
theorem pfo_LDA : ProfFreeOp LDA := fun _ _ _ _ => rfl
theorem pfo_LDX : ProfFreeOp LDX := fun _ _ _ _ => rfl
theorem pfo_LDY : ProfFreeOp LDY := fun _ _ _ _ => rfl
theorem pfo_STA : ProfFreeOp STA := fun _ _ _ _ => rfl
theorem pfo_STX : ProfFreeOp STX := fun _ _ _ _ => rfl
theorem pfo_STY : ProfFreeOp STY := fun _ _ _ _ => rfl
theorem pfo_TSX_op : ProfFreeOp TSX_op := fun _ _ _ _ => rfl

theorem wp_readByte (hb : prof_blind env) (s : sim65s) (d : Nat) (p : sim65_prof) (a : Nat) :
    readByte env (with_prof s d p) a =
      ((readByte env s a).1, with_prof (readByte env s a).2 d p) := by
  unfold readByte
  simp only [wp_mems, wp_mem]
  split
  · rfl
  · unfold readByte_slow
    simp only [wp_mems, wp_mem, wp_cb_read]
    split
    · rename_i cb _
      simp only [hb cb s, wp_set_error]
    · simp only
      split
      · simp only [wp_set_error, wp_mem]
      · simp only [wp_set_error, wp_mem, wp_mems]
        rfl

theorem wp_writeByte (hb : prof_blind env) (s : sim65s) (d : Nat) (p : sim65_prof) (a v : Nat) :
    writeByte env (with_prof s d p) a v = with_prof (writeByte env s a v) d p := by
  unfold writeByte
  simp only [wp_mems, wp_mem]
  split
  · rfl
  · unfold writeByte_slow
    simp only [wp_mems, wp_mem, wp_cb_write]
    split
    · rfl
    · split
      · rename_i cb _
        simp only [hb cb s, wp_set_error]
      · split
        · exact wp_set_error _ _ _ _ _
        · split
          · exact wp_set_error _ _ _ _ _
          · rfl

theorem wp_readWord (hb : prof_blind env) (s : sim65s) (d : Nat) (p : sim65_prof) (a : Nat) :
    readWord env (with_prof s d p) a =
      ((readWord env s a).1, with_prof (readWord env s a).2 d p) := by
  unfold readWord
  simp only [wp_readByte hb]

theorem wp_SETZ (s : sim65s) (d : Nat) (p : sim65_prof) (a : Nat) :
    SETZ (with_prof s d p) a = with_prof (SETZ s a) d p := rfl

theorem wp_SETN (s : sim65s) (d : Nat) (p : sim65_prof) (a : Nat) :
    SETN (with_prof s d p) a = with_prof (SETN s a) d p := rfl

theorem wp_SETV (s : sim65s) (d : Nat) (p : sim65_prof) (b : Bool) :
    SETV (with_prof s d p) b = with_prof (SETV s b) d p := rfl

theorem wp_readIndX (hb : prof_blind env) (s : sim65s) (d : Nat) (p : sim65_prof) (a : Nat) :
    readIndX env (with_prof s d p) a =
      ((readIndX env s a).1, with_prof (readIndX env s a).2 d p) := by
  unfold readIndX
  simp only [wp_add_cycles, wp_readByte hb, wp_writeByte hb, wp_readWord hb, wp_r, wp_set_a, wp_set_x,
    wp_set_y, wp_set_s, wp_set_pc, wp_SET_ZN, wp_set_flags, wp_get_flags]

theorem wp_writeIndX (hb : prof_blind env) (s : sim65s) (d : Nat) (p : sim65_prof) (a v : Nat) :
    writeIndX env (with_prof s d p) a v = with_prof (writeIndX env s a v) d p := by
  unfold writeIndX
  simp only [wp_add_cycles, wp_readByte hb, wp_writeByte hb, wp_readWord hb, wp_r, wp_set_a, wp_set_x,
    wp_set_y, wp_set_s, wp_set_pc, wp_SET_ZN, wp_set_flags, wp_get_flags]

theorem wp_writeIndY (hb : prof_blind env) (s : sim65s) (d : Nat) (p : sim65_prof) (a v : Nat) :
    writeIndY env (with_prof s d p) a v = with_prof (writeIndY env s a v) d p := by
  unfold writeIndY
  simp only [wp_add_cycles, wp_readByte hb, wp_writeByte hb, wp_readWord hb, wp_r, wp_set_a, wp_set_x,
    wp_set_y, wp_set_s, wp_set_pc, wp_SET_ZN, wp_set_flags, wp_get_flags]

theorem wp_POP (hb : prof_blind env) (s : sim65s) (d : Nat) (p : sim65_prof) :
    POP env (with_prof s d p) = ((POP env s).1, with_prof (POP env s).2 d p) := by
  unfold POP
  simp only [wp_add_cycles, wp_readByte hb, wp_writeByte hb, wp_readWord hb, wp_r, wp_set_a, wp_set_x,
    wp_set_y, wp_set_s, wp_set_pc, wp_SET_ZN, wp_set_flags, wp_get_flags]

theorem wp_PUSH (hb : prof_blind env) (val : sim65s → Nat)
    (hv : ∀ s d p, val (with_prof s d p) = val s) (s : sim65s) (d : Nat) (p : sim65_prof) :
    PUSH env val (with_prof s d p) = with_prof (PUSH env val s) d p := by
  unfold PUSH
  simp only [wp_add_cycles, wp_readByte hb, wp_writeByte hb, wp_readWord hb, wp_r, wp_set_a, wp_set_x,
    wp_set_y, wp_set_s, wp_set_pc, wp_SET_ZN, wp_set_flags, wp_get_flags, hv]

theorem wp_do_bit (hb : prof_blind env) (s : sim65s) (d : Nat) (p : sim65_prof) (a : Nat) :
    do_bit env (with_prof s d p) a = with_prof (do_bit env s a) d p := by
  unfold do_bit
  simp only [wp_mems]
  split
  · rfl
  · simp only [wp_add_cycles, wp_readByte hb, wp_writeByte hb, wp_readWord hb, wp_r, wp_set_a, wp_set_x,
    wp_set_y, wp_set_s, wp_set_pc, wp_SET_ZN, wp_set_flags, wp_get_flags, wp_SETZ, wp_SETN, wp_SETV]

theorem wp_do_jsr (hb : prof_blind env) (s : sim65s) (d : Nat) (p : sim65_prof) (data : Nat) :
    do_jsr env (with_prof s d p) data = with_prof (do_jsr env s data) d p := by
  unfold do_jsr
  simp only [wp_set_pc, wp_r, wp_PUSH hb (fun s => s.r.pc >>> 8) (fun _ _ _ => rfl),
    wp_PUSH hb (fun s => s.r.pc) (fun _ _ _ => rfl)]

theorem wp_do_rts (hb : prof_blind env) (s : sim65s) (d : Nat) (p : sim65_prof) :
    do_rts env (with_prof s d p) = with_prof (do_rts env s) d p := by
  unfold do_rts
  simp only [wp_POP hb, wp_add_cycles, wp_readByte hb, wp_writeByte hb, wp_readWord hb, wp_r, wp_set_a, wp_set_x,
    wp_set_y, wp_set_s, wp_set_pc, wp_SET_ZN, wp_set_flags, wp_get_flags]

theorem wp_POP_P (hb : prof_blind env) (s : sim65s) (d : Nat) (p : sim65_prof) :
    POP_P env (with_prof s d p) = with_prof (POP_P env s) d p := by
  unfold POP_P
  simp only [wp_POP hb, wp_add_cycles, wp_readByte hb, wp_writeByte hb, wp_readWord hb, wp_r, wp_set_a, wp_set_x,
    wp_set_y, wp_set_s, wp_set_pc, wp_SET_ZN, wp_set_flags, wp_get_flags]

theorem wp_POP_A (hb : prof_blind env) (s : sim65s) (d : Nat) (p : sim65_prof) :
    POP_A env (with_prof s d p) = with_prof (POP_A env s) d p := by
  unfold POP_A
  simp only [wp_POP hb, pfo_LDA _ _ _ _, wp_add_cycles, wp_readByte hb, wp_writeByte hb, wp_readWord hb, wp_r, wp_set_a, wp_set_x,
    wp_set_y, wp_set_s, wp_set_pc, wp_SET_ZN, wp_set_flags, wp_get_flags]

theorem wp_do_rti (hb : prof_blind env) (s : sim65s) (d : Nat) (p : sim65_prof) :
    do_rti env (with_prof s d p) = with_prof (do_rti env s) d p := by
  unfold do_rti
  simp only [wp_POP hb, wp_POP_P hb, wp_add_cycles, wp_readByte hb, wp_writeByte hb, wp_readWord hb, wp_r, wp_set_a, wp_set_x,
    wp_set_y, wp_set_s, wp_set_pc, wp_SET_ZN, wp_set_flags, wp_get_flags]

theorem wp_ZP_R (hb : prof_blind env) {op : Op} (hop : ProfFreeOp op) (data : Nat) (s : sim65s)
    (d : Nat) (p : sim65_prof) :
    ZP_R env op data (with_prof s d p) = with_prof (ZP_R env op data s) d p := by
  unfold ZP_R
  simp only [wp_add_cycles, wp_readByte hb, wp_writeByte hb, wp_readWord hb, wp_r, wp_set_a, wp_set_x,
    wp_set_y, wp_set_s, wp_set_pc, wp_SET_ZN, wp_set_flags, wp_get_flags, hop _ _ _ _]

theorem wp_ZP_W (hb : prof_blind env) {op : Op} (hop : ProfFreeOp op) (data : Nat) (s : sim65s)
    (d : Nat) (p : sim65_prof) :
    ZP_W env op data (with_prof s d p) = with_prof (ZP_W env op data s) d p := by
  unfold ZP_W
  simp only [wp_add_cycles, wp_readByte hb, wp_writeByte hb, wp_readWord hb, wp_r, wp_set_a, wp_set_x,
    wp_set_y, wp_set_s, wp_set_pc, wp_SET_ZN, wp_set_flags, wp_get_flags, hop _ _ _ _]

theorem wp_ZP_RW (hb : prof_blind env) {op : Op} (hop : ProfFreeOp op) (data : Nat) (s : sim65s)
    (d : Nat) (p : sim65_prof) :
    ZP_RW env op data (with_prof s d p) = with_prof (ZP_RW env op data s) d p := by
  unfold ZP_RW
  simp only [wp_add_cycles, wp_readByte hb, wp_writeByte hb, wp_readWord hb, wp_r, wp_set_a, wp_set_x,
    wp_set_y, wp_set_s, wp_set_pc, wp_SET_ZN, wp_set_flags, wp_get_flags, hop _ _ _ _]

theorem wp_ABS_R (hb : prof_blind env) {op : Op} (hop : ProfFreeOp op) (data : Nat) (s : sim65s)
    (d : Nat) (p : sim65_prof) :
    ABS_R env op data (with_prof s d p) = with_prof (ABS_R env op data s) d p := by
  unfold ABS_R
  simp only [wp_add_cycles, wp_readByte hb, wp_writeByte hb, wp_readWord hb, wp_r, wp_set_a, wp_set_x,
    wp_set_y, wp_set_s, wp_set_pc, wp_SET_ZN, wp_set_flags, wp_get_flags, hop _ _ _ _]

theorem wp_ABS_W (hb : prof_blind env) {op : Op} (hop : ProfFreeOp op) (data : Nat) (s : sim65s)
    (d : Nat) (p : sim65_prof) :
    ABS_W env op data (with_prof s d p) = with_prof (ABS_W env op data s) d p := by
  unfold ABS_W
  simp only [wp_add_cycles, wp_readByte hb, wp_writeByte hb, wp_readWord hb, wp_r, wp_set_a, wp_set_x,
    wp_set_y, wp_set_s, wp_set_pc, wp_SET_ZN, wp_set_flags, wp_get_flags, hop _ _ _ _]

theorem wp_ABS_RW (hb : prof_blind env) {op : Op} (hop : ProfFreeOp op) (data : Nat) (s : sim65s)
    (d : Nat) (p : sim65_prof) :
    ABS_RW env op data (with_prof s d p) = with_prof (ABS_RW env op data s) d p := by
  unfold ABS_RW
  simp only [wp_add_cycles, wp_readByte hb, wp_writeByte hb, wp_readWord hb, wp_r, wp_set_a, wp_set_x,
    wp_set_y, wp_set_s, wp_set_pc, wp_SET_ZN, wp_set_flags, wp_get_flags, hop _ _ _ _]

theorem wp_ZPX_R (hb : prof_blind env) {op : Op} (hop : ProfFreeOp op) (data : Nat) (s : sim65s)
    (d : Nat) (p : sim65_prof) :
    ZPX_R env op data (with_prof s d p) = with_prof (ZPX_R env op data s) d p := by
  unfold ZPX_R
  simp only [wp_add_cycles, wp_readByte hb, wp_writeByte hb, wp_readWord hb, wp_r, wp_set_a, wp_set_x,
    wp_set_y, wp_set_s, wp_set_pc, wp_SET_ZN, wp_set_flags, wp_get_flags, hop _ _ _ _]

theorem wp_ZPX_W (hb : prof_blind env) {op : Op} (hop : ProfFreeOp op) (data : Nat) (s : sim65s)
    (d : Nat) (p : sim65_prof) :
    ZPX_W env op data (with_prof s d p) = with_prof (ZPX_W env op data s) d p := by
  unfold ZPX_W
  simp only [wp_add_cycles, wp_readByte hb, wp_writeByte hb, wp_readWord hb, wp_r, wp_set_a, wp_set_x,
    wp_set_y, wp_set_s, wp_set_pc, wp_SET_ZN, wp_set_flags, wp_get_flags, hop _ _ _ _]

theorem wp_ZPX_RW (hb : prof_blind env) {op : Op} (hop : ProfFreeOp op) (data : Nat) (s : sim65s)
    (d : Nat) (p : sim65_prof) :
    ZPX_RW env op data (with_prof s d p) = with_prof (ZPX_RW env op data s) d p := by
  unfold ZPX_RW
  simp only [wp_add_cycles, wp_readByte hb, wp_writeByte hb, wp_readWord hb, wp_r, wp_set_a, wp_set_x,
    wp_set_y, wp_set_s, wp_set_pc, wp_SET_ZN, wp_set_flags, wp_get_flags, hop _ _ _ _]

theorem wp_ZPY_R (hb : prof_blind env) {op : Op} (hop : ProfFreeOp op) (data : Nat) (s : sim65s)
    (d : Nat) (p : sim65_prof) :
    ZPY_R env op data (with_prof s d p) = with_prof (ZPY_R env op data s) d p := by
  unfold ZPY_R
  simp only [wp_add_cycles, wp_readByte hb, wp_writeByte hb, wp_readWord hb, wp_r, wp_set_a, wp_set_x,
    wp_set_y, wp_set_s, wp_set_pc, wp_SET_ZN, wp_set_flags, wp_get_flags, hop _ _ _ _]

theorem wp_ZPY_W (hb : prof_blind env) {op : Op} (hop : ProfFreeOp op) (data : Nat) (s : sim65s)
    (d : Nat) (p : sim65_prof) :
    ZPY_W env op data (with_prof s d p) = with_prof (ZPY_W env op data s) d p := by
  unfold ZPY_W
  simp only [wp_add_cycles, wp_readByte hb, wp_writeByte hb, wp_readWord hb, wp_r, wp_set_a, wp_set_x,
    wp_set_y, wp_set_s, wp_set_pc, wp_SET_ZN, wp_set_flags, wp_get_flags, hop _ _ _ _]

theorem wp_ABX_W (hb : prof_blind env) {op : Op} (hop : ProfFreeOp op) (data : Nat) (s : sim65s)
    (d : Nat) (p : sim65_prof) :
    ABX_W env op data (with_prof s d p) = with_prof (ABX_W env op data s) d p := by
  unfold ABX_W
  simp only [wp_add_cycles, wp_readByte hb, wp_writeByte hb, wp_readWord hb, wp_r, wp_set_a, wp_set_x,
    wp_set_y, wp_set_s, wp_set_pc, wp_SET_ZN, wp_set_flags, wp_get_flags, hop _ _ _ _]

theorem wp_ABX_RW (hb : prof_blind env) {op : Op} (hop : ProfFreeOp op) (data : Nat) (s : sim65s)
    (d : Nat) (p : sim65_prof) :
    ABX_RW env op data (with_prof s d p) = with_prof (ABX_RW env op data s) d p := by
  unfold ABX_RW
  simp only [wp_add_cycles, wp_readByte hb, wp_writeByte hb, wp_readWord hb, wp_r, wp_set_a, wp_set_x,
    wp_set_y, wp_set_s, wp_set_pc, wp_SET_ZN, wp_set_flags, wp_get_flags, hop _ _ _ _]

theorem wp_ABY_W (hb : prof_blind env) {op : Op} (hop : ProfFreeOp op) (data : Nat) (s : sim65s)
    (d : Nat) (p : sim65_prof) :
    ABY_W env op data (with_prof s d p) = with_prof (ABY_W env op data s) d p := by
  unfold ABY_W
  simp only [wp_add_cycles, wp_readByte hb, wp_writeByte hb, wp_readWord hb, wp_r, wp_set_a, wp_set_x,
    wp_set_y, wp_set_s, wp_set_pc, wp_SET_ZN, wp_set_flags, wp_get_flags, hop _ _ _ _]

theorem wp_IND_X (hb : prof_blind env) {op : Op} (hop : ProfFreeOp op) (data : Nat) (s : sim65s)
    (d : Nat) (p : sim65_prof) :
    IND_X env op data (with_prof s d p) = with_prof (IND_X env op data s) d p := by
  unfold IND_X
  simp only [wp_add_cycles, wp_readByte hb, wp_writeByte hb, wp_readWord hb, wp_r, wp_set_a, wp_set_x,
    wp_set_y, wp_set_s, wp_set_pc, wp_SET_ZN, wp_set_flags, wp_get_flags, hop _ _ _ _, wp_readIndX hb]

theorem wp_INDW_X (hb : prof_blind env) {op : Op} (hop : ProfFreeOp op) (data : Nat) (s : sim65s)
    (d : Nat) (p : sim65_prof) :
    INDW_X env op data (with_prof s d p) = with_prof (INDW_X env op data s) d p := by
  unfold INDW_X
  simp only [wp_add_cycles, wp_readByte hb, wp_writeByte hb, wp_readWord hb, wp_r, wp_set_a, wp_set_x,
    wp_set_y, wp_set_s, wp_set_pc, wp_SET_ZN, wp_set_flags, wp_get_flags, hop _ _ _ _, wp_writeIndX hb]

theorem wp_INDW_Y (hb : prof_blind env) {op : Op} (hop : ProfFreeOp op) (data : Nat) (s : sim65s)
    (d : Nat) (p : sim65_prof) :
    INDW_Y env op data (with_prof s d p) = with_prof (INDW_Y env op data s) d p := by
  unfold INDW_Y
  simp only [wp_add_cycles, wp_readByte hb, wp_writeByte hb, wp_readWord hb, wp_r, wp_set_a, wp_set_x,
    wp_set_y, wp_set_s, wp_set_pc, wp_SET_ZN, wp_set_flags, wp_get_flags, hop _ _ _ _, wp_writeIndY hb]

theorem wp_IMM {op : Op} (hop : ProfFreeOp op) (data : Nat) (s : sim65s)
    (d : Nat) (p : sim65_prof) :
    IMM op data (with_prof s d p) = with_prof (IMM op data s) d p := by
  unfold IMM
  simp only [wp_add_cycles, wp_r, wp_set_a, wp_set_x, wp_set_y, wp_set_s, wp_set_pc, wp_SET_ZN,
    wp_set_flags, wp_get_flags, hop _ _ _ _]

theorem wp_IMP_A {op : Op} (hop : ProfFreeOp op) (s : sim65s)
    (d : Nat) (p : sim65_prof) :
    IMP_A op (with_prof s d p) = with_prof (IMP_A op s) d p := by
  unfold IMP_A
  simp only [wp_add_cycles, wp_r, wp_set_a, wp_set_x, wp_set_y, wp_set_s, wp_set_pc, wp_SET_ZN,
    wp_set_flags, wp_get_flags, hop _ _ _ _]

theorem wp_IMP_X {op : Op} (hop : ProfFreeOp op) (s : sim65s)
    (d : Nat) (p : sim65_prof) :
    IMP_X op (with_prof s d p) = with_prof (IMP_X op s) d p := by
  unfold IMP_X
  simp only [wp_add_cycles, wp_r, wp_set_a, wp_set_x, wp_set_y, wp_set_s, wp_set_pc, wp_SET_ZN,
    wp_set_flags, wp_get_flags, hop _ _ _ _]

theorem wp_IMP_Y {op : Op} (hop : ProfFreeOp op) (s : sim65s)
    (d : Nat) (p : sim65_prof) :
    IMP_Y op (with_prof s d p) = with_prof (IMP_Y op s) d p := by
  unfold IMP_Y
  simp only [wp_add_cycles, wp_r, wp_set_a, wp_set_x, wp_set_y, wp_set_s, wp_set_pc, wp_SET_ZN,
    wp_set_flags, wp_get_flags, hop _ _ _ _]

theorem wp_BIT_ZP (hb : prof_blind env) (data : Nat) (s : sim65s)
    (d : Nat) (p : sim65_prof) :
    BIT_ZP env data (with_prof s d p) = with_prof (BIT_ZP env data s) d p := by
  unfold BIT_ZP
  simp only [wp_add_cycles, wp_readByte hb, wp_writeByte hb, wp_readWord hb, wp_r, wp_set_a, wp_set_x,
    wp_set_y, wp_set_s, wp_set_pc, wp_SET_ZN, wp_set_flags, wp_get_flags, wp_do_bit hb]

theorem wp_BIT_ABS (hb : prof_blind env) (data : Nat) (s : sim65s)
    (d : Nat) (p : sim65_prof) :
    BIT_ABS env data (with_prof s d p) = with_prof (BIT_ABS env data s) d p := by
  unfold BIT_ABS
  simp only [wp_add_cycles, wp_readByte hb, wp_writeByte hb, wp_readWord hb, wp_r, wp_set_a, wp_set_x,
    wp_set_y, wp_set_s, wp_set_pc, wp_SET_ZN, wp_set_flags, wp_get_flags, wp_do_bit hb]

theorem wp_JMP16 (hb : prof_blind env) (data : Nat) (s : sim65s)
    (d : Nat) (p : sim65_prof) :
    JMP16 env data (with_prof s d p) = with_prof (JMP16 env data s) d p := by
  unfold JMP16
  simp only [wp_add_cycles, wp_readByte hb, wp_writeByte hb, wp_readWord hb, wp_r, wp_set_a, wp_set_x,
    wp_set_y, wp_set_s, wp_set_pc, wp_SET_ZN, wp_set_flags, wp_get_flags]

theorem wp_JMP (data : Nat) (s : sim65s)
    (d : Nat) (p : sim65_prof) :
    JMP data (with_prof s d p) = with_prof (JMP data s) d p := by
  unfold JMP
  simp only [wp_add_cycles, wp_r, wp_set_a, wp_set_x, wp_set_y, wp_set_s, wp_set_pc, wp_SET_ZN,
    wp_set_flags, wp_get_flags]

theorem wp_CL_F (f : Nat) (s : sim65s)
    (d : Nat) (p : sim65_prof) :
    CL_F f (with_prof s d p) = with_prof (CL_F f s) d p := by
  unfold CL_F
  simp only [wp_add_cycles, wp_r, wp_set_a, wp_set_x, wp_set_y, wp_set_s, wp_set_pc, wp_SET_ZN,
    wp_set_flags, wp_get_flags]

theorem wp_SE_F (f : Nat) (s : sim65s)
    (d : Nat) (p : sim65_prof) :
    SE_F f (with_prof s d p) = with_prof (SE_F f s) d p := by
  unfold SE_F
  simp only [wp_add_cycles, wp_r, wp_set_a, wp_set_x, wp_set_y, wp_set_s, wp_set_pc, wp_SET_ZN,
    wp_set_flags, wp_get_flags]

theorem wp_TXS  (s : sim65s)
    (d : Nat) (p : sim65_prof) :
    TXS (with_prof s d p) = with_prof (TXS s) d p := by
  unfold TXS
  simp only [wp_add_cycles, wp_r, wp_set_a, wp_set_x, wp_set_y, wp_set_s, wp_set_pc, wp_SET_ZN,
    wp_set_flags, wp_get_flags]

theorem pf_eq {d : Nat} {p : sim65_prof} {t' t : sim65s} (h : t' = with_prof t d p) :
    ProfFree d p t' t := ⟨p, h, rfl, rfl⟩

theorem pf_ite (c : Prop) [Decidable c] {d : Nat} {p : sim65_prof} {a' a b' b : sim65s}
    (ha : ProfFree d p a' a) (hb : ProfFree d p b' b) :
    ProfFree d p (if c then a' else b') (if c then a else b) := by
  split
  · exact ha
  · exact hb

theorem pf_do_extra_absx (s : sim65s) (d : Nat) (p : sim65_prof) (data : Nat) :
    ProfFree d p (do_extra_absx (with_prof s d p) data) (do_extra_absx s data) := by
  unfold do_extra_absx ProfFree
  simp only [wp_r, wp_add_cycles, wp_do_prof, wp_prof]
  by_cases c : (data &&& 0xFF) + s.r.x > 0xFF
  · simp only [if_pos c]
    by_cases hd : d ≠ 0
    · rw [if_pos hd]
      refine ⟨{ p with abs_x_extra := (p.abs_x_extra + 1) % 2^32 }, ?_, rfl, rfl⟩
      split <;> rfl
    · rw [if_neg hd]
      refine ⟨p, ?_, rfl, rfl⟩
      split <;> rfl
  · simp only [if_neg c]
    exact ⟨p, rfl, rfl, rfl⟩

theorem pf_do_extra_absy (s : sim65s) (d : Nat) (p : sim65_prof) (data : Nat) :
    ProfFree d p (do_extra_absy (with_prof s d p) data) (do_extra_absy s data) := by
  unfold do_extra_absy ProfFree
  simp only [wp_r, wp_add_cycles, wp_do_prof, wp_prof]
  by_cases c : (data &&& 0xFF) + s.r.y > 0xFF
  · simp only [if_pos c]
    by_cases hd : d ≠ 0
    · rw [if_pos hd]
      refine ⟨{ p with abs_y_extra := (p.abs_y_extra + 1) % 2^32 }, ?_, rfl, rfl⟩
      split <;> rfl
    · rw [if_neg hd]
      refine ⟨p, ?_, rfl, rfl⟩
      split <;> rfl
  · simp only [if_neg c]
    exact ⟨p, rfl, rfl, rfl⟩

theorem pf_ABX_R (hb : prof_blind env) {op : Op} (hop : ProfFreeOp op) (data : Nat) (s : sim65s)
    (d : Nat) (p : sim65_prof) :
    ProfFree d p (ABX_R env op data (with_prof s d p)) (ABX_R env op data s) := by
  obtain ⟨p1, h1, e1, e2⟩ := pf_do_extra_absx (add_cycles s 4) d p data
  refine ⟨p1, ?_, e1, e2⟩
  unfold ABX_R
  simp only [wp_add_cycles, h1, wp_readByte hb, hop _ _ _ _, wp_r]

theorem pf_ABY_R (hb : prof_blind env) {op : Op} (hop : ProfFreeOp op) (data : Nat) (s : sim65s)
    (d : Nat) (p : sim65_prof) :
    ProfFree d p (ABY_R env op data (with_prof s d p)) (ABY_R env op data s) := by
  obtain ⟨p1, h1, e1, e2⟩ := pf_do_extra_absy (add_cycles s 4) d p data
  refine ⟨p1, ?_, e1, e2⟩
  unfold ABY_R
  simp only [wp_add_cycles, h1, wp_readByte hb, hop _ _ _ _, wp_r]

theorem pf_readIndY (hb : prof_blind env) (s : sim65s) (d : Nat) (p : sim65_prof) (a : Nat) :
    ∃ p', readIndY env (with_prof s d p) a =
        ((readIndY env s a).1, with_prof (readIndY env s a).2 d p') ∧
      p'.exe = p.exe ∧ p'.instructions = p.instructions := by
  unfold readIndY
  simp only [wp_add_cycles, wp_readWord hb]
  generalize readWord env (add_cycles s 5) (a &&& 0xFF) = w
  by_cases c : (w.1 &&& 0xFF) + w.2.r.y > 0xFF
  · by_cases hd : d ≠ 0
    · refine ⟨{ p with ind_y_extra := (p.ind_y_extra + 1) % 2^32 }, ?_, rfl, rfl⟩
      by_cases hs : w.2.do_prof ≠ 0
      · simp only [wp_r, wp_do_prof, if_pos c, if_pos hd,
          if_pos (show (add_cycles w.2 1).do_prof ≠ 0 from hs)]
        exact wp_readByte hb
          { add_cycles w.2 1 with prof := { (add_cycles w.2 1).prof with
              ind_y_extra := ((add_cycles w.2 1).prof.ind_y_extra + 1) % 2^32 } } d _ _
      · simp only [wp_r, wp_do_prof, if_pos c, if_pos hd,
          if_neg (show ¬ (add_cycles w.2 1).do_prof ≠ 0 from hs)]
        exact wp_readByte hb (add_cycles w.2 1) d _ _
    · refine ⟨p, ?_, rfl, rfl⟩
      by_cases hs : w.2.do_prof ≠ 0
      · simp only [wp_r, wp_do_prof, if_pos c, if_neg hd,
          if_pos (show (add_cycles w.2 1).do_prof ≠ 0 from hs)]
        exact wp_readByte hb
          { add_cycles w.2 1 with prof := { (add_cycles w.2 1).prof with
              ind_y_extra := ((add_cycles w.2 1).prof.ind_y_extra + 1) % 2^32 } } d _ _
      · simp only [wp_r, wp_do_prof, if_pos c, if_neg hd,
          if_neg (show ¬ (add_cycles w.2 1).do_prof ≠ 0 from hs)]
        exact wp_readByte hb (add_cycles w.2 1) d _ _
  · refine ⟨p, ?_, rfl, rfl⟩
    simp only [wp_r, if_neg c]
    exact wp_readByte hb w.2 d p _

theorem pf_IND_Y (hb : prof_blind env) {op : Op} (hop : ProfFreeOp op) (data : Nat) (s : sim65s)
    (d : Nat) (p : sim65_prof) :
    ProfFree d p (IND_Y env op data (with_prof s d p)) (IND_Y env op data s) := by
  obtain ⟨p1, h1, e1, e2⟩ := pf_readIndY hb s d p data
  refine ⟨p1, ?_, e1, e2⟩
  unfold IND_Y
  simp only [h1, hop _ _ _ _]

theorem pf_do_branch (s : sim65s) (d : Nat) (p : sim65_prof) (off mask cond : Nat) :
    ProfFree d p (do_branch (with_prof s d p) off mask cond) (do_branch s off mask cond) := by
  obtain ⟨dbg, err, lvl, ea, cyc, lim, dp, r, pv, mem, mems, cr, cw, ce, prof, lab, host⟩ := s
  unfold do_branch ProfFree with_prof add_cycles get_flags
  dsimp only
  split_ifs <;> exact ⟨_, rfl, rfl, rfl⟩

set_option maxRecDepth 8000 in
/-- The dispatch acts in the same way whatever the profile, and leaves the per-address
cycle buckets and the instruction count alone. -/
theorem dispatch_prof_free (hb : prof_blind env) (ins data : Nat) (s : sim65s) (d : Nat)
    (p : sim65_prof) :
    ProfFree d p (dispatch env ins data (with_prof s d p)) (dispatch env ins data s) := by
  unfold dispatch
  refine pf_ite _ (pf_eq (wp_set_error _ _ _ _ _)) ?_
  refine pf_ite _ (pf_eq (wp_IND_X hb pfo_ORA data s d p)) ?_
  refine pf_ite _ (pf_eq (wp_ZP_R hb pfo_ORA data s d p)) ?_
  refine pf_ite _ (pf_eq (wp_ZP_RW hb pfo_ASL data s d p)) ?_
  refine pf_ite _ (pf_eq (wp_PUSH hb (fun s => get_flags s 0xFF) (fun _ _ _ => rfl) s d p)) ?_
  refine pf_ite _ (pf_eq (wp_IMM pfo_ORA data s d p)) ?_
  refine pf_ite _ (pf_eq (wp_IMP_A pfo_ASL s d p)) ?_
  refine pf_ite _ (pf_eq (wp_ABS_R hb pfo_ORA data s d p)) ?_
  refine pf_ite _ (pf_eq (wp_ABS_RW hb pfo_ASL data s d p)) ?_
  refine pf_ite _ (pf_do_branch s d p data FLAG_N 0) ?_
  refine pf_ite _ (pf_IND_Y hb pfo_ORA data s d p) ?_
  refine pf_ite _ (pf_eq (wp_ZPX_R hb pfo_ORA data s d p)) ?_
  refine pf_ite _ (pf_eq (wp_ZPX_RW hb pfo_ASL data s d p)) ?_
  refine pf_ite _ (pf_eq (wp_CL_F FLAG_C s d p)) ?_
  refine pf_ite _ (pf_ABY_R hb pfo_ORA data s d p) ?_
  refine pf_ite _ (pf_ABX_R hb pfo_ORA data s d p) ?_
  refine pf_ite _ (pf_eq (wp_ABX_RW hb pfo_ASL data s d p)) ?_
  refine pf_ite _ (pf_eq (wp_do_jsr hb s d p data)) ?_
  refine pf_ite _ (pf_eq (wp_IND_X hb pfo_AND data s d p)) ?_
  refine pf_ite _ (pf_eq (wp_BIT_ZP hb data s d p)) ?_
  refine pf_ite _ (pf_eq (wp_ZP_R hb pfo_AND data s d p)) ?_
  refine pf_ite _ (pf_eq (wp_ZP_RW hb pfo_ROL data s d p)) ?_
  refine pf_ite _ (pf_eq (wp_POP_P hb s d p)) ?_
  refine pf_ite _ (pf_eq (wp_IMM pfo_AND data s d p)) ?_
  refine pf_ite _ (pf_eq (wp_IMP_A pfo_ROL s d p)) ?_
  refine pf_ite _ (pf_eq (wp_BIT_ABS hb data s d p)) ?_
  refine pf_ite _ (pf_eq (wp_ABS_R hb pfo_AND data s d p)) ?_
  refine pf_ite _ (pf_eq (wp_ABS_RW hb pfo_ROL data s d p)) ?_
  refine pf_ite _ (pf_do_branch s d p data FLAG_N 1) ?_
  refine pf_ite _ (pf_IND_Y hb pfo_AND data s d p) ?_
  refine pf_ite _ (pf_eq (wp_ZPX_R hb pfo_AND data s d p)) ?_
  refine pf_ite _ (pf_eq (wp_ZPX_RW hb pfo_ROL data s d p)) ?_
  refine pf_ite _ (pf_eq (wp_SE_F FLAG_C s d p)) ?_
  refine pf_ite _ (pf_ABY_R hb pfo_AND data s d p) ?_
  refine pf_ite _ (pf_ABX_R hb pfo_AND data s d p) ?_
  refine pf_ite _ (pf_eq (wp_ABX_RW hb pfo_ROL data s d p)) ?_
  refine pf_ite _ (pf_eq (wp_do_rti hb s d p)) ?_
  refine pf_ite _ (pf_eq (wp_IND_X hb pfo_EOR data s d p)) ?_
  refine pf_ite _ (pf_eq (wp_ZP_R hb pfo_EOR data s d p)) ?_
  refine pf_ite _ (pf_eq (wp_ZP_RW hb pfo_LSR data s d p)) ?_
  refine pf_ite _ (pf_eq (wp_PUSH hb (fun s => s.r.a) (fun _ _ _ => rfl) s d p)) ?_
  refine pf_ite _ (pf_eq (wp_IMM pfo_EOR data s d p)) ?_
  refine pf_ite _ (pf_eq (wp_IMP_A pfo_LSR s d p)) ?_
  refine pf_ite _ (pf_eq (wp_JMP data s d p)) ?_
  refine pf_ite _ (pf_eq (wp_ABS_R hb pfo_EOR data s d p)) ?_
  refine pf_ite _ (pf_eq (wp_ABS_RW hb pfo_LSR data s d p)) ?_
  refine pf_ite _ (pf_do_branch s d p data FLAG_V 0) ?_
  refine pf_ite _ (pf_IND_Y hb pfo_EOR data s d p) ?_
  refine pf_ite _ (pf_eq (wp_ZPX_R hb pfo_EOR data s d p)) ?_
  refine pf_ite _ (pf_eq (wp_ZPX_RW hb pfo_LSR data s d p)) ?_
  refine pf_ite _ (pf_eq (wp_CL_F FLAG_I s d p)) ?_
  refine pf_ite _ (pf_ABY_R hb pfo_EOR data s d p) ?_
  refine pf_ite _ (pf_ABX_R hb pfo_EOR data s d p) ?_
  refine pf_ite _ (pf_eq (wp_ABX_RW hb pfo_LSR data s d p)) ?_
  refine pf_ite _ (pf_eq (wp_do_rts hb s d p)) ?_
  refine pf_ite _ (pf_eq (wp_IND_X hb pfo_ADC data s d p)) ?_
  refine pf_ite _ (pf_eq (wp_ZP_R hb pfo_ADC data s d p)) ?_
  refine pf_ite _ (pf_eq (wp_ZP_RW hb pfo_ROR data s d p)) ?_
  refine pf_ite _ (pf_eq (wp_POP_A hb s d p)) ?_
  refine pf_ite _ (pf_eq (wp_IMM pfo_ADC data s d p)) ?_
  refine pf_ite _ (pf_eq (wp_IMP_A pfo_ROR s d p)) ?_
  refine pf_ite _ (pf_eq (wp_JMP16 hb data s d p)) ?_
  refine pf_ite _ (pf_eq (wp_ABS_R hb pfo_ADC data s d p)) ?_
  refine pf_ite _ (pf_eq (wp_ABS_RW hb pfo_ROR data s d p)) ?_
  refine pf_ite _ (pf_do_branch s d p data FLAG_V 1) ?_
  refine pf_ite _ (pf_IND_Y hb pfo_ADC data s d p) ?_
  refine pf_ite _ (pf_eq (wp_ZPX_R hb pfo_ADC data s d p)) ?_
  refine pf_ite _ (pf_eq (wp_ZPX_RW hb pfo_ROR data s d p)) ?_
  refine pf_ite _ (pf_eq (wp_SE_F FLAG_I s d p)) ?_
  refine pf_ite _ (pf_ABY_R hb pfo_ADC data s d p) ?_
  refine pf_ite _ (pf_ABX_R hb pfo_ADC data s d p) ?_
  refine pf_ite _ (pf_eq (wp_ABX_RW hb pfo_ROR data s d p)) ?_
  refine pf_ite _ (pf_eq (wp_INDW_X hb pfo_STA data s d p)) ?_
  refine pf_ite _ (pf_eq (wp_ZP_W hb pfo_STY data s d p)) ?_
  refine pf_ite _ (pf_eq (wp_ZP_W hb pfo_STA data s d p)) ?_
  refine pf_ite _ (pf_eq (wp_ZP_W hb pfo_STX data s d p)) ?_
  refine pf_ite _ (pf_eq (wp_IMP_Y pfo_DEC s d p)) ?_
  refine pf_ite _ (pf_eq (wp_IMP_X pfo_LDA s d p)) ?_
  refine pf_ite _ (pf_eq (wp_ABS_W hb pfo_STY data s d p)) ?_
  refine pf_ite _ (pf_eq (wp_ABS_W hb pfo_STA data s d p)) ?_
  refine pf_ite _ (pf_eq (wp_ABS_W hb pfo_STX data s d p)) ?_
  refine pf_ite _ (pf_do_branch s d p data FLAG_C 0) ?_
  refine pf_ite _ (pf_eq (wp_INDW_Y hb pfo_STA data s d p)) ?_
  refine pf_ite _ (pf_eq (wp_ZPX_W hb pfo_STY data s d p)) ?_
  refine pf_ite _ (pf_eq (wp_ZPX_W hb pfo_STA data s d p)) ?_
  refine pf_ite _ (pf_eq (wp_ZPY_W hb pfo_STX data s d p)) ?_
  refine pf_ite _ (pf_eq (wp_IMP_Y pfo_LDA s d p)) ?_
  refine pf_ite _ (pf_eq (wp_ABY_W hb pfo_STA data s d p)) ?_
  refine pf_ite _ (pf_eq (wp_TXS s d p)) ?_
  refine pf_ite _ (pf_eq (wp_ABX_W hb pfo_STA data s d p)) ?_
  refine pf_ite _ (pf_eq (wp_IMM pfo_LDY data s d p)) ?_
  refine pf_ite _ (pf_eq (wp_IND_X hb pfo_LDA data s d p)) ?_
  refine pf_ite _ (pf_eq (wp_IMM pfo_LDX data s d p)) ?_
  refine pf_ite _ (pf_eq (wp_ZP_R hb pfo_LDY data s d p)) ?_
  refine pf_ite _ (pf_eq (wp_ZP_R hb pfo_LDA data s d p)) ?_
  refine pf_ite _ (pf_eq (wp_ZP_R hb pfo_LDX data s d p)) ?_
  refine pf_ite _ (pf_eq (wp_IMP_A pfo_LDY s d p)) ?_
  refine pf_ite _ (pf_eq (wp_IMM pfo_LDA data s d p)) ?_
  refine pf_ite _ (pf_eq (wp_IMP_A pfo_LDX s d p)) ?_
  refine pf_ite _ (pf_eq (wp_ABS_R hb pfo_LDY data s d p)) ?_
  refine pf_ite _ (pf_eq (wp_ABS_R hb pfo_LDA data s d p)) ?_
  refine pf_ite _ (pf_eq (wp_ABS_R hb pfo_LDX data s d p)) ?_
  refine pf_ite _ (pf_do_branch s d p data FLAG_C 1) ?_
  refine pf_ite _ (pf_IND_Y hb pfo_LDA data s d p) ?_
  refine pf_ite _ (pf_eq (wp_ZPX_R hb pfo_LDY data s d p)) ?_
  refine pf_ite _ (pf_eq (wp_ZPX_R hb pfo_LDA data s d p)) ?_
  refine pf_ite _ (pf_eq (wp_ZPY_R hb pfo_LDX data s d p)) ?_
  refine pf_ite _ (pf_eq (wp_CL_F FLAG_V s d p)) ?_
  refine pf_ite _ (pf_ABY_R hb pfo_LDA data s d p) ?_
  refine pf_ite _ (pf_eq (wp_IMP_X pfo_TSX_op s d p)) ?_
  refine pf_ite _ (pf_ABX_R hb pfo_LDY data s d p) ?_
  refine pf_ite _ (pf_ABX_R hb pfo_LDA data s d p) ?_
  refine pf_ite _ (pf_ABY_R hb pfo_LDX data s d p) ?_
  refine pf_ite _ (pf_eq (wp_IMM pfo_CPY data s d p)) ?_
  refine pf_ite _ (pf_eq (wp_IND_X hb pfo_CMP data s d p)) ?_
  refine pf_ite _ (pf_eq (wp_ZP_R hb pfo_CPY data s d p)) ?_
  refine pf_ite _ (pf_eq (wp_ZP_R hb pfo_CMP data s d p)) ?_
  refine pf_ite _ (pf_eq (wp_ZP_RW hb pfo_DEC data s d p)) ?_
  refine pf_ite _ (pf_eq (wp_IMP_Y pfo_INC s d p)) ?_
  refine pf_ite _ (pf_eq (wp_IMM pfo_CMP data s d p)) ?_
  refine pf_ite _ (pf_eq (wp_IMP_X pfo_DEC s d p)) ?_
  refine pf_ite _ (pf_eq (wp_ABS_R hb pfo_CPY data s d p)) ?_
  refine pf_ite _ (pf_eq (wp_ABS_R hb pfo_CMP data s d p)) ?_
  refine pf_ite _ (pf_eq (wp_ABS_RW hb pfo_DEC data s d p)) ?_
  refine pf_ite _ (pf_do_branch s d p data FLAG_Z 0) ?_
  refine pf_ite _ (pf_IND_Y hb pfo_CMP data s d p) ?_
  refine pf_ite _ (pf_eq (wp_ZPX_R hb pfo_CMP data s d p)) ?_
  refine pf_ite _ (pf_eq (wp_ZPX_RW hb pfo_DEC data s d p)) ?_
  refine pf_ite _ (pf_eq (wp_CL_F FLAG_D s d p)) ?_
  refine pf_ite _ (pf_ABY_R hb pfo_CMP data s d p) ?_
  refine pf_ite _ (pf_ABX_R hb pfo_CMP data s d p) ?_
  refine pf_ite _ (pf_eq (wp_ABX_RW hb pfo_DEC data s d p)) ?_
  refine pf_ite _ (pf_eq (wp_IMM pfo_CPX data s d p)) ?_
  refine pf_ite _ (pf_eq (wp_IND_X hb pfo_SBC data s d p)) ?_
  refine pf_ite _ (pf_eq (wp_ZP_R hb pfo_CPX data s d p)) ?_
  refine pf_ite _ (pf_eq (wp_ZP_R hb pfo_SBC data s d p)) ?_
  refine pf_ite _ (pf_eq (wp_ZP_RW hb pfo_INC data s d p)) ?_
  refine pf_ite _ (pf_eq (wp_IMP_X pfo_INC s d p)) ?_
  refine pf_ite _ (pf_eq (wp_IMM pfo_SBC data s d p)) ?_
  refine pf_ite _ (pf_eq (wp_add_cycles s d p 2)) ?_
  refine pf_ite _ (pf_eq (wp_ABS_R hb pfo_CPX data s d p)) ?_
  refine pf_ite _ (pf_eq (wp_ABS_R hb pfo_SBC data s d p)) ?_
  refine pf_ite _ (pf_eq (wp_ABS_RW hb pfo_INC data s d p)) ?_
  refine pf_ite _ (pf_do_branch s d p data FLAG_Z 1) ?_
  refine pf_ite _ (pf_IND_Y hb pfo_SBC data s d p) ?_
  refine pf_ite _ (pf_eq (wp_ZPX_R hb pfo_SBC data s d p)) ?_
  refine pf_ite _ (pf_eq (wp_ZPX_RW hb pfo_INC data s d p)) ?_
  refine pf_ite _ (pf_eq (wp_SE_F FLAG_D s d p)) ?_
  refine pf_ite _ (pf_ABY_R hb pfo_SBC data s d p) ?_
  refine pf_ite _ (pf_ABX_R hb pfo_SBC data s d p) ?_
  refine pf_ite _ (pf_eq (wp_ABX_RW hb pfo_INC data s d p)) ?_
  exact pf_eq (wp_set_error _ _ _ _ _)

theorem wp_print_ind_label (hb : prof_blind env) (s : sim65s) (d : Nat) (p : sim65_prof)
    (addr : Nat) (idx : Option Char) (hint : Bool) :
    print_ind_label env (with_prof s d p) addr idx hint =
      with_prof (print_ind_label env s addr idx hint) d p := by
  unfold print_ind_label
  simp only [wp_readWord hb, wp_r]
  split_ifs <;> rfl

theorem wp_INSPRT_IDX (hb : prof_blind env) (s : sim65s) (d : Nat) (p : sim65_prof)
    (data : Nat) (hint : Bool) :
    INSPRT_IDX env (with_prof s d p) data hint = with_prof (INSPRT_IDX env s data hint) d p :=
  wp_print_ind_label hb s d p data _ hint

theorem wp_INSPRT_IDYW (hb : prof_blind env) (s : sim65s) (d : Nat) (p : sim65_prof)
    (data : Nat) (hint : Bool) :
    INSPRT_IDYW env (with_prof s d p) data hint = with_prof (INSPRT_IDYW env s data hint) d p :=
  wp_print_ind_label hb s d p data _ hint

theorem wp_INSPRT_IND (hb : prof_blind env) (s : sim65s) (d : Nat) (p : sim65_prof)
    (data : Nat) (hint : Bool) :
    INSPRT_IND env (with_prof s d p) data hint = with_prof (INSPRT_IND env s data hint) d p :=
  wp_print_ind_label hb s d p data _ hint

theorem wp_INSPRT_IDY (hb : prof_blind env) (s : sim65s) (d : Nat) (p : sim65_prof)
    (data : Nat) (hint : Bool) :
    INSPRT_IDY env (with_prof s d p) data hint = with_prof (INSPRT_IDY env s data hint) d p := by
  unfold INSPRT_IDY
  cases hint
  · simp only [Bool.false_eq_true, if_false]
    exact wp_print_ind_label hb s d p data _ false
  · simp only [if_true, wp_readWord hb]
    exact wp_print_ind_label hb _ d p data _ true

theorem wp_ite (c : Prop) [Decidable c] {d : Nat} {p : sim65_prof} {a' a b' b : sim65s}
    (ha : a' = with_prof a d p) (hb : b' = with_prof b d p) :
    (if c then a' else b') = with_prof (if c then a else b) d p := by
  split
  · exact ha
  · exact hb

set_option maxRecDepth 8000 in
theorem wp_print_curr_ins (hb : prof_blind env) (s : sim65s) (d : Nat) (p : sim65_prof)
    (pc : Nat) (hint : Bool) :
    print_curr_ins env (with_prof s d p) pc hint =
      with_prof (print_curr_ins env s pc hint) d p := by
  unfold print_curr_ins
  simp only
  refine wp_ite _ (wp_INSPRT_IDX hb _ d p _ _) ?_
  refine wp_ite _ (wp_INSPRT_IDYW hb _ d p _ _) ?_
  refine wp_ite _ (wp_INSPRT_IDY hb _ d p _ _) ?_
  refine wp_ite _ (wp_INSPRT_IDX hb _ d p _ _) ?_
  refine wp_ite _ (wp_INSPRT_IDX hb _ d p _ _) ?_
  refine wp_ite _ (wp_INSPRT_IDX hb _ d p _ _) ?_
  refine wp_ite _ (wp_INSPRT_IDY hb _ d p _ _) ?_
  refine wp_ite _ (wp_INSPRT_IDYW hb _ d p _ _) ?_
  refine wp_ite _ (wp_INSPRT_IDX hb _ d p _ _) ?_
  refine wp_ite _ (wp_INSPRT_IDX hb _ d p _ _) ?_
  refine wp_ite _ (wp_INSPRT_IDY hb _ d p _ _) ?_
  refine wp_ite _ (wp_INSPRT_IDYW hb _ d p _ _) ?_
  refine wp_ite _ (wp_INSPRT_IDX hb _ d p _ _) ?_
  refine wp_ite _ (wp_INSPRT_IDX hb _ d p _ _) ?_
  refine wp_ite _ (wp_INSPRT_IND hb _ d p _ _) ?_
  refine wp_ite _ (wp_INSPRT_IDY hb _ d p _ _) ?_
  refine wp_ite _ (wp_INSPRT_IDYW hb _ d p _ _) ?_
  refine wp_ite _ (wp_INSPRT_IDX hb _ d p _ _) ?_
  refine wp_ite _ (wp_INSPRT_IDX hb _ d p _ _) ?_
  refine wp_ite _ (wp_INSPRT_IDYW hb _ d p _ _) ?_
  refine wp_ite _ (wp_INSPRT_IDYW hb _ d p _ _) ?_
  refine wp_ite _ (wp_INSPRT_IDX hb _ d p _ _) ?_
  refine wp_ite _ (wp_INSPRT_IDX hb _ d p _ _) ?_
  refine wp_ite _ (wp_INSPRT_IDY hb _ d p _ _) ?_
  refine wp_ite _ (wp_INSPRT_IDY hb _ d p _ _) ?_
  refine wp_ite _ (wp_INSPRT_IDX hb _ d p _ _) ?_
  refine wp_ite _ (wp_INSPRT_IDX hb _ d p _ _) ?_
  refine wp_ite _ (wp_INSPRT_IDY hb _ d p _ _) ?_
  refine wp_ite _ (wp_INSPRT_IDYW hb _ d p _ _) ?_
  refine wp_ite _ (wp_INSPRT_IDX hb _ d p _ _) ?_
  refine wp_ite _ (wp_INSPRT_IDX hb _ d p _ _) ?_
  refine wp_ite _ (wp_INSPRT_IDY hb _ d p _ _) ?_
  refine wp_ite _ (wp_INSPRT_IDYW hb _ d p _ _) ?_
  rfl

theorem wp_readPc (s : sim65s) (d : Nat) (p : sim65_prof) (off : Nat) :
    readPc (with_prof s d p) off = ((readPc s off).1, with_prof (readPc s off).2 d p) := by
  unfold readPc readPc_slow
  simp only [wp_mems, wp_mem, wp_r, wp_set_error]
  split
  · rfl
  · split <;> rfl

theorem wp_next_fetch (s : sim65s) (d : Nat) (p : sim65_prof) :
    next_fetch (with_prof s d p) =
      ((next_fetch s).1, (next_fetch s).2.1, with_prof (next_fetch s).2.2 d p) := by
  unfold next_fetch
  simp only [wp_readPc]
  split_ifs <;> simp only [wp_readPc]

/-- The part of `next` from the profile snapshot to the profile update, whatever the
profile. -/
theorem next_exec_with_prof (hb : prof_blind env) (ins data : Nat) (s : sim65s) (d : Nat)
    (p : sim65_prof) :
    ∃ p', next_exec env ins data (with_prof s d p) = with_prof (next_exec env ins data s) d p' := by
  obtain ⟨p1, h1, _, _⟩ := dispatch_prof_free hb ins data (set_pc s (s.r.pc + ilen ins)) d p
  unfold next_exec
  simp only [wp_set_pc, wp_r, h1, wp_do_prof, wp_cycles, wp_prof]
  generalize dispatch env ins data (set_pc s (s.r.pc + ilen ins)) = D
  by_cases hd : d ≠ 0
  · simp only [if_pos hd]
    refine ⟨{ p1 with
      instructions := (p1.instructions + 1) % 2^32
      exe := Function.update p1.exe (s.r.pc &&& 0xFFFF)
        ((p1.exe (s.r.pc &&& 0xFFFF) + (2^64 + D.cycles - s.cycles % 2^32) % 2^64) % 2^32) }, ?_⟩
    split <;> rfl
  · simp only [if_neg hd]
    refine ⟨p1, ?_⟩
    split <;> rfl

theorem next_body_with_prof (hb : prof_blind env) (s : sim65s) (d : Nat) (p : sim65_prof) :
    ∃ p', next_body env (with_prof s d p) = with_prof (next_body env s) d p' := by
  unfold next_body sim65_print_reg
  simp only [wp_debug, wp_r, wp_print_curr_ins hb]
  have key : ∀ t : sim65s, ∃ p',
      (if (with_prof t d p).cycle_limit ≠ 0 ∧ (with_prof t d p).cycles ≥ (with_prof t d p).cycle_limit
        then set_error (with_prof t d p) sim65_err_cycle_limit (with_prof t d p).r.pc
        else next_exec env (next_fetch (with_prof t d p)).1 (next_fetch (with_prof t d p)).2.1
          (next_fetch (with_prof t d p)).2.2) =
      with_prof (if t.cycle_limit ≠ 0 ∧ t.cycles ≥ t.cycle_limit
        then set_error t sim65_err_cycle_limit t.r.pc
        else next_exec env (next_fetch t).1 (next_fetch t).2.1 (next_fetch t).2.2) d p' := by
    intro t
    simp only [wp_cycle_limit, wp_cycles, wp_r, wp_set_error, wp_next_fetch]
    by_cases hl : t.cycle_limit ≠ 0 ∧ t.cycles ≥ t.cycle_limit
    · simp only [if_pos hl]
      exact ⟨p, rfl⟩
    · simp only [if_neg hl]
      exact next_exec_with_prof hb _ _ _ d p
  by_cases ht : s.debug ≥ sim65_debug_trace
  · simp only [if_pos ht]
    exact key _
  · simp only [if_neg ht]
    exact key _

/-- One instruction step, whatever the profile. -/
theorem next_with_prof (hb : prof_blind env) (s : sim65s) (d : Nat) (p : sim65_prof) :
    ∃ p', next env (with_prof s d p) = with_prof (next env s) d p' := by
  unfold next
  simp only [wp_cb_exec, wp_r]
  split
  · rename_i cb _
    simp only [hb cb s, wp_set_error, wp_get_error_exit]
    split
    · exact ⟨p, rfl⟩
    · exact next_body_with_prof hb _ d p
  · exact next_body_with_prof hb s d p

/-- The profile after the part of `next` from the snapshot to the update, with profiling
enabled. -/
theorem next_exec_profile (hb : prof_blind env) (ins data : Nat) (u : sim65s)
    (hp : u.do_prof ≠ 0) :
    (next_exec env ins data u).do_prof = u.do_prof ∧
    (next_exec env ins data u).prof.instructions = (u.prof.instructions + 1) % 2^32 ∧
    (next_exec env ins data u).prof.exe =
      Function.update u.prof.exe (u.r.pc &&& 0xFFFF)
        ((u.prof.exe (u.r.pc &&& 0xFFFF) +
          (2^64 + (next_exec env ins data u).cycles - u.cycles % 2^32) % 2^64) % 2^32) := by
  obtain ⟨p', h, e1, e2⟩ := dispatch_prof_free hb ins data (set_pc u (u.r.pc + ilen ins))
    (set_pc u (u.r.pc + ilen ins)).do_prof (set_pc u (u.r.pc + ilen ins)).prof
  rw [wp_self] at h
  have hdp : (dispatch env ins data (set_pc u (u.r.pc + ilen ins))).do_prof = u.do_prof :=
    (congrArg sim65s.do_prof h).trans rfl
  have hpr : (dispatch env ins data (set_pc u (u.r.pc + ilen ins))).prof = p' :=
    (congrArg sim65s.prof h).trans rfl
  have hD : (dispatch env ins data (set_pc u (u.r.pc + ilen ins))).do_prof ≠ 0 := by
    rw [hdp]; exact hp
  have e1' : p'.exe = u.prof.exe := e1
  have e2' : p'.instructions = u.prof.instructions := e2
  unfold next_exec
  simp only [if_pos hp, if_pos hD, hpr, e1', e2']
  exact ⟨hdp, trivial, trivial⟩

theorem exe_total_update (p : sim65_prof) (k v : Nat) (hk : k < 65536) (q : sim65_prof)
    (hq : q.exe = Function.update p.exe k v) :
    exe_total q + p.exe k = exe_total p + v := by
  unfold exe_total
  rw [hq, Finset.sum_update_of_mem (Finset.mem_range.2 hk),
    Finset.sum_eq_add_sum_diff_singleton (Finset.mem_range.2 hk) p.exe]
  omega

/-- C37. Profiling attribution: with profiling enabled, a step of `next` that reaches the
dispatch (no execute callback at PC, cycle limit not reached, a trace line that reads no
memory), with callbacks that leave the profile alone, replaces the executed-cycles bucket
of the address of the opcode by its old value plus the number of cycles that the step added
to the cycle counter, modulo 2^32; it increases the instruction count by one (an
`unsigned`, modulo 2^32), leaves the bucket of every other address as it was and
profiling enabled; so the sum of the buckets grows by the same amount as the cycle
counter, modulo 2^32, and exactly so when the bucket does not wrap. -/
theorem profile_attribution (env : CbEnv) (hb : prof_blind env) (s : sim65s)
    (hp : s.do_prof ≠ 0) (hcb : s.cb_exec s.r.pc = none) (hlim : limit_ok s)
    (htr : s.debug ≥ sim65_debug_trace → s.mem (s.r.pc % 65536) ∉ trace_read_ops)
    (hc : s.cycles < 2^64) :
    (next env s).prof.exe (s.r.pc % 65536) =
      (s.prof.exe (s.r.pc % 65536) + (2^64 + (next env s).cycles - s.cycles) % 2^64) % 2^32 ∧
    (next env s).prof.instructions = (s.prof.instructions + 1) % 2^32 ∧
    (∀ a, a ≠ s.r.pc % 65536 → (next env s).prof.exe a = s.prof.exe a) ∧
    (next env s).do_prof = s.do_prof ∧
    exe_total (next env s).prof % 2^32 =
      (exe_total s.prof + (2^64 + (next env s).cycles - s.cycles) % 2^64) % 2^32 ∧
    (s.prof.exe (s.r.pc % 65536) + (2^64 + (next env s).cycles - s.cycles) % 2^64 < 2^32 →
      exe_total (next env s).prof =
        exe_total s.prof + (2^64 + (next env s).cycles - s.cycles) % 2^64) := by
  have hn : next env s = next_exec env (opcode_at s) (operand s) (next_fetch s).2.2 := by
    rw [next_no_cb env s hcb, next_body_eq env s hlim htr]
  have hu := next_fetch_err_only s
  have hu1 : (next_fetch s).2.2.do_prof = s.do_prof := by
    unfold err_only at hu; rw [hu]
  have hu2 : (next_fetch s).2.2.prof = s.prof := by
    unfold err_only at hu; rw [hu]
  have hu3 : (next_fetch s).2.2.cycles = s.cycles := by
    unfold err_only at hu; rw [hu]
  have hu4 : (next_fetch s).2.2.r = s.r := by
    unfold err_only at hu; rw [hu]
  obtain ⟨h1, h2, h3⟩ := next_exec_profile hb (opcode_at s) (operand s) (next_fetch s).2.2
    (by rw [hu1]; exact hp)
  rw [← hn, hu1] at h1
  rw [← hn, hu2] at h2
  rw [← hn, hu2, hu3, hu4, and_0xFFFF] at h3
  have hk : s.r.pc % 65536 < 65536 := Nat.mod_lt _ (by norm_num)
  have hv : (s.prof.exe (s.r.pc % 65536) +
      (2^64 + (next env s).cycles - s.cycles % 2^32) % 2^64) % 2^32 =
      (s.prof.exe (s.r.pc % 65536) + (2^64 + (next env s).cycles - s.cycles) % 2^64) % 2^32 := by
    omega
  rw [hv] at h3
  have ht := exe_total_update s.prof _ _ hk (next env s).prof h3
  refine ⟨?_, h2, fun a ha => ?_, h1, ?_, fun hw => ?_⟩
  · rw [h3, Function.update_same]
  · rw [h3, Function.update_noteq ha]
  · omega
  · rw [Nat.mod_eq_of_lt hw] at ht
    omega

/-- The instance of `profile_attribution` at BNE across a page with profiling enabled:
the step takes 4 cycles, and the bucket of `$02F0` and the instruction count go from 0 to 4
and to 1. -/
theorem profile_attribution_witness :
    prof_blind env_none ∧ (bne_state 1).do_prof ≠ 0 ∧
    (bne_state 1).cb_exec (bne_state 1).r.pc = none ∧ limit_ok (bne_state 1) ∧
    (bne_state 1).cycles < 2^64 ∧ (bne_state 1).r.pc % 65536 = 0x2F0 ∧
    (next env_none (bne_state 1)).cycles = 4 ∧
    (next env_none (bne_state 1)).prof.exe 0x2F0 = 4 ∧
    (next env_none (bne_state 1)).prof.instructions = 1 ∧
    (next env_none (bne_state 1)).prof.exe ((bne_state 1).r.pc % 65536) =
      ((bne_state 1).prof.exe ((bne_state 1).r.pc % 65536) +
        (2^64 + (next env_none (bne_state 1)).cycles - (bne_state 1).cycles) % 2^64) % 2^32 :=
  ⟨fun _ _ _ _ _ _ => rfl, by decide, by decide, by decide, by decide, by decide, by decide,
    by decide, by decide,
    (profile_attribution env_none (fun _ _ _ _ _ _ => rfl) (bne_state 1) (by decide) (by decide)
      (by decide) (fun h => absurd h (by decide)) (by decide)).1⟩

/-- C40. Profiling does not influence execution: for every two states that agree on
everything but the profiling switch and the profile counters (so for a state with
profiling disabled and the same state with profiling enabled), and callbacks that neither
consult nor change the profile, the two steps of `next` leave identical registers and
flags, flag-validity mask, memory values, memory status, cycle counter, error slot and
error address; the two results again agree on everything but the profile counters, and
the profiling switch of each is as before. -/
theorem profiling_does_not_influence (env : CbEnv) (hb : prof_blind env) (s t : sim65s)
    (h : same_but_prof s t) :
    (next env t).r = (next env s).r ∧ (next env t).p_valid = (next env s).p_valid ∧
    (next env t).mem = (next env s).mem ∧ (next env t).mems = (next env s).mems ∧
    (next env t).cycles = (next env s).cycles ∧ (next env t).error = (next env s).error ∧
    (next env t).err_addr = (next env s).err_addr ∧
    same_but_prof (next env s) (next env t) ∧ (next env t).do_prof = t.do_prof := by
  obtain ⟨p', hp⟩ := next_with_prof hb s t.do_prof t.prof
  unfold same_but_prof at h
  rw [← h] at hp
  unfold same_but_prof
  rw [hp]
  exact ⟨rfl, rfl, rfl, rfl, rfl, rfl, rfl, rfl, rfl⟩

/-- The instance of `profiling_does_not_influence` at BNE across a page, profiling
disabled and enabled: PC `$0302` and 4 cycles in both, the counter of page-crossing
branches and the bucket of `$02F0` move only with profiling enabled. -/
theorem profiling_does_not_influence_witness :
    prof_blind env_none ∧ same_but_prof (bne_state 0) (bne_state 1) ∧
    (bne_state 0).do_prof = 0 ∧ (bne_state 1).do_prof ≠ 0 ∧
    (next env_none (bne_state 0)).r.pc = 0x302 ∧ (next env_none (bne_state 0)).cycles = 4 ∧
    (next env_none (bne_state 0)).prof.branch_extra = 0 ∧
    (next env_none (bne_state 1)).prof.branch_extra = 1 ∧
    (next env_none (bne_state 0)).prof.exe 0x2F0 = 0 ∧
    (next env_none (bne_state 1)).prof.exe 0x2F0 = 4 ∧
    (next env_none (bne_state 1)).r = (next env_none (bne_state 0)).r ∧
    (next env_none (bne_state 1)).cycles = (next env_none (bne_state 0)).cycles :=
  have h := profiling_does_not_influence env_none (fun _ _ _ _ _ _ => rfl) (bne_state 0)
    (bne_state 1) rfl
  ⟨fun _ _ _ _ _ _ => rfl, rfl, by decide, by decide, by decide, by decide, by decide,
    by decide, by decide, by decide, h.1, h.2.2.2.2.1⟩

end profile

end Sim65
